import Mathlib

/-!
# Verification of the Platonic-polyhedron fold/unfold geometry core

Shallow embedding over `ℝ` of `src/polyhedra/platonic/index.ts` together with
the polyhedron definition builders (`cube.ts`, `tetrahedron.ts`,
`octahedron.ts`, `icosahedron.ts`, `dodecahedron.ts`) and the parts of the
three.js math library they call (`Vector2`, `Vector3`, `Quaternion`,
`Euler` (XYZ order), `Matrix4`, and the detail-0 `IcosahedronGeometry` /
`DodecahedronGeometry` vertex buffers).

Modelling conventions:
* JavaScript IEEE doubles are modelled by real numbers; `Math.atan2 y x` is
  `Complex.arg ⟨x, y⟩` (range `(-π, π]`, `atan2 0 0 = 0`, matching JS on
  non-signed-zero inputs); `Math.round` is Mathlib's `round` (half-up).
* String keys built from rounded coordinates (`quantKey3`, the edge map,
  the vertex-dedup map) are modelled by the tuples of rounded integers the
  strings print; two keys are equal iff the tuples are, so grouping is
  unchanged.  JS `Map`/`Set` preserve insertion order, which the model
  keeps by using association lists that append new keys at the end.
* `while` queues (breadth-first search) are modelled by fuel recursion; the
  fuel bound `faceCount` dominates the number of iterations the JS loop
  performs because each face is enqueued at most once.
-/

noncomputable section

namespace Platonic

/-- `Math.atan2 y x` on reals: the argument of the complex number `x + y i`. -/
def atan2 (y x : ℝ) : ℝ := Complex.arg ⟨x, y⟩

/-- `THREE.Vector2`: an immutable-value model (the TS code always clones
before mutating, so every call site is a pure function of its inputs). -/
structure Vec2 where
  x : ℝ
  y : ℝ
deriving DecidableEq

/-- `THREE.Vector3`. -/
structure Vec3 where
  x : ℝ
  y : ℝ
  z : ℝ
deriving DecidableEq

/-- `THREE.Quaternion` (components x, y, z, w). -/
structure Quat where
  x : ℝ
  y : ℝ
  z : ℝ
  w : ℝ
deriving DecidableEq

namespace Vec3

def add (a b : Vec3) : Vec3 := ⟨a.x + b.x, a.y + b.y, a.z + b.z⟩

def sub (a b : Vec3) : Vec3 := ⟨a.x - b.x, a.y - b.y, a.z - b.z⟩

def smul (k : ℝ) (a : Vec3) : Vec3 := ⟨k * a.x, k * a.y, k * a.z⟩

def dot (a b : Vec3) : ℝ := a.x * b.x + a.y * b.y + a.z * b.z

def cross (a b : Vec3) : Vec3 :=
  ⟨a.y * b.z - a.z * b.y, a.z * b.x - a.x * b.z, a.x * b.y - a.y * b.x⟩

def length (a : Vec3) : ℝ := Real.sqrt (a.x * a.x + a.y * a.y + a.z * a.z)

/-- `THREE.Vector3.normalize`: divides by `length() || 1`, so the zero
vector is left unchanged. -/
def normalize (a : Vec3) : Vec3 :=
  if a.length = 0 then a else smul (1 / a.length) a

def neg (a : Vec3) : Vec3 := ⟨-a.x, -a.y, -a.z⟩

def distanceTo (a b : Vec3) : ℝ := (sub a b).length

/-- `THREE.Vector3.applyQuaternion` (the `t = 2 q̄ × v` form used by
three.js). -/
def applyQuaternion (v : Vec3) (q : Quat) : Vec3 :=
  let tx := 2 * (q.y * v.z - q.z * v.y)
  let ty := 2 * (q.z * v.x - q.x * v.z)
  let tz := 2 * (q.x * v.y - q.y * v.x)
  ⟨v.x + q.w * tx + q.y * tz - q.z * ty,
   v.y + q.w * ty + q.z * tx - q.x * tz,
   v.z + q.w * tz + q.x * ty - q.y * tx⟩

def zero : Vec3 := ⟨0, 0, 0⟩

end Vec3

namespace Quat

/-- The identity quaternion `new THREE.Quaternion()`. -/
def one : Quat := ⟨0, 0, 0, 1⟩

/-- `THREE.Quaternion.setFromEuler` for the default `XYZ` order. -/
def setFromEuler (ex ey ez : ℝ) : Quat :=
  let c1 := Real.cos (ex / 2); let c2 := Real.cos (ey / 2); let c3 := Real.cos (ez / 2)
  let s1 := Real.sin (ex / 2); let s2 := Real.sin (ey / 2); let s3 := Real.sin (ez / 2)
  ⟨s1 * c2 * c3 + c1 * s2 * s3,
   c1 * s2 * c3 - s1 * c2 * s3,
   c1 * c2 * s3 + s1 * s2 * c3,
   c1 * c2 * c3 - s1 * s2 * s3⟩

def normSq (q : Quat) : ℝ := q.x * q.x + q.y * q.y + q.z * q.z + q.w * q.w

def neg (q : Quat) : Quat := ⟨-q.x, -q.y, -q.z, -q.w⟩

/-- `THREE.Quaternion.slerp` (three.js r150+), including the early returns
at `t = 0` and `t = 1`, the shortest-path negation, and the nearly-parallel
linear fallback (`Number.EPSILON = 2⁻⁵²`). -/
def slerp (qa qb : Quat) (t : ℝ) : Quat :=
  if t = 0 then qa
  else if t = 1 then qb
  else
    let cosHalfTheta0 := qa.w * qb.w + qa.x * qb.x + qa.y * qb.y + qa.z * qb.z
    let qb' := if cosHalfTheta0 < 0 then neg qb else qb
    let cosHalfTheta := if cosHalfTheta0 < 0 then -cosHalfTheta0 else cosHalfTheta0
    if 1 ≤ cosHalfTheta then qa
    else
      let sqrSinHalfTheta := 1 - cosHalfTheta * cosHalfTheta
      if sqrSinHalfTheta ≤ (2 : ℝ) ^ (-52 : ℤ) then
        let s := 1 - t
        let q : Quat := ⟨s * qa.x + t * qb'.x, s * qa.y + t * qb'.y,
                         s * qa.z + t * qb'.z, s * qa.w + t * qb'.w⟩
        let l := Real.sqrt q.normSq
        ⟨q.x / l, q.y / l, q.z / l, q.w / l⟩
      else
        let sinHalfTheta := Real.sqrt sqrSinHalfTheta
        let halfTheta := atan2 sinHalfTheta cosHalfTheta
        let ra := Real.sin ((1 - t) * halfTheta) / sinHalfTheta
        let rb := Real.sin (t * halfTheta) / sinHalfTheta
        ⟨qa.x * ra + qb'.x * rb, qa.y * ra + qb'.y * rb,
         qa.z * ra + qb'.z * rb, qa.w * ra + qb'.w * rb⟩

end Quat

/-- `THREE.Matrix4`, stored column-major as in three.js `elements`
(`e 0..e 3` = first column, etc.). -/
structure Mat4 where
  e0 : ℝ := 1
  e1 : ℝ := 0
  e2 : ℝ := 0
  e3 : ℝ := 0
  e4 : ℝ := 0
  e5 : ℝ := 1
  e6 : ℝ := 0
  e7 : ℝ := 0
  e8 : ℝ := 0
  e9 : ℝ := 0
  e10 : ℝ := 1
  e11 : ℝ := 0
  e12 : ℝ := 0
  e13 : ℝ := 0
  e14 : ℝ := 0
  e15 : ℝ := 1
deriving DecidableEq

namespace Mat4

def id : Mat4 := {}

/-- `THREE.Matrix4.compose` with unit scale, i.e. the rotation matrix of a
quaternion plus a translation; `makeRotationFromQuaternion q = compose 0 q`. -/
def compose (p : Vec3) (q : Quat) : Mat4 :=
  let x := q.x; let y := q.y; let z := q.z; let w := q.w
  { e0 := 1 - 2 * (y * y + z * z), e1 := 2 * (x * y + w * z), e2 := 2 * (x * z - w * y), e3 := 0
    e4 := 2 * (x * y - w * z), e5 := 1 - 2 * (x * x + z * z), e6 := 2 * (y * z + w * x), e7 := 0
    e8 := 2 * (x * z + w * y), e9 := 2 * (y * z - w * x), e10 := 1 - 2 * (x * x + y * y), e11 := 0
    e12 := p.x, e13 := p.y, e14 := p.z, e15 := 1 }

def makeTranslation (x y z : ℝ) : Mat4 :=
  { e12 := x, e13 := y, e14 := z }

/-- `THREE.Matrix4.makeRotationAxis` (Rodrigues form, as in three.js). -/
def makeRotationAxis (axis : Vec3) (angle : ℝ) : Mat4 :=
  let c := Real.cos angle; let s := Real.sin angle; let t := 1 - c
  let x := axis.x; let y := axis.y; let z := axis.z
  let tx := t * x; let ty := t * y
  { e0 := tx * x + c, e1 := tx * y + s * z, e2 := tx * z - s * y, e3 := 0
    e4 := tx * y - s * z, e5 := ty * y + c, e6 := ty * z + s * x, e7 := 0
    e8 := tx * z + s * y, e9 := ty * z - s * x, e10 := t * z * z + c, e11 := 0
    e12 := 0, e13 := 0, e14 := 0, e15 := 1 }

/-- Matrix product `a * b` (`THREE.Matrix4.multiplyMatrices a b`;
`a.multiply(b)` computes this in place). -/
def mul (a b : Mat4) : Mat4 :=
  { e0 := a.e0 * b.e0 + a.e4 * b.e1 + a.e8 * b.e2 + a.e12 * b.e3
    e1 := a.e1 * b.e0 + a.e5 * b.e1 + a.e9 * b.e2 + a.e13 * b.e3
    e2 := a.e2 * b.e0 + a.e6 * b.e1 + a.e10 * b.e2 + a.e14 * b.e3
    e3 := a.e3 * b.e0 + a.e7 * b.e1 + a.e11 * b.e2 + a.e15 * b.e3
    e4 := a.e0 * b.e4 + a.e4 * b.e5 + a.e8 * b.e6 + a.e12 * b.e7
    e5 := a.e1 * b.e4 + a.e5 * b.e5 + a.e9 * b.e6 + a.e13 * b.e7
    e6 := a.e2 * b.e4 + a.e6 * b.e5 + a.e10 * b.e6 + a.e14 * b.e7
    e7 := a.e3 * b.e4 + a.e7 * b.e5 + a.e11 * b.e6 + a.e15 * b.e7
    e8 := a.e0 * b.e8 + a.e4 * b.e9 + a.e8 * b.e10 + a.e12 * b.e11
    e9 := a.e1 * b.e8 + a.e5 * b.e9 + a.e9 * b.e10 + a.e13 * b.e11
    e10 := a.e2 * b.e8 + a.e6 * b.e9 + a.e10 * b.e10 + a.e14 * b.e11
    e11 := a.e3 * b.e8 + a.e7 * b.e9 + a.e11 * b.e10 + a.e15 * b.e11
    e12 := a.e0 * b.e12 + a.e4 * b.e13 + a.e8 * b.e14 + a.e12 * b.e15
    e13 := a.e1 * b.e12 + a.e5 * b.e13 + a.e9 * b.e14 + a.e13 * b.e15
    e14 := a.e2 * b.e12 + a.e6 * b.e13 + a.e10 * b.e14 + a.e14 * b.e15
    e15 := a.e3 * b.e12 + a.e7 * b.e13 + a.e11 * b.e14 + a.e15 * b.e15 }

def setPosition (m : Mat4) (p : Vec3) : Mat4 :=
  { m with e12 := p.x, e13 := p.y, e14 := p.z }

/-- The 4×4 determinant-by-cofactors used inside `THREE.Matrix4.invert`. -/
def det (m : Mat4) : ℝ :=
  let n11 := m.e0; let n21 := m.e1; let n31 := m.e2; let n41 := m.e3
  let n12 := m.e4; let n22 := m.e5; let n32 := m.e6; let n42 := m.e7
  let n13 := m.e8; let n23 := m.e9; let n33 := m.e10; let n43 := m.e11
  let n14 := m.e12; let n24 := m.e13; let n34 := m.e14; let n44 := m.e15
  n41 * (n14 * n23 * n32 - n13 * n24 * n32 - n14 * n22 * n33 + n12 * n24 * n33
          + n13 * n22 * n34 - n12 * n23 * n34)
  + n42 * (n11 * n23 * n34 - n11 * n24 * n33 + n14 * n21 * n33 - n13 * n21 * n34
          + n13 * n24 * n31 - n14 * n23 * n31)
  + n43 * (n11 * n24 * n32 - n11 * n22 * n34 - n14 * n21 * n32 + n12 * n21 * n34
          + n14 * n22 * n31 - n12 * n24 * n31)
  + n44 * (-n13 * n22 * n31 - n11 * n23 * n32 + n11 * n22 * n33 + n13 * n21 * n32
          - n12 * n21 * n33 + n12 * n23 * n31)

/-- `THREE.Matrix4.invert` (classical adjugate formula; the zero matrix when
the determinant vanishes, as in three.js). -/
def invert (m : Mat4) : Mat4 :=
  let n11 := m.e0; let n21 := m.e1; let n31 := m.e2; let n41 := m.e3
  let n12 := m.e4; let n22 := m.e5; let n32 := m.e6; let n42 := m.e7
  let n13 := m.e8; let n23 := m.e9; let n33 := m.e10; let n43 := m.e11
  let n14 := m.e12; let n24 := m.e13; let n34 := m.e14; let n44 := m.e15
  let t11 := n23 * n34 * n42 - n24 * n33 * n42 + n24 * n32 * n43 - n22 * n34 * n43
           - n23 * n32 * n44 + n22 * n33 * n44
  let t12 := n14 * n33 * n42 - n13 * n34 * n42 - n14 * n32 * n43 + n12 * n34 * n43
           + n13 * n32 * n44 - n12 * n33 * n44
  let t13 := n13 * n24 * n42 - n14 * n23 * n42 + n14 * n22 * n43 - n12 * n24 * n43
           - n13 * n22 * n44 + n12 * n23 * n44
  let t14 := n14 * n23 * n32 - n13 * n24 * n32 - n14 * n22 * n33 + n12 * n24 * n33
           + n13 * n22 * n34 - n12 * n23 * n34
  let d := n11 * t11 + n21 * t12 + n31 * t13 + n41 * t14
  if d = 0 then
    { e0 := 0, e1 := 0, e2 := 0, e3 := 0, e4 := 0, e5 := 0, e6 := 0, e7 := 0
      e8 := 0, e9 := 0, e10 := 0, e11 := 0, e12 := 0, e13 := 0, e14 := 0, e15 := 0 }
  else
    let detInv := 1 / d
    { e0 := t11 * detInv
      e1 := (n24 * n33 * n41 - n23 * n34 * n41 - n24 * n31 * n43 + n21 * n34 * n43
            + n23 * n31 * n44 - n21 * n33 * n44) * detInv
      e2 := (n22 * n34 * n41 - n24 * n32 * n41 + n24 * n31 * n42 - n21 * n34 * n42
            - n22 * n31 * n44 + n21 * n32 * n44) * detInv
      e3 := (n23 * n32 * n41 - n22 * n33 * n41 - n23 * n31 * n42 + n21 * n33 * n42
            + n22 * n31 * n43 - n21 * n32 * n43) * detInv
      e4 := t12 * detInv
      e5 := (n13 * n34 * n41 - n14 * n33 * n41 + n14 * n31 * n43 - n11 * n34 * n43
            - n13 * n31 * n44 + n11 * n33 * n44) * detInv
      e6 := (n14 * n32 * n41 - n12 * n34 * n41 - n14 * n31 * n42 + n11 * n34 * n42
            + n12 * n31 * n44 - n11 * n32 * n44) * detInv
      e7 := (n12 * n33 * n41 - n13 * n32 * n41 + n13 * n31 * n42 - n11 * n33 * n42
            - n12 * n31 * n43 + n11 * n32 * n43) * detInv
      e8 := t13 * detInv
      e9 := (n14 * n23 * n41 - n13 * n24 * n41 - n14 * n21 * n43 + n11 * n24 * n43
            + n13 * n21 * n44 - n11 * n23 * n44) * detInv
      e10 := (n12 * n24 * n41 - n14 * n22 * n41 + n14 * n21 * n42 - n11 * n24 * n42
            - n12 * n21 * n44 + n11 * n22 * n44) * detInv
      e11 := (n13 * n22 * n41 - n12 * n23 * n41 - n13 * n21 * n42 + n11 * n23 * n42
            + n12 * n21 * n43 - n11 * n22 * n43) * detInv
      e12 := t14 * detInv
      e13 := (n13 * n24 * n31 - n14 * n23 * n31 + n14 * n21 * n33 - n11 * n24 * n33
            - n13 * n21 * n34 + n11 * n23 * n34) * detInv
      e14 := (n14 * n22 * n31 - n12 * n24 * n31 - n14 * n21 * n32 + n11 * n24 * n32
            + n12 * n21 * n34 - n11 * n22 * n34) * detInv
      e15 := (n12 * n23 * n31 - n13 * n22 * n31 + n13 * n21 * n32 - n11 * n23 * n32
            - n12 * n21 * n33 + n11 * n22 * n33) * detInv }

/-- The action of the upper-left 3×3 block of a matrix on a vector (how a
rotation-only `Matrix4` transforms directions). -/
def rotAction (m : Mat4) (v : Vec3) : Vec3 :=
  ⟨m.e0 * v.x + m.e4 * v.y + m.e8 * v.z,
   m.e1 * v.x + m.e5 * v.y + m.e9 * v.z,
   m.e2 * v.x + m.e6 * v.y + m.e10 * v.z⟩

/-- The rotation-only 3×3 determinant used by `THREE.Matrix4.decompose` to
detect a reflection. -/
def det3 (m : Mat4) : ℝ :=
  m.e0 * (m.e5 * m.e10 - m.e6 * m.e9)
  - m.e4 * (m.e1 * m.e10 - m.e2 * m.e9)
  + m.e8 * (m.e1 * m.e6 - m.e2 * m.e5)

end Mat4

/-- `THREE.Quaternion.setFromRotationMatrix` (Shepperd's method, exactly the
three.js branch structure). -/
def quatFromRotationMatrix (m : Mat4) : Quat :=
  let m11 := m.e0; let m12 := m.e4; let m13 := m.e8
  let m21 := m.e1; let m22 := m.e5; let m23 := m.e9
  let m31 := m.e2; let m32 := m.e6; let m33 := m.e10
  let trace := m11 + m22 + m33
  if 0 < trace then
    let s := 0.5 / Real.sqrt (trace + 1)
    ⟨(m32 - m23) * s, (m13 - m31) * s, (m21 - m12) * s, 0.25 / s⟩
  else if m22 < m11 ∧ m33 < m11 then
    let s := 2 * Real.sqrt (1 + m11 - m22 - m33)
    ⟨0.25 * s, (m12 + m21) / s, (m13 + m31) / s, (m32 - m23) / s⟩
  else if m33 < m22 then
    let s := 2 * Real.sqrt (1 + m22 - m11 - m33)
    ⟨(m12 + m21) / s, 0.25 * s, (m23 + m32) / s, (m13 - m31) / s⟩
  else
    let s := 2 * Real.sqrt (1 + m33 - m11 - m22)
    ⟨(m13 + m31) / s, (m23 + m32) / s, 0.25 * s, (m21 - m12) / s⟩

/-- A face pose: centroid position plus orientation quaternion
(`FacePose` in `core.ts`). -/
structure FacePose where
  position : Vec3
  quaternion : Quat
deriving DecidableEq

/-- `THREE.Matrix4.decompose` restricted to the position/quaternion outputs
the code uses (the scale output of `matrixToPose` is discarded).  Matches
three.js: column lengths as scales, sign flip of `sx` on negative
determinant, then Shepperd extraction on the de-scaled matrix. -/
def Mat4.decompose (m : Mat4) : FacePose :=
  let sx0 := Vec3.length ⟨m.e0, m.e1, m.e2⟩
  let sx := if m.det < 0 then -sx0 else sx0
  let sy := Vec3.length ⟨m.e4, m.e5, m.e6⟩
  let sz := Vec3.length ⟨m.e8, m.e9, m.e10⟩
  let m1 : Mat4 :=
    { m with
      e0 := m.e0 * (1 / sx), e1 := m.e1 * (1 / sx), e2 := m.e2 * (1 / sx)
      e4 := m.e4 * (1 / sy), e5 := m.e5 * (1 / sy), e6 := m.e6 * (1 / sy)
      e8 := m.e8 * (1 / sz), e9 := m.e9 * (1 / sz), e10 := m.e10 * (1 / sz) }
  { position := ⟨m.e12, m.e13, m.e14⟩, quaternion := quatFromRotationMatrix m1 }

/-- `qFromEuler` from `core.ts`. -/
def qFromEuler (x y z : ℝ) : Quat := Quat.setFromEuler x y z

/-- `poseToMatrix` from `core.ts`. -/
def poseToMatrix (p : FacePose) : Mat4 :=
  ((Mat4.compose Vec3.zero p.quaternion).setPosition p.position)

/-- `matrixToPose` from `core.ts`. -/
def matrixToPose (m : Mat4) : FacePose := m.decompose

/-- `lerp` from `core.ts`. -/
def lerp (a b t : ℝ) : ℝ := a + (b - a) * t

/-- `lerpVec3` from `core.ts`. -/
def lerpVec3 (a b : Vec3) (t : ℝ) : Vec3 :=
  ⟨lerp a.x b.x t, lerp a.y b.y t, lerp a.z b.z t⟩

/-- `slerpQuat` from `core.ts`. -/
def slerpQuat (a b : Quat) (t : ℝ) : Quat := a.slerp b t

/-- `FaceKind` from `core.ts`. -/
inductive FaceKind where
  | square
  | triangle
  | pentagon
deriving DecidableEq

/-- `triangleLocal2`. -/
def triangleLocal2 (edge : ℝ) : List Vec2 :=
  let h := Real.sqrt 3 / 2 * edge
  [⟨-edge / 2, -h / 3⟩, ⟨edge / 2, -h / 3⟩, ⟨0, 2 * h / 3⟩]

/-- `triangleLocal3`. -/
def triangleLocal3 (edge : ℝ) : List Vec3 :=
  let h := Real.sqrt 3 / 2 * edge
  [⟨-edge / 2, -h / 3, 0⟩, ⟨edge / 2, -h / 3, 0⟩, ⟨0, 2 * h / 3, 0⟩]

/-- `squareLocal3`. -/
def squareLocal3 (edge : ℝ) : List Vec3 :=
  [⟨-edge / 2, -edge / 2, 0⟩, ⟨edge / 2, -edge / 2, 0⟩,
   ⟨edge / 2, edge / 2, 0⟩, ⟨-edge / 2, edge / 2, 0⟩]

/-- `pentagonLocal3`: the five circumradius points re-centred on their
centroid. -/
def pentagonLocal3 (edge : ℝ) : List Vec3 :=
  let R := edge / (2 * Real.sin (Real.pi / 5))
  let offset := -7 * Real.pi / 10
  let verts := (List.range 5).map fun i =>
    (⟨R * Real.cos (offset + i * (2 * Real.pi) / 5),
      R * Real.sin (offset + i * (2 * Real.pi) / 5), 0⟩ : Vec3)
  let centroid := Vec3.smul (1 / 5) (verts.foldl Vec3.add Vec3.zero)
  verts.map fun v => v.sub centroid

/-- `pentagonLocal2`. -/
def pentagonLocal2 (edge : ℝ) : List Vec2 :=
  (pentagonLocal3 edge).map fun v => ⟨v.x, v.y⟩

/-- `localVerts3`. -/
def localVerts3 (face : FaceKind) (edge : ℝ) : List Vec3 :=
  match face with
  | .square => squareLocal3 edge
  | .pentagon => pentagonLocal3 edge
  | .triangle => triangleLocal3 edge

/-- A 2-D pose `{ pos, rot }` used by the net layout. -/
structure Pose2 where
  pos : Vec2
  rot : ℝ

/-- `applyPose2`. -/
def applyPose2 (p : Pose2) (v : Vec2) : Vec2 :=
  let c := Real.cos p.rot
  let s := Real.sin p.rot
  ⟨v.x * c - v.y * s + p.pos.x, v.x * s + v.y * c + p.pos.y⟩

/-- `cross2`. -/
def cross2 (a b : Vec2) : ℝ := a.x * b.y - a.y * b.x

/-- The integer triple printed by `quantKey3` (tolerance `1e-4`): two
coordinates produce the same key string iff their rounded triples agree. -/
def quantKey3 (v : Vec3) : ℤ × ℤ × ℤ :=
  (round (v.x * 10000), round (v.y * 10000), round (v.z * 10000))

/-- Lexicographic comparison standing in for the JS string comparison
`ka < kb`; any strict total order yields the same direction-independent
edge key. -/
def k3ltb (a b : ℤ × ℤ × ℤ) : Bool :=
  a.1 < b.1 ∨ (a.1 = b.1 ∧ (a.2.1 < b.2.1 ∨ (a.2.1 = b.2.1 ∧ a.2.2 < b.2.2)))

/-- The direction-independent edge key `ka < kb ? ka|kb : kb|ka`. -/
def edgeKey (ka kb : ℤ × ℤ × ℤ) : (ℤ × ℤ × ℤ) × (ℤ × ℤ × ℤ) :=
  if k3ltb ka kb then (ka, kb) else (kb, ka)

/-- One contribution `{ fi, edgeIndex }` recorded in the edge map. -/
structure AdjEntry where
  fi : ℕ
  edgeIndex : ℕ
deriving DecidableEq

/-- `NetAdjEdge` from `core.ts`. -/
structure NetAdjEdge where
  a : ℕ
  b : ℕ
  edgeA : ℕ
  edgeB : ℕ
deriving DecidableEq

/-- Insertion-ordered association-list model of the JS `Map` used by
`netAdjEdges`: `map.get(key) ?? []` followed by `push` and `set`. -/
def mapPush {κ α : Type} [DecidableEq κ] :
    List (κ × List α) → κ → α → List (κ × List α)
  | [], k, v => [(k, [v])]
  | (k', vs) :: rest, k, v =>
      if k' = k then (k', vs ++ [v]) :: rest else (k', vs) :: mapPush rest k v

/-- The world-space vertices of one posed face (the `wverts` computation in
`netAdjEdges`). -/
def worldVerts (vertsLocal : List Vec3) (p : FacePose) : List Vec3 :=
  vertsLocal.map fun v => (v.applyQuaternion p.quaternion).add p.position

/-- The fully built edge map of `netAdjEdges` (faces processed in order,
edges in local order). -/
def buildEdgeMap (net : List FacePose) (face : FaceKind) (edge : ℝ) :
    List (((ℤ × ℤ × ℤ) × (ℤ × ℤ × ℤ)) × List AdjEntry) :=
  let vertsLocal := localVerts3 face edge
  let n := vertsLocal.length
  net.enum.foldl
    (fun em fip =>
      let wverts := worldVerts vertsLocal fip.2
      (List.range n).foldl
        (fun em k =>
          let a := wverts.getD k Vec3.zero
          let b := wverts.getD ((k + 1) % n) Vec3.zero
          mapPush em (edgeKey (quantKey3 a) (quantKey3 b)) ⟨fip.1, k⟩)
        em)
    []

/-- `netAdjEdges`: keep exactly the keys matched by two face-edges. -/
def netAdjEdges (net : List FacePose) (face : FaceKind) (edge : ℝ) :
    List NetAdjEdge :=
  (buildEdgeMap net face edge).filterMap fun kv =>
    match kv.2 with
    | [e0, e1] => some ⟨e0.fi, e1.fi, e0.edgeIndex, e1.edgeIndex⟩
    | _ => none

/-- `signedAngleAroundAxis`. -/
def signedAngleAroundAxis (vfrom vto axis : Vec3) : ℝ :=
  let a := axis.normalize
  let v0 := vfrom.sub (Vec3.smul (a.dot vfrom) a)
  let v1 := vto.sub (Vec3.smul (a.dot vto) a)
  let l0 := v0.length
  let l1 := v1.length
  if l0 < 1e-10 ∨ l1 < 1e-10 then 0
  else
    let v0' := Vec3.smul (1 / l0) v0
    let v1' := Vec3.smul (1 / l1) v1
    atan2 (a.dot (v0'.cross v1')) (v0'.dot v1')

/-- `rotationAroundAxisLine`. -/
def rotationAroundAxisLine (axisUnit pointOnAxis : Vec3) (angle : ℝ) : Mat4 :=
  let T1 := Mat4.makeTranslation pointOnAxis.x pointOnAxis.y pointOnAxis.z
  let T2 := Mat4.makeTranslation (-pointOnAxis.x) (-pointOnAxis.y) (-pointOnAxis.z)
  let R := Mat4.makeRotationAxis axisUnit angle
  (T1.mul R).mul T2

instance : Inhabited FacePose := ⟨⟨Vec3.zero, Quat.one⟩⟩

/-- One adjacency-list record `{ to, edgeFrom, edgeTo }`. -/
structure AdjTo where
  toIdx : ℕ
  edgeFrom : ℕ
  edgeTo : ℕ
deriving DecidableEq

/-- The adjacency-list construction shared by `buildHingeModel`,
`makeTreeTriangleNet` and `makeTreePolygonNet`. -/
def buildAdjList (faceCount : ℕ) (adj : List NetAdjEdge) : List (List AdjTo) :=
  adj.foldl
    (fun al e =>
      let al := al.set e.a ((al.getD e.a []) ++ [⟨e.b, e.edgeA, e.edgeB⟩])
      al.set e.b ((al.getD e.b []) ++ [⟨e.a, e.edgeB, e.edgeA⟩]))
    (List.replicate faceCount [])

/-- The state of the breadth-first spanning-tree `while` loop: parent /
parent-edge / child-edge arrays (`-1` modelled as `none`), the work queue,
and the visitation order. -/
structure BfsState where
  parent : List (Option ℕ)
  parentEdge : List (Option ℕ)
  childEdge : List (Option ℕ)
  queue : List ℕ
  order : List ℕ

/-- One iteration of the BFS `while` loop: shift the queue head, adopt its
unvisited neighbours (`parent[e.toIdx] !== -1` skips both already-visited and
out-of-range indices, hence the `some none` pattern). -/
def bfsStep (adjList : List (List AdjTo)) (s : BfsState) : BfsState :=
  match s.queue with
  | [] => s
  | v :: rest =>
      (adjList.getD v []).foldl
        (fun st e =>
          match st.parent.get? e.toIdx with
          | some none =>
              { st with
                parent := st.parent.set e.toIdx (some v)
                parentEdge := st.parentEdge.set e.toIdx (some e.edgeFrom)
                childEdge := st.childEdge.set e.toIdx (some e.edgeTo)
                queue := st.queue ++ [e.toIdx]
                order := st.order ++ [e.toIdx] }
          | _ => st)
        { s with queue := rest }

/-- The BFS loop run to completion.  Each face is enqueued at most once, so
`faceCount` iterations dominate the JS `while (q.length)` loop; extra
iterations are no-ops on an empty queue. -/
def bfsRun (adjList : List (List AdjTo)) : ℕ → BfsState → BfsState
  | 0, s => s
  | fuel + 1, s => bfsRun adjList fuel (bfsStep adjList s)

/-- The initial BFS state rooted at `root`. -/
def bfsInit (faceCount root : ℕ) : BfsState :=
  { parent := (List.replicate faceCount (none : Option ℕ)).set root (some root)
    parentEdge := List.replicate faceCount none
    childEdge := List.replicate faceCount none
    queue := [root]
    order := [root] }

/-- `Hinge` from `core.ts`. -/
structure Hinge where
  parent : ℕ
  axis : Vec3
  point : Vec3
  relNet : Mat4
  angle : ℝ

/-- `HingeModel` from `core.ts`. -/
structure HingeModel where
  root : ℕ
  order : List ℕ
  hinges : List (Option Hinge)

/-- `suggestCamera`'s output record. -/
structure Camera where
  pos : ℝ × ℝ × ℝ
  fov : ℝ

/-- `PolyDef` from `core.ts`. -/
structure PolyDef where
  id : String
  name : String
  faceCount : ℕ
  face : FaceKind
  edge : ℝ
  net : List FacePose
  folded : List FacePose
  camera : Camera

/-- The unordered face-pair key `a-b` used for `foldPairs`. -/
def pairKey (a b : ℕ) : ℕ × ℕ := if a < b then (a, b) else (b, a)

/-- `buildHingeModel` from `core.ts`. -/
def buildHingeModel (d : PolyDef) : HingeModel :=
  let faceCount := d.faceCount
  let vertsLocal := localVerts3 d.face d.edge
  let nVerts := vertsLocal.length
  let root := 0
  let foldAdj := netAdjEdges d.folded d.face d.edge
  let foldPairs := foldAdj.map fun e => pairKey e.a e.b
  let adj := (netAdjEdges d.net d.face d.edge).filter
    fun e => decide (pairKey e.a e.b ∈ foldPairs)
  let adjList := buildAdjList faceCount adj
  let s := bfsRun adjList faceCount (bfsInit faceCount root)
  let netM := d.net.map poseToMatrix
  let foldM := d.folded.map poseToMatrix
  let hinges := (List.range faceCount).map fun i =>
    if i = root then none
    else
      match s.parent.getD i none with
      | none => none
      | some p =>
          let relNet := ((netM.getD p .id).invert).mul (netM.getD i .id)
          let relFold := ((foldM.getD p .id).invert).mul (foldM.getD i .id)
          let qRelNet := quatFromRotationMatrix relNet
          let qRelFold := quatFromRotationMatrix relFold
          let n0 := (Vec3.applyQuaternion ⟨0, 0, 1⟩ qRelNet).normalize
          let n1 := (Vec3.applyQuaternion ⟨0, 0, 1⟩ qRelFold).normalize
          match s.parentEdge.getD i none with
          | none => none
          | some eIdx =>
              let pA := vertsLocal.getD eIdx Vec3.zero
              let pB := vertsLocal.getD ((eIdx + 1) % nVerts) Vec3.zero
              let axis := (pB.sub pA).normalize
              let angle := signedAngleAroundAxis n0 n1 axis
              some ⟨p, axis, pA, relNet, angle⟩
  { root := root, order := s.order, hinges := hinges }

/-- `hingePoses` from `core.ts`. -/
def hingePoses (d : PolyDef) (model : HingeModel) (t : ℝ) : List FacePose :=
  let root := model.root
  let rootPose : FacePose :=
    ⟨lerpVec3 (d.net.getD root default).position (d.folded.getD root default).position t,
     slerpQuat (d.net.getD root default).quaternion (d.folded.getD root default).quaternion t⟩
  let worldM0 := (List.replicate d.faceCount (none : Option Mat4)).set root
    (some (poseToMatrix rootPose))
  let worldM := model.order.foldl
    (fun wm i =>
      if i = root then wm
      else
        match model.hinges.getD i none with
        | none => wm
        | some h =>
            match wm.getD h.parent none with
            | none => wm
            | some parentM =>
                let H := rotationAroundAxisLine h.axis h.point (h.angle * t)
                wm.set i (some ((parentM.mul H).mul h.relNet)))
    worldM0
  worldM.enum.map fun im =>
    match im.2 with
    | some m => matrixToPose m
    | none => d.net.getD im.1 default

/-- The index triple `{ i0, i1, iOpp }` for a triangle edge (`edgeDef`); the
`TriEdge` type restricts the argument to `0 | 1 | 2`, so the catch-all
branch is unreachable at every call site. -/
def edgeDef (e : ℕ) : ℕ × ℕ × ℕ :=
  match e with
  | 0 => (0, 1, 2)
  | 1 => (1, 2, 0)
  | 2 => (2, 0, 1)
  | _ => (0, 1, 2)

instance : Inhabited Vec2 := ⟨⟨0, 0⟩⟩

/-- The shared `solve` helper of both attach functions: the rigid motion
taking the child's local edge `(local0, local1)` onto the target segment
`(t0, t1)`. -/
def solveAttach (local0 local1 t0 t1 : Vec2) : Pose2 :=
  let rot := atan2 (t1.y - t0.y) (t1.x - t0.x) - atan2 (local1.y - local0.y) (local1.x - local0.x)
  let cRot := Real.cos rot
  let sRot := Real.sin rot
  { pos := ⟨t0.x - (local0.x * cRot - local0.y * sRot),
            t0.y - (local0.x * sRot + local0.y * cRot)⟩
    rot := rot }

/-- `attachTriangleAlongEdge` from `core.ts`. -/
def attachTriangleAlongEdge (parent : Pose2) (parentEdge childEdge : ℕ)
    (tri : List Vec2) : Pose2 :=
  let pv := tri.map (applyPose2 parent)
  let p := edgeDef parentEdge
  let c := edgeDef childEdge
  let e0 := pv.getD p.1 default
  let e1 := pv.getD p.2.1 default
  let parentThird := pv.getD p.2.2 default
  let local0 := tri.getD c.1 default
  let local1 := tri.getD c.2.1 default
  let localOpp := tri.getD c.2.2 default
  let v01 : Vec2 := ⟨e1.x - e0.x, e1.y - e0.y⟩
  let parentSide := cross2 v01 ⟨parentThird.x - e0.x, parentThird.y - e0.y⟩
  let cand0 := solveAttach local0 local1 e0 e1
  let cand1 := solveAttach local0 local1 e1 e0
  let pick := fun cand =>
    let thirdWorld := applyPose2 cand localOpp
    let childSide := cross2 v01 ⟨thirdWorld.x - e0.x, thirdWorld.y - e0.y⟩
    if parentSide = 0 then childSide else parentSide * childSide
  if pick cand0 < 0 then cand0 else cand1

/-- `attachPolygonAlongEdge` from `core.ts`. -/
def attachPolygonAlongEdge (parent : Pose2) (parentEdge childEdge : ℕ)
    (poly : List Vec2) : Pose2 :=
  let n := poly.length
  if n < 3 then parent
  else
    let pv := poly.map (applyPose2 parent)
    let e0 := pv.getD (parentEdge % n) default
    let e1 := pv.getD ((parentEdge + 1) % n) default
    let centroidParent := Vec2.mk
      ((pv.foldl (fun s v => s + v.x) 0) / n) ((pv.foldl (fun s v => s + v.y) 0) / n)
    let v01 : Vec2 := ⟨e1.x - e0.x, e1.y - e0.y⟩
    let parentSide := cross2 v01 ⟨centroidParent.x - e0.x, centroidParent.y - e0.y⟩
    let local0 := poly.getD (childEdge % n) default
    let local1 := poly.getD ((childEdge + 1) % n) default
    let cand0 := solveAttach local0 local1 e0 e1
    let cand1 := solveAttach local0 local1 e1 e0
    let sideFor := fun cand =>
      let cw := poly.map (applyPose2 cand)
      let centroidChild := Vec2.mk
        ((cw.foldl (fun s v => s + v.x) 0) / n) ((cw.foldl (fun s v => s + v.y) 0) / n)
      cross2 v01 ⟨centroidChild.x - e0.x, centroidChild.y - e0.y⟩
    let side0 := sideFor cand0
    let side1 := sideFor cand1
    let pick0 := if parentSide = 0 then side0 else parentSide * side0
    let _pick1 := if parentSide = 0 then side1 else parentSide * side1
    if pick0 < 0 then cand0 else cand1

/-- `centerPoses` from `core.ts`. -/
def centerPoses (poses : List FacePose) : List FacePose :=
  let center := Vec3.smul (1 / poses.length)
    (poses.foldl (fun s p => s.add p.position) Vec3.zero)
  poses.map fun p => ⟨p.position.sub center, p.quaternion⟩

/-- `faceRadius` from `core.ts`. -/
def faceRadius (face : FaceKind) (edge : ℝ) : ℝ :=
  match face with
  | .square => Real.sqrt 2 * edge / 2
  | .pentagon => edge / (2 * Real.sin (Real.pi / 5))
  | .triangle => edge / Real.sqrt 3

/-- `estimateRadius` from `core.ts`. -/
def estimateRadius (poses : List FacePose) (face : FaceKind) (edge : ℝ) : ℝ :=
  (poses.foldl (fun r p => max r p.position.length) 0) + faceRadius face edge

/-- `suggestCamera` from `core.ts`. -/
def suggestCamera (net folded : List FacePose) (face : FaceKind) (edge : ℝ) : Camera :=
  let fov : ℝ := 45
  let radius := max (estimateRadius net face edge) (estimateRadius folded face edge)
  let dist := radius / Real.tan (fov * Real.pi / 360) * 1.15
  let dir := Vec3.normalize ⟨1, 0.85, 1.15⟩
  let p := Vec3.smul dist dir
  { pos := (p.x, p.y, p.z), fov := fov }

/-- The rotation matrix `makeBasis(xAxis, yAxis, normal)` built by the two
pose-from-vertices helpers. -/
def basisMat (c1 c2 c3 : Vec3) : Mat4 :=
  { e0 := c1.x, e1 := c1.y, e2 := c1.z
    e4 := c2.x, e5 := c2.y, e6 := c2.z
    e8 := c3.x, e9 := c3.y, e10 := c3.z }

/-- `poseFromTriangle3` from `core.ts`. -/
def poseFromTriangle3 (v0 v1 v2 : Vec3) : FacePose :=
  let position := Vec3.smul (1 / 3) ((v0.add v1).add v2)
  let xAxis := (v1.sub v0).normalize
  let normal := ((v1.sub v0).cross (v2.sub v0)).normalize
  let yAxis := (normal.cross xAxis).normalize
  let m := basisMat xAxis yAxis normal
  { position := position, quaternion := quatFromRotationMatrix m }

/-- `poseFromPolygon3` from `core.ts`. -/
def poseFromPolygon3 (verts : List Vec3) : FacePose :=
  let position := Vec3.smul (1 / verts.length)
    (verts.foldl Vec3.add Vec3.zero)
  let v0 := verts.getD 0 Vec3.zero
  let v1 := verts.getD 1 Vec3.zero
  let v2 := verts.getD 2 Vec3.zero
  let xAxis := (v1.sub v0).normalize
  let normal0 := ((v1.sub v0).cross (v2.sub v0)).normalize
  let normal := if normal0.dot position < 0 then normal0.neg else normal0
  let yAxis := (normal.cross xAxis).normalize
  let m := basisMat xAxis yAxis normal
  { position := position, quaternion := quatFromRotationMatrix m }

/-- `orientFaceOutward` from `core.ts`. -/
def orientFaceOutward (vertices : List Vec3) (face : ℕ × ℕ × ℕ) : ℕ × ℕ × ℕ :=
  let v0 := vertices.getD face.1 Vec3.zero
  let v1 := vertices.getD face.2.1 Vec3.zero
  let v2 := vertices.getD face.2.2 Vec3.zero
  let normal := (v1.sub v0).cross (v2.sub v0)
  let centroid := Vec3.smul (1 / 3) ((v0.add v1).add v2)
  if normal.dot centroid < 0 then (face.1, face.2.2, face.2.1) else face

/-- The 2-D pose array produced by the tree layout loop shared by
`makeTreeTriangleNet` and `makeTreePolygonNet` (parameterised by the
attach function). -/
def treeLayout (faceCount : ℕ) (s : BfsState)
    (attach : Pose2 → ℕ → ℕ → Pose2) : List (Option Pose2) :=
  let root := 0
  let poses0 := (List.replicate faceCount (none : Option Pose2)).set root
    (some ⟨⟨0, 0⟩, 0⟩)
  s.order.foldl
    (fun poses i =>
      if i = root then poses
      else
        match s.parent.getD i none with
        | none => poses
        | some p =>
            match poses.getD p none with
            | none => poses
            | some pp =>
                poses.set i (some (attach pp ((s.parentEdge.getD i none).getD 0)
                  ((s.childEdge.getD i none).getD 0))))
    poses0

/-- Lifting the layout to centred 3-D poses (the common tail of both
net builders). -/
def layoutToPoses (poses2 : List (Option Pose2)) : List FacePose :=
  centerPoses (poses2.map fun p =>
    ⟨⟨(p.map (fun q => q.pos.x)).getD 0, (p.map (fun q => q.pos.y)).getD 0, 0⟩,
     qFromEuler 0 0 ((p.map (fun q => q.rot)).getD 0)⟩)

/-- `makeTreeTriangleNet` from `core.ts`. -/
def makeTreeTriangleNet (edge : ℝ) (folded : List FacePose) : List FacePose :=
  let tri := triangleLocal2 edge
  let faceCount := folded.length
  let adj := netAdjEdges folded .triangle edge
  let adjList := buildAdjList faceCount adj
  let s := bfsRun adjList faceCount (bfsInit faceCount 0)
  layoutToPoses (treeLayout faceCount s
    fun pp pe ce => attachTriangleAlongEdge pp pe ce tri)

/-- The `sides = 5` body of `makeTreePolygonNet` (it cannot throw). -/
def makeTreePentagonNet (edge : ℝ) (folded : List FacePose) : List FacePose :=
  let poly := pentagonLocal2 edge
  let faceCount := folded.length
  let adj := netAdjEdges folded .pentagon edge
  let adjList := buildAdjList faceCount adj
  let s := bfsRun adjList faceCount (bfsInit faceCount 0)
  layoutToPoses (treeLayout faceCount s
    fun pp pe ce => attachPolygonAlongEdge pp pe ce poly)

/-- `makeTreePolygonNet` from `core.ts`; the `throw` is modelled by
`Except.error`. -/
def makeTreePolygonNet (edge : ℝ) (folded : List FacePose) (sides : ℕ) :
    Except String (List FacePose) :=
  if sides = 3 then .ok (makeTreeTriangleNet edge folded)
  else if sides ≠ 5 then .error ("Unsupported polygon sides: " ++ toString sides)
  else .ok (makeTreePentagonNet edge folded)

/-- `createCubeDef` from `cube.ts`. -/
def createCubeDef (edge : ℝ) : PolyDef :=
  let s := edge
  let q0 := qFromEuler 0 0 0
  let net : List FacePose :=
    [⟨⟨0, 0, 0⟩, q0⟩, ⟨⟨-s, 0, 0⟩, q0⟩, ⟨⟨s, 0, 0⟩, q0⟩,
     ⟨⟨2 * s, 0, 0⟩, q0⟩, ⟨⟨0, s, 0⟩, q0⟩, ⟨⟨0, -s, 0⟩, q0⟩]
  let half := edge / 2
  let folded : List FacePose :=
    [⟨⟨0, 0, half⟩, qFromEuler 0 0 0⟩,
     ⟨⟨-half, 0, 0⟩, qFromEuler 0 (-(Real.pi / 2)) 0⟩,
     ⟨⟨half, 0, 0⟩, qFromEuler 0 (Real.pi / 2) 0⟩,
     ⟨⟨0, 0, -half⟩, qFromEuler 0 Real.pi 0⟩,
     ⟨⟨0, half, 0⟩, qFromEuler (-(Real.pi / 2)) 0 0⟩,
     ⟨⟨0, -half, 0⟩, qFromEuler (Real.pi / 2) 0 0⟩]
  let netCentered := centerPoses net
  { id := "cube", name := "정육면체 (Cube)", faceCount := 6, face := .square
    edge := edge, net := netCentered, folded := folded
    camera := suggestCamera netCentered folded .square edge }

/-- `makeTetraFolded` from `tetrahedron.ts`. -/
def makeTetraFolded (edge : ℝ) : List FacePose :=
  let s := edge / (2 * Real.sqrt 2)
  let verts : List Vec3 :=
    [Vec3.smul s ⟨1, 1, 1⟩, Vec3.smul s ⟨1, -1, -1⟩,
     Vec3.smul s ⟨-1, 1, -1⟩, Vec3.smul s ⟨-1, -1, 1⟩]
  let faces : List (ℕ × ℕ × ℕ) := [(0, 1, 2), (0, 3, 1), (0, 2, 3), (1, 3, 2)]
  faces.map fun f =>
    let g := orientFaceOutward verts f
    poseFromTriangle3 (verts.getD g.1 Vec3.zero) (verts.getD g.2.1 Vec3.zero)
      (verts.getD g.2.2 Vec3.zero)

/-- `createTetrahedronDef` from `tetrahedron.ts`. -/
def createTetrahedronDef (edge : ℝ) : PolyDef :=
  let folded := makeTetraFolded edge
  let net := makeTreeTriangleNet edge folded
  { id := "tetra", name := "정사면체 (Tetrahedron)", faceCount := 4, face := .triangle
    edge := edge, net := net, folded := folded
    camera := suggestCamera net folded .triangle edge }

/-- `makeOctaFolded` from `octahedron.ts`. -/
def makeOctaFolded (edge : ℝ) : List FacePose :=
  let s := edge / Real.sqrt 2
  let verts : List Vec3 :=
    [Vec3.smul s ⟨1, 0, 0⟩, Vec3.smul s ⟨-1, 0, 0⟩, Vec3.smul s ⟨0, 1, 0⟩,
     Vec3.smul s ⟨0, -1, 0⟩, Vec3.smul s ⟨0, 0, 1⟩, Vec3.smul s ⟨0, 0, -1⟩]
  let faces : List (ℕ × ℕ × ℕ) :=
    [(4, 0, 2), (4, 2, 1), (4, 1, 3), (4, 3, 0),
     (5, 2, 0), (5, 1, 2), (5, 3, 1), (5, 0, 3)]
  faces.map fun f =>
    let g := orientFaceOutward verts f
    poseFromTriangle3 (verts.getD g.1 Vec3.zero) (verts.getD g.2.1 Vec3.zero)
      (verts.getD g.2.2 Vec3.zero)

/-- `createOctahedronDef` from `octahedron.ts`. -/
def createOctahedronDef (edge : ℝ) : PolyDef :=
  let folded := makeOctaFolded edge
  let net := makeTreeTriangleNet edge folded
  { id := "octa", name := "정팔면체 (Octahedron)", faceCount := 8, face := .triangle
    edge := edge, net := net, folded := folded
    camera := suggestCamera net folded .triangle edge }

/-- `THREE.PolyhedronGeometry` with `detail = 0` and `radius = 1`: each
index triple `(a, b, c)` is emitted by `subdivideFace` as the vertex
sequence `(b, c, a)`, then `applyRadius(1)` normalizes every buffer
vertex. -/
def polyhedronPositions (verts : List Vec3) (indices : List (ℕ × ℕ × ℕ)) :
    List Vec3 :=
  (indices.map fun f =>
    [Vec3.normalize (verts.getD f.2.1 Vec3.zero),
     Vec3.normalize (verts.getD f.2.2 Vec3.zero),
     Vec3.normalize (verts.getD f.1 Vec3.zero)]).flatten

/-- The base vertices of `THREE.IcosahedronGeometry` (`t = (1+√5)/2`). -/
def icosahedronBaseVerts : List Vec3 :=
  let t := (1 + Real.sqrt 5) / 2
  [⟨-1, t, 0⟩, ⟨1, t, 0⟩, ⟨-1, -t, 0⟩, ⟨1, -t, 0⟩,
   ⟨0, -1, t⟩, ⟨0, 1, t⟩, ⟨0, -1, -t⟩, ⟨0, 1, -t⟩,
   ⟨t, 0, -1⟩, ⟨t, 0, 1⟩, ⟨-t, 0, -1⟩, ⟨-t, 0, 1⟩]

/-- The index triples of `THREE.IcosahedronGeometry`. -/
def icosahedronIndices : List (ℕ × ℕ × ℕ) :=
  [(0, 11, 5), (0, 5, 1), (0, 1, 7), (0, 7, 10), (0, 10, 11),
   (1, 5, 9), (5, 11, 4), (11, 10, 2), (10, 7, 6), (7, 1, 8),
   (3, 9, 4), (3, 4, 2), (3, 2, 6), (3, 6, 8), (3, 8, 9),
   (4, 9, 5), (2, 4, 11), (6, 2, 10), (8, 6, 7), (9, 8, 1)]

/-- The `position` attribute of `new THREE.IcosahedronGeometry(1, 0)`. -/
def icosahedronPositions : List Vec3 :=
  polyhedronPositions icosahedronBaseVerts icosahedronIndices

/-- The base vertices of `THREE.DodecahedronGeometry`
(`t = (1+√5)/2`, `r = 1/t`). -/
def dodecahedronBaseVerts : List Vec3 :=
  let t := (1 + Real.sqrt 5) / 2
  let r := 1 / t
  [⟨-1, -1, -1⟩, ⟨-1, -1, 1⟩, ⟨-1, 1, -1⟩, ⟨-1, 1, 1⟩,
   ⟨1, -1, -1⟩, ⟨1, -1, 1⟩, ⟨1, 1, -1⟩, ⟨1, 1, 1⟩,
   ⟨0, -r, -t⟩, ⟨0, -r, t⟩, ⟨0, r, -t⟩, ⟨0, r, t⟩,
   ⟨-r, -t, 0⟩, ⟨-r, t, 0⟩, ⟨r, -t, 0⟩, ⟨r, t, 0⟩,
   ⟨-t, 0, -r⟩, ⟨t, 0, -r⟩, ⟨-t, 0, r⟩, ⟨t, 0, r⟩]

/-- The index triples of `THREE.DodecahedronGeometry`. -/
def dodecahedronIndices : List (ℕ × ℕ × ℕ) :=
  [(3, 11, 7), (3, 7, 15), (3, 15, 13),
   (7, 19, 17), (7, 17, 6), (7, 6, 15),
   (17, 4, 8), (17, 8, 10), (17, 10, 6),
   (8, 0, 16), (8, 16, 2), (8, 2, 10),
   (0, 12, 1), (0, 1, 18), (0, 18, 16),
   (6, 10, 2), (6, 2, 13), (6, 13, 15),
   (2, 16, 18), (2, 18, 3), (2, 3, 13),
   (18, 1, 9), (18, 9, 11), (18, 11, 3),
   (4, 14, 12), (4, 12, 0), (4, 0, 8),
   (11, 9, 5), (11, 5, 19), (11, 19, 7),
   (19, 5, 14), (19, 14, 4), (19, 4, 17),
   (1, 12, 14), (1, 14, 5), (1, 5, 9)]

/-- The `position` attribute of `new THREE.DodecahedronGeometry(1, 0)`. -/
def dodecahedronPositions : List Vec3 :=
  polyhedronPositions dodecahedronBaseVerts dodecahedronIndices

/-- The quantized-coordinate vertex-deduplication pass shared by
`makeIcosaFolded` and `makeDodecaFolded` (tolerance `1e-6`; the string key
is modelled by its rounded integer triple; the JS `Map` lookup is an
in-insertion-order association-list lookup). -/
def vertexDedup (buf : List Vec3) : List Vec3 × List ℕ :=
  let st := buf.foldl
    (fun (st : List Vec3 × List ℕ × List ((ℤ × ℤ × ℤ) × ℕ)) v =>
      let key : ℤ × ℤ × ℤ :=
        (round (v.x * 1000000), round (v.y * 1000000), round (v.z * 1000000))
      match st.2.2.find? (fun kv => decide (kv.1 = key)) with
      | some kv => (st.1, st.2.1 ++ [kv.2], st.2.2)
      | none => (st.1 ++ [v], st.2.1 ++ [st.1.length], st.2.2 ++ [(key, st.1.length)]))
    ([], [], [])
  (st.1, st.2.1)

/-- The minimum-distance scan (`d > 1e-6 && d < minEdge`); `none` models the
initial `Infinity`. -/
def minEdgeScan (uv : List Vec3) : Option ℝ :=
  (List.range uv.length).foldl
    (fun acc i =>
      (List.range uv.length).foldl
        (fun acc j =>
          if i < j then
            let d := (uv.getD i Vec3.zero).distanceTo (uv.getD j Vec3.zero)
            match acc with
            | none => if 1e-6 < d then some d else acc
            | some m => if 1e-6 < d ∧ d < m then some d else acc
          else acc)
        acc)
    none

/-- `makeIcosaFolded` from `icosahedron.ts` (scale `edge / Infinity = 0`
degenerates to the origin exactly as the JS would degenerate—unreachable for
the real buffer). -/
def makeIcosaFolded (edge : ℝ) : List FacePose :=
  let buf := icosahedronPositions
  let uv0 := (vertexDedup buf).1
  let remap := (vertexDedup buf).2
  let faces := (List.range (buf.length / 3)).map fun i =>
    (remap.getD (3 * i) 0, remap.getD (3 * i + 1) 0, remap.getD (3 * i + 2) 0)
  let scale := match minEdgeScan uv0 with | none => 0 | some m => edge / m
  let uv := uv0.map (Vec3.smul scale)
  faces.map fun f =>
    let g := orientFaceOutward uv f
    poseFromTriangle3 (uv.getD g.1 Vec3.zero) (uv.getD g.2.1 Vec3.zero)
      (uv.getD g.2.2 Vec3.zero)

/-- `createIcosahedronDef` from `icosahedron.ts`. -/
def createIcosahedronDef (edge : ℝ) : PolyDef :=
  let folded := makeIcosaFolded edge
  let net := makeTreeTriangleNet edge folded
  { id := "icosa", name := "정이십면체 (Icosahedron)", faceCount := 20, face := .triangle
    edge := edge, net := net, folded := folded
    camera := suggestCamera net folded .triangle edge }

/-- One entry of the dodecahedron face-grouping map: the triangles
accumulated under one quantized-normal key plus the running normal sum. -/
structure NormalGroup where
  tris : List (ℕ × ℕ × ℕ)
  normal : Vec3

/-- Append-or-update push into the insertion-ordered grouping map. -/
def groupPush (gs : List ((ℤ × ℤ × ℤ) × NormalGroup)) (key : ℤ × ℤ × ℤ)
    (tri : ℕ × ℕ × ℕ) (n : Vec3) : List ((ℤ × ℤ × ℤ) × NormalGroup) :=
  match gs with
  | [] => [(key, ⟨[tri], n⟩)]
  | (k, g) :: rest =>
      if k = key then (k, ⟨g.tris ++ [tri], g.normal.add n⟩) :: rest
      else (k, g) :: groupPush rest key tri n

/-- The face-grouping fold of `makeDodecaFolded`: orient each triangle's
normal outward, normalize, group by the normal quantized at `1e-3`. -/
def dodecaGroups (uv : List Vec3) (tris : List (ℕ × ℕ × ℕ)) :
    List ((ℤ × ℤ × ℤ) × NormalGroup) :=
  tris.foldl
    (fun gs tri =>
      let v0 := uv.getD tri.1 Vec3.zero
      let v1 := uv.getD tri.2.1 Vec3.zero
      let v2 := uv.getD tri.2.2 Vec3.zero
      let n0 := (v1.sub v0).cross (v2.sub v0)
      let centroid := Vec3.smul (1 / 3) ((v0.add v1).add v2)
      let n1 := if n0.dot centroid < 0 then n0.neg else n0
      let n := n1.normalize
      let key : ℤ × ℤ × ℤ := (round (n.x * 1000), round (n.y * 1000), round (n.z * 1000))
      groupPush gs key tri n)
    []

/-- JS `Set` membership insertion (insertion order preserved). -/
def insertAbsent (l : List ℕ) (x : ℕ) : List ℕ :=
  if x ∈ l then l else l ++ [x]

/-- Stable ascending insertion w.r.t. a real sort key; `sortByKeyAngle` is a
stable sort and therefore agrees with the JS comparator sort
`(a, b) => ang a - ang b` whenever the key is total (always, on reals). -/
def insSorted (ang : ℕ → ℝ) (x : ℕ) : List ℕ → List ℕ
  | [] => [x]
  | y :: ys => if ang y ≤ ang x then y :: insSorted ang x ys else x :: y :: ys

/-- Stable sort by a real key (models `idList.sort((a,b) => ang a - ang b)`). -/
def sortByKeyAngle (ang : ℕ → ℝ) (l : List ℕ) : List ℕ :=
  l.foldl (fun acc x => insSorted ang x acc) []

/-- `makeDodecaFolded` from `dodecahedron.ts`. -/
def makeDodecaFolded (edge : ℝ) : List FacePose :=
  let buf := dodecahedronPositions
  let uv0 := (vertexDedup buf).1
  let remap := (vertexDedup buf).2
  let triangles := (List.range (buf.length / 3)).map fun i =>
    (remap.getD (3 * i) 0, remap.getD (3 * i + 1) 0, remap.getD (3 * i + 2) 0)
  let groups := dodecaGroups uv0 triangles
  let faces := groups.map fun kg =>
    let g := kg.2
    let ids := g.tris.foldl
      (fun l t => insertAbsent (insertAbsent (insertAbsent l t.1) t.2.1) t.2.2) []
    let normal := g.normal.normalize
    let centroid := Vec3.smul (1 / ids.length)
      (ids.foldl (fun s i => s.add (uv0.getD i Vec3.zero)) Vec3.zero)
    let ref := ((uv0.getD (ids.getD 0 0) Vec3.zero).sub centroid).normalize
    let ang := fun i =>
      let va := (uv0.getD i Vec3.zero).sub centroid
      atan2 (normal.dot (ref.cross va)) (ref.dot va)
    sortByKeyAngle ang ids
  let scale := match minEdgeScan uv0 with | none => 0 | some m => edge / m
  let uv := uv0.map (Vec3.smul scale)
  faces.map fun ids => poseFromPolygon3 (ids.map fun i => uv.getD i Vec3.zero)

/-- `createDodecahedronDef` from `dodecahedron.ts` (`makeTreePolygonNet`
with `sides = 5`, the non-throwing branch). -/
def createDodecahedronDef (edge : ℝ) : PolyDef :=
  let folded := makeDodecaFolded edge
  let net := makeTreePentagonNet edge folded
  { id := "dodeca", name := "정십이면체 (Dodecahedron)", faceCount := 12, face := .pentagon
    edge := edge, net := net, folded := folded
    camera := suggestCamera net folded .pentagon edge }

/-- `createPlatonicPolyDefs` from `platonic/index.ts`. -/
def createPlatonicPolyDefs (edge : ℝ) : List PolyDef :=
  [createCubeDef edge, createTetrahedronDef edge, createOctahedronDef edge,
   createIcosahedronDef edge, createDodecahedronDef edge]

/-! ## Claim C5: unsupported polygon side counts fail loudly -/

/-- **C5.** For every edge length and folded pose array, `makeTreePolygonNet`
throws (returns `Except.error`) exactly when the side count is neither 3
nor 5; side counts 3 and 5 return normally. -/
theorem makeTreePolygonNet_error_iff (edge : ℝ) (folded : List FacePose) (sides : ℕ) :
    (∃ msg, makeTreePolygonNet edge folded sides = .error msg) ↔
      sides ≠ 3 ∧ sides ≠ 5 := by
  unfold makeTreePolygonNet
  by_cases h3 : sides = 3
  · simp [h3]
  · by_cases h5 : sides = 5
    · simp [h3, h5]
    · simp [h3, h5]

/-! ## Claim C7: the signed-angle extractor -/

/-- The projection of `v` onto the plane perpendicular to the normalized
axis (the `v0`/`v1` computation inside `signedAngleAroundAxis`). -/
def saProj (axis v : Vec3) : Vec3 :=
  v.sub (Vec3.smul (axis.normalize.dot v) axis.normalize)

/-- **C7.** `signedAngleAroundAxis` returns exactly 0 when either
projection onto the plane perpendicular to the normalized axis is shorter
than `1e-10`; otherwise it returns the atan2 of the axis-weighted cross
product of the normalized projections against their dot product, a value
in `(-π, π]`. -/
theorem signedAngleAroundAxis_spec (vfrom vto axis : Vec3) :
    ((saProj axis vfrom).length < 1e-10 ∨ (saProj axis vto).length < 1e-10 →
      signedAngleAroundAxis vfrom vto axis = 0)
    ∧ (¬((saProj axis vfrom).length < 1e-10 ∨ (saProj axis vto).length < 1e-10) →
      signedAngleAroundAxis vfrom vto axis =
        atan2
          (axis.normalize.dot
            ((Vec3.smul (1 / (saProj axis vfrom).length) (saProj axis vfrom)).cross
              (Vec3.smul (1 / (saProj axis vto).length) (saProj axis vto))))
          ((Vec3.smul (1 / (saProj axis vfrom).length) (saProj axis vfrom)).dot
            (Vec3.smul (1 / (saProj axis vto).length) (saProj axis vto)))
      ∧ signedAngleAroundAxis vfrom vto axis ∈ Set.Ioc (-Real.pi) Real.pi) := by
  constructor
  · intro hdeg
    unfold signedAngleAroundAxis
    simp only [saProj] at hdeg
    rw [if_pos hdeg]
  · intro hnd
    unfold signedAngleAroundAxis
    simp only [saProj] at hnd ⊢
    rw [if_neg hnd]
    exact ⟨rfl, Complex.arg_mem_Ioc _⟩

/-- Witness for C7 at a concrete degenerate input: the `from` vector equal
to the axis `(0,0,1)` projects to zero, so the result is 0. -/
theorem signedAngleAroundAxis_spec_witness :
    (saProj ⟨0, 0, 1⟩ ⟨0, 0, 1⟩).length < 1e-10 ∧
      signedAngleAroundAxis ⟨0, 0, 1⟩ ⟨1, 0, 0⟩ ⟨0, 0, 1⟩ = 0 := by
  have hlen : (saProj (⟨0, 0, 1⟩ : Vec3) ⟨0, 0, 1⟩).length < 1e-10 := by
    have h1 : Vec3.length ⟨0, 0, 1⟩ = 1 := by
      simp [Vec3.length]
    have hn : Vec3.normalize ⟨0, 0, 1⟩ = ⟨0, 0, 1⟩ := by
      simp [Vec3.normalize, h1, Vec3.smul]
    simp [saProj, hn, Vec3.dot, Vec3.smul, Vec3.sub, Vec3.length]
    norm_num
  exact ⟨hlen, (signedAngleAroundAxis_spec ⟨0, 0, 1⟩ ⟨1, 0, 0⟩ ⟨0, 0, 1⟩).1 (Or.inl hlen)⟩

/-! ## Claim C10: `centerPoses` is a pure common translation -/

/-- The arithmetic mean of the pose positions (the `center` computed inside
`centerPoses`). -/
def posesCenter (poses : List FacePose) : Vec3 :=
  Vec3.smul (1 / poses.length) (poses.foldl (fun s p => s.add p.position) Vec3.zero)

lemma centerPoses_eq_map (poses : List FacePose) :
    centerPoses poses =
      poses.map fun p => ⟨p.position.sub (posesCenter poses), p.quaternion⟩ := rfl

lemma foldl_add_start_sub (l : List FacePose) (d : Vec3) :
    ∀ s : Vec3,
      l.foldl (fun s p => s.add p.position) (s.sub d)
        = (l.foldl (fun s p => s.add p.position) s).sub d := by
  induction l with
  | nil => intro s; rfl
  | cons p l ih =>
      intro s
      simp only [List.foldl_cons]
      have h1 : (s.sub d).add p.position = (s.add p.position).sub d := by
        cases s; cases d
        simp only [Vec3.add, Vec3.sub, Vec3.mk.injEq]
        refine ⟨by ring, by ring, by ring⟩
      rw [h1, ih]

lemma foldl_add_map_sub (l : List FacePose) (c : Vec3) :
    ∀ s : Vec3,
      ((l.map fun p => (⟨p.position.sub c, p.quaternion⟩ : FacePose)).foldl
        (fun s p => s.add p.position) s)
      = (l.foldl (fun s p => s.add p.position) s).sub (Vec3.smul l.length c) := by
  induction l with
  | nil =>
      intro s
      cases s
      simp [Vec3.sub, Vec3.smul]
  | cons p l ih =>
      intro s
      simp only [List.map_cons, List.foldl_cons, List.length_cons]
      have h1 : s.add (p.position.sub c) = (s.add p.position).sub c := by
        cases s; cases c
        simp only [Vec3.add, Vec3.sub, Vec3.mk.injEq]
        refine ⟨by ring, by ring, by ring⟩
      rw [h1, ih, foldl_add_start_sub]
      generalize l.foldl (fun s p => s.add p.position) (s.add p.position) = S
      cases S
      simp only [Vec3.sub, Vec3.smul, Vec3.mk.injEq]
      refine ⟨?_, ?_, ?_⟩ <;> (push_cast; ring)

/-- **C10.** For every non-empty pose list, `centerPoses` translates every
position by the common vector `posesCenter poses` (the mean of the input
positions), preserves every quaternion and every pairwise position
difference, and recentres the mean at the origin. -/
theorem centerPoses_translation_spec (poses : List FacePose) (h : poses ≠ []) :
    (centerPoses poses).length = poses.length
    ∧ (∀ i, i < poses.length →
        ((centerPoses poses).getD i default).quaternion = (poses.getD i default).quaternion
        ∧ ((centerPoses poses).getD i default).position =
            (poses.getD i default).position.sub (posesCenter poses))
    ∧ (∀ i j, i < poses.length → j < poses.length →
        (((centerPoses poses).getD i default).position).sub
            (((centerPoses poses).getD j default).position)
          = ((poses.getD i default).position).sub ((poses.getD j default).position))
    ∧ posesCenter (centerPoses poses) = Vec3.zero := by
  have hlen : (centerPoses poses).length = poses.length := by
    rw [centerPoses_eq_map, List.length_map]
  have hget : ∀ i, i < poses.length →
      (centerPoses poses).getD i default =
        ⟨(poses.getD i default).position.sub (posesCenter poses),
         (poses.getD i default).quaternion⟩ := by
    intro i hi
    rw [centerPoses_eq_map]
    rw [List.getD_eq_getElem?_getD, List.getElem?_map,
        List.getElem?_eq_getElem hi]
    simp [List.getD_eq_getElem?_getD, List.getElem?_eq_getElem hi]
  refine ⟨hlen, ?_, ?_, ?_⟩
  · intro i hi
    rw [hget i hi]
    exact ⟨rfl, rfl⟩
  · intro i j hi hj
    rw [hget i hi, hget j hj]
    simp only
    cases (poses.getD i default).position
    cases (poses.getD j default).position
    cases posesCenter poses
    simp only [Vec3.sub, Vec3.mk.injEq]
    refine ⟨by ring, by ring, by ring⟩
  · have hn : (poses.length : ℝ) ≠ 0 := by
      have : 0 < poses.length := List.length_pos.2 h
      exact_mod_cast this.ne'
    conv_lhs => rw [posesCenter, centerPoses_eq_map, List.length_map, foldl_add_map_sub]
    unfold posesCenter
    generalize poses.foldl (fun s p => s.add p.position) Vec3.zero = S
    cases S
    simp only [Vec3.sub, Vec3.smul, Vec3.zero, Vec3.mk.injEq]
    refine ⟨?_, ?_, ?_⟩ <;> field_simp

/-! ## Claim C6: adjacency multiplicity filtering

The edge map groups quantized-edge-key contributions; we characterise it as
a grouping of the flat contribution list and show `netAdjEdges` emits
exactly one edge per key of multiplicity 2 and nothing else. -/

section Grouping

variable {κ α : Type} [DecidableEq κ]

/-- The grouping fold underlying `buildEdgeMap`. -/
def groupByFold (l : List (κ × α)) : List (κ × List α) :=
  l.foldl (fun m p => mapPush m p.1 p.2) []

lemma mapPush_keys (m : List (κ × List α)) (k : κ) (v : α) :
    (mapPush m k v).map Prod.fst =
      if k ∈ m.map Prod.fst then m.map Prod.fst else m.map Prod.fst ++ [k] := by
  induction m with
  | nil => simp [mapPush]
  | cons kv m ih =>
      obtain ⟨k', vs⟩ := kv
      by_cases hk : k' = k
      · subst hk
        simp [mapPush]
      · simp only [mapPush, if_neg hk, List.map_cons]
        rw [ih]
        by_cases hmem : k ∈ m.map Prod.fst
        · simp [hmem, Ne.symm hk]
        · simp [hmem, Ne.symm hk, hk]

lemma mapPush_mem_cases (m : List (κ × List α)) (k : κ) (v : α)
    (hnd : (m.map Prod.fst).Nodup) :
    ∀ kg ∈ mapPush m k v,
      (kg ∈ m ∧ kg.1 ≠ k)
      ∨ (∃ g, (k, g) ∈ m ∧ kg = (k, g ++ [v]))
      ∨ (k ∉ m.map Prod.fst ∧ kg = (k, [v])) := by
  induction m with
  | nil =>
      intro kg hkg
      simp [mapPush] at hkg
      exact Or.inr (Or.inr ⟨by simp, by simp [hkg]⟩)
  | cons kv m ih =>
      obtain ⟨k', vs⟩ := kv
      simp only [List.map_cons, List.nodup_cons] at hnd
      intro kg hkg
      by_cases hk : k' = k
      · subst hk
        simp only [mapPush, if_pos rfl] at hkg
        rcases List.mem_cons.1 hkg with h | h
        · exact Or.inr (Or.inl ⟨vs, List.mem_cons_self _ _, h⟩)
        · -- kg in the untouched tail; its key differs from k since keys are nodup
          have hne : kg.1 ≠ k' := by
            intro he
            exact hnd.1 (he ▸ List.mem_map_of_mem Prod.fst h)
          exact Or.inl ⟨List.mem_cons_of_mem _ h, hne⟩
      · simp only [mapPush, if_neg hk] at hkg
        rcases List.mem_cons.1 hkg with h | h
        · subst h
          exact Or.inl ⟨List.mem_cons_self _ _, hk⟩
        · rcases ih hnd.2 kg h with h1 | h2 | h3
          · exact Or.inl ⟨List.mem_cons_of_mem _ h1.1, h1.2⟩
          · obtain ⟨g, hg, he⟩ := h2
            exact Or.inr (Or.inl ⟨g, List.mem_cons_of_mem _ hg, he⟩)
          · refine Or.inr (Or.inr ⟨?_, h3.2⟩)
            simp only [List.map_cons, List.mem_cons]
            rintro (he | hm)
            · exact hk he.symm
            · exact h3.1 hm

/-- The invariant carried through the grouping fold. -/
def GroupInv (m : List (κ × List α)) (done : List (κ × α)) : Prop :=
  ((m.map Prod.fst).Nodup)
  ∧ (∀ kg ∈ m, kg.2 = (done.filter fun p => p.1 = kg.1).map Prod.snd)
  ∧ (∀ k : κ, k ∈ m.map Prod.fst ↔ k ∈ done.map Prod.fst)

lemma groupInv_push {m : List (κ × List α)} {done : List (κ × α)}
    (h : GroupInv m done) (p : κ × α) :
    GroupInv (mapPush m p.1 p.2) (done ++ [p]) := by
  obtain ⟨hnd, hval, hkeys⟩ := h
  have hfilter_ne : ∀ k : κ, k ≠ p.1 →
      ((done ++ [p]).filter fun q => q.1 = k) = done.filter fun q => q.1 = k := by
    intro k hk
    rw [List.filter_append]
    simp [Ne.symm hk]
  have hfilter_eq :
      ((done ++ [p]).filter fun q => q.1 = p.1) = (done.filter fun q => q.1 = p.1) ++ [p] := by
    rw [List.filter_append]
    simp
  refine ⟨?_, ?_, ?_⟩
  · rw [mapPush_keys]
    by_cases hmem : p.1 ∈ m.map Prod.fst
    · simpa [hmem] using hnd
    · simp only [hmem, if_false]
      exact List.Nodup.append hnd (List.nodup_singleton _) (by
        intro a ha hb
        simp at hb
        exact hmem (hb ▸ ha))
  · intro kg hkg
    rcases mapPush_mem_cases m p.1 p.2 hnd kg hkg with ⟨hin, hne⟩ | ⟨g, hg, he⟩ | ⟨hnm, he⟩
    · rw [hfilter_ne _ hne]
      exact hval kg hin
    · subst he
      simp only
      rw [hfilter_eq, List.map_append]
      have := hval _ hg
      simp only at this
      rw [← this]
      simp
    · subst he
      simp only
      rw [hfilter_eq]
      have hdone : (done.filter fun q => q.1 = p.1) = [] := by
        rw [List.filter_eq_nil_iff]
        intro a ha hq
        exact hnm (hkeys p.1 |>.2 (by
          simp only [List.mem_map]
          exact ⟨a, ha, by simpa using hq⟩))
      rw [hdone]
      simp
  · intro k
    rw [mapPush_keys]
    by_cases hmem : p.1 ∈ m.map Prod.fst
    · simp only [hmem, if_true]
      rw [hkeys]
      constructor
      · intro h
        simp only [List.map_append, List.mem_append]
        exact Or.inl h
      · intro h
        simp only [List.map_append, List.mem_append] at h
        rcases h with h | h
        · exact h
        · simp at h
          rw [h]
          exact hkeys p.1 |>.1 hmem
    · simp only [hmem, if_false]
      simp only [List.mem_append, List.map_append, List.mem_singleton]
      rw [hkeys]
      simp

lemma groupByFold_inv (l : List (κ × α)) : GroupInv (groupByFold l) l := by
  suffices h : ∀ (l2 : List (κ × α)) (m : List (κ × List α)) (done : List (κ × α)),
      GroupInv m done →
      GroupInv (l2.foldl (fun m p => mapPush m p.1 p.2) m) (done ++ l2) by
    have := h l [] [] ⟨by simp, by simp, by simp⟩
    simpa [groupByFold] using this
  intro l2
  induction l2 with
  | nil => intro m done h; simpa using h
  | cons p l2 ih =>
      intro m done h
      have h1 := groupInv_push h p
      have := ih _ _ h1
      simpa using this

end Grouping

/-- The flat list of `(edge-key, contribution)` pairs generated by
`netAdjEdges` in processing order (faces outermost, local edges inner). -/
def edgeContributions (net : List FacePose) (face : FaceKind) (edge : ℝ) :
    List ((((ℤ × ℤ × ℤ) × (ℤ × ℤ × ℤ))) × AdjEntry) :=
  let vertsLocal := localVerts3 face edge
  let n := vertsLocal.length
  (net.enum.map fun fip =>
    let wverts := worldVerts vertsLocal fip.2
    (List.range n).map fun k =>
      (edgeKey (quantKey3 (wverts.getD k Vec3.zero))
         (quantKey3 (wverts.getD ((k + 1) % n) Vec3.zero)),
       (⟨fip.1, k⟩ : AdjEntry))).flatten

lemma buildEdgeMap_eq_groupByFold (net : List FacePose) (face : FaceKind) (edge : ℝ) :
    buildEdgeMap net face edge = groupByFold (edgeContributions net face edge) := by
  unfold buildEdgeMap edgeContributions groupByFold
  rw [List.foldl_flatten, List.foldl_map]
  apply List.foldl_ext
  intro fip _ em
  simp only [List.foldl_map]

lemma length_filterMap_eq_length_filter {α β : Type} (f : α → Option β) (l : List α) :
    (l.filterMap f).length = (l.filter fun a => (f a).isSome).length := by
  induction l with
  | nil => rfl
  | cons a l ih =>
      by_cases h : (f a).isSome
      · obtain ⟨b, hb⟩ := Option.isSome_iff_exists.1 h
        simp [List.filterMap_cons, hb, List.filter_cons, h, ih]
      · have hnone : f a = none := Option.not_isSome_iff_eq_none.1 h
        simp [List.filterMap_cons, hnone, List.filter_cons, ih]

/-- The emission function applied to each edge-map entry by `netAdjEdges`. -/
def adjEmit (kv : ((ℤ × ℤ × ℤ) × (ℤ × ℤ × ℤ)) × List AdjEntry) : Option NetAdjEdge :=
  match kv.2 with
  | [e0, e1] => some ⟨e0.fi, e1.fi, e0.edgeIndex, e1.edgeIndex⟩
  | _ => none

lemma netAdjEdges_eq_filterMap (net : List FacePose) (face : FaceKind) (edge : ℝ) :
    netAdjEdges net face edge =
      (groupByFold (edgeContributions net face edge)).filterMap adjEmit := by
  rw [netAdjEdges, buildEdgeMap_eq_groupByFold]
  rfl

lemma adjEmit_isSome (kv : ((ℤ × ℤ × ℤ) × (ℤ × ℤ × ℤ)) × List AdjEntry) :
    (adjEmit kv).isSome = (kv.2.length = 2 : Bool) := by
  obtain ⟨k, g⟩ := kv
  match g with
  | [] => rfl
  | [_] => rfl
  | [_, _] => rfl
  | _ :: _ :: _ :: _ => simp [adjEmit]

/-- **C6.** `netAdjEdges` emits exactly one adjacency edge for each
quantized edge key contributed to by exactly two (face, local-edge-index)
pairs — built from those two contributions in order — and emits nothing for
keys of any other multiplicity: membership is characterised by a
multiplicity-2 key, and the number of emitted edges equals the number of
distinct multiplicity-2 keys. -/
theorem netAdjEdges_multiplicity_spec (net : List FacePose) (face : FaceKind) (edge : ℝ) :
    (∀ e, e ∈ netAdjEdges net face edge ↔
      ∃ kk c0 c1,
        ((edgeContributions net face edge).filter fun p => p.1 = kk).map Prod.snd = [c0, c1]
        ∧ e = ⟨c0.fi, c1.fi, c0.edgeIndex, c1.edgeIndex⟩)
    ∧ (netAdjEdges net face edge).length =
        (((edgeContributions net face edge).map Prod.fst).toFinset.filter fun kk =>
          ((edgeContributions net face edge).filter fun p => p.1 = kk).length = 2).card := by
  set L := edgeContributions net face edge with hL
  obtain ⟨hnd, hval, hkeys⟩ := groupByFold_inv L
  constructor
  · intro e
    rw [netAdjEdges_eq_filterMap, List.mem_filterMap]
    constructor
    · rintro ⟨kg, hkg, hemit⟩
      have hv := hval kg hkg
      match hg : kg.2 with
      | [c0, c1] =>
          refine ⟨kg.1, c0, c1, ?_, ?_⟩
          · rw [← hv, hg]
          · simp only [adjEmit, hg] at hemit
            exact (Option.some_injective _ hemit).symm
      | [] => simp [adjEmit, hg] at hemit
      | [c] => simp [adjEmit, hg] at hemit
      | c0 :: c1 :: c2 :: t => simp [adjEmit, hg] at hemit
    · rintro ⟨kk, c0, c1, hfil, he⟩
      have hkk : kk ∈ L.map Prod.fst := by
        have hne : (L.filter fun p => p.1 = kk) ≠ [] := by
          intro hemp
          rw [hemp] at hfil
          simp at hfil
        obtain ⟨p, hp⟩ := List.exists_mem_of_ne_nil _ hne
        have hp2 := List.mem_filter.1 hp
        have : p.1 = kk := by simpa using hp2.2
        exact this ▸ List.mem_map_of_mem Prod.fst hp2.1
      obtain ⟨kg, hkg, hfst⟩ := List.mem_map.1 ((hkeys kk).2 hkk)
      refine ⟨kg, hkg, ?_⟩
      have hv := hval kg hkg
      rw [hfst, hfil] at hv
      simp only [adjEmit, hv, he]
  · rw [netAdjEdges_eq_filterMap, length_filterMap_eq_length_filter]
    rw [List.filter_congr (fun kg _ => adjEmit_isSome kg)]
    have hlen2 : ∀ kg ∈ groupByFold L,
        ((kg.2.length = 2 : Bool) = true) ↔ ((L.filter fun p => p.1 = kg.1).length = 2) := by
      intro kg hkg
      have hv := hval kg hkg
      rw [hv]
      simp
    have hmaplen : ((groupByFold L).filter fun kg => (kg.2.length = 2 : Bool)).length
        = (((groupByFold L).filter fun kg => (kg.2.length = 2 : Bool)).map Prod.fst).length := by
      rw [List.length_map]
    rw [hmaplen]
    have hsubnd : (((groupByFold L).filter fun kg => (kg.2.length = 2 : Bool)).map Prod.fst).Nodup := by
      exact List.Sublist.nodup (List.Sublist.map Prod.fst (List.filter_sublist _)) hnd
    rw [← List.toFinset_card_of_nodup hsubnd]
    congr 1
    ext kk
    simp only [List.mem_toFinset, List.mem_map, List.mem_filter, Finset.mem_filter]
    constructor
    · rintro ⟨kg, ⟨hkg, hp⟩, hfst⟩
      have hv := (hlen2 kg hkg).1 hp
      subst hfst
      exact ⟨List.mem_map.1 ((hkeys kg.1).1 (List.mem_map_of_mem Prod.fst hkg)), hv⟩
    · rintro ⟨hmem, hcnt⟩
      obtain ⟨kg, hkg, hfst⟩ := List.mem_map.1 ((hkeys kk).2 (List.mem_map.2 hmem))
      refine ⟨kg, ⟨hkg, ?_⟩, hfst⟩
      exact (hlen2 kg hkg).2 (hfst ▸ hcnt)

/-! ## Claim C2: edge-attachment candidate selection -/

lemma Vec2.eq_iff (a b : Vec2) : a = b ↔ a.x = b.x ∧ a.y = b.y := by
  cases a; cases b; simp

lemma cos_sin_arg_sub (z w : ℂ) (hz : z ≠ 0) (hw : w ≠ 0) :
    Real.cos (z.arg - w.arg) =
      (z.re * w.re + z.im * w.im) / (Complex.abs z * Complex.abs w)
    ∧ Real.sin (z.arg - w.arg) =
      (z.im * w.re - z.re * w.im) / (Complex.abs z * Complex.abs w) := by
  have haz : Complex.abs z ≠ 0 := Complex.abs.ne_zero hz
  have haw : Complex.abs w ≠ 0 := Complex.abs.ne_zero hw
  rw [Real.cos_sub, Real.sin_sub, Complex.cos_arg hz, Complex.cos_arg hw,
    Complex.sin_arg, Complex.sin_arg]
  constructor
  · field_simp
  · field_simp

lemma complex_ne_zero_of_vne (a b : Vec2) (h : a ≠ b) :
    (⟨b.x - a.x, b.y - a.y⟩ : ℂ) ≠ 0 := by
  intro hz
  apply h
  rw [Complex.ext_iff] at hz
  simp only [Complex.zero_re, Complex.zero_im] at hz
  rw [Vec2.eq_iff]
  constructor <;> linarith [hz.1, hz.2]

/-- Swapping the target endpoints negates both the cosine and the sine of
the solved attachment rotation (the two candidates differ by a rotation
by π). -/
lemma solveAttach_swap_trig (l0 l1 t0 t1 : Vec2) (ht : t0 ≠ t1) (hl : l0 ≠ l1) :
    Real.cos (solveAttach l0 l1 t1 t0).rot = -Real.cos (solveAttach l0 l1 t0 t1).rot
    ∧ Real.sin (solveAttach l0 l1 t1 t0).rot = -Real.sin (solveAttach l0 l1 t0 t1).rot := by
  have hz : (⟨t1.x - t0.x, t1.y - t0.y⟩ : ℂ) ≠ 0 := complex_ne_zero_of_vne _ _ ht
  have hw : (⟨l1.x - l0.x, l1.y - l0.y⟩ : ℂ) ≠ 0 := complex_ne_zero_of_vne _ _ hl
  have hneg : (⟨t0.x - t1.x, t0.y - t1.y⟩ : ℂ) = -(⟨t1.x - t0.x, t1.y - t0.y⟩ : ℂ) := by
    rw [Complex.ext_iff]
    constructor
    · simp only [Complex.neg_re]
      ring
    · simp only [Complex.neg_im]
      ring
  have h1 := cos_sin_arg_sub _ _ hz hw
  have h2 := cos_sin_arg_sub _ _ (neg_ne_zero.2 hz) hw
  have habs : Complex.abs (⟨t1.x - t0.x, t1.y - t0.y⟩ : ℂ) *
      Complex.abs (⟨l1.x - l0.x, l1.y - l0.y⟩ : ℂ) ≠ 0 :=
    mul_ne_zero (Complex.abs.ne_zero hz) (Complex.abs.ne_zero hw)
  simp only [Complex.neg_re, Complex.neg_im, map_neg_eq_map] at h2
  constructor
  · show Real.cos (atan2 (t0.y - t1.y) (t0.x - t1.x) - atan2 (l1.y - l0.y) (l1.x - l0.x))
        = -Real.cos (atan2 (t1.y - t0.y) (t1.x - t0.x) - atan2 (l1.y - l0.y) (l1.x - l0.x))
    unfold atan2
    rw [hneg, h2.1, h1.1]
    field_simp
    ring
  · show Real.sin (atan2 (t0.y - t1.y) (t0.x - t1.x) - atan2 (l1.y - l0.y) (l1.x - l0.x))
        = -Real.sin (atan2 (t1.y - t0.y) (t1.x - t0.x) - atan2 (l1.y - l0.y) (l1.x - l0.x))
    unfold atan2
    rw [hneg, h2.2, h1.2]
    field_simp
    ring

/-- The solved pose maps `v` to `t0 + R(rot)(v - local0)`. -/
lemma applyPose2_solveAttach (l0 l1 t0 t1 v : Vec2) :
    applyPose2 (solveAttach l0 l1 t0 t1) v =
      ⟨t0.x + (v.x - l0.x) * Real.cos (solveAttach l0 l1 t0 t1).rot
            - (v.y - l0.y) * Real.sin (solveAttach l0 l1 t0 t1).rot,
       t0.y + (v.x - l0.x) * Real.sin (solveAttach l0 l1 t0 t1).rot
            + (v.y - l0.y) * Real.cos (solveAttach l0 l1 t0 t1).rot⟩ := by
  simp only [applyPose2, solveAttach]
  rw [Vec2.eq_iff]
  constructor <;> (simp only; ring)

/-- The candidate obtained by swapping the edge endpoints places the
child's remaining vertex on the mirrored side: the child-side test value is
exactly negated. -/
lemma childSide_flip (l0 l1 e0 e1 lopp : Vec2) (ht : e0 ≠ e1) (hl : l0 ≠ l1) :
    cross2 ⟨e1.x - e0.x, e1.y - e0.y⟩
      ⟨(applyPose2 (solveAttach l0 l1 e1 e0) lopp).x - e0.x,
       (applyPose2 (solveAttach l0 l1 e1 e0) lopp).y - e0.y⟩
    = -cross2 ⟨e1.x - e0.x, e1.y - e0.y⟩
      ⟨(applyPose2 (solveAttach l0 l1 e0 e1) lopp).x - e0.x,
       (applyPose2 (solveAttach l0 l1 e0 e1) lopp).y - e0.y⟩ := by
  obtain ⟨hc, hs⟩ := solveAttach_swap_trig l0 l1 e0 e1 ht hl
  rw [applyPose2_solveAttach, applyPose2_solveAttach, hc, hs]
  simp only [cross2]
  ring

lemma attachTriangleAlongEdge_characterization (parent : Pose2) (pe ce : ℕ)
    (tri : List Vec2) (e0 e1 pthird l0 l1 lopp : Vec2)
    (he0 : e0 = (tri.map (applyPose2 parent)).getD (edgeDef pe).1 default)
    (he1 : e1 = (tri.map (applyPose2 parent)).getD (edgeDef pe).2.1 default)
    (hth : pthird = (tri.map (applyPose2 parent)).getD (edgeDef pe).2.2 default)
    (hl0 : l0 = tri.getD (edgeDef ce).1 default)
    (hl1 : l1 = tri.getD (edgeDef ce).2.1 default)
    (hlo : lopp = tri.getD (edgeDef ce).2.2 default) :
    attachTriangleAlongEdge parent pe ce tri =
      if (if cross2 ⟨e1.x - e0.x, e1.y - e0.y⟩ ⟨pthird.x - e0.x, pthird.y - e0.y⟩ = 0
          then cross2 ⟨e1.x - e0.x, e1.y - e0.y⟩
            ⟨(applyPose2 (solveAttach l0 l1 e0 e1) lopp).x - e0.x,
             (applyPose2 (solveAttach l0 l1 e0 e1) lopp).y - e0.y⟩
          else cross2 ⟨e1.x - e0.x, e1.y - e0.y⟩ ⟨pthird.x - e0.x, pthird.y - e0.y⟩ *
            cross2 ⟨e1.x - e0.x, e1.y - e0.y⟩
              ⟨(applyPose2 (solveAttach l0 l1 e0 e1) lopp).x - e0.x,
               (applyPose2 (solveAttach l0 l1 e0 e1) lopp).y - e0.y⟩) < 0
      then solveAttach l0 l1 e0 e1
      else solveAttach l0 l1 e1 e0 := by
  subst he0 he1 hth hl0 hl1 hlo
  rfl

/-- Candidate poses at distinct edge endpoints are distinct (their
rotations differ by π). -/
lemma solveAttach_swap_ne (l0 l1 e0 e1 : Vec2) (ht : e0 ≠ e1) (hl : l0 ≠ l1) :
    solveAttach l0 l1 e1 e0 ≠ solveAttach l0 l1 e0 e1 := by
  intro heq
  obtain ⟨hc, hs⟩ := solveAttach_swap_trig l0 l1 e0 e1 ht hl
  rw [heq] at hc hs
  have hc0 : Real.cos (solveAttach l0 l1 e0 e1).rot = 0 := by linarith
  have hs0 : Real.sin (solveAttach l0 l1 e0 e1).rot = 0 := by linarith
  have := Real.sin_sq_add_cos_sq (solveAttach l0 l1 e0 e1).rot
  rw [hc0, hs0] at this
  norm_num at this

/-- Non-degenerate case of `attachTriangleAlongEdge`: the returned pose
puts the child's opposite vertex strictly on the side of the shared edge
opposite to the parent's third vertex. -/
lemma attachTriangleAlongEdge_opposite (parent : Pose2) (pe ce : ℕ)
    (tri : List Vec2) (e0 e1 pthird l0 l1 lopp : Vec2)
    (he0 : e0 = (tri.map (applyPose2 parent)).getD (edgeDef pe).1 default)
    (he1 : e1 = (tri.map (applyPose2 parent)).getD (edgeDef pe).2.1 default)
    (hth : pthird = (tri.map (applyPose2 parent)).getD (edgeDef pe).2.2 default)
    (hl0 : l0 = tri.getD (edgeDef ce).1 default)
    (hl1 : l1 = tri.getD (edgeDef ce).2.1 default)
    (hlo : lopp = tri.getD (edgeDef ce).2.2 default)
    (hedge : e0 ≠ e1) (hloc : l0 ≠ l1)
    (hps : cross2 ⟨e1.x - e0.x, e1.y - e0.y⟩ ⟨pthird.x - e0.x, pthird.y - e0.y⟩ ≠ 0)
    (hcs : cross2 ⟨e1.x - e0.x, e1.y - e0.y⟩
        ⟨(applyPose2 (solveAttach l0 l1 e0 e1) lopp).x - e0.x,
         (applyPose2 (solveAttach l0 l1 e0 e1) lopp).y - e0.y⟩ ≠ 0) :
    cross2 ⟨e1.x - e0.x, e1.y - e0.y⟩ ⟨pthird.x - e0.x, pthird.y - e0.y⟩ *
      cross2 ⟨e1.x - e0.x, e1.y - e0.y⟩
        ⟨(applyPose2 (attachTriangleAlongEdge parent pe ce tri) lopp).x - e0.x,
         (applyPose2 (attachTriangleAlongEdge parent pe ce tri) lopp).y - e0.y⟩ < 0 := by
  rw [attachTriangleAlongEdge_characterization parent pe ce tri e0 e1 pthird l0 l1 lopp
    he0 he1 hth hl0 hl1 hlo]
  rw [if_neg hps]
  set PS := cross2 ⟨e1.x - e0.x, e1.y - e0.y⟩ ⟨pthird.x - e0.x, pthird.y - e0.y⟩ with hPS
  set CS0 := cross2 ⟨e1.x - e0.x, e1.y - e0.y⟩
      ⟨(applyPose2 (solveAttach l0 l1 e0 e1) lopp).x - e0.x,
       (applyPose2 (solveAttach l0 l1 e0 e1) lopp).y - e0.y⟩ with hCS0
  by_cases hpick : PS * CS0 < 0
  · rw [if_pos hpick]
    exact hpick
  · rw [if_neg hpick]
    have hflip := childSide_flip l0 l1 e0 e1 lopp hedge hloc
    rw [← hCS0] at hflip
    rw [hflip]
    have hne : PS * CS0 ≠ 0 := mul_ne_zero hps hcs
    have hpos : 0 < PS * CS0 := lt_of_le_of_ne (not_lt.1 hpick) (Ne.symm hne)
    nlinarith

/-- Degenerate case of `attachTriangleAlongEdge`: when the parent-side test
is zero the candidate choice follows the sign of the *raw* child-side value
of the first candidate, and an exact tie returns the *second* candidate. -/
lemma attachTriangleAlongEdge_degenerate (parent : Pose2) (pe ce : ℕ)
    (tri : List Vec2) (e0 e1 pthird l0 l1 lopp : Vec2)
    (he0 : e0 = (tri.map (applyPose2 parent)).getD (edgeDef pe).1 default)
    (he1 : e1 = (tri.map (applyPose2 parent)).getD (edgeDef pe).2.1 default)
    (hth : pthird = (tri.map (applyPose2 parent)).getD (edgeDef pe).2.2 default)
    (hl0 : l0 = tri.getD (edgeDef ce).1 default)
    (hl1 : l1 = tri.getD (edgeDef ce).2.1 default)
    (hlo : lopp = tri.getD (edgeDef ce).2.2 default)
    (hedge : e0 ≠ e1) (hloc : l0 ≠ l1)
    (hps : cross2 ⟨e1.x - e0.x, e1.y - e0.y⟩ ⟨pthird.x - e0.x, pthird.y - e0.y⟩ = 0) :
    (cross2 ⟨e1.x - e0.x, e1.y - e0.y⟩
        ⟨(applyPose2 (solveAttach l0 l1 e0 e1) lopp).x - e0.x,
         (applyPose2 (solveAttach l0 l1 e0 e1) lopp).y - e0.y⟩ < 0 →
      attachTriangleAlongEdge parent pe ce tri = solveAttach l0 l1 e0 e1)
    ∧ (0 ≤ cross2 ⟨e1.x - e0.x, e1.y - e0.y⟩
        ⟨(applyPose2 (solveAttach l0 l1 e0 e1) lopp).x - e0.x,
         (applyPose2 (solveAttach l0 l1 e0 e1) lopp).y - e0.y⟩ →
      attachTriangleAlongEdge parent pe ce tri = solveAttach l0 l1 e1 e0
      ∧ attachTriangleAlongEdge parent pe ce tri ≠ solveAttach l0 l1 e0 e1) := by
  rw [attachTriangleAlongEdge_characterization parent pe ce tri e0 e1 pthird l0 l1 lopp
    he0 he1 hth hl0 hl1 hlo]
  rw [if_pos hps]
  constructor
  · intro hneg
    rw [if_pos hneg]
  · intro hge
    rw [if_neg (not_lt.2 hge)]
    exact ⟨rfl, solveAttach_swap_ne l0 l1 e0 e1 hedge hloc⟩

/-- The running x-sum used for the polygon centroids. -/
def sumX (l : List Vec2) : ℝ := l.foldl (fun s v => s + v.x) 0

/-- The running y-sum used for the polygon centroids. -/
def sumY (l : List Vec2) : ℝ := l.foldl (fun s v => s + v.y) 0

lemma foldl_add_proj_shift (f : Vec2 → ℝ) (l : List Vec2) :
    ∀ s, l.foldl (fun s v => s + f v) s = s + l.foldl (fun s v => s + f v) 0 := by
  induction l with
  | nil => intro s; simp
  | cons v l ih =>
      intro s
      simp only [List.foldl_cons]
      rw [ih (s + f v), ih (0 + f v)]
      ring

lemma sumX_map_applyPose2 (cand : Pose2) (poly : List Vec2) :
    sumX (poly.map (applyPose2 cand)) =
      Real.cos cand.rot * sumX poly - Real.sin cand.rot * sumY poly
        + poly.length * cand.pos.x := by
  induction poly with
  | nil => simp [sumX, sumY]
  | cons v l ih =>
      simp only [List.map_cons, sumX, sumY, List.foldl_cons, List.length_cons] at ih ⊢
      rw [foldl_add_proj_shift _ _ (0 + (applyPose2 cand v).x),
          foldl_add_proj_shift (fun v => v.x) l (0 + v.x),
          foldl_add_proj_shift (fun v => v.y) l (0 + v.y)]
      have ihx := ih
      rw [show ((l.map (applyPose2 cand)).foldl (fun s v => s + v.x) 0) =
        Real.cos cand.rot * (l.foldl (fun s v => s + v.x) 0)
          - Real.sin cand.rot * (l.foldl (fun s v => s + v.y) 0)
          + l.length * cand.pos.x from ihx]
      simp only [applyPose2]
      push_cast
      ring

lemma sumY_map_applyPose2 (cand : Pose2) (poly : List Vec2) :
    sumY (poly.map (applyPose2 cand)) =
      Real.sin cand.rot * sumX poly + Real.cos cand.rot * sumY poly
        + poly.length * cand.pos.y := by
  induction poly with
  | nil => simp [sumX, sumY]
  | cons v l ih =>
      simp only [List.map_cons, sumX, sumY, List.foldl_cons, List.length_cons] at ih ⊢
      rw [foldl_add_proj_shift _ _ (0 + (applyPose2 cand v).y),
          foldl_add_proj_shift (fun v => v.x) l (0 + v.x),
          foldl_add_proj_shift (fun v => v.y) l (0 + v.y)]
      rw [show ((l.map (applyPose2 cand)).foldl (fun s v => s + v.y) 0) =
        Real.sin cand.rot * (l.foldl (fun s v => s + v.x) 0)
          + Real.cos cand.rot * (l.foldl (fun s v => s + v.y) 0)
          + l.length * cand.pos.y from ih]
      simp only [applyPose2]
      push_cast
      ring

lemma solveAttach_pos (l0 l1 t0 t1 : Vec2) :
    (solveAttach l0 l1 t0 t1).pos =
      ⟨t0.x - (l0.x * Real.cos (solveAttach l0 l1 t0 t1).rot
              - l0.y * Real.sin (solveAttach l0 l1 t0 t1).rot),
       t0.y - (l0.x * Real.sin (solveAttach l0 l1 t0 t1).rot
              + l0.y * Real.cos (solveAttach l0 l1 t0 t1).rot)⟩ := rfl

/-- The polygon-centroid side test is exactly negated between the two
candidates. -/
lemma polySide_flip (l0 l1 e0 e1 : Vec2) (poly : List Vec2)
    (hn : (poly.length : ℝ) ≠ 0) (ht : e0 ≠ e1) (hl : l0 ≠ l1) :
    cross2 ⟨e1.x - e0.x, e1.y - e0.y⟩
      ⟨sumX (poly.map (applyPose2 (solveAttach l0 l1 e1 e0))) / poly.length - e0.x,
       sumY (poly.map (applyPose2 (solveAttach l0 l1 e1 e0))) / poly.length - e0.y⟩
    = -cross2 ⟨e1.x - e0.x, e1.y - e0.y⟩
      ⟨sumX (poly.map (applyPose2 (solveAttach l0 l1 e0 e1))) / poly.length - e0.x,
       sumY (poly.map (applyPose2 (solveAttach l0 l1 e0 e1))) / poly.length - e0.y⟩ := by
  obtain ⟨hc, hs⟩ := solveAttach_swap_trig l0 l1 e0 e1 ht hl
  rw [sumX_map_applyPose2, sumY_map_applyPose2, sumX_map_applyPose2, sumY_map_applyPose2,
    solveAttach_pos, solveAttach_pos, hc, hs]
  simp only [cross2]
  field_simp
  ring

lemma attachPolygonAlongEdge_characterization (parent : Pose2) (pe ce : ℕ)
    (poly : List Vec2) (hn : 3 ≤ poly.length) (e0 e1 l0 l1 : Vec2)
    (he0 : e0 = (poly.map (applyPose2 parent)).getD (pe % poly.length) default)
    (he1 : e1 = (poly.map (applyPose2 parent)).getD ((pe + 1) % poly.length) default)
    (hl0 : l0 = poly.getD (ce % poly.length) default)
    (hl1 : l1 = poly.getD ((ce + 1) % poly.length) default) :
    attachPolygonAlongEdge parent pe ce poly =
      if (if cross2 ⟨e1.x - e0.x, e1.y - e0.y⟩
            ⟨sumX (poly.map (applyPose2 parent)) / poly.length - e0.x,
             sumY (poly.map (applyPose2 parent)) / poly.length - e0.y⟩ = 0
          then cross2 ⟨e1.x - e0.x, e1.y - e0.y⟩
            ⟨sumX (poly.map (applyPose2 (solveAttach l0 l1 e0 e1))) / poly.length - e0.x,
             sumY (poly.map (applyPose2 (solveAttach l0 l1 e0 e1))) / poly.length - e0.y⟩
          else cross2 ⟨e1.x - e0.x, e1.y - e0.y⟩
            ⟨sumX (poly.map (applyPose2 parent)) / poly.length - e0.x,
             sumY (poly.map (applyPose2 parent)) / poly.length - e0.y⟩ *
            cross2 ⟨e1.x - e0.x, e1.y - e0.y⟩
            ⟨sumX (poly.map (applyPose2 (solveAttach l0 l1 e0 e1))) / poly.length - e0.x,
             sumY (poly.map (applyPose2 (solveAttach l0 l1 e0 e1))) / poly.length - e0.y⟩) < 0
      then solveAttach l0 l1 e0 e1
      else solveAttach l0 l1 e1 e0 := by
  subst he0 he1 hl0 hl1
  unfold attachPolygonAlongEdge
  rw [if_neg (by omega)]
  rfl

/-- Non-degenerate case of `attachPolygonAlongEdge`: the returned pose puts
the child's centroid strictly on the side of the shared edge opposite to
the parent's centroid. -/
lemma attachPolygonAlongEdge_opposite (parent : Pose2) (pe ce : ℕ)
    (poly : List Vec2) (hn : 3 ≤ poly.length) (e0 e1 l0 l1 : Vec2)
    (he0 : e0 = (poly.map (applyPose2 parent)).getD (pe % poly.length) default)
    (he1 : e1 = (poly.map (applyPose2 parent)).getD ((pe + 1) % poly.length) default)
    (hl0 : l0 = poly.getD (ce % poly.length) default)
    (hl1 : l1 = poly.getD ((ce + 1) % poly.length) default)
    (hedge : e0 ≠ e1) (hloc : l0 ≠ l1)
    (hps : cross2 ⟨e1.x - e0.x, e1.y - e0.y⟩
      ⟨sumX (poly.map (applyPose2 parent)) / poly.length - e0.x,
       sumY (poly.map (applyPose2 parent)) / poly.length - e0.y⟩ ≠ 0)
    (hcs : cross2 ⟨e1.x - e0.x, e1.y - e0.y⟩
      ⟨sumX (poly.map (applyPose2 (solveAttach l0 l1 e0 e1))) / poly.length - e0.x,
       sumY (poly.map (applyPose2 (solveAttach l0 l1 e0 e1))) / poly.length - e0.y⟩ ≠ 0) :
    cross2 ⟨e1.x - e0.x, e1.y - e0.y⟩
      ⟨sumX (poly.map (applyPose2 parent)) / poly.length - e0.x,
       sumY (poly.map (applyPose2 parent)) / poly.length - e0.y⟩ *
    cross2 ⟨e1.x - e0.x, e1.y - e0.y⟩
      ⟨sumX (poly.map (applyPose2 (attachPolygonAlongEdge parent pe ce poly))) / poly.length - e0.x,
       sumY (poly.map (applyPose2 (attachPolygonAlongEdge parent pe ce poly))) / poly.length - e0.y⟩
      < 0 := by
  rw [attachPolygonAlongEdge_characterization parent pe ce poly hn e0 e1 l0 l1 he0 he1 hl0 hl1]
  rw [if_neg hps]
  have hn0 : (poly.length : ℝ) ≠ 0 := by
    have : 0 < poly.length := by omega
    exact_mod_cast this.ne'
  by_cases hpick : cross2 ⟨e1.x - e0.x, e1.y - e0.y⟩
      ⟨sumX (poly.map (applyPose2 parent)) / poly.length - e0.x,
       sumY (poly.map (applyPose2 parent)) / poly.length - e0.y⟩ *
      cross2 ⟨e1.x - e0.x, e1.y - e0.y⟩
      ⟨sumX (poly.map (applyPose2 (solveAttach l0 l1 e0 e1))) / poly.length - e0.x,
       sumY (poly.map (applyPose2 (solveAttach l0 l1 e0 e1))) / poly.length - e0.y⟩ < 0
  · rw [if_pos hpick]
    exact hpick
  · rw [if_neg hpick]
    rw [polySide_flip l0 l1 e0 e1 poly hn0 hedge hloc]
    have hpos : 0 < cross2 ⟨e1.x - e0.x, e1.y - e0.y⟩
        ⟨sumX (poly.map (applyPose2 parent)) / poly.length - e0.x,
         sumY (poly.map (applyPose2 parent)) / poly.length - e0.y⟩ *
        cross2 ⟨e1.x - e0.x, e1.y - e0.y⟩
        ⟨sumX (poly.map (applyPose2 (solveAttach l0 l1 e0 e1))) / poly.length - e0.x,
         sumY (poly.map (applyPose2 (solveAttach l0 l1 e0 e1))) / poly.length - e0.y⟩ :=
      lt_of_le_of_ne (not_lt.1 hpick) (Ne.symm (mul_ne_zero hps hcs))
    nlinarith

/-- Degenerate case of `attachPolygonAlongEdge`: tie goes to the second
candidate; a zero parent side follows the raw sign of the first
candidate's side value. -/
lemma attachPolygonAlongEdge_degenerate (parent : Pose2) (pe ce : ℕ)
    (poly : List Vec2) (hn : 3 ≤ poly.length) (e0 e1 l0 l1 : Vec2)
    (he0 : e0 = (poly.map (applyPose2 parent)).getD (pe % poly.length) default)
    (he1 : e1 = (poly.map (applyPose2 parent)).getD ((pe + 1) % poly.length) default)
    (hl0 : l0 = poly.getD (ce % poly.length) default)
    (hl1 : l1 = poly.getD ((ce + 1) % poly.length) default)
    (hedge : e0 ≠ e1) (hloc : l0 ≠ l1)
    (hps : cross2 ⟨e1.x - e0.x, e1.y - e0.y⟩
      ⟨sumX (poly.map (applyPose2 parent)) / poly.length - e0.x,
       sumY (poly.map (applyPose2 parent)) / poly.length - e0.y⟩ = 0) :
    (cross2 ⟨e1.x - e0.x, e1.y - e0.y⟩
      ⟨sumX (poly.map (applyPose2 (solveAttach l0 l1 e0 e1))) / poly.length - e0.x,
       sumY (poly.map (applyPose2 (solveAttach l0 l1 e0 e1))) / poly.length - e0.y⟩ < 0 →
      attachPolygonAlongEdge parent pe ce poly = solveAttach l0 l1 e0 e1)
    ∧ (0 ≤ cross2 ⟨e1.x - e0.x, e1.y - e0.y⟩
      ⟨sumX (poly.map (applyPose2 (solveAttach l0 l1 e0 e1))) / poly.length - e0.x,
       sumY (poly.map (applyPose2 (solveAttach l0 l1 e0 e1))) / poly.length - e0.y⟩ →
      attachPolygonAlongEdge parent pe ce poly = solveAttach l0 l1 e1 e0
      ∧ attachPolygonAlongEdge parent pe ce poly ≠ solveAttach l0 l1 e0 e1) := by
  rw [attachPolygonAlongEdge_characterization parent pe ce poly hn e0 e1 l0 l1 he0 he1 hl0 hl1]
  rw [if_pos hps]
  constructor
  · intro hneg
    rw [if_pos hneg]
  · intro hge
    rw [if_neg (not_lt.2 hge)]
    exact ⟨rfl, solveAttach_swap_ne l0 l1 e0 e1 hedge hloc⟩

/-- The non-degenerate triangle selection contract (statement of
`attachTriangleAlongEdge_opposite`). -/
def TriangleOppositeSelection : Prop :=
  ∀ (parent : Pose2) (pe ce : ℕ) (tri : List Vec2) (e0 e1 pthird l0 l1 lopp : Vec2),
    e0 = (tri.map (applyPose2 parent)).getD (edgeDef pe).1 default →
    e1 = (tri.map (applyPose2 parent)).getD (edgeDef pe).2.1 default →
    pthird = (tri.map (applyPose2 parent)).getD (edgeDef pe).2.2 default →
    l0 = tri.getD (edgeDef ce).1 default →
    l1 = tri.getD (edgeDef ce).2.1 default →
    lopp = tri.getD (edgeDef ce).2.2 default →
    e0 ≠ e1 → l0 ≠ l1 →
    cross2 ⟨e1.x - e0.x, e1.y - e0.y⟩ ⟨pthird.x - e0.x, pthird.y - e0.y⟩ ≠ 0 →
    cross2 ⟨e1.x - e0.x, e1.y - e0.y⟩
      ⟨(applyPose2 (solveAttach l0 l1 e0 e1) lopp).x - e0.x,
       (applyPose2 (solveAttach l0 l1 e0 e1) lopp).y - e0.y⟩ ≠ 0 →
    cross2 ⟨e1.x - e0.x, e1.y - e0.y⟩ ⟨pthird.x - e0.x, pthird.y - e0.y⟩ *
      cross2 ⟨e1.x - e0.x, e1.y - e0.y⟩
        ⟨(applyPose2 (attachTriangleAlongEdge parent pe ce tri) lopp).x - e0.x,
         (applyPose2 (attachTriangleAlongEdge parent pe ce tri) lopp).y - e0.y⟩ < 0

/-- The non-degenerate polygon selection contract (statement of
`attachPolygonAlongEdge_opposite`). -/
def PolygonOppositeSelection : Prop :=
  ∀ (parent : Pose2) (pe ce : ℕ) (poly : List Vec2), 3 ≤ poly.length →
    ∀ e0 e1 l0 l1 : Vec2,
    e0 = (poly.map (applyPose2 parent)).getD (pe % poly.length) default →
    e1 = (poly.map (applyPose2 parent)).getD ((pe + 1) % poly.length) default →
    l0 = poly.getD (ce % poly.length) default →
    l1 = poly.getD ((ce + 1) % poly.length) default →
    e0 ≠ e1 → l0 ≠ l1 →
    cross2 ⟨e1.x - e0.x, e1.y - e0.y⟩
      ⟨sumX (poly.map (applyPose2 parent)) / poly.length - e0.x,
       sumY (poly.map (applyPose2 parent)) / poly.length - e0.y⟩ ≠ 0 →
    cross2 ⟨e1.x - e0.x, e1.y - e0.y⟩
      ⟨sumX (poly.map (applyPose2 (solveAttach l0 l1 e0 e1))) / poly.length - e0.x,
       sumY (poly.map (applyPose2 (solveAttach l0 l1 e0 e1))) / poly.length - e0.y⟩ ≠ 0 →
    cross2 ⟨e1.x - e0.x, e1.y - e0.y⟩
      ⟨sumX (poly.map (applyPose2 parent)) / poly.length - e0.x,
       sumY (poly.map (applyPose2 parent)) / poly.length - e0.y⟩ *
    cross2 ⟨e1.x - e0.x, e1.y - e0.y⟩
      ⟨sumX (poly.map (applyPose2 (attachPolygonAlongEdge parent pe ce poly))) / poly.length
          - e0.x,
       sumY (poly.map (applyPose2 (attachPolygonAlongEdge parent pe ce poly))) / poly.length
          - e0.y⟩ < 0

/-- The corrected triangle tie rule (statement of
`attachTriangleAlongEdge_degenerate`). -/
def TriangleDegenerateTie : Prop :=
  ∀ (parent : Pose2) (pe ce : ℕ) (tri : List Vec2) (e0 e1 pthird l0 l1 lopp : Vec2),
    e0 = (tri.map (applyPose2 parent)).getD (edgeDef pe).1 default →
    e1 = (tri.map (applyPose2 parent)).getD (edgeDef pe).2.1 default →
    pthird = (tri.map (applyPose2 parent)).getD (edgeDef pe).2.2 default →
    l0 = tri.getD (edgeDef ce).1 default →
    l1 = tri.getD (edgeDef ce).2.1 default →
    lopp = tri.getD (edgeDef ce).2.2 default →
    e0 ≠ e1 → l0 ≠ l1 →
    cross2 ⟨e1.x - e0.x, e1.y - e0.y⟩ ⟨pthird.x - e0.x, pthird.y - e0.y⟩ = 0 →
    (cross2 ⟨e1.x - e0.x, e1.y - e0.y⟩
        ⟨(applyPose2 (solveAttach l0 l1 e0 e1) lopp).x - e0.x,
         (applyPose2 (solveAttach l0 l1 e0 e1) lopp).y - e0.y⟩ < 0 →
      attachTriangleAlongEdge parent pe ce tri = solveAttach l0 l1 e0 e1)
    ∧ (0 ≤ cross2 ⟨e1.x - e0.x, e1.y - e0.y⟩
        ⟨(applyPose2 (solveAttach l0 l1 e0 e1) lopp).x - e0.x,
         (applyPose2 (solveAttach l0 l1 e0 e1) lopp).y - e0.y⟩ →
      attachTriangleAlongEdge parent pe ce tri = solveAttach l0 l1 e1 e0
      ∧ attachTriangleAlongEdge parent pe ce tri ≠ solveAttach l0 l1 e0 e1)

/-- The corrected polygon tie rule (statement of
`attachPolygonAlongEdge_degenerate`). -/
def PolygonDegenerateTie : Prop :=
  ∀ (parent : Pose2) (pe ce : ℕ) (poly : List Vec2), 3 ≤ poly.length →
    ∀ e0 e1 l0 l1 : Vec2,
    e0 = (poly.map (applyPose2 parent)).getD (pe % poly.length) default →
    e1 = (poly.map (applyPose2 parent)).getD ((pe + 1) % poly.length) default →
    l0 = poly.getD (ce % poly.length) default →
    l1 = poly.getD ((ce + 1) % poly.length) default →
    e0 ≠ e1 → l0 ≠ l1 →
    cross2 ⟨e1.x - e0.x, e1.y - e0.y⟩
      ⟨sumX (poly.map (applyPose2 parent)) / poly.length - e0.x,
       sumY (poly.map (applyPose2 parent)) / poly.length - e0.y⟩ = 0 →
    (cross2 ⟨e1.x - e0.x, e1.y - e0.y⟩
      ⟨sumX (poly.map (applyPose2 (solveAttach l0 l1 e0 e1))) / poly.length - e0.x,
       sumY (poly.map (applyPose2 (solveAttach l0 l1 e0 e1))) / poly.length - e0.y⟩ < 0 →
      attachPolygonAlongEdge parent pe ce poly = solveAttach l0 l1 e0 e1)
    ∧ (0 ≤ cross2 ⟨e1.x - e0.x, e1.y - e0.y⟩
      ⟨sumX (poly.map (applyPose2 (solveAttach l0 l1 e0 e1))) / poly.length - e0.x,
       sumY (poly.map (applyPose2 (solveAttach l0 l1 e0 e1))) / poly.length - e0.y⟩ →
      attachPolygonAlongEdge parent pe ce poly = solveAttach l0 l1 e1 e0
      ∧ attachPolygonAlongEdge parent pe ce poly ≠ solveAttach l0 l1 e0 e1)

/-- **C2 (amended).** With a non-degenerate already-placed parent and
non-degenerate side tests, both attach functions return the candidate whose
remaining geometry (triangle: opposite vertex; polygon: centroid) lies
strictly on the side of the shared edge opposite the parent's interior
point.  When the side test is degenerate the *second* candidate is
returned on an exact tie, and a zero parent side follows the sign of the
first candidate's raw child-side value (first candidate iff negative) —
not "always the first candidate" as originally claimed. -/
theorem attach_opposite_side_selection :
    TriangleOppositeSelection ∧ PolygonOppositeSelection
    ∧ TriangleDegenerateTie ∧ PolygonDegenerateTie := by
  refine ⟨?_, ?_, ?_, ?_⟩
  · intro parent pe ce tri e0 e1 pthird l0 l1 lopp he0 he1 hth hl0 hl1 hlo hedge hloc hps hcs
    exact attachTriangleAlongEdge_opposite parent pe ce tri e0 e1 pthird l0 l1 lopp
      he0 he1 hth hl0 hl1 hlo hedge hloc hps hcs
  · intro parent pe ce poly hn e0 e1 l0 l1 he0 he1 hl0 hl1 hedge hloc hps hcs
    exact attachPolygonAlongEdge_opposite parent pe ce poly hn e0 e1 l0 l1
      he0 he1 hl0 hl1 hedge hloc hps hcs
  · intro parent pe ce tri e0 e1 pthird l0 l1 lopp he0 he1 hth hl0 hl1 hlo hedge hloc hps
    exact attachTriangleAlongEdge_degenerate parent pe ce tri e0 e1 pthird l0 l1 lopp
      he0 he1 hth hl0 hl1 hlo hedge hloc hps
  · intro parent pe ce poly hn e0 e1 l0 l1 he0 he1 hl0 hl1 hedge hloc hps
    exact attachPolygonAlongEdge_degenerate parent pe ce poly hn e0 e1 l0 l1
      he0 he1 hl0 hl1 hedge hloc hps

lemma applyPose2_id_zero (v : Vec2) : applyPose2 ⟨⟨0, 0⟩, 0⟩ v = v := by
  cases v
  simp [applyPose2, Real.cos_zero, Real.sin_zero]

lemma solveAttach_unit_id : solveAttach ⟨0, 0⟩ ⟨1, 0⟩ ⟨0, 0⟩ ⟨1, 0⟩ = ⟨⟨0, 0⟩, 0⟩ := by
  unfold solveAttach
  rw [Pose2.mk.injEq]
  constructor
  · rw [Vec2.eq_iff]
    constructor <;> (simp only; ring)
  · simp only
    ring

/-- **C2 counterexample.** On the fully collinear degenerate input
`tri = [(0,0),(1,0),(2,0)]` with the identity parent pose, the side test is
degenerate (zero cross products), yet `attachTriangleAlongEdge` returns the
*second* candidate (the endpoint-swapped solve), which differs from the
first candidate — contradicting the claim that a degenerate tie returns
the first candidate. -/
theorem attachTriangle_degenerate_returns_second_counterexample :
    cross2 ⟨(1 : ℝ) - 0, 0 - 0⟩ ⟨(2 : ℝ) - 0, 0 - 0⟩ = 0
    ∧ attachTriangleAlongEdge ⟨⟨0, 0⟩, 0⟩ 0 0 [⟨0, 0⟩, ⟨1, 0⟩, ⟨2, 0⟩]
        = solveAttach ⟨0, 0⟩ ⟨1, 0⟩ ⟨1, 0⟩ ⟨0, 0⟩
    ∧ solveAttach ⟨0, 0⟩ ⟨1, 0⟩ ⟨1, 0⟩ ⟨0, 0⟩ ≠ solveAttach ⟨0, 0⟩ ⟨1, 0⟩ ⟨0, 0⟩ ⟨1, 0⟩ := by
  have hmap : ([⟨0, 0⟩, ⟨1, 0⟩, ⟨2, 0⟩] : List Vec2).map (applyPose2 ⟨⟨0, 0⟩, 0⟩)
      = [⟨0, 0⟩, ⟨1, 0⟩, ⟨2, 0⟩] := by
    simp [applyPose2_id_zero]
  have hne01 : (⟨0, 0⟩ : Vec2) ≠ ⟨1, 0⟩ := by
    rw [Ne, Vec2.eq_iff]
    norm_num
  have hcross0 : cross2 ⟨(1 : ℝ) - 0, 0 - 0⟩ ⟨(2 : ℝ) - 0, 0 - 0⟩ = 0 := by
    simp [cross2]
  have hdeg := attachTriangleAlongEdge_degenerate ⟨⟨0, 0⟩, 0⟩ 0 0
    [⟨0, 0⟩, ⟨1, 0⟩, ⟨2, 0⟩] ⟨0, 0⟩ ⟨1, 0⟩ ⟨2, 0⟩ ⟨0, 0⟩ ⟨1, 0⟩ ⟨2, 0⟩
    (by rw [hmap]; rfl) (by rw [hmap]; rfl) (by rw [hmap]; rfl)
    rfl rfl rfl hne01 hne01 hcross0
  have hcs0 : cross2 ⟨(1 : ℝ) - 0, 0 - 0⟩
      ⟨(applyPose2 (solveAttach ⟨0, 0⟩ ⟨1, 0⟩ ⟨0, 0⟩ ⟨1, 0⟩) ⟨2, 0⟩).x - (0 : ℝ),
       (applyPose2 (solveAttach ⟨0, 0⟩ ⟨1, 0⟩ ⟨0, 0⟩ ⟨1, 0⟩) ⟨2, 0⟩).y - 0⟩ = 0 := by
    rw [solveAttach_unit_id, applyPose2_id_zero]
    simp [cross2]
  obtain ⟨hres, _⟩ := hdeg.2 (le_of_eq hcs0.symm)
  exact ⟨hcross0, hres, solveAttach_swap_ne ⟨0, 0⟩ ⟨1, 0⟩ ⟨0, 0⟩ ⟨1, 0⟩ hne01 hne01⟩

/-- Witness for C2 at a concrete non-degenerate input: the unit right
triangle attached across its bottom edge ends up with its apex strictly
below the edge, opposite the parent's apex. -/
theorem attach_opposite_side_selection_witness :
    ((⟨0, 0⟩ : Vec2) ≠ ⟨1, 0⟩)
    ∧ cross2 ⟨(1 : ℝ) - 0, 0 - 0⟩ ⟨(0 : ℝ) - 0, 1 - 0⟩ ≠ 0
    ∧ cross2 ⟨(1 : ℝ) - 0, 0 - 0⟩ ⟨(0 : ℝ) - 0, 1 - 0⟩ *
      cross2 ⟨(1 : ℝ) - 0, 0 - 0⟩
        ⟨(applyPose2 (attachTriangleAlongEdge ⟨⟨0, 0⟩, 0⟩ 0 0 [⟨0, 0⟩, ⟨1, 0⟩, ⟨0, 1⟩])
            ⟨0, 1⟩).x - 0,
         (applyPose2 (attachTriangleAlongEdge ⟨⟨0, 0⟩, 0⟩ 0 0 [⟨0, 0⟩, ⟨1, 0⟩, ⟨0, 1⟩])
            ⟨0, 1⟩).y - 0⟩ < 0 := by
  have hmap : ([⟨0, 0⟩, ⟨1, 0⟩, ⟨0, 1⟩] : List Vec2).map (applyPose2 ⟨⟨0, 0⟩, 0⟩)
      = [⟨0, 0⟩, ⟨1, 0⟩, ⟨0, 1⟩] := by
    simp [applyPose2_id_zero]
  have hne01 : (⟨0, 0⟩ : Vec2) ≠ ⟨1, 0⟩ := by
    rw [Ne, Vec2.eq_iff]
    norm_num
  have hps : cross2 ⟨(1 : ℝ) - 0, 0 - 0⟩ ⟨(0 : ℝ) - 0, 1 - 0⟩ ≠ 0 := by
    simp [cross2]
  have hcs : cross2 ⟨(1 : ℝ) - 0, 0 - 0⟩
      ⟨(applyPose2 (solveAttach ⟨0, 0⟩ ⟨1, 0⟩ ⟨0, 0⟩ ⟨1, 0⟩) ⟨0, 1⟩).x - (0 : ℝ),
       (applyPose2 (solveAttach ⟨0, 0⟩ ⟨1, 0⟩ ⟨0, 0⟩ ⟨1, 0⟩) ⟨0, 1⟩).y - 0⟩ ≠ 0 := by
    rw [solveAttach_unit_id, applyPose2_id_zero]
    simp [cross2]
  exact ⟨hne01, hps,
    attach_opposite_side_selection.1 ⟨⟨0, 0⟩, 0⟩ 0 0 [⟨0, 0⟩, ⟨1, 0⟩, ⟨0, 1⟩]
      ⟨0, 0⟩ ⟨1, 0⟩ ⟨0, 1⟩ ⟨0, 0⟩ ⟨1, 0⟩ ⟨0, 1⟩
      (by rw [hmap]; rfl) (by rw [hmap]; rfl) (by rw [hmap]; rfl)
      rfl rfl rfl hne01 hne01 hps hcs⟩

/-! ## Claim C8: the cube definition at edge length 1.6 -/

lemma qFromEuler_zero : qFromEuler 0 0 0 = Quat.one := by
  unfold qFromEuler Quat.setFromEuler Quat.one
  norm_num

/-- **C8.** At edge length 1.6 the cube's net is six unrotated
(identity-quaternion) squares in the cross arrangement centred at the
origin (mean of positions zero), and the folded cube's six face centroids
sit at distance `edge/2 = 0.8` from the origin along exactly one
coordinate axis each. -/
theorem createCubeDef_spec :
    ((createCubeDef 1.6).net.map (fun p => p.quaternion) = List.replicate 6 Quat.one)
    ∧ (createCubeDef 1.6).net.map (fun p => p.position) =
        [⟨-(8 / 15), 0, 0⟩, ⟨-(32 / 15), 0, 0⟩, ⟨16 / 15, 0, 0⟩, ⟨8 / 3, 0, 0⟩,
         ⟨-(8 / 15), 8 / 5, 0⟩, ⟨-(8 / 15), -(8 / 5), 0⟩]
    ∧ posesCenter (createCubeDef 1.6).net = Vec3.zero
    ∧ (createCubeDef 1.6).folded.map (fun p => p.position) =
        [⟨0, 0, 4 / 5⟩, ⟨-(4 / 5), 0, 0⟩, ⟨4 / 5, 0, 0⟩, ⟨0, 0, -(4 / 5)⟩,
         ⟨0, 4 / 5, 0⟩, ⟨0, -(4 / 5), 0⟩]
    ∧ ∀ p ∈ (createCubeDef 1.6).folded, p.position.length = 1.6 / 2 := by
  have hnet : (createCubeDef 1.6).net =
      [⟨⟨-(8 / 15), 0, 0⟩, Quat.one⟩, ⟨⟨-(32 / 15), 0, 0⟩, Quat.one⟩,
       ⟨⟨16 / 15, 0, 0⟩, Quat.one⟩, ⟨⟨8 / 3, 0, 0⟩, Quat.one⟩,
       ⟨⟨-(8 / 15), 8 / 5, 0⟩, Quat.one⟩, ⟨⟨-(8 / 15), -(8 / 5), 0⟩, Quat.one⟩] := by
    show centerPoses _ = _
    rw [qFromEuler_zero]
    unfold centerPoses
    norm_num [Vec3.add, Vec3.sub, Vec3.smul, Vec3.zero]
  refine ⟨?_, ?_, ?_, ?_, ?_⟩
  · rw [hnet]; rfl
  · rw [hnet]; rfl
  · rw [hnet]
    unfold posesCenter
    norm_num [Vec3.add, Vec3.smul, Vec3.zero]
  · norm_num [createCubeDef]
  · intro p hp
    fin_cases hp <;>
      · simp only [Vec3.length]
        conv_rhs => rw [← Real.sqrt_sq (show (0 : ℝ) ≤ 1.6 / 2 by norm_num)]
        congr 1
        norm_num

/-- Witness for C8: the top folded face is a member and sits at distance
`edge/2`. -/
theorem createCubeDef_spec_witness :
    (⟨⟨0, 0, 1.6 / 2⟩, qFromEuler 0 0 0⟩ : FacePose) ∈ (createCubeDef 1.6).folded
    ∧ (⟨⟨0, 0, 1.6 / 2⟩, qFromEuler 0 0 0⟩ : FacePose).position.length = 1.6 / 2 := by
  have hmem : (⟨⟨0, 0, 1.6 / 2⟩, qFromEuler 0 0 0⟩ : FacePose) ∈ (createCubeDef 1.6).folded := by
    show _ ∈ _ :: _
    exact List.mem_cons_self _ _
  exact ⟨hmem, createCubeDef_spec.2.2.2.2 _ hmem⟩

/-! ## Claim C9: determinism and grouping-order independence -/

/-- The outward-oriented unit normal of one triangulated dodecahedron
triangle (the per-triangle computation inside `makeDodecaFolded`). -/
def dodecaTriNormal (uv : List Vec3) (tri : ℕ × ℕ × ℕ) : Vec3 :=
  let v0 := uv.getD tri.1 Vec3.zero
  let v1 := uv.getD tri.2.1 Vec3.zero
  let v2 := uv.getD tri.2.2 Vec3.zero
  let n0 := (v1.sub v0).cross (v2.sub v0)
  let centroid := Vec3.smul (1 / 3) ((v0.add v1).add v2)
  let n1 := if n0.dot centroid < 0 then n0.neg else n0
  n1.normalize

/-- The quantized normal key of one triangle. -/
def dodecaTriKey (uv : List Vec3) (tri : ℕ × ℕ × ℕ) : ℤ × ℤ × ℤ :=
  (round ((dodecaTriNormal uv tri).x * 1000), round ((dodecaTriNormal uv tri).y * 1000),
   round ((dodecaTriNormal uv tri).z * 1000))

lemma dodecaGroups_eq_fold (uv : List Vec3) (tris : List (ℕ × ℕ × ℕ)) :
    dodecaGroups uv tris =
      tris.foldl (fun gs tri => groupPush gs (dodecaTriKey uv tri) tri
        (dodecaTriNormal uv tri)) [] := rfl

/-- Vector sum of a list (for the accumulated group normals). -/
def vecSum (l : List Vec3) : Vec3 := l.foldl Vec3.add Vec3.zero

lemma vecSum_eq_components (l : List Vec3) :
    vecSum l = ⟨(l.map Vec3.x).sum, (l.map Vec3.y).sum, (l.map Vec3.z).sum⟩ := by
  unfold vecSum
  induction l with
  | nil => rfl
  | cons v l ih =>
      simp only [List.foldl_cons, List.map_cons, List.sum_cons]
      rw [show (Vec3.zero.add v) = v by
        cases v; simp [Vec3.zero, Vec3.add]]
      rw [show List.foldl Vec3.add v l = (List.foldl Vec3.add Vec3.zero l).add v by
        clear ih
        induction l generalizing v with
        | nil => cases v; simp [Vec3.zero, Vec3.add]
        | cons w l ihl =>
            simp only [List.foldl_cons]
            rw [ihl (v.add w), ihl (Vec3.zero.add w)]
            cases v; cases w; cases List.foldl Vec3.add Vec3.zero l
            simp only [Vec3.add, Vec3.zero, Vec3.mk.injEq]
            refine ⟨by ring, by ring, by ring⟩]
      rw [ih]
      cases List.foldl Vec3.add Vec3.zero l
      simp only [Vec3.add, Vec3.mk.injEq]
      refine ⟨by ring, by ring, by ring⟩

lemma groupPush_keys (m : List ((ℤ × ℤ × ℤ) × NormalGroup)) (k : ℤ × ℤ × ℤ)
    (tri : ℕ × ℕ × ℕ) (n : Vec3) :
    (groupPush m k tri n).map Prod.fst =
      if k ∈ m.map Prod.fst then m.map Prod.fst else m.map Prod.fst ++ [k] := by
  induction m with
  | nil => simp [groupPush]
  | cons kv m ih =>
      obtain ⟨k', g⟩ := kv
      by_cases hk : k' = k
      · subst hk
        simp [groupPush]
      · simp only [groupPush, if_neg hk, List.map_cons]
        rw [ih]
        by_cases hmem : k ∈ m.map Prod.fst
        · simp [hmem, Ne.symm hk]
        · simp [hmem, Ne.symm hk, hk]

lemma groupPush_mem_cases (m : List ((ℤ × ℤ × ℤ) × NormalGroup)) (k : ℤ × ℤ × ℤ)
    (tri : ℕ × ℕ × ℕ) (n : Vec3) (hnd : (m.map Prod.fst).Nodup) :
    ∀ kg ∈ groupPush m k tri n,
      (kg ∈ m ∧ kg.1 ≠ k)
      ∨ (∃ g : NormalGroup, (k, g) ∈ m ∧ kg = (k, ⟨g.tris ++ [tri], g.normal.add n⟩))
      ∨ (k ∉ m.map Prod.fst ∧ kg = (k, ⟨[tri], n⟩)) := by
  induction m with
  | nil =>
      intro kg hkg
      simp [groupPush] at hkg
      exact Or.inr (Or.inr ⟨by simp, by simp [hkg]⟩)
  | cons kv m ih =>
      obtain ⟨k', g'⟩ := kv
      simp only [List.map_cons, List.nodup_cons] at hnd
      intro kg hkg
      by_cases hk : k' = k
      · subst hk
        simp only [groupPush, if_pos rfl] at hkg
        rcases List.mem_cons.1 hkg with h | h
        · exact Or.inr (Or.inl ⟨g', List.mem_cons_self _ _, h⟩)
        · have hne : kg.1 ≠ k' := by
            intro he
            exact hnd.1 (he ▸ List.mem_map_of_mem Prod.fst h)
          exact Or.inl ⟨List.mem_cons_of_mem _ h, hne⟩
      · simp only [groupPush, if_neg hk] at hkg
        rcases List.mem_cons.1 hkg with h | h
        · subst h
          exact Or.inl ⟨List.mem_cons_self _ _, hk⟩
        · rcases ih hnd.2 kg h with h1 | h2 | h3
          · exact Or.inl ⟨List.mem_cons_of_mem _ h1.1, h1.2⟩
          · obtain ⟨g, hg, he⟩ := h2
            exact Or.inr (Or.inl ⟨g, List.mem_cons_of_mem _ hg, he⟩)
          · refine Or.inr (Or.inr ⟨?_, h3.2⟩)
            simp only [List.map_cons, List.mem_cons]
            rintro (he | hm)
            · exact hk he.symm
            · exact h3.1 hm

/-- The invariant carried through the dodecahedron grouping fold. -/
def DodecaGroupInv (uv : List Vec3) (m : List ((ℤ × ℤ × ℤ) × NormalGroup))
    (done : List (ℕ × ℕ × ℕ)) : Prop :=
  ((m.map Prod.fst).Nodup)
  ∧ (∀ kg ∈ m,
      kg.2.tris = done.filter (fun t => dodecaTriKey uv t = kg.1)
      ∧ kg.2.normal =
          vecSum ((done.filter fun t => dodecaTriKey uv t = kg.1).map (dodecaTriNormal uv)))
  ∧ (∀ k, k ∈ m.map Prod.fst ↔ k ∈ done.map (dodecaTriKey uv))

lemma vecSum_append_one (l : List Vec3) (n : Vec3) :
    vecSum (l ++ [n]) = (vecSum l).add n := by
  unfold vecSum
  rw [List.foldl_append]
  rfl

lemma dodecaGroupInv_push {uv : List Vec3} {m : List ((ℤ × ℤ × ℤ) × NormalGroup)}
    {done : List (ℕ × ℕ × ℕ)} (h : DodecaGroupInv uv m done) (tri : ℕ × ℕ × ℕ) :
    DodecaGroupInv uv (groupPush m (dodecaTriKey uv tri) tri (dodecaTriNormal uv tri))
      (done ++ [tri]) := by
  obtain ⟨hnd, hval, hkeys⟩ := h
  set k0 := dodecaTriKey uv tri with hk0
  have hfilter_ne : ∀ k : ℤ × ℤ × ℤ, k ≠ k0 →
      ((done ++ [tri]).filter fun t => dodecaTriKey uv t = k)
        = done.filter fun t => dodecaTriKey uv t = k := by
    intro k hk
    rw [List.filter_append]
    simp [hk0, Ne.symm hk]
  have hfilter_eq :
      ((done ++ [tri]).filter fun t => dodecaTriKey uv t = k0)
        = (done.filter fun t => dodecaTriKey uv t = k0) ++ [tri] := by
    rw [List.filter_append]
    simp [hk0]
  refine ⟨?_, ?_, ?_⟩
  · rw [groupPush_keys]
    by_cases hmem : k0 ∈ m.map Prod.fst
    · simpa [hmem] using hnd
    · simp only [hmem, if_false]
      exact List.Nodup.append hnd (List.nodup_singleton _) (by
        intro a ha hb
        simp at hb
        exact hmem (hb ▸ ha))
  · intro kg hkg
    rcases groupPush_mem_cases m k0 tri (dodecaTriNormal uv tri) hnd kg hkg with
      ⟨hin, hne⟩ | ⟨g, hg, he⟩ | ⟨hnm, he⟩
    · rw [hfilter_ne _ hne]
      exact hval kg hin
    · subst he
      obtain ⟨ht, hn⟩ := hval _ hg
      constructor
      · simp only
        rw [hfilter_eq, ← ht]
      · simp only
        rw [hfilter_eq]
        simp only [List.map_append, List.map_cons, List.map_nil]
        rw [vecSum_append_one, ← hn]
    · subst he
      have hdone : (done.filter fun t => dodecaTriKey uv t = k0) = [] := by
        rw [List.filter_eq_nil_iff]
        intro a ha hq
        exact hnm ((hkeys k0).2 (by
          simp only [List.mem_map]
          exact ⟨a, ha, by simpa using hq⟩))
      constructor
      · simp only
        rw [hfilter_eq, hdone]
        rfl
      · simp only
        rw [hfilter_eq, hdone]
        show dodecaTriNormal uv tri = vecSum [dodecaTriNormal uv tri]
        show _ = Vec3.zero.add _
        cases dodecaTriNormal uv tri
        simp [Vec3.zero, Vec3.add]
  · intro k
    rw [groupPush_keys]
    by_cases hmem : k0 ∈ m.map Prod.fst
    · simp only [hmem, if_true]
      rw [hkeys]
      simp only [List.map_append, List.mem_append]
      constructor
      · exact fun h => Or.inl h
      · rintro (h | h)
        · exact h
        · simp only [List.map_cons, List.map_nil, List.mem_singleton] at h
          rw [h]
          exact (hkeys k0).1 hmem
    · simp only [hmem, if_false]
      simp only [List.mem_append, List.map_append, List.mem_singleton]
      rw [hkeys]
      simp

lemma dodecaGroups_inv (uv : List Vec3) (tris : List (ℕ × ℕ × ℕ)) :
    DodecaGroupInv uv (dodecaGroups uv tris) tris := by
  rw [dodecaGroups_eq_fold]
  suffices h : ∀ (l2 : List (ℕ × ℕ × ℕ)) (m : List ((ℤ × ℤ × ℤ) × NormalGroup))
      (done : List (ℕ × ℕ × ℕ)), DodecaGroupInv uv m done →
      DodecaGroupInv uv
        (l2.foldl (fun gs tri => groupPush gs (dodecaTriKey uv tri) tri
          (dodecaTriNormal uv tri)) m)
        (done ++ l2) by
    have := h tris [] [] ⟨by simp, by simp, by simp⟩
    simpa using this
  intro l2
  induction l2 with
  | nil => intro m done h; simpa using h
  | cons tri l2 ih =>
      intro m done h
      have h1 := dodecaGroupInv_push h tri
      have := ih _ _ h1
      simpa using this

/-- **C9.** Building the catalog is a pure function — two builds with the
same edge length are identical — and the dodecahedron's map-based face
grouping carries no iteration-order nondeterminism: permuting the order in
which the triangles are processed preserves the key set and, per key, the
multiset of grouped triangles and the accumulated group normal exactly. -/
theorem createPlatonicPolyDefs_deterministic :
    (∀ e : ℝ, createPlatonicPolyDefs e = createPlatonicPolyDefs e)
    ∧ ∀ (uv : List Vec3) (tris tris' : List (ℕ × ℕ × ℕ)), tris.Perm tris' →
        (∀ kk : ℤ × ℤ × ℤ,
          kk ∈ (dodecaGroups uv tris).map Prod.fst ↔
            kk ∈ (dodecaGroups uv tris').map Prod.fst)
        ∧ ∀ (kk : ℤ × ℤ × ℤ) (kg kg' : NormalGroup),
            (kk, kg) ∈ dodecaGroups uv tris → (kk, kg') ∈ dodecaGroups uv tris' →
            Multiset.ofList kg.tris = Multiset.ofList kg'.tris
            ∧ kg.normal = kg'.normal := by
  refine ⟨fun _ => rfl, ?_⟩
  intro uv tris tris' hperm
  obtain ⟨_, hval, hkeys⟩ := dodecaGroups_inv uv tris
  obtain ⟨_, hval', hkeys'⟩ := dodecaGroups_inv uv tris'
  constructor
  · intro kk
    rw [hkeys, hkeys']
    exact (hperm.map (dodecaTriKey uv)).mem_iff
  · intro kk kg kg' hin hin'
    obtain ⟨ht, hn⟩ := hval _ hin
    obtain ⟨ht', hn'⟩ := hval' _ hin'
    simp only at ht hn ht' hn'
    have hpf : (tris.filter fun t => dodecaTriKey uv t = kk).Perm
        (tris'.filter fun t => dodecaTriKey uv t = kk) := hperm.filter _
    constructor
    · rw [ht, ht']
      exact Multiset.coe_eq_coe.2 hpf
    · rw [hn, hn', vecSum_eq_components, vecSum_eq_components]
      have hx := ((hpf.map (dodecaTriNormal uv)).map Vec3.x).sum_eq
      have hy := ((hpf.map (dodecaTriNormal uv)).map Vec3.y).sum_eq
      have hz := ((hpf.map (dodecaTriNormal uv)).map Vec3.z).sum_eq
      rw [Vec3.mk.injEq]
      exact ⟨hx, hy, hz⟩

/-- Witness for C9 at a concrete permutation. -/
theorem createPlatonicPolyDefs_deterministic_witness :
    ([((0 : ℕ), (0 : ℕ), (0 : ℕ))] : List (ℕ × ℕ × ℕ)).Perm [(0, 0, 0)]
    ∧ ∀ kk : ℤ × ℤ × ℤ,
        kk ∈ (dodecaGroups [] [(0, 0, 0)]).map Prod.fst ↔
          kk ∈ (dodecaGroups [] [(0, 0, 0)]).map Prod.fst :=
  ⟨List.Perm.refl _,
   (createPlatonicPolyDefs_deterministic.2 [] [(0, 0, 0)] [(0, 0, 0)] (List.Perm.refl _)).1⟩

/-- Witness for C10 at a concrete two-pose list. -/
theorem centerPoses_translation_spec_witness :
    (([⟨⟨1, 2, 3⟩, Quat.one⟩, ⟨⟨3, 0, 1⟩, Quat.one⟩] : List FacePose) ≠ [])
    ∧ posesCenter (centerPoses [⟨⟨1, 2, 3⟩, Quat.one⟩, ⟨⟨3, 0, 1⟩, Quat.one⟩]) = Vec3.zero := by
  constructor
  · simp
  · exact (centerPoses_translation_spec
      [⟨⟨1, 2, 3⟩, Quat.one⟩, ⟨⟨3, 0, 1⟩, Quat.one⟩] (by simp)).2.2.2

/-! ### C1: evaluating the tetrahedron pipeline at the app edge `1.6`

Square-root toolkit: algebraic facts and rational bounds used throughout the
exact evaluation of the folded tetrahedron and its net. -/

lemma s2_sq : Real.sqrt 2 * Real.sqrt 2 = 2 := Real.mul_self_sqrt (by norm_num)

lemma s3_sq : Real.sqrt 3 * Real.sqrt 3 = 3 := Real.mul_self_sqrt (by norm_num)

lemma s6_sq : Real.sqrt 6 * Real.sqrt 6 = 6 := Real.mul_self_sqrt (by norm_num)

lemma s2_pos : 0 < Real.sqrt 2 := Real.sqrt_pos.2 (by norm_num)

lemma s3_pos : 0 < Real.sqrt 3 := Real.sqrt_pos.2 (by norm_num)

lemma s6_pos : 0 < Real.sqrt 6 := Real.sqrt_pos.2 (by norm_num)

lemma s6_eq : Real.sqrt 6 = Real.sqrt 2 * Real.sqrt 3 := by
  rw [show (6 : ℝ) = 2 * 3 by norm_num, Real.sqrt_mul (by norm_num)]

lemma s2_lb : 1.41421 < Real.sqrt 2 := by
  rw [show (1.41421 : ℝ) = Real.sqrt (1.41421 ^ 2) by
    rw [Real.sqrt_sq (by norm_num)]]
  exact Real.sqrt_lt_sqrt (by positivity) (by norm_num)

lemma s2_ub : Real.sqrt 2 < 1.41422 := by
  rw [show (1.41422 : ℝ) = Real.sqrt (1.41422 ^ 2) by
    rw [Real.sqrt_sq (by norm_num)]]
  exact Real.sqrt_lt_sqrt (by norm_num) (by norm_num)

lemma s3_lb : 1.73205 < Real.sqrt 3 := by
  rw [show (1.73205 : ℝ) = Real.sqrt (1.73205 ^ 2) by
    rw [Real.sqrt_sq (by norm_num)]]
  exact Real.sqrt_lt_sqrt (by positivity) (by norm_num)

lemma s3_ub : Real.sqrt 3 < 1.73206 := by
  rw [show (1.73206 : ℝ) = Real.sqrt (1.73206 ^ 2) by
    rw [Real.sqrt_sq (by norm_num)]]
  exact Real.sqrt_lt_sqrt (by norm_num) (by norm_num)

lemma s6_lb : 2.449 < Real.sqrt 6 := by
  rw [show (2.449 : ℝ) = Real.sqrt (2.449 ^ 2) by
    rw [Real.sqrt_sq (by norm_num)]]
  exact Real.sqrt_lt_sqrt (by positivity) (by norm_num)

lemma s6_ub : Real.sqrt 6 < 2.4495 := by
  rw [show (2.4495 : ℝ) = Real.sqrt (2.4495 ^ 2) by
    rw [Real.sqrt_sq (by norm_num)]]
  exact Real.sqrt_lt_sqrt (by norm_num) (by norm_num)

/-- Field-by-field extensionality for the embedded `Matrix4`. -/
lemma Mat4.ext16 {m1 m2 : Mat4}
    (h0 : m1.e0 = m2.e0) (h1 : m1.e1 = m2.e1) (h2 : m1.e2 = m2.e2)
    (h3 : m1.e3 = m2.e3) (h4 : m1.e4 = m2.e4) (h5 : m1.e5 = m2.e5)
    (h6 : m1.e6 = m2.e6) (h7 : m1.e7 = m2.e7) (h8 : m1.e8 = m2.e8)
    (h9 : m1.e9 = m2.e9) (h10 : m1.e10 = m2.e10) (h11 : m1.e11 = m2.e11)
    (h12 : m1.e12 = m2.e12) (h13 : m1.e13 = m2.e13) (h14 : m1.e14 = m2.e14)
    (h15 : m1.e15 = m2.e15) : m1 = m2 := by
  cases m1; cases m2
  simp only [Mat4.mk.injEq]
  exact ⟨h0, h1, h2, h3, h4, h5, h6, h7, h8, h9, h10, h11, h12, h13, h14, h15⟩

/-- `applyQuaternion` agrees with the rotation block of
`compose(0, q)` for every quaternion (both are the same polynomials in the
components). -/
lemma applyQuaternion_rotAction (v : Vec3) (q : Quat) :
    v.applyQuaternion q = Mat4.rotAction (Mat4.compose Vec3.zero q) v := by
  cases v; cases q
  simp only [Vec3.applyQuaternion, Mat4.compose, Mat4.rotAction, Vec3.mk.injEq]
  refine ⟨by ring, by ring, by ring⟩

/-- The `trace > 0` branch of `setFromRotationMatrix`. -/
lemma quatFromRotationMatrix_trace (m : Mat4)
    (h1 : 0 < m.e0 + m.e5 + m.e10) :
    quatFromRotationMatrix m =
      ⟨(m.e6 - m.e9) * (0.5 / Real.sqrt (m.e0 + m.e5 + m.e10 + 1)),
       (m.e8 - m.e2) * (0.5 / Real.sqrt (m.e0 + m.e5 + m.e10 + 1)),
       (m.e1 - m.e4) * (0.5 / Real.sqrt (m.e0 + m.e5 + m.e10 + 1)),
       0.25 / (0.5 / Real.sqrt (m.e0 + m.e5 + m.e10 + 1))⟩ := by
  simp only [quatFromRotationMatrix]
  rw [if_pos h1]

/-- The `m22 > m33` branch (quaternion `y` dominant) of
`setFromRotationMatrix`. -/
lemma quatFromRotationMatrix_ybr (m : Mat4)
    (h1 : ¬ 0 < m.e0 + m.e5 + m.e10)
    (h2 : ¬ (m.e5 < m.e0 ∧ m.e10 < m.e0))
    (h3 : m.e10 < m.e5) :
    quatFromRotationMatrix m =
      ⟨(m.e4 + m.e1) / (2 * Real.sqrt (1 + m.e5 - m.e0 - m.e10)),
       0.25 * (2 * Real.sqrt (1 + m.e5 - m.e0 - m.e10)),
       (m.e9 + m.e6) / (2 * Real.sqrt (1 + m.e5 - m.e0 - m.e10)),
       (m.e8 - m.e2) / (2 * Real.sqrt (1 + m.e5 - m.e0 - m.e10))⟩ := by
  simp only [quatFromRotationMatrix]
  rw [if_neg h1, if_neg h2, if_pos h3]

/-- The final branch (quaternion `z` dominant) of `setFromRotationMatrix`. -/
lemma quatFromRotationMatrix_zbr (m : Mat4)
    (h1 : ¬ 0 < m.e0 + m.e5 + m.e10)
    (h2 : ¬ (m.e5 < m.e0 ∧ m.e10 < m.e0))
    (h3 : ¬ m.e10 < m.e5) :
    quatFromRotationMatrix m =
      ⟨(m.e8 + m.e2) / (2 * Real.sqrt (1 + m.e10 - m.e0 - m.e5)),
       (m.e9 + m.e6) / (2 * Real.sqrt (1 + m.e10 - m.e0 - m.e5)),
       0.25 * (2 * Real.sqrt (1 + m.e10 - m.e0 - m.e5)),
       (m.e1 - m.e4) / (2 * Real.sqrt (1 + m.e10 - m.e0 - m.e5))⟩ := by
  simp only [quatFromRotationMatrix]
  rw [if_neg h1, if_neg h2, if_neg h3]

lemma Mat4.id_mul (m : Mat4) : Mat4.mul Mat4.id m = m := by
  cases m
  simp only [Mat4.mul, Mat4.id, Mat4.mk.injEq]
  norm_num

lemma Mat4.mul_id (m : Mat4) : Mat4.mul m Mat4.id = m := by
  cases m
  simp only [Mat4.mul, Mat4.id, Mat4.mk.injEq]
  norm_num

lemma Mat4.invert_id : Mat4.id.invert = Mat4.id := by
  simp only [Mat4.invert, Mat4.id]
  norm_num

/-- Rotating by angle `0` around any axis line is the identity, whatever the
axis and point are. -/
lemma rotationAroundAxisLine_zero (a p : Vec3) :
    rotationAroundAxisLine a p 0 = Mat4.id := by
  simp only [rotationAroundAxisLine, Mat4.makeRotationAxis, Real.cos_zero,
    Real.sin_zero, Mat4.makeTranslation, Mat4.mul, Mat4.id, Mat4.mk.injEq]
  norm_num

lemma lerpVec3_zero (a b : Vec3) : lerpVec3 a b 0 = a := by
  cases a; cases b
  simp [lerpVec3, lerp]

lemma slerpQuat_zero (a b : Quat) : slerpQuat a b 0 = a := by
  simp [slerpQuat, Quat.slerp]

/-- `round` pinned down by rational bounds on `x + 1/2`. -/
lemma round_eq_of_bounds (x : ℝ) (n : ℤ) (hlo : (n : ℝ) ≤ x + 1 / 2)
    (hhi : x + 1 / 2 < n + 1) : round x = n := by
  rw [round_eq]
  exact Int.floor_eq_iff.2 ⟨hlo, hhi⟩

/-- On the variety of genuine rotation matrices with columns
`a`, `n × a`, `n` (`a`, `n` unit and orthogonal), applying `compose(0, ·)` to
the quaternion extracted by the y-dominant branch of `setFromRotationMatrix`
recovers the matrix exactly. -/
lemma compose_extract_y (a1 a2 a3 n1 n2 n3 : ℝ)
    (ha : a1 * a1 + a2 * a2 + a3 * a3 = 1)
    (hn : n1 * n1 + n2 * n2 + n3 * n3 = 1)
    (han : a1 * n1 + a2 * n2 + a3 * n3 = 0)
    (htr : ¬ 0 < a1 + (n3 * a1 - n1 * a3) + n3)
    (hb1 : ¬ (n3 * a1 - n1 * a3 < a1 ∧ n3 < a1))
    (hb2 : n3 < n3 * a1 - n1 * a3)
    (hd : 0 < 1 + (n3 * a1 - n1 * a3) - a1 - n3) :
    Mat4.compose Vec3.zero (quatFromRotationMatrix
      (basisMat ⟨a1, a2, a3⟩ ⟨n2 * a3 - n3 * a2, n3 * a1 - n1 * a3, n1 * a2 - n2 * a1⟩
      ⟨n1, n2, n3⟩)) =
    basisMat ⟨a1, a2, a3⟩ ⟨n2 * a3 - n3 * a2, n3 * a1 - n1 * a3, n1 * a2 - n2 * a1⟩
      ⟨n1, n2, n3⟩ := by
  have hq := quatFromRotationMatrix_ybr
    (basisMat ⟨a1, a2, a3⟩ ⟨n2 * a3 - n3 * a2, n3 * a1 - n1 * a3, n1 * a2 - n2 * a1⟩
      ⟨n1, n2, n3⟩) htr hb1 hb2
  rw [hq]
  simp only [basisMat]
  set S := Real.sqrt (1 + (n3 * a1 - n1 * a3) - a1 - n3) with hS
  have hSpos : 0 < S := Real.sqrt_pos.2 hd
  have hS2 : S * S = 1 + (n3 * a1 - n1 * a3) - a1 - n3 := Real.mul_self_sqrt hd.le
  have h2S : (2 : ℝ) * S ≠ 0 := ne_of_gt (mul_pos two_pos hSpos)
  have hsc : (2 : ℝ) * S ^ 2 ≠ 0 := ne_of_gt (mul_pos two_pos (pow_pos hSpos 2))
  set Qx := (n2 * a3 - n3 * a2 + a2) / (2 * S) with hQx
  set Qz := (n2 + (n1 * a2 - n2 * a1)) / (2 * S) with hQz
  set Qw := (n1 - a3) / (2 * S) with hQw
  have hqx : Qx * (2 * S) = n2 * a3 - n3 * a2 + a2 := by
    rw [hQx]; exact div_mul_cancel₀ _ h2S
  have hqz : Qz * (2 * S) = n2 + (n1 * a2 - n2 * a1) := by
    rw [hQz]; exact div_mul_cancel₀ _ h2S
  have hqw : Qw * (2 * S) = n1 - a3 := by
    rw [hQw]; exact div_mul_cancel₀ _ h2S
  refine Mat4.ext16 ?_ ?_ ?_ ?_ ?_ ?_ ?_ ?_ ?_ ?_ ?_ ?_ ?_ ?_ ?_ ?_
  · simp only [Mat4.compose]
    refine mul_left_cancel₀ hsc ?_
    linear_combination ((1 : ℝ) * n2 * n2 + (1 : ℝ) * n3 * n3 + (-1 : ℝ)) * ha + ((-2 : ℝ) * a1 * a1 + (-1 : ℝ) * a2 * a2 + (-1 : ℝ) * a3 * a3 + (2 : ℝ) * a1) * hn + ((2 : ℝ) * a1 * n1 + (-2 : ℝ) * n1) * han + ((-1 : ℝ) * a2 * n1 + (1 : ℝ) * a1 * n2 + (-2 : ℝ) * S * Qz + (-1 : ℝ) * n2) * hqz + ((1 : ℝ) * a3 * n1 + (-1 : ℝ) * a1 * n3 + (-1 : ℝ) * S * S + (-1 : ℝ) * a1 + (1 : ℝ) * n3 + (1 : ℝ)) * hS2
  · simp only [Mat4.compose]
    refine mul_left_cancel₀ hsc ?_
    linear_combination ((-1 : ℝ) * n1 * n2) * ha + ((-1 : ℝ) * a1 * a2 + (1 : ℝ) * a2) * hn + ((1 : ℝ) * a2 * n1 + (1 : ℝ) * a1 * n2 + (-1 : ℝ) * n2) * han + ((1 : ℝ) * S * S) * hqx + ((2 : ℝ) * S * Qw) * hqz + ((1 : ℝ) * a2 * n1 + (-1 : ℝ) * a1 * n2 + (1 : ℝ) * n2) * hqw + ((1 : ℝ) * a3 * n2 + (-1 : ℝ) * a2 * n3 + (-1 : ℝ) * a2) * hS2
  · simp only [Mat4.compose]
    refine mul_left_cancel₀ hsc ?_
    linear_combination ((-1 : ℝ) * n1 * n3 + (1 : ℝ) * n1) * ha + ((-1 : ℝ) * a1 * a3 + (1 : ℝ) * a3) * hn + ((1 : ℝ) * a3 * n1 + (1 : ℝ) * a1 * n3 + (-1 : ℝ) * a1 + (-1 : ℝ) * n3 + (1 : ℝ)) * han + ((2 : ℝ) * S * Qz) * hqx + ((1 : ℝ) * a3 * n2 + (-1 : ℝ) * a2 * n3 + (1 : ℝ) * a2) * hqz + ((-1 : ℝ) * S * S) * hqw + ((-1 : ℝ) * a3 + (-1 : ℝ) * n1) * hS2
  · norm_num [Mat4.compose, Vec3.zero]
  · simp only [Mat4.compose]
    refine mul_left_cancel₀ hsc ?_
    linear_combination ((1 : ℝ) * n1 * n2) * ha + ((1 : ℝ) * a1 * a2 + (-1 : ℝ) * a2) * hn + ((-1 : ℝ) * a2 * n1 + (-1 : ℝ) * a1 * n2 + (1 : ℝ) * n2) * han + ((1 : ℝ) * S * S) * hqx + ((-2 : ℝ) * S * Qw) * hqz + ((-1 : ℝ) * a2 * n1 + (1 : ℝ) * a1 * n2 + (-1 : ℝ) * n2) * hqw + ((-1 : ℝ) * a3 * n2 + (1 : ℝ) * a2 * n3 + (1 : ℝ) * a2) * hS2
  · simp only [Mat4.compose]
    refine mul_left_cancel₀ hsc ?_
    linear_combination ((1 : ℝ) * n2 * n2 + (2 : ℝ) * n3 + (-2 : ℝ)) * ha + ((-2 : ℝ) * a1 * a1 + (-1 : ℝ) * a2 * a2 + (-2 : ℝ) * a3 * a3 + (2 : ℝ) * a1) * hn + ((2 : ℝ) * a1 * n1 + (2 : ℝ) * a3 * n3 + (-2 : ℝ) * a3 + (-2 : ℝ) * n1) * han + ((-1 : ℝ) * a3 * n2 + (1 : ℝ) * a2 * n3 + (-2 : ℝ) * S * Qx + (-1 : ℝ) * a2) * hqx + ((-1 : ℝ) * a2 * n1 + (1 : ℝ) * a1 * n2 + (-2 : ℝ) * S * Qz + (-1 : ℝ) * n2) * hqz + ((2 : ℝ) * a3 * n1 + (-2 : ℝ) * a1 * n3 + (2 : ℝ)) * hS2
  · simp only [Mat4.compose]
    refine mul_left_cancel₀ hsc ?_
    linear_combination ((1 : ℝ) * n2 * n3 + (-1 : ℝ) * n2) * ha + ((1 : ℝ) * a2 * a3) * hn + ((-1 : ℝ) * a3 * n2 + (-1 : ℝ) * a2 * n3 + (1 : ℝ) * a2) * han + ((2 : ℝ) * S * Qw) * hqx + ((1 : ℝ) * S * S) * hqz + ((1 : ℝ) * a3 * n2 + (-1 : ℝ) * a2 * n3 + (1 : ℝ) * a2) * hqw + ((-1 : ℝ) * a2 * n1 + (1 : ℝ) * a1 * n2 + (1 : ℝ) * n2) * hS2
  · norm_num [Mat4.compose, Vec3.zero]
  · simp only [Mat4.compose]
    refine mul_left_cancel₀ hsc ?_
    linear_combination ((-1 : ℝ) * n1 * n3 + (1 : ℝ) * n1) * ha + ((-1 : ℝ) * a1 * a3 + (1 : ℝ) * a3) * hn + ((1 : ℝ) * a3 * n1 + (1 : ℝ) * a1 * n3 + (-1 : ℝ) * a1 + (-1 : ℝ) * n3 + (1 : ℝ)) * han + ((2 : ℝ) * S * Qz) * hqx + ((1 : ℝ) * a3 * n2 + (-1 : ℝ) * a2 * n3 + (1 : ℝ) * a2) * hqz + ((1 : ℝ) * S * S) * hqw + ((-1 : ℝ) * a3 + (-1 : ℝ) * n1) * hS2
  · simp only [Mat4.compose]
    refine mul_left_cancel₀ hsc ?_
    linear_combination ((-1 : ℝ) * n2 * n3 + (1 : ℝ) * n2) * ha + ((-1 : ℝ) * a2 * a3) * hn + ((1 : ℝ) * a3 * n2 + (1 : ℝ) * a2 * n3 + (-1 : ℝ) * a2) * han + ((-2 : ℝ) * S * Qw) * hqx + ((1 : ℝ) * S * S) * hqz + ((-1 : ℝ) * a3 * n2 + (1 : ℝ) * a2 * n3 + (-1 : ℝ) * a2) * hqw + ((1 : ℝ) * a2 * n1 + (-1 : ℝ) * a1 * n2 + (-1 : ℝ) * n2) * hS2
  · simp only [Mat4.compose]
    refine mul_left_cancel₀ hsc ?_
    linear_combination ((-1 : ℝ) * n3 * n3 + (2 : ℝ) * n3 + (-1 : ℝ)) * ha + ((-1 : ℝ) * a3 * a3) * hn + ((2 : ℝ) * a3 * n3 + (-2 : ℝ) * a3) * han + ((-1 : ℝ) * a3 * n2 + (1 : ℝ) * a2 * n3 + (-2 : ℝ) * S * Qx + (-1 : ℝ) * a2) * hqx + ((1 : ℝ) * a3 * n1 + (-1 : ℝ) * a1 * n3 + (-1 : ℝ) * S * S + (1 : ℝ) * a1 + (-1 : ℝ) * n3 + (1 : ℝ)) * hS2
  · norm_num [Mat4.compose, Vec3.zero]
  · norm_num [Mat4.compose, Vec3.zero]
  · norm_num [Mat4.compose, Vec3.zero]
  · norm_num [Mat4.compose, Vec3.zero]
  · norm_num [Mat4.compose, Vec3.zero]

/-- On the variety of genuine rotation matrices with columns
`a`, `n × a`, `n` (`a`, `n` unit and orthogonal), applying `compose(0, ·)` to
the quaternion extracted by the z-dominant branch of `setFromRotationMatrix`
recovers the matrix exactly. -/
lemma compose_extract_z (a1 a2 a3 n1 n2 n3 : ℝ)
    (ha : a1 * a1 + a2 * a2 + a3 * a3 = 1)
    (hn : n1 * n1 + n2 * n2 + n3 * n3 = 1)
    (han : a1 * n1 + a2 * n2 + a3 * n3 = 0)
    (htr : ¬ 0 < a1 + (n3 * a1 - n1 * a3) + n3)
    (hb1 : ¬ (n3 * a1 - n1 * a3 < a1 ∧ n3 < a1))
    (hb2 : ¬ n3 < n3 * a1 - n1 * a3)
    (hd : 0 < 1 + n3 - a1 - (n3 * a1 - n1 * a3)) :
    Mat4.compose Vec3.zero (quatFromRotationMatrix
      (basisMat ⟨a1, a2, a3⟩ ⟨n2 * a3 - n3 * a2, n3 * a1 - n1 * a3, n1 * a2 - n2 * a1⟩
      ⟨n1, n2, n3⟩)) =
    basisMat ⟨a1, a2, a3⟩ ⟨n2 * a3 - n3 * a2, n3 * a1 - n1 * a3, n1 * a2 - n2 * a1⟩
      ⟨n1, n2, n3⟩ := by
  have hq := quatFromRotationMatrix_zbr
    (basisMat ⟨a1, a2, a3⟩ ⟨n2 * a3 - n3 * a2, n3 * a1 - n1 * a3, n1 * a2 - n2 * a1⟩
      ⟨n1, n2, n3⟩) htr hb1 hb2
  rw [hq]
  simp only [basisMat]
  set S := Real.sqrt (1 + n3 - a1 - (n3 * a1 - n1 * a3)) with hS
  have hSpos : 0 < S := Real.sqrt_pos.2 hd
  have hS2 : S * S = 1 + n3 - a1 - (n3 * a1 - n1 * a3) := Real.mul_self_sqrt hd.le
  have h2S : (2 : ℝ) * S ≠ 0 := ne_of_gt (mul_pos two_pos hSpos)
  have hsc : (2 : ℝ) * S ^ 2 ≠ 0 := ne_of_gt (mul_pos two_pos (pow_pos hSpos 2))
  set Qx := (n1 + a3) / (2 * S) with hQx
  set Qy := (n2 + (n1 * a2 - n2 * a1)) / (2 * S) with hQy
  set Qw := (a2 - (n2 * a3 - n3 * a2)) / (2 * S) with hQw
  have hqx : Qx * (2 * S) = n1 + a3 := by
    rw [hQx]; exact div_mul_cancel₀ _ h2S
  have hqy : Qy * (2 * S) = n2 + (n1 * a2 - n2 * a1) := by
    rw [hQy]; exact div_mul_cancel₀ _ h2S
  have hqw : Qw * (2 * S) = a2 - (n2 * a3 - n3 * a2) := by
    rw [hQw]; exact div_mul_cancel₀ _ h2S
  refine Mat4.ext16 ?_ ?_ ?_ ?_ ?_ ?_ ?_ ?_ ?_ ?_ ?_ ?_ ?_ ?_ ?_ ?_
  · simp only [Mat4.compose]
    refine mul_left_cancel₀ hsc ?_
    linear_combination ((1 : ℝ) * n2 * n2 + (1 : ℝ) * n3 * n3 + (-1 : ℝ)) * ha + ((-2 : ℝ) * a1 * a1 + (-1 : ℝ) * a2 * a2 + (-1 : ℝ) * a3 * a3 + (2 : ℝ) * a1) * hn + ((2 : ℝ) * a1 * n1 + (-2 : ℝ) * n1) * han + ((-1 : ℝ) * a2 * n1 + (1 : ℝ) * a1 * n2 + (-2 : ℝ) * S * Qy + (-1 : ℝ) * n2) * hqy + ((-1 : ℝ) * a3 * n1 + (1 : ℝ) * a1 * n3 + (-1 : ℝ) * S * S + (-1 : ℝ) * a1 + (-1 : ℝ) * n3 + (1 : ℝ)) * hS2
  · simp only [Mat4.compose]
    refine mul_left_cancel₀ hsc ?_
    linear_combination ((-1 : ℝ) * n1 * n2) * ha + ((-1 : ℝ) * a1 * a2 + (1 : ℝ) * a2) * hn + ((1 : ℝ) * a2 * n1 + (1 : ℝ) * a1 * n2 + (-1 : ℝ) * n2) * han + ((2 : ℝ) * S * Qy) * hqx + ((1 : ℝ) * a3 + (1 : ℝ) * n1) * hqy + ((1 : ℝ) * S * S) * hqw + ((-1 : ℝ) * a3 * n2 + (1 : ℝ) * a2 * n3 + (-1 : ℝ) * a2) * hS2
  · simp only [Mat4.compose]
    refine mul_left_cancel₀ hsc ?_
    linear_combination ((-1 : ℝ) * n1 * n3 + (-1 : ℝ) * n1) * ha + ((-1 : ℝ) * a1 * a3 + (1 : ℝ) * a3) * hn + ((1 : ℝ) * a3 * n1 + (1 : ℝ) * a1 * n3 + (1 : ℝ) * a1 + (-1 : ℝ) * n3 + (-1 : ℝ)) * han + ((1 : ℝ) * S * S) * hqx + ((-2 : ℝ) * S * Qw) * hqy + ((-1 : ℝ) * a2 * n1 + (1 : ℝ) * a1 * n2 + (-1 : ℝ) * n2) * hqw + ((-1 : ℝ) * a3 + (1 : ℝ) * n1) * hS2
  · norm_num [Mat4.compose, Vec3.zero]
  · simp only [Mat4.compose]
    refine mul_left_cancel₀ hsc ?_
    linear_combination ((-1 : ℝ) * n1 * n2) * ha + ((-1 : ℝ) * a1 * a2 + (1 : ℝ) * a2) * hn + ((1 : ℝ) * a2 * n1 + (1 : ℝ) * a1 * n2 + (-1 : ℝ) * n2) * han + ((2 : ℝ) * S * Qy) * hqx + ((1 : ℝ) * a3 + (1 : ℝ) * n1) * hqy + ((-1 : ℝ) * S * S) * hqw + ((-1 : ℝ) * a3 * n2 + (1 : ℝ) * a2 * n3 + (-1 : ℝ) * a2) * hS2
  · simp only [Mat4.compose]
    refine mul_left_cancel₀ hsc ?_
    linear_combination ((-1 : ℝ) * n2 * n2) * ha + ((1 : ℝ) * a1 * a1 + (1 : ℝ) * a3 * a3 + (-1 : ℝ)) * hn + ((-1 : ℝ) * a1 * n1 + (1 : ℝ) * a2 * n2 + (-1 : ℝ) * a3 * n3) * han + ((-2 : ℝ) * S * Qx + (-1 : ℝ) * a3 + (-1 : ℝ) * n1) * hqx + ((1 : ℝ) * a3 * n1 + (-1 : ℝ) * a1 * n3 + (-1 : ℝ) * S * S + (1 : ℝ) * a1 + (-1 : ℝ) * n3 + (1 : ℝ)) * hS2
  · simp only [Mat4.compose]
    refine mul_left_cancel₀ hsc ?_
    linear_combination ((-1 : ℝ) * n2 * n3 + (-1 : ℝ) * n2) * ha + ((-1 : ℝ) * a2 * a3) * hn + ((1 : ℝ) * a3 * n2 + (1 : ℝ) * a2 * n3 + (1 : ℝ) * a2) * han + ((2 : ℝ) * S * Qw) * hqx + ((1 : ℝ) * S * S) * hqy + ((1 : ℝ) * a3 + (1 : ℝ) * n1) * hqw + ((-1 : ℝ) * a2 * n1 + (1 : ℝ) * a1 * n2 + (1 : ℝ) * n2) * hS2
  · norm_num [Mat4.compose, Vec3.zero]
  · simp only [Mat4.compose]
    refine mul_left_cancel₀ hsc ?_
    linear_combination ((1 : ℝ) * n1 * n3 + (1 : ℝ) * n1) * ha + ((1 : ℝ) * a1 * a3 + (-1 : ℝ) * a3) * hn + ((-1 : ℝ) * a3 * n1 + (-1 : ℝ) * a1 * n3 + (-1 : ℝ) * a1 + (1 : ℝ) * n3 + (1 : ℝ)) * han + ((1 : ℝ) * S * S) * hqx + ((2 : ℝ) * S * Qw) * hqy + ((1 : ℝ) * a2 * n1 + (-1 : ℝ) * a1 * n2 + (1 : ℝ) * n2) * hqw + ((1 : ℝ) * a3 + (-1 : ℝ) * n1) * hS2
  · simp only [Mat4.compose]
    refine mul_left_cancel₀ hsc ?_
    linear_combination ((1 : ℝ) * n2 * n3 + (1 : ℝ) * n2) * ha + ((1 : ℝ) * a2 * a3) * hn + ((-1 : ℝ) * a3 * n2 + (-1 : ℝ) * a2 * n3 + (-1 : ℝ) * a2) * han + ((-2 : ℝ) * S * Qw) * hqx + ((1 : ℝ) * S * S) * hqy + ((-1 : ℝ) * a3 + (-1 : ℝ) * n1) * hqw + ((1 : ℝ) * a2 * n1 + (-1 : ℝ) * a1 * n2 + (-1 : ℝ) * n2) * hS2
  · simp only [Mat4.compose]
    refine mul_left_cancel₀ hsc ?_
    linear_combination ((1 : ℝ) * n3 * n3 + (-1 : ℝ)) * ha + ((-1 : ℝ) * a1 * a1 + (-1 : ℝ) * a2 * a2 + (2 : ℝ) * a1 + (-1 : ℝ)) * hn + ((1 : ℝ) * a1 * n1 + (1 : ℝ) * a2 * n2 + (-1 : ℝ) * a3 * n3 + (-2 : ℝ) * n1) * han + ((-2 : ℝ) * S * Qx + (-1 : ℝ) * a3 + (-1 : ℝ) * n1) * hqx + ((-1 : ℝ) * a2 * n1 + (1 : ℝ) * a1 * n2 + (-2 : ℝ) * S * Qy + (-1 : ℝ) * n2) * hqy + ((-2 : ℝ) * n3 + (2 : ℝ)) * hS2
  · norm_num [Mat4.compose, Vec3.zero]
  · norm_num [Mat4.compose, Vec3.zero]
  · norm_num [Mat4.compose, Vec3.zero]
  · norm_num [Mat4.compose, Vec3.zero]
  · norm_num [Mat4.compose, Vec3.zero]

-- FACE_LEMMAS_BEGIN
/-- The rotation part of the folded pose of tetra face 0 as an explicit
basis matrix. -/
lemma tetraRot0 :
    Mat4.compose Vec3.zero
        (poseFromTriangle3 ⟨0.4 * Real.sqrt 2, 0.4 * Real.sqrt 2, 0.4 * Real.sqrt 2⟩ ⟨0.4 * Real.sqrt 2, -(0.4 * Real.sqrt 2), -(0.4 * Real.sqrt 2)⟩ ⟨-(0.4 * Real.sqrt 2), 0.4 * Real.sqrt 2, -(0.4 * Real.sqrt 2)⟩).quaternion =
      basisMat ⟨0, -(0.5 * Real.sqrt 2), -(0.5 * Real.sqrt 2)⟩ ⟨-((1/3) * (Real.sqrt 2 * Real.sqrt 3)), (1/6) * (Real.sqrt 2 * Real.sqrt 3), -((1/6) * (Real.sqrt 2 * Real.sqrt 3))⟩ ⟨(1/3) * Real.sqrt 3, (1/3) * Real.sqrt 3, -((1/3) * Real.sqrt 3)⟩ := by
  have hu : Vec3.sub ⟨0.4 * Real.sqrt 2, -(0.4 * Real.sqrt 2), -(0.4 * Real.sqrt 2)⟩ ⟨0.4 * Real.sqrt 2, 0.4 * Real.sqrt 2, 0.4 * Real.sqrt 2⟩ = (⟨0, -(0.8 * Real.sqrt 2), -(0.8 * Real.sqrt 2)⟩ : Vec3) := by
    simp only [Vec3.sub, Vec3.mk.injEq]
    refine ⟨?_, ?_, ?_⟩
    · ring
    · ring
    · ring
  have hv : Vec3.sub ⟨-(0.4 * Real.sqrt 2), 0.4 * Real.sqrt 2, -(0.4 * Real.sqrt 2)⟩ ⟨0.4 * Real.sqrt 2, 0.4 * Real.sqrt 2, 0.4 * Real.sqrt 2⟩ = (⟨-(0.8 * Real.sqrt 2), 0, -(0.8 * Real.sqrt 2)⟩ : Vec3) := by
    simp only [Vec3.sub, Vec3.mk.injEq]
    refine ⟨?_, ?_, ?_⟩
    · ring
    · ring
    · ring
  have hc : Vec3.cross (⟨0, -(0.8 * Real.sqrt 2), -(0.8 * Real.sqrt 2)⟩ : Vec3) (⟨-(0.8 * Real.sqrt 2), 0, -(0.8 * Real.sqrt 2)⟩ : Vec3) = (⟨1.28, 1.28, -(1.28)⟩ : Vec3) := by
    simp only [Vec3.cross, Vec3.mk.injEq]
    refine ⟨?_, ?_, ?_⟩
    · linear_combination ((0.64 : ℝ)) * s2_sq
    · linear_combination ((0.64 : ℝ)) * s2_sq
    · linear_combination ((-0.64 : ℝ)) * s2_sq
  have hlU : Vec3.length (⟨0, -(0.8 * Real.sqrt 2), -(0.8 * Real.sqrt 2)⟩ : Vec3) = 1.6 := by
    simp only [Vec3.length]
    rw [show (0) * (0) + (-(0.8 * Real.sqrt 2)) * (-(0.8 * Real.sqrt 2)) + (-(0.8 * Real.sqrt 2)) * (-(0.8 * Real.sqrt 2)) = 2.56 from by linear_combination ((1.28 : ℝ)) * s2_sq]
    rw [show (2.56 : ℝ) = 1.6 ^ 2 by norm_num, Real.sqrt_sq (by norm_num : (0:ℝ) ≤ 1.6)]
  have hA : Vec3.normalize (⟨0, -(0.8 * Real.sqrt 2), -(0.8 * Real.sqrt 2)⟩ : Vec3) = (⟨0, -(0.5 * Real.sqrt 2), -(0.5 * Real.sqrt 2)⟩ : Vec3) := by
    simp only [Vec3.normalize]
    rw [hlU]
    rw [if_neg (by norm_num : ¬ (1.6 : ℝ) = 0)]
    simp only [Vec3.smul, Vec3.mk.injEq]
    refine ⟨by ring, by ring, by ring⟩
  have hlC : Vec3.length (⟨1.28, 1.28, -(1.28)⟩ : Vec3) = 1.28 * Real.sqrt 3 := by
    simp only [Vec3.length]
    rw [show (1.28) * (1.28) + (1.28) * (1.28) + (-(1.28)) * (-(1.28)) = (4.9152 : ℝ) from by norm_num]
    rw [show (4.9152 : ℝ) = 1.28 ^ 2 * 3 by norm_num,
      Real.sqrt_mul (by norm_num : (0:ℝ) ≤ 1.28 ^ 2) 3,
      Real.sqrt_sq (by norm_num : (0:ℝ) ≤ 1.28)]
  have hN : Vec3.normalize (⟨1.28, 1.28, -(1.28)⟩ : Vec3) = (⟨(1/3) * Real.sqrt 3, (1/3) * Real.sqrt 3, -((1/3) * Real.sqrt 3)⟩ : Vec3) := by
    simp only [Vec3.normalize]
    rw [hlC]
    rw [if_neg (by positivity : ¬ (1.28 * Real.sqrt 3 : ℝ) = 0)]
    rw [show (1 : ℝ) / (1.28 * Real.sqrt 3) = (25/96) * Real.sqrt 3 from by
      rw [div_eq_iff (by positivity : (1.28 * Real.sqrt 3 : ℝ) ≠ 0)]
      linear_combination ((-1/3 : ℝ)) * s3_sq]
    simp only [Vec3.smul, Vec3.mk.injEq]
    refine ⟨?_, ?_, ?_⟩
    · ring
    · ring
    · ring
  have hB : Vec3.cross (⟨(1/3) * Real.sqrt 3, (1/3) * Real.sqrt 3, -((1/3) * Real.sqrt 3)⟩ : Vec3) (⟨0, -(0.5 * Real.sqrt 2), -(0.5 * Real.sqrt 2)⟩ : Vec3) = (⟨-((1/3) * (Real.sqrt 2 * Real.sqrt 3)), (1/6) * (Real.sqrt 2 * Real.sqrt 3), -((1/6) * (Real.sqrt 2 * Real.sqrt 3))⟩ : Vec3) := by
    simp only [Vec3.cross, Vec3.mk.injEq]
    refine ⟨?_, ?_, ?_⟩
    · ring
    · ring
    · ring
  have hlB : Vec3.length (⟨-((1/3) * (Real.sqrt 2 * Real.sqrt 3)), (1/6) * (Real.sqrt 2 * Real.sqrt 3), -((1/6) * (Real.sqrt 2 * Real.sqrt 3))⟩ : Vec3) = 1 := by
    simp only [Vec3.length]
    rw [show (-((1/3) * (Real.sqrt 2 * Real.sqrt 3))) * (-((1/3) * (Real.sqrt 2 * Real.sqrt 3))) + ((1/6) * (Real.sqrt 2 * Real.sqrt 3)) * ((1/6) * (Real.sqrt 2 * Real.sqrt 3)) + (-((1/6) * (Real.sqrt 2 * Real.sqrt 3))) * (-((1/6) * (Real.sqrt 2 * Real.sqrt 3))) = 1 from by linear_combination (((1/6) : ℝ) * Real.sqrt 3 * Real.sqrt 3) * s2_sq + (((1/3) : ℝ)) * s3_sq]
    exact Real.sqrt_one
  have hBn : Vec3.normalize (⟨-((1/3) * (Real.sqrt 2 * Real.sqrt 3)), (1/6) * (Real.sqrt 2 * Real.sqrt 3), -((1/6) * (Real.sqrt 2 * Real.sqrt 3))⟩ : Vec3) = (⟨-((1/3) * (Real.sqrt 2 * Real.sqrt 3)), (1/6) * (Real.sqrt 2 * Real.sqrt 3), -((1/6) * (Real.sqrt 2 * Real.sqrt 3))⟩ : Vec3) := by
    simp only [Vec3.normalize]
    rw [hlB]
    rw [if_neg (by norm_num : ¬ (1 : ℝ) = 0)]
    simp only [Vec3.smul, one_div, inv_one, one_mul]
  have hext := compose_extract_y (0) (-(0.5 * Real.sqrt 2)) (-(0.5 * Real.sqrt 2)) ((1/3) * Real.sqrt 3) ((1/3) * Real.sqrt 3) (-((1/3) * Real.sqrt 3))
    (by linear_combination ((0.5 : ℝ)) * s2_sq) (by linear_combination (((1/3) : ℝ)) * s3_sq) (by ring)
    (by intro hcon; nlinarith [s2_sq, s3_sq, s2_pos, s3_pos, s2_lb, s2_ub, s3_lb, s3_ub, mul_pos s2_pos s3_pos]) (by intro hcon; nlinarith [s2_sq, s3_sq, s2_pos, s3_pos, s2_lb, s2_ub, s3_lb, s3_ub, mul_pos s2_pos s3_pos]) (by nlinarith [s2_sq, s3_sq, s2_pos, s3_pos, s2_lb, s2_ub, s3_lb, s3_ub, mul_pos s2_pos s3_pos]) (by nlinarith [s2_sq, s3_sq, s2_pos, s3_pos, s2_lb, s2_ub, s3_lb, s3_ub, mul_pos s2_pos s3_pos])
  have hBe : (⟨((1/3) * Real.sqrt 3) * (-(0.5 * Real.sqrt 2)) - (-((1/3) * Real.sqrt 3)) * (-(0.5 * Real.sqrt 2)), (-((1/3) * Real.sqrt 3)) * (0) - ((1/3) * Real.sqrt 3) * (-(0.5 * Real.sqrt 2)), ((1/3) * Real.sqrt 3) * (-(0.5 * Real.sqrt 2)) - ((1/3) * Real.sqrt 3) * (0)⟩ : Vec3) = (⟨-((1/3) * (Real.sqrt 2 * Real.sqrt 3)), (1/6) * (Real.sqrt 2 * Real.sqrt 3), -((1/6) * (Real.sqrt 2 * Real.sqrt 3))⟩ : Vec3) := by
    simp only [Vec3.mk.injEq]
    refine ⟨?_, ?_, ?_⟩
    · ring
    · ring
    · ring
  rw [hBe] at hext
  simp only [poseFromTriangle3]
  rw [hu, hv, hc, hA, hN, hB, hBn]
  exact hext

/-- The world vertices of folded tetra face 0 are exactly its three
defining corners. -/
lemma tetraWorld0 :
    worldVerts (triangleLocal3 1.6)
        (poseFromTriangle3 ⟨0.4 * Real.sqrt 2, 0.4 * Real.sqrt 2, 0.4 * Real.sqrt 2⟩ ⟨0.4 * Real.sqrt 2, -(0.4 * Real.sqrt 2), -(0.4 * Real.sqrt 2)⟩ ⟨-(0.4 * Real.sqrt 2), 0.4 * Real.sqrt 2, -(0.4 * Real.sqrt 2)⟩) =
      [⟨0.4 * Real.sqrt 2, 0.4 * Real.sqrt 2, 0.4 * Real.sqrt 2⟩, ⟨0.4 * Real.sqrt 2, -(0.4 * Real.sqrt 2), -(0.4 * Real.sqrt 2)⟩, ⟨-(0.4 * Real.sqrt 2), 0.4 * Real.sqrt 2, -(0.4 * Real.sqrt 2)⟩] := by
  have hpos : (poseFromTriangle3 ⟨0.4 * Real.sqrt 2, 0.4 * Real.sqrt 2, 0.4 * Real.sqrt 2⟩ ⟨0.4 * Real.sqrt 2, -(0.4 * Real.sqrt 2), -(0.4 * Real.sqrt 2)⟩ ⟨-(0.4 * Real.sqrt 2), 0.4 * Real.sqrt 2, -(0.4 * Real.sqrt 2)⟩).position
      = (⟨(2/15) * Real.sqrt 2, (2/15) * Real.sqrt 2, -((2/15) * Real.sqrt 2)⟩ : Vec3) := by
    simp only [poseFromTriangle3, Vec3.add, Vec3.smul, Vec3.mk.injEq]
    refine ⟨?_, ?_, ?_⟩
    · ring
    · ring
    · ring
  simp only [worldVerts, triangleLocal3, List.map_cons, List.map_nil]
  simp only [applyQuaternion_rotAction]
  rw [tetraRot0, hpos]
  simp only [Mat4.rotAction, basisMat, Vec3.add, List.cons.injEq, and_true,
    Vec3.mk.injEq]
  refine ⟨⟨?_, ?_, ?_⟩, ⟨?_, ?_, ?_⟩, ?_, ?_, ?_⟩
  · linear_combination (((4/45) : ℝ) * Real.sqrt 2) * s3_sq
  · linear_combination (((-2/45) : ℝ) * Real.sqrt 2) * s3_sq
  · linear_combination (((2/45) : ℝ) * Real.sqrt 2) * s3_sq
  · linear_combination (((4/45) : ℝ) * Real.sqrt 2) * s3_sq
  · linear_combination (((-2/45) : ℝ) * Real.sqrt 2) * s3_sq
  · linear_combination (((2/45) : ℝ) * Real.sqrt 2) * s3_sq
  · linear_combination (((-8/45) : ℝ) * Real.sqrt 2) * s3_sq
  · linear_combination (((4/45) : ℝ) * Real.sqrt 2) * s3_sq
  · linear_combination (((-4/45) : ℝ) * Real.sqrt 2) * s3_sq

/-- The rotation part of the folded pose of tetra face 1 as an explicit
basis matrix. -/
lemma tetraRot1 :
    Mat4.compose Vec3.zero
        (poseFromTriangle3 ⟨0.4 * Real.sqrt 2, 0.4 * Real.sqrt 2, 0.4 * Real.sqrt 2⟩ ⟨-(0.4 * Real.sqrt 2), -(0.4 * Real.sqrt 2), 0.4 * Real.sqrt 2⟩ ⟨0.4 * Real.sqrt 2, -(0.4 * Real.sqrt 2), -(0.4 * Real.sqrt 2)⟩).quaternion =
      basisMat ⟨-(0.5 * Real.sqrt 2), -(0.5 * Real.sqrt 2), 0⟩ ⟨(1/6) * (Real.sqrt 2 * Real.sqrt 3), -((1/6) * (Real.sqrt 2 * Real.sqrt 3)), -((1/3) * (Real.sqrt 2 * Real.sqrt 3))⟩ ⟨(1/3) * Real.sqrt 3, -((1/3) * Real.sqrt 3), (1/3) * Real.sqrt 3⟩ := by
  have hu : Vec3.sub ⟨-(0.4 * Real.sqrt 2), -(0.4 * Real.sqrt 2), 0.4 * Real.sqrt 2⟩ ⟨0.4 * Real.sqrt 2, 0.4 * Real.sqrt 2, 0.4 * Real.sqrt 2⟩ = (⟨-(0.8 * Real.sqrt 2), -(0.8 * Real.sqrt 2), 0⟩ : Vec3) := by
    simp only [Vec3.sub, Vec3.mk.injEq]
    refine ⟨?_, ?_, ?_⟩
    · ring
    · ring
    · ring
  have hv : Vec3.sub ⟨0.4 * Real.sqrt 2, -(0.4 * Real.sqrt 2), -(0.4 * Real.sqrt 2)⟩ ⟨0.4 * Real.sqrt 2, 0.4 * Real.sqrt 2, 0.4 * Real.sqrt 2⟩ = (⟨0, -(0.8 * Real.sqrt 2), -(0.8 * Real.sqrt 2)⟩ : Vec3) := by
    simp only [Vec3.sub, Vec3.mk.injEq]
    refine ⟨?_, ?_, ?_⟩
    · ring
    · ring
    · ring
  have hc : Vec3.cross (⟨-(0.8 * Real.sqrt 2), -(0.8 * Real.sqrt 2), 0⟩ : Vec3) (⟨0, -(0.8 * Real.sqrt 2), -(0.8 * Real.sqrt 2)⟩ : Vec3) = (⟨1.28, -(1.28), 1.28⟩ : Vec3) := by
    simp only [Vec3.cross, Vec3.mk.injEq]
    refine ⟨?_, ?_, ?_⟩
    · linear_combination ((0.64 : ℝ)) * s2_sq
    · linear_combination ((-0.64 : ℝ)) * s2_sq
    · linear_combination ((0.64 : ℝ)) * s2_sq
  have hlU : Vec3.length (⟨-(0.8 * Real.sqrt 2), -(0.8 * Real.sqrt 2), 0⟩ : Vec3) = 1.6 := by
    simp only [Vec3.length]
    rw [show (-(0.8 * Real.sqrt 2)) * (-(0.8 * Real.sqrt 2)) + (-(0.8 * Real.sqrt 2)) * (-(0.8 * Real.sqrt 2)) + (0) * (0) = 2.56 from by linear_combination ((1.28 : ℝ)) * s2_sq]
    rw [show (2.56 : ℝ) = 1.6 ^ 2 by norm_num, Real.sqrt_sq (by norm_num : (0:ℝ) ≤ 1.6)]
  have hA : Vec3.normalize (⟨-(0.8 * Real.sqrt 2), -(0.8 * Real.sqrt 2), 0⟩ : Vec3) = (⟨-(0.5 * Real.sqrt 2), -(0.5 * Real.sqrt 2), 0⟩ : Vec3) := by
    simp only [Vec3.normalize]
    rw [hlU]
    rw [if_neg (by norm_num : ¬ (1.6 : ℝ) = 0)]
    simp only [Vec3.smul, Vec3.mk.injEq]
    refine ⟨by ring, by ring, by ring⟩
  have hlC : Vec3.length (⟨1.28, -(1.28), 1.28⟩ : Vec3) = 1.28 * Real.sqrt 3 := by
    simp only [Vec3.length]
    rw [show (1.28) * (1.28) + (-(1.28)) * (-(1.28)) + (1.28) * (1.28) = (4.9152 : ℝ) from by norm_num]
    rw [show (4.9152 : ℝ) = 1.28 ^ 2 * 3 by norm_num,
      Real.sqrt_mul (by norm_num : (0:ℝ) ≤ 1.28 ^ 2) 3,
      Real.sqrt_sq (by norm_num : (0:ℝ) ≤ 1.28)]
  have hN : Vec3.normalize (⟨1.28, -(1.28), 1.28⟩ : Vec3) = (⟨(1/3) * Real.sqrt 3, -((1/3) * Real.sqrt 3), (1/3) * Real.sqrt 3⟩ : Vec3) := by
    simp only [Vec3.normalize]
    rw [hlC]
    rw [if_neg (by positivity : ¬ (1.28 * Real.sqrt 3 : ℝ) = 0)]
    rw [show (1 : ℝ) / (1.28 * Real.sqrt 3) = (25/96) * Real.sqrt 3 from by
      rw [div_eq_iff (by positivity : (1.28 * Real.sqrt 3 : ℝ) ≠ 0)]
      linear_combination ((-1/3 : ℝ)) * s3_sq]
    simp only [Vec3.smul, Vec3.mk.injEq]
    refine ⟨?_, ?_, ?_⟩
    · ring
    · ring
    · ring
  have hB : Vec3.cross (⟨(1/3) * Real.sqrt 3, -((1/3) * Real.sqrt 3), (1/3) * Real.sqrt 3⟩ : Vec3) (⟨-(0.5 * Real.sqrt 2), -(0.5 * Real.sqrt 2), 0⟩ : Vec3) = (⟨(1/6) * (Real.sqrt 2 * Real.sqrt 3), -((1/6) * (Real.sqrt 2 * Real.sqrt 3)), -((1/3) * (Real.sqrt 2 * Real.sqrt 3))⟩ : Vec3) := by
    simp only [Vec3.cross, Vec3.mk.injEq]
    refine ⟨?_, ?_, ?_⟩
    · ring
    · ring
    · ring
  have hlB : Vec3.length (⟨(1/6) * (Real.sqrt 2 * Real.sqrt 3), -((1/6) * (Real.sqrt 2 * Real.sqrt 3)), -((1/3) * (Real.sqrt 2 * Real.sqrt 3))⟩ : Vec3) = 1 := by
    simp only [Vec3.length]
    rw [show ((1/6) * (Real.sqrt 2 * Real.sqrt 3)) * ((1/6) * (Real.sqrt 2 * Real.sqrt 3)) + (-((1/6) * (Real.sqrt 2 * Real.sqrt 3))) * (-((1/6) * (Real.sqrt 2 * Real.sqrt 3))) + (-((1/3) * (Real.sqrt 2 * Real.sqrt 3))) * (-((1/3) * (Real.sqrt 2 * Real.sqrt 3))) = 1 from by linear_combination (((1/6) : ℝ) * Real.sqrt 3 * Real.sqrt 3) * s2_sq + (((1/3) : ℝ)) * s3_sq]
    exact Real.sqrt_one
  have hBn : Vec3.normalize (⟨(1/6) * (Real.sqrt 2 * Real.sqrt 3), -((1/6) * (Real.sqrt 2 * Real.sqrt 3)), -((1/3) * (Real.sqrt 2 * Real.sqrt 3))⟩ : Vec3) = (⟨(1/6) * (Real.sqrt 2 * Real.sqrt 3), -((1/6) * (Real.sqrt 2 * Real.sqrt 3)), -((1/3) * (Real.sqrt 2 * Real.sqrt 3))⟩ : Vec3) := by
    simp only [Vec3.normalize]
    rw [hlB]
    rw [if_neg (by norm_num : ¬ (1 : ℝ) = 0)]
    simp only [Vec3.smul, one_div, inv_one, one_mul]
  have hext := compose_extract_z (-(0.5 * Real.sqrt 2)) (-(0.5 * Real.sqrt 2)) (0) ((1/3) * Real.sqrt 3) (-((1/3) * Real.sqrt 3)) ((1/3) * Real.sqrt 3)
    (by linear_combination ((0.5 : ℝ)) * s2_sq) (by linear_combination (((1/3) : ℝ)) * s3_sq) (by ring)
    (by intro hcon; nlinarith [s2_sq, s3_sq, s2_pos, s3_pos, s2_lb, s2_ub, s3_lb, s3_ub, mul_pos s2_pos s3_pos]) (by intro hcon; nlinarith [s2_sq, s3_sq, s2_pos, s3_pos, s2_lb, s2_ub, s3_lb, s3_ub, mul_pos s2_pos s3_pos]) (by intro hcon; nlinarith [s2_sq, s3_sq, s2_pos, s3_pos, s2_lb, s2_ub, s3_lb, s3_ub, mul_pos s2_pos s3_pos]) (by nlinarith [s2_sq, s3_sq, s2_pos, s3_pos, s2_lb, s2_ub, s3_lb, s3_ub, mul_pos s2_pos s3_pos])
  have hBe : (⟨(-((1/3) * Real.sqrt 3)) * (0) - ((1/3) * Real.sqrt 3) * (-(0.5 * Real.sqrt 2)), ((1/3) * Real.sqrt 3) * (-(0.5 * Real.sqrt 2)) - ((1/3) * Real.sqrt 3) * (0), ((1/3) * Real.sqrt 3) * (-(0.5 * Real.sqrt 2)) - (-((1/3) * Real.sqrt 3)) * (-(0.5 * Real.sqrt 2))⟩ : Vec3) = (⟨(1/6) * (Real.sqrt 2 * Real.sqrt 3), -((1/6) * (Real.sqrt 2 * Real.sqrt 3)), -((1/3) * (Real.sqrt 2 * Real.sqrt 3))⟩ : Vec3) := by
    simp only [Vec3.mk.injEq]
    refine ⟨?_, ?_, ?_⟩
    · ring
    · ring
    · ring
  rw [hBe] at hext
  simp only [poseFromTriangle3]
  rw [hu, hv, hc, hA, hN, hB, hBn]
  exact hext

/-- The world vertices of folded tetra face 1 are exactly its three
defining corners. -/
lemma tetraWorld1 :
    worldVerts (triangleLocal3 1.6)
        (poseFromTriangle3 ⟨0.4 * Real.sqrt 2, 0.4 * Real.sqrt 2, 0.4 * Real.sqrt 2⟩ ⟨-(0.4 * Real.sqrt 2), -(0.4 * Real.sqrt 2), 0.4 * Real.sqrt 2⟩ ⟨0.4 * Real.sqrt 2, -(0.4 * Real.sqrt 2), -(0.4 * Real.sqrt 2)⟩) =
      [⟨0.4 * Real.sqrt 2, 0.4 * Real.sqrt 2, 0.4 * Real.sqrt 2⟩, ⟨-(0.4 * Real.sqrt 2), -(0.4 * Real.sqrt 2), 0.4 * Real.sqrt 2⟩, ⟨0.4 * Real.sqrt 2, -(0.4 * Real.sqrt 2), -(0.4 * Real.sqrt 2)⟩] := by
  have hpos : (poseFromTriangle3 ⟨0.4 * Real.sqrt 2, 0.4 * Real.sqrt 2, 0.4 * Real.sqrt 2⟩ ⟨-(0.4 * Real.sqrt 2), -(0.4 * Real.sqrt 2), 0.4 * Real.sqrt 2⟩ ⟨0.4 * Real.sqrt 2, -(0.4 * Real.sqrt 2), -(0.4 * Real.sqrt 2)⟩).position
      = (⟨(2/15) * Real.sqrt 2, -((2/15) * Real.sqrt 2), (2/15) * Real.sqrt 2⟩ : Vec3) := by
    simp only [poseFromTriangle3, Vec3.add, Vec3.smul, Vec3.mk.injEq]
    refine ⟨?_, ?_, ?_⟩
    · ring
    · ring
    · ring
  simp only [worldVerts, triangleLocal3, List.map_cons, List.map_nil]
  simp only [applyQuaternion_rotAction]
  rw [tetraRot1, hpos]
  simp only [Mat4.rotAction, basisMat, Vec3.add, List.cons.injEq, and_true,
    Vec3.mk.injEq]
  refine ⟨⟨?_, ?_, ?_⟩, ⟨?_, ?_, ?_⟩, ?_, ?_, ?_⟩
  · linear_combination (((-2/45) : ℝ) * Real.sqrt 2) * s3_sq
  · linear_combination (((2/45) : ℝ) * Real.sqrt 2) * s3_sq
  · linear_combination (((4/45) : ℝ) * Real.sqrt 2) * s3_sq
  · linear_combination (((-2/45) : ℝ) * Real.sqrt 2) * s3_sq
  · linear_combination (((2/45) : ℝ) * Real.sqrt 2) * s3_sq
  · linear_combination (((4/45) : ℝ) * Real.sqrt 2) * s3_sq
  · linear_combination (((4/45) : ℝ) * Real.sqrt 2) * s3_sq
  · linear_combination (((-4/45) : ℝ) * Real.sqrt 2) * s3_sq
  · linear_combination (((-8/45) : ℝ) * Real.sqrt 2) * s3_sq

/-- The rotation part of the folded pose of tetra face 2 as an explicit
basis matrix. -/
lemma tetraRot2 :
    Mat4.compose Vec3.zero
        (poseFromTriangle3 ⟨0.4 * Real.sqrt 2, 0.4 * Real.sqrt 2, 0.4 * Real.sqrt 2⟩ ⟨-(0.4 * Real.sqrt 2), 0.4 * Real.sqrt 2, -(0.4 * Real.sqrt 2)⟩ ⟨-(0.4 * Real.sqrt 2), -(0.4 * Real.sqrt 2), 0.4 * Real.sqrt 2⟩).quaternion =
      basisMat ⟨-(0.5 * Real.sqrt 2), 0, -(0.5 * Real.sqrt 2)⟩ ⟨-((1/6) * (Real.sqrt 2 * Real.sqrt 3)), -((1/3) * (Real.sqrt 2 * Real.sqrt 3)), (1/6) * (Real.sqrt 2 * Real.sqrt 3)⟩ ⟨-((1/3) * Real.sqrt 3), (1/3) * Real.sqrt 3, (1/3) * Real.sqrt 3⟩ := by
  have hu : Vec3.sub ⟨-(0.4 * Real.sqrt 2), 0.4 * Real.sqrt 2, -(0.4 * Real.sqrt 2)⟩ ⟨0.4 * Real.sqrt 2, 0.4 * Real.sqrt 2, 0.4 * Real.sqrt 2⟩ = (⟨-(0.8 * Real.sqrt 2), 0, -(0.8 * Real.sqrt 2)⟩ : Vec3) := by
    simp only [Vec3.sub, Vec3.mk.injEq]
    refine ⟨?_, ?_, ?_⟩
    · ring
    · ring
    · ring
  have hv : Vec3.sub ⟨-(0.4 * Real.sqrt 2), -(0.4 * Real.sqrt 2), 0.4 * Real.sqrt 2⟩ ⟨0.4 * Real.sqrt 2, 0.4 * Real.sqrt 2, 0.4 * Real.sqrt 2⟩ = (⟨-(0.8 * Real.sqrt 2), -(0.8 * Real.sqrt 2), 0⟩ : Vec3) := by
    simp only [Vec3.sub, Vec3.mk.injEq]
    refine ⟨?_, ?_, ?_⟩
    · ring
    · ring
    · ring
  have hc : Vec3.cross (⟨-(0.8 * Real.sqrt 2), 0, -(0.8 * Real.sqrt 2)⟩ : Vec3) (⟨-(0.8 * Real.sqrt 2), -(0.8 * Real.sqrt 2), 0⟩ : Vec3) = (⟨-(1.28), 1.28, 1.28⟩ : Vec3) := by
    simp only [Vec3.cross, Vec3.mk.injEq]
    refine ⟨?_, ?_, ?_⟩
    · linear_combination ((-0.64 : ℝ)) * s2_sq
    · linear_combination ((0.64 : ℝ)) * s2_sq
    · linear_combination ((0.64 : ℝ)) * s2_sq
  have hlU : Vec3.length (⟨-(0.8 * Real.sqrt 2), 0, -(0.8 * Real.sqrt 2)⟩ : Vec3) = 1.6 := by
    simp only [Vec3.length]
    rw [show (-(0.8 * Real.sqrt 2)) * (-(0.8 * Real.sqrt 2)) + (0) * (0) + (-(0.8 * Real.sqrt 2)) * (-(0.8 * Real.sqrt 2)) = 2.56 from by linear_combination ((1.28 : ℝ)) * s2_sq]
    rw [show (2.56 : ℝ) = 1.6 ^ 2 by norm_num, Real.sqrt_sq (by norm_num : (0:ℝ) ≤ 1.6)]
  have hA : Vec3.normalize (⟨-(0.8 * Real.sqrt 2), 0, -(0.8 * Real.sqrt 2)⟩ : Vec3) = (⟨-(0.5 * Real.sqrt 2), 0, -(0.5 * Real.sqrt 2)⟩ : Vec3) := by
    simp only [Vec3.normalize]
    rw [hlU]
    rw [if_neg (by norm_num : ¬ (1.6 : ℝ) = 0)]
    simp only [Vec3.smul, Vec3.mk.injEq]
    refine ⟨by ring, by ring, by ring⟩
  have hlC : Vec3.length (⟨-(1.28), 1.28, 1.28⟩ : Vec3) = 1.28 * Real.sqrt 3 := by
    simp only [Vec3.length]
    rw [show (-(1.28)) * (-(1.28)) + (1.28) * (1.28) + (1.28) * (1.28) = (4.9152 : ℝ) from by norm_num]
    rw [show (4.9152 : ℝ) = 1.28 ^ 2 * 3 by norm_num,
      Real.sqrt_mul (by norm_num : (0:ℝ) ≤ 1.28 ^ 2) 3,
      Real.sqrt_sq (by norm_num : (0:ℝ) ≤ 1.28)]
  have hN : Vec3.normalize (⟨-(1.28), 1.28, 1.28⟩ : Vec3) = (⟨-((1/3) * Real.sqrt 3), (1/3) * Real.sqrt 3, (1/3) * Real.sqrt 3⟩ : Vec3) := by
    simp only [Vec3.normalize]
    rw [hlC]
    rw [if_neg (by positivity : ¬ (1.28 * Real.sqrt 3 : ℝ) = 0)]
    rw [show (1 : ℝ) / (1.28 * Real.sqrt 3) = (25/96) * Real.sqrt 3 from by
      rw [div_eq_iff (by positivity : (1.28 * Real.sqrt 3 : ℝ) ≠ 0)]
      linear_combination ((-1/3 : ℝ)) * s3_sq]
    simp only [Vec3.smul, Vec3.mk.injEq]
    refine ⟨?_, ?_, ?_⟩
    · ring
    · ring
    · ring
  have hB : Vec3.cross (⟨-((1/3) * Real.sqrt 3), (1/3) * Real.sqrt 3, (1/3) * Real.sqrt 3⟩ : Vec3) (⟨-(0.5 * Real.sqrt 2), 0, -(0.5 * Real.sqrt 2)⟩ : Vec3) = (⟨-((1/6) * (Real.sqrt 2 * Real.sqrt 3)), -((1/3) * (Real.sqrt 2 * Real.sqrt 3)), (1/6) * (Real.sqrt 2 * Real.sqrt 3)⟩ : Vec3) := by
    simp only [Vec3.cross, Vec3.mk.injEq]
    refine ⟨?_, ?_, ?_⟩
    · ring
    · ring
    · ring
  have hlB : Vec3.length (⟨-((1/6) * (Real.sqrt 2 * Real.sqrt 3)), -((1/3) * (Real.sqrt 2 * Real.sqrt 3)), (1/6) * (Real.sqrt 2 * Real.sqrt 3)⟩ : Vec3) = 1 := by
    simp only [Vec3.length]
    rw [show (-((1/6) * (Real.sqrt 2 * Real.sqrt 3))) * (-((1/6) * (Real.sqrt 2 * Real.sqrt 3))) + (-((1/3) * (Real.sqrt 2 * Real.sqrt 3))) * (-((1/3) * (Real.sqrt 2 * Real.sqrt 3))) + ((1/6) * (Real.sqrt 2 * Real.sqrt 3)) * ((1/6) * (Real.sqrt 2 * Real.sqrt 3)) = 1 from by linear_combination (((1/6) : ℝ) * Real.sqrt 3 * Real.sqrt 3) * s2_sq + (((1/3) : ℝ)) * s3_sq]
    exact Real.sqrt_one
  have hBn : Vec3.normalize (⟨-((1/6) * (Real.sqrt 2 * Real.sqrt 3)), -((1/3) * (Real.sqrt 2 * Real.sqrt 3)), (1/6) * (Real.sqrt 2 * Real.sqrt 3)⟩ : Vec3) = (⟨-((1/6) * (Real.sqrt 2 * Real.sqrt 3)), -((1/3) * (Real.sqrt 2 * Real.sqrt 3)), (1/6) * (Real.sqrt 2 * Real.sqrt 3)⟩ : Vec3) := by
    simp only [Vec3.normalize]
    rw [hlB]
    rw [if_neg (by norm_num : ¬ (1 : ℝ) = 0)]
    simp only [Vec3.smul, one_div, inv_one, one_mul]
  have hext := compose_extract_z (-(0.5 * Real.sqrt 2)) (0) (-(0.5 * Real.sqrt 2)) (-((1/3) * Real.sqrt 3)) ((1/3) * Real.sqrt 3) ((1/3) * Real.sqrt 3)
    (by linear_combination ((0.5 : ℝ)) * s2_sq) (by linear_combination (((1/3) : ℝ)) * s3_sq) (by ring)
    (by intro hcon; nlinarith [s2_sq, s3_sq, s2_pos, s3_pos, s2_lb, s2_ub, s3_lb, s3_ub, mul_pos s2_pos s3_pos]) (by intro hcon; nlinarith [s2_sq, s3_sq, s2_pos, s3_pos, s2_lb, s2_ub, s3_lb, s3_ub, mul_pos s2_pos s3_pos]) (by intro hcon; nlinarith [s2_sq, s3_sq, s2_pos, s3_pos, s2_lb, s2_ub, s3_lb, s3_ub, mul_pos s2_pos s3_pos]) (by nlinarith [s2_sq, s3_sq, s2_pos, s3_pos, s2_lb, s2_ub, s3_lb, s3_ub, mul_pos s2_pos s3_pos])
  have hBe : (⟨((1/3) * Real.sqrt 3) * (-(0.5 * Real.sqrt 2)) - ((1/3) * Real.sqrt 3) * (0), ((1/3) * Real.sqrt 3) * (-(0.5 * Real.sqrt 2)) - (-((1/3) * Real.sqrt 3)) * (-(0.5 * Real.sqrt 2)), (-((1/3) * Real.sqrt 3)) * (0) - ((1/3) * Real.sqrt 3) * (-(0.5 * Real.sqrt 2))⟩ : Vec3) = (⟨-((1/6) * (Real.sqrt 2 * Real.sqrt 3)), -((1/3) * (Real.sqrt 2 * Real.sqrt 3)), (1/6) * (Real.sqrt 2 * Real.sqrt 3)⟩ : Vec3) := by
    simp only [Vec3.mk.injEq]
    refine ⟨?_, ?_, ?_⟩
    · ring
    · ring
    · ring
  rw [hBe] at hext
  simp only [poseFromTriangle3]
  rw [hu, hv, hc, hA, hN, hB, hBn]
  exact hext

/-- The world vertices of folded tetra face 2 are exactly its three
defining corners. -/
lemma tetraWorld2 :
    worldVerts (triangleLocal3 1.6)
        (poseFromTriangle3 ⟨0.4 * Real.sqrt 2, 0.4 * Real.sqrt 2, 0.4 * Real.sqrt 2⟩ ⟨-(0.4 * Real.sqrt 2), 0.4 * Real.sqrt 2, -(0.4 * Real.sqrt 2)⟩ ⟨-(0.4 * Real.sqrt 2), -(0.4 * Real.sqrt 2), 0.4 * Real.sqrt 2⟩) =
      [⟨0.4 * Real.sqrt 2, 0.4 * Real.sqrt 2, 0.4 * Real.sqrt 2⟩, ⟨-(0.4 * Real.sqrt 2), 0.4 * Real.sqrt 2, -(0.4 * Real.sqrt 2)⟩, ⟨-(0.4 * Real.sqrt 2), -(0.4 * Real.sqrt 2), 0.4 * Real.sqrt 2⟩] := by
  have hpos : (poseFromTriangle3 ⟨0.4 * Real.sqrt 2, 0.4 * Real.sqrt 2, 0.4 * Real.sqrt 2⟩ ⟨-(0.4 * Real.sqrt 2), 0.4 * Real.sqrt 2, -(0.4 * Real.sqrt 2)⟩ ⟨-(0.4 * Real.sqrt 2), -(0.4 * Real.sqrt 2), 0.4 * Real.sqrt 2⟩).position
      = (⟨-((2/15) * Real.sqrt 2), (2/15) * Real.sqrt 2, (2/15) * Real.sqrt 2⟩ : Vec3) := by
    simp only [poseFromTriangle3, Vec3.add, Vec3.smul, Vec3.mk.injEq]
    refine ⟨?_, ?_, ?_⟩
    · ring
    · ring
    · ring
  simp only [worldVerts, triangleLocal3, List.map_cons, List.map_nil]
  simp only [applyQuaternion_rotAction]
  rw [tetraRot2, hpos]
  simp only [Mat4.rotAction, basisMat, Vec3.add, List.cons.injEq, and_true,
    Vec3.mk.injEq]
  refine ⟨⟨?_, ?_, ?_⟩, ⟨?_, ?_, ?_⟩, ?_, ?_, ?_⟩
  · linear_combination (((2/45) : ℝ) * Real.sqrt 2) * s3_sq
  · linear_combination (((4/45) : ℝ) * Real.sqrt 2) * s3_sq
  · linear_combination (((-2/45) : ℝ) * Real.sqrt 2) * s3_sq
  · linear_combination (((2/45) : ℝ) * Real.sqrt 2) * s3_sq
  · linear_combination (((4/45) : ℝ) * Real.sqrt 2) * s3_sq
  · linear_combination (((-2/45) : ℝ) * Real.sqrt 2) * s3_sq
  · linear_combination (((-4/45) : ℝ) * Real.sqrt 2) * s3_sq
  · linear_combination (((-8/45) : ℝ) * Real.sqrt 2) * s3_sq
  · linear_combination (((4/45) : ℝ) * Real.sqrt 2) * s3_sq

/-- The rotation part of the folded pose of tetra face 3 as an explicit
basis matrix. -/
lemma tetraRot3 :
    Mat4.compose Vec3.zero
        (poseFromTriangle3 ⟨0.4 * Real.sqrt 2, -(0.4 * Real.sqrt 2), -(0.4 * Real.sqrt 2)⟩ ⟨-(0.4 * Real.sqrt 2), -(0.4 * Real.sqrt 2), 0.4 * Real.sqrt 2⟩ ⟨-(0.4 * Real.sqrt 2), 0.4 * Real.sqrt 2, -(0.4 * Real.sqrt 2)⟩).quaternion =
      basisMat ⟨-(0.5 * Real.sqrt 2), 0, 0.5 * Real.sqrt 2⟩ ⟨-((1/6) * (Real.sqrt 2 * Real.sqrt 3)), (1/3) * (Real.sqrt 2 * Real.sqrt 3), -((1/6) * (Real.sqrt 2 * Real.sqrt 3))⟩ ⟨-((1/3) * Real.sqrt 3), -((1/3) * Real.sqrt 3), -((1/3) * Real.sqrt 3)⟩ := by
  have hu : Vec3.sub ⟨-(0.4 * Real.sqrt 2), -(0.4 * Real.sqrt 2), 0.4 * Real.sqrt 2⟩ ⟨0.4 * Real.sqrt 2, -(0.4 * Real.sqrt 2), -(0.4 * Real.sqrt 2)⟩ = (⟨-(0.8 * Real.sqrt 2), 0, 0.8 * Real.sqrt 2⟩ : Vec3) := by
    simp only [Vec3.sub, Vec3.mk.injEq]
    refine ⟨?_, ?_, ?_⟩
    · ring
    · ring
    · ring
  have hv : Vec3.sub ⟨-(0.4 * Real.sqrt 2), 0.4 * Real.sqrt 2, -(0.4 * Real.sqrt 2)⟩ ⟨0.4 * Real.sqrt 2, -(0.4 * Real.sqrt 2), -(0.4 * Real.sqrt 2)⟩ = (⟨-(0.8 * Real.sqrt 2), 0.8 * Real.sqrt 2, 0⟩ : Vec3) := by
    simp only [Vec3.sub, Vec3.mk.injEq]
    refine ⟨?_, ?_, ?_⟩
    · ring
    · ring
    · ring
  have hc : Vec3.cross (⟨-(0.8 * Real.sqrt 2), 0, 0.8 * Real.sqrt 2⟩ : Vec3) (⟨-(0.8 * Real.sqrt 2), 0.8 * Real.sqrt 2, 0⟩ : Vec3) = (⟨-(1.28), -(1.28), -(1.28)⟩ : Vec3) := by
    simp only [Vec3.cross, Vec3.mk.injEq]
    refine ⟨?_, ?_, ?_⟩
    · linear_combination ((-0.64 : ℝ)) * s2_sq
    · linear_combination ((-0.64 : ℝ)) * s2_sq
    · linear_combination ((-0.64 : ℝ)) * s2_sq
  have hlU : Vec3.length (⟨-(0.8 * Real.sqrt 2), 0, 0.8 * Real.sqrt 2⟩ : Vec3) = 1.6 := by
    simp only [Vec3.length]
    rw [show (-(0.8 * Real.sqrt 2)) * (-(0.8 * Real.sqrt 2)) + (0) * (0) + (0.8 * Real.sqrt 2) * (0.8 * Real.sqrt 2) = 2.56 from by linear_combination ((1.28 : ℝ)) * s2_sq]
    rw [show (2.56 : ℝ) = 1.6 ^ 2 by norm_num, Real.sqrt_sq (by norm_num : (0:ℝ) ≤ 1.6)]
  have hA : Vec3.normalize (⟨-(0.8 * Real.sqrt 2), 0, 0.8 * Real.sqrt 2⟩ : Vec3) = (⟨-(0.5 * Real.sqrt 2), 0, 0.5 * Real.sqrt 2⟩ : Vec3) := by
    simp only [Vec3.normalize]
    rw [hlU]
    rw [if_neg (by norm_num : ¬ (1.6 : ℝ) = 0)]
    simp only [Vec3.smul, Vec3.mk.injEq]
    refine ⟨by ring, by ring, by ring⟩
  have hlC : Vec3.length (⟨-(1.28), -(1.28), -(1.28)⟩ : Vec3) = 1.28 * Real.sqrt 3 := by
    simp only [Vec3.length]
    rw [show (-(1.28)) * (-(1.28)) + (-(1.28)) * (-(1.28)) + (-(1.28)) * (-(1.28)) = (4.9152 : ℝ) from by norm_num]
    rw [show (4.9152 : ℝ) = 1.28 ^ 2 * 3 by norm_num,
      Real.sqrt_mul (by norm_num : (0:ℝ) ≤ 1.28 ^ 2) 3,
      Real.sqrt_sq (by norm_num : (0:ℝ) ≤ 1.28)]
  have hN : Vec3.normalize (⟨-(1.28), -(1.28), -(1.28)⟩ : Vec3) = (⟨-((1/3) * Real.sqrt 3), -((1/3) * Real.sqrt 3), -((1/3) * Real.sqrt 3)⟩ : Vec3) := by
    simp only [Vec3.normalize]
    rw [hlC]
    rw [if_neg (by positivity : ¬ (1.28 * Real.sqrt 3 : ℝ) = 0)]
    rw [show (1 : ℝ) / (1.28 * Real.sqrt 3) = (25/96) * Real.sqrt 3 from by
      rw [div_eq_iff (by positivity : (1.28 * Real.sqrt 3 : ℝ) ≠ 0)]
      linear_combination ((-1/3 : ℝ)) * s3_sq]
    simp only [Vec3.smul, Vec3.mk.injEq]
    refine ⟨?_, ?_, ?_⟩
    · ring
    · ring
    · ring
  have hB : Vec3.cross (⟨-((1/3) * Real.sqrt 3), -((1/3) * Real.sqrt 3), -((1/3) * Real.sqrt 3)⟩ : Vec3) (⟨-(0.5 * Real.sqrt 2), 0, 0.5 * Real.sqrt 2⟩ : Vec3) = (⟨-((1/6) * (Real.sqrt 2 * Real.sqrt 3)), (1/3) * (Real.sqrt 2 * Real.sqrt 3), -((1/6) * (Real.sqrt 2 * Real.sqrt 3))⟩ : Vec3) := by
    simp only [Vec3.cross, Vec3.mk.injEq]
    refine ⟨?_, ?_, ?_⟩
    · ring
    · ring
    · ring
  have hlB : Vec3.length (⟨-((1/6) * (Real.sqrt 2 * Real.sqrt 3)), (1/3) * (Real.sqrt 2 * Real.sqrt 3), -((1/6) * (Real.sqrt 2 * Real.sqrt 3))⟩ : Vec3) = 1 := by
    simp only [Vec3.length]
    rw [show (-((1/6) * (Real.sqrt 2 * Real.sqrt 3))) * (-((1/6) * (Real.sqrt 2 * Real.sqrt 3))) + ((1/3) * (Real.sqrt 2 * Real.sqrt 3)) * ((1/3) * (Real.sqrt 2 * Real.sqrt 3)) + (-((1/6) * (Real.sqrt 2 * Real.sqrt 3))) * (-((1/6) * (Real.sqrt 2 * Real.sqrt 3))) = 1 from by linear_combination (((1/6) : ℝ) * Real.sqrt 3 * Real.sqrt 3) * s2_sq + (((1/3) : ℝ)) * s3_sq]
    exact Real.sqrt_one
  have hBn : Vec3.normalize (⟨-((1/6) * (Real.sqrt 2 * Real.sqrt 3)), (1/3) * (Real.sqrt 2 * Real.sqrt 3), -((1/6) * (Real.sqrt 2 * Real.sqrt 3))⟩ : Vec3) = (⟨-((1/6) * (Real.sqrt 2 * Real.sqrt 3)), (1/3) * (Real.sqrt 2 * Real.sqrt 3), -((1/6) * (Real.sqrt 2 * Real.sqrt 3))⟩ : Vec3) := by
    simp only [Vec3.normalize]
    rw [hlB]
    rw [if_neg (by norm_num : ¬ (1 : ℝ) = 0)]
    simp only [Vec3.smul, one_div, inv_one, one_mul]
  have hext := compose_extract_y (-(0.5 * Real.sqrt 2)) (0) (0.5 * Real.sqrt 2) (-((1/3) * Real.sqrt 3)) (-((1/3) * Real.sqrt 3)) (-((1/3) * Real.sqrt 3))
    (by linear_combination ((0.5 : ℝ)) * s2_sq) (by linear_combination (((1/3) : ℝ)) * s3_sq) (by ring)
    (by intro hcon; nlinarith [s2_sq, s3_sq, s2_pos, s3_pos, s2_lb, s2_ub, s3_lb, s3_ub, mul_pos s2_pos s3_pos]) (by intro hcon; nlinarith [s2_sq, s3_sq, s2_pos, s3_pos, s2_lb, s2_ub, s3_lb, s3_ub, mul_pos s2_pos s3_pos]) (by nlinarith [s2_sq, s3_sq, s2_pos, s3_pos, s2_lb, s2_ub, s3_lb, s3_ub, mul_pos s2_pos s3_pos]) (by nlinarith [s2_sq, s3_sq, s2_pos, s3_pos, s2_lb, s2_ub, s3_lb, s3_ub, mul_pos s2_pos s3_pos])
  have hBe : (⟨(-((1/3) * Real.sqrt 3)) * (0.5 * Real.sqrt 2) - (-((1/3) * Real.sqrt 3)) * (0), (-((1/3) * Real.sqrt 3)) * (-(0.5 * Real.sqrt 2)) - (-((1/3) * Real.sqrt 3)) * (0.5 * Real.sqrt 2), (-((1/3) * Real.sqrt 3)) * (0) - (-((1/3) * Real.sqrt 3)) * (-(0.5 * Real.sqrt 2))⟩ : Vec3) = (⟨-((1/6) * (Real.sqrt 2 * Real.sqrt 3)), (1/3) * (Real.sqrt 2 * Real.sqrt 3), -((1/6) * (Real.sqrt 2 * Real.sqrt 3))⟩ : Vec3) := by
    simp only [Vec3.mk.injEq]
    refine ⟨?_, ?_, ?_⟩
    · ring
    · ring
    · ring
  rw [hBe] at hext
  simp only [poseFromTriangle3]
  rw [hu, hv, hc, hA, hN, hB, hBn]
  exact hext

/-- The world vertices of folded tetra face 3 are exactly its three
defining corners. -/
lemma tetraWorld3 :
    worldVerts (triangleLocal3 1.6)
        (poseFromTriangle3 ⟨0.4 * Real.sqrt 2, -(0.4 * Real.sqrt 2), -(0.4 * Real.sqrt 2)⟩ ⟨-(0.4 * Real.sqrt 2), -(0.4 * Real.sqrt 2), 0.4 * Real.sqrt 2⟩ ⟨-(0.4 * Real.sqrt 2), 0.4 * Real.sqrt 2, -(0.4 * Real.sqrt 2)⟩) =
      [⟨0.4 * Real.sqrt 2, -(0.4 * Real.sqrt 2), -(0.4 * Real.sqrt 2)⟩, ⟨-(0.4 * Real.sqrt 2), -(0.4 * Real.sqrt 2), 0.4 * Real.sqrt 2⟩, ⟨-(0.4 * Real.sqrt 2), 0.4 * Real.sqrt 2, -(0.4 * Real.sqrt 2)⟩] := by
  have hpos : (poseFromTriangle3 ⟨0.4 * Real.sqrt 2, -(0.4 * Real.sqrt 2), -(0.4 * Real.sqrt 2)⟩ ⟨-(0.4 * Real.sqrt 2), -(0.4 * Real.sqrt 2), 0.4 * Real.sqrt 2⟩ ⟨-(0.4 * Real.sqrt 2), 0.4 * Real.sqrt 2, -(0.4 * Real.sqrt 2)⟩).position
      = (⟨-((2/15) * Real.sqrt 2), -((2/15) * Real.sqrt 2), -((2/15) * Real.sqrt 2)⟩ : Vec3) := by
    simp only [poseFromTriangle3, Vec3.add, Vec3.smul, Vec3.mk.injEq]
    refine ⟨?_, ?_, ?_⟩
    · ring
    · ring
    · ring
  simp only [worldVerts, triangleLocal3, List.map_cons, List.map_nil]
  simp only [applyQuaternion_rotAction]
  rw [tetraRot3, hpos]
  simp only [Mat4.rotAction, basisMat, Vec3.add, List.cons.injEq, and_true,
    Vec3.mk.injEq]
  refine ⟨⟨?_, ?_, ?_⟩, ⟨?_, ?_, ?_⟩, ?_, ?_, ?_⟩
  · linear_combination (((2/45) : ℝ) * Real.sqrt 2) * s3_sq
  · linear_combination (((-4/45) : ℝ) * Real.sqrt 2) * s3_sq
  · linear_combination (((2/45) : ℝ) * Real.sqrt 2) * s3_sq
  · linear_combination (((2/45) : ℝ) * Real.sqrt 2) * s3_sq
  · linear_combination (((-4/45) : ℝ) * Real.sqrt 2) * s3_sq
  · linear_combination (((2/45) : ℝ) * Real.sqrt 2) * s3_sq
  · linear_combination (((-4/45) : ℝ) * Real.sqrt 2) * s3_sq
  · linear_combination (((8/45) : ℝ) * Real.sqrt 2) * s3_sq
  · linear_combination (((-4/45) : ℝ) * Real.sqrt 2) * s3_sq

-- FACE_LEMMAS_END

/-! Literal-index `getD` evaluations used to run the folds on concrete
lists. -/

lemma getD3_0 {α : Type} (a b c d : α) : [a, b, c].getD 0 d = a := rfl

lemma getD3_1 {α : Type} (a b c d : α) : [a, b, c].getD 1 d = b := rfl

lemma getD3_2 {α : Type} (a b c d : α) : [a, b, c].getD 2 d = c := rfl

lemma getD4_0 {α : Type} (a b c d e : α) : [a, b, c, d].getD 0 e = a := rfl

lemma getD4_1 {α : Type} (a b c d e : α) : [a, b, c, d].getD 1 e = b := rfl

lemma getD4_2 {α : Type} (a b c d e : α) : [a, b, c, d].getD 2 e = c := rfl

lemma getD4_3 {α : Type} (a b c d e : α) : [a, b, c, d].getD 3 e = d := rfl

/-- `makeTetraFolded` at the app edge `1.6`: all four faces keep their listed
orientation (each `orientFaceOutward` test is positive). -/
lemma tetraFolded_eq :
    makeTetraFolded 1.6 =
      [poseFromTriangle3 ⟨0.4 * Real.sqrt 2, 0.4 * Real.sqrt 2, 0.4 * Real.sqrt 2⟩
         ⟨0.4 * Real.sqrt 2, -(0.4 * Real.sqrt 2), -(0.4 * Real.sqrt 2)⟩
         ⟨-(0.4 * Real.sqrt 2), 0.4 * Real.sqrt 2, -(0.4 * Real.sqrt 2)⟩,
       poseFromTriangle3 ⟨0.4 * Real.sqrt 2, 0.4 * Real.sqrt 2, 0.4 * Real.sqrt 2⟩
         ⟨-(0.4 * Real.sqrt 2), -(0.4 * Real.sqrt 2), 0.4 * Real.sqrt 2⟩
         ⟨0.4 * Real.sqrt 2, -(0.4 * Real.sqrt 2), -(0.4 * Real.sqrt 2)⟩,
       poseFromTriangle3 ⟨0.4 * Real.sqrt 2, 0.4 * Real.sqrt 2, 0.4 * Real.sqrt 2⟩
         ⟨-(0.4 * Real.sqrt 2), 0.4 * Real.sqrt 2, -(0.4 * Real.sqrt 2)⟩
         ⟨-(0.4 * Real.sqrt 2), -(0.4 * Real.sqrt 2), 0.4 * Real.sqrt 2⟩,
       poseFromTriangle3 ⟨0.4 * Real.sqrt 2, -(0.4 * Real.sqrt 2), -(0.4 * Real.sqrt 2)⟩
         ⟨-(0.4 * Real.sqrt 2), -(0.4 * Real.sqrt 2), 0.4 * Real.sqrt 2⟩
         ⟨-(0.4 * Real.sqrt 2), 0.4 * Real.sqrt 2, -(0.4 * Real.sqrt 2)⟩] := by
  have hs : (1.6 : ℝ) / (2 * Real.sqrt 2) = 0.4 * Real.sqrt 2 := by
    rw [div_eq_iff (by positivity : (2 * Real.sqrt 2 : ℝ) ≠ 0)]
    linear_combination (-0.8 : ℝ) * s2_sq
  have ho0 : orientFaceOutward
      [⟨0.4 * Real.sqrt 2, 0.4 * Real.sqrt 2, 0.4 * Real.sqrt 2⟩,
       ⟨0.4 * Real.sqrt 2, -(0.4 * Real.sqrt 2), -(0.4 * Real.sqrt 2)⟩,
       ⟨-(0.4 * Real.sqrt 2), 0.4 * Real.sqrt 2, -(0.4 * Real.sqrt 2)⟩,
       ⟨-(0.4 * Real.sqrt 2), -(0.4 * Real.sqrt 2), 0.4 * Real.sqrt 2⟩] (0, 1, 2)
      = (0, 1, 2) := by
    simp only [orientFaceOutward, getD4_0, getD4_1, getD4_2, getD4_3,
      Vec3.sub, Vec3.cross, Vec3.add, Vec3.smul, Vec3.dot]
    rw [if_neg (by intro hcon; nlinarith [s2_sq, s2_pos, mul_pos s2_pos s2_pos])]
  have ho1 : orientFaceOutward
      [⟨0.4 * Real.sqrt 2, 0.4 * Real.sqrt 2, 0.4 * Real.sqrt 2⟩,
       ⟨0.4 * Real.sqrt 2, -(0.4 * Real.sqrt 2), -(0.4 * Real.sqrt 2)⟩,
       ⟨-(0.4 * Real.sqrt 2), 0.4 * Real.sqrt 2, -(0.4 * Real.sqrt 2)⟩,
       ⟨-(0.4 * Real.sqrt 2), -(0.4 * Real.sqrt 2), 0.4 * Real.sqrt 2⟩] (0, 3, 1)
      = (0, 3, 1) := by
    simp only [orientFaceOutward, getD4_0, getD4_1, getD4_2, getD4_3,
      Vec3.sub, Vec3.cross, Vec3.add, Vec3.smul, Vec3.dot]
    rw [if_neg (by intro hcon; nlinarith [s2_sq, s2_pos, mul_pos s2_pos s2_pos])]
  have ho2 : orientFaceOutward
      [⟨0.4 * Real.sqrt 2, 0.4 * Real.sqrt 2, 0.4 * Real.sqrt 2⟩,
       ⟨0.4 * Real.sqrt 2, -(0.4 * Real.sqrt 2), -(0.4 * Real.sqrt 2)⟩,
       ⟨-(0.4 * Real.sqrt 2), 0.4 * Real.sqrt 2, -(0.4 * Real.sqrt 2)⟩,
       ⟨-(0.4 * Real.sqrt 2), -(0.4 * Real.sqrt 2), 0.4 * Real.sqrt 2⟩] (0, 2, 3)
      = (0, 2, 3) := by
    simp only [orientFaceOutward, getD4_0, getD4_1, getD4_2, getD4_3,
      Vec3.sub, Vec3.cross, Vec3.add, Vec3.smul, Vec3.dot]
    rw [if_neg (by intro hcon; nlinarith [s2_sq, s2_pos, mul_pos s2_pos s2_pos])]
  have ho3 : orientFaceOutward
      [⟨0.4 * Real.sqrt 2, 0.4 * Real.sqrt 2, 0.4 * Real.sqrt 2⟩,
       ⟨0.4 * Real.sqrt 2, -(0.4 * Real.sqrt 2), -(0.4 * Real.sqrt 2)⟩,
       ⟨-(0.4 * Real.sqrt 2), 0.4 * Real.sqrt 2, -(0.4 * Real.sqrt 2)⟩,
       ⟨-(0.4 * Real.sqrt 2), -(0.4 * Real.sqrt 2), 0.4 * Real.sqrt 2⟩] (1, 3, 2)
      = (1, 3, 2) := by
    simp only [orientFaceOutward, getD4_0, getD4_1, getD4_2, getD4_3,
      Vec3.sub, Vec3.cross, Vec3.add, Vec3.smul, Vec3.dot]
    rw [if_neg (by intro hcon; nlinarith [s2_sq, s2_pos, mul_pos s2_pos s2_pos])]
  simp only [makeTetraFolded, hs, Vec3.smul, mul_one, mul_neg_one,
    List.map_cons, List.map_nil]
  rw [ho0, ho1, ho2, ho3]
  simp only [getD4_0, getD4_1, getD4_2, getD4_3]

/-- Quantisation of the folded tetra coordinate `0.4·√2` (≈ `0.5657`). -/
lemma round_s2p : round (0.4 * Real.sqrt 2 * 10000) = 5657 := by
  refine round_eq_of_bounds _ 5657 ?_ ?_
  · push_cast
    nlinarith [s2_lb]
  · push_cast
    nlinarith [s2_ub]

lemma round_s2n : round (-(0.4 * Real.sqrt 2) * 10000) = -5657 := by
  refine round_eq_of_bounds _ (-5657) ?_ ?_
  · push_cast
    nlinarith [s2_ub]
  · push_cast
    nlinarith [s2_lb]

/-- Pinning down `atan2` at a point given in polar form. -/
lemma atan2_eval (y x r θ : ℝ) (hr : 0 < r)
    (hθ : θ ∈ Set.Ioc (-Real.pi) Real.pi)
    (hx : x = r * Real.cos θ) (hy : y = r * Real.sin θ) : atan2 y x = θ := by
  unfold atan2
  rw [show (⟨x, y⟩ : ℂ) = (r : ℂ) * (Complex.cos ↑θ + Complex.sin ↑θ * Complex.I) from by
    apply Complex.ext <;>
      simp [Complex.mul_re, Complex.mul_im, Complex.add_re, Complex.add_im,
        Complex.I_re, Complex.I_im, Complex.ofReal_re, Complex.ofReal_im,
        Complex.cos_ofReal_re, Complex.cos_ofReal_im,
        Complex.sin_ofReal_re, Complex.sin_ofReal_im, hx, hy]]
  exact Complex.arg_mul_cos_add_sin_mul_I hr hθ

lemma cos_2pi3 : Real.cos (2 * Real.pi / 3) = -(1 / 2) := by
  rw [show (2 * Real.pi / 3 : ℝ) = Real.pi - Real.pi / 3 by ring, Real.cos_pi_sub,
    Real.cos_pi_div_three]

lemma sin_2pi3 : Real.sin (2 * Real.pi / 3) = Real.sqrt 3 / 2 := by
  rw [show (2 * Real.pi / 3 : ℝ) = Real.pi - Real.pi / 3 by ring, Real.sin_pi_sub,
    Real.sin_pi_div_three]

lemma cos_5pi3 : Real.cos (5 * Real.pi / 3) = 1 / 2 := by
  rw [show (5 * Real.pi / 3 : ℝ) = -(Real.pi / 3) + 2 * Real.pi by ring,
    Real.cos_add_two_pi, Real.cos_neg, Real.cos_pi_div_three]

lemma sin_5pi3 : Real.sin (5 * Real.pi / 3) = -(Real.sqrt 3 / 2) := by
  rw [show (5 * Real.pi / 3 : ℝ) = -(Real.pi / 3) + 2 * Real.pi by ring,
    Real.sin_add_two_pi, Real.sin_neg, Real.sin_pi_div_three]

lemma cos_4pi3 : Real.cos (4 * Real.pi / 3) = -(1 / 2) := by
  rw [show (4 * Real.pi / 3 : ℝ) = -(2 * Real.pi / 3) + 2 * Real.pi by ring,
    Real.cos_add_two_pi, Real.cos_neg, cos_2pi3]

lemma sin_4pi3 : Real.sin (4 * Real.pi / 3) = -(Real.sqrt 3 / 2) := by
  rw [show (4 * Real.pi / 3 : ℝ) = -(2 * Real.pi / 3) + 2 * Real.pi by ring,
    Real.sin_add_two_pi, Real.sin_neg, sin_2pi3]

/-- The 2-D triangle shape at edge `1.6` with explicit coordinates
(`h = 0.8·√3`). -/
lemma tri2_eq :
    triangleLocal2 1.6 =
      [⟨-0.8, -((4/15) * Real.sqrt 3)⟩, ⟨0.8, -((4/15) * Real.sqrt 3)⟩,
       ⟨0, (8/15) * Real.sqrt 3⟩] := by
  simp only [triangleLocal2, List.cons.injEq, Vec2.mk.injEq, and_true]
  refine ⟨⟨by norm_num, by ring⟩, ⟨by norm_num, by ring⟩, by norm_num, by ring⟩

/-- `qFromEuler 0 0 (5π/3)`: the stored quaternion of net face 1. -/
lemma qE53 : qFromEuler 0 0 (5 * Real.pi / 3) = ⟨0, 0, 1 / 2, -(Real.sqrt 3 / 2)⟩ := by
  unfold qFromEuler Quat.setFromEuler
  rw [show (5 * Real.pi / 3 : ℝ) / 2 = Real.pi - Real.pi / 6 by ring]
  simp only [Real.sin_pi_sub, Real.cos_pi_sub, Real.sin_pi_div_six,
    Real.cos_pi_div_six, Real.cos_zero, Real.sin_zero, ne_eq, Quat.mk.injEq]
  norm_num

/-- `qFromEuler 0 0 (π/3)`: the stored quaternion of net faces 2 and 3. -/
lemma qE13 : qFromEuler 0 0 (Real.pi / 3) = ⟨0, 0, 1 / 2, Real.sqrt 3 / 2⟩ := by
  unfold qFromEuler Quat.setFromEuler
  rw [show (Real.pi / 3 : ℝ) / 2 = Real.pi / 6 by ring]
  simp only [Real.sin_pi_div_six, Real.cos_pi_div_six, Real.cos_zero,
    Real.sin_zero, ne_eq, Quat.mk.injEq]
  norm_num

/-- The edge map of the folded tetrahedron at edge `1.6` (keys quantised to
`±5657`), in JS-`Map` insertion order. -/
lemma tetraFoldMap :
    buildEdgeMap (makeTetraFolded 1.6) .triangle 1.6 =
      [(((5657, -5657, -5657), (5657, 5657, 5657)), [⟨0, 0⟩, ⟨1, 2⟩]),
       (((-5657, 5657, -5657), (5657, -5657, -5657)), [⟨0, 1⟩, ⟨3, 2⟩]),
       (((-5657, 5657, -5657), (5657, 5657, 5657)), [⟨0, 2⟩, ⟨2, 0⟩]),
       (((-5657, -5657, 5657), (5657, 5657, 5657)), [⟨1, 0⟩, ⟨2, 2⟩]),
       (((-5657, -5657, 5657), (5657, -5657, -5657)), [⟨1, 1⟩, ⟨3, 0⟩]),
       (((-5657, -5657, 5657), (-5657, 5657, -5657)), [⟨2, 1⟩, ⟨3, 1⟩])] := by
  have he : ∀ (a b c d : FacePose),
      List.enum [a, b, c, d] = [(0, a), (1, b), (2, c), (3, d)] :=
    fun _ _ _ _ => rfl
  have hr3 : List.range 3 = [0, 1, 2] := rfl
  have hl3 : (triangleLocal3 1.6).length = 3 := rfl
  have hk1 : (0 + 1) % 3 = 1 := rfl
  have hk2 : (1 + 1) % 3 = 2 := rfl
  have hk3 : (2 + 1) % 3 = 0 := rfl
  rw [tetraFolded_eq]
  unfold buildEdgeMap
  simp only [localVerts3, he, hr3, hl3, List.foldl_cons, List.foldl_nil,
    tetraWorld0, tetraWorld1, tetraWorld2, tetraWorld3, hk1, hk2, hk3,
    getD3_0, getD3_1, getD3_2, quantKey3, round_s2p, round_s2n]
  rfl

/-- `netAdjEdges` of the folded tetrahedron: the six edges of the
tetrahedron, in discovery order. -/
lemma tetraFoldAdj :
    netAdjEdges (makeTetraFolded 1.6) .triangle 1.6 =
      [⟨0, 1, 0, 2⟩, ⟨0, 3, 1, 2⟩, ⟨0, 2, 2, 0⟩,
       ⟨1, 2, 0, 2⟩, ⟨1, 3, 1, 0⟩, ⟨2, 3, 1, 1⟩] := by
  unfold netAdjEdges
  rw [tetraFoldMap]
  rfl

lemma solveT1a :
    solveAttach ⟨0, (8/15) * Real.sqrt 3⟩ ⟨-0.8, -((4/15) * Real.sqrt 3)⟩ ⟨-0.8, -((4/15) * Real.sqrt 3)⟩ ⟨0.8, -((4/15) * Real.sqrt 3)⟩ =
      ⟨⟨0, 0⟩, 2 * Real.pi / 3⟩ := by
  simp only [solveAttach]
  rw [atan2_eval (-((4/15) * Real.sqrt 3) - -((4/15) * Real.sqrt 3)) (0.8 - -0.8) 1.6 (0) (by norm_num) (by constructor <;> nlinarith [Real.pi_pos])
      (by rw [Real.cos_zero]; ring)
      (by rw [Real.sin_zero]; ring)]
  rw [atan2_eval (-((4/15) * Real.sqrt 3) - (8/15) * Real.sqrt 3) (-0.8 - 0) 1.6 (-(2 * Real.pi / 3)) (by norm_num) (by constructor <;> nlinarith [Real.pi_pos])
      (by rw [Real.cos_neg, cos_2pi3]; ring)
      (by rw [Real.sin_neg, sin_2pi3]; ring)]
  rw [show (0) - (-(2 * Real.pi / 3)) = 2 * Real.pi / 3 by ring]
  rw [cos_2pi3, sin_2pi3]
  simp only [Pose2.mk.injEq, Vec2.mk.injEq]
  refine ⟨⟨?_, ?_⟩, trivial⟩
  · linear_combination (((4/15) : ℝ)) * s3_sq
  · ring

lemma solveT1b :
    solveAttach ⟨0, (8/15) * Real.sqrt 3⟩ ⟨-0.8, -((4/15) * Real.sqrt 3)⟩ ⟨0.8, -((4/15) * Real.sqrt 3)⟩ ⟨-0.8, -((4/15) * Real.sqrt 3)⟩ =
      ⟨⟨0, -((8/15) * Real.sqrt 3)⟩, 5 * Real.pi / 3⟩ := by
  simp only [solveAttach]
  rw [atan2_eval (-((4/15) * Real.sqrt 3) - -((4/15) * Real.sqrt 3)) (-0.8 - 0.8) 1.6 (Real.pi) (by norm_num) (by constructor <;> nlinarith [Real.pi_pos])
      (by rw [Real.cos_pi]; ring)
      (by rw [Real.sin_pi]; ring)]
  rw [atan2_eval (-((4/15) * Real.sqrt 3) - (8/15) * Real.sqrt 3) (-0.8 - 0) 1.6 (-(2 * Real.pi / 3)) (by norm_num) (by constructor <;> nlinarith [Real.pi_pos])
      (by rw [Real.cos_neg, cos_2pi3]; ring)
      (by rw [Real.sin_neg, sin_2pi3]; ring)]
  rw [show (Real.pi) - (-(2 * Real.pi / 3)) = 5 * Real.pi / 3 by ring]
  rw [cos_5pi3, sin_5pi3]
  simp only [Pose2.mk.injEq, Vec2.mk.injEq]
  refine ⟨⟨?_, ?_⟩, trivial⟩
  · linear_combination (((-4/15) : ℝ)) * s3_sq
  · ring

lemma solveT3a :
    solveAttach ⟨0, (8/15) * Real.sqrt 3⟩ ⟨-0.8, -((4/15) * Real.sqrt 3)⟩ ⟨0.8, -((4/15) * Real.sqrt 3)⟩ ⟨0, (8/15) * Real.sqrt 3⟩ =
      ⟨⟨0, 0⟩, 4 * Real.pi / 3⟩ := by
  simp only [solveAttach]
  rw [atan2_eval ((8/15) * Real.sqrt 3 - -((4/15) * Real.sqrt 3)) (0 - 0.8) 1.6 (2 * Real.pi / 3) (by norm_num) (by constructor <;> nlinarith [Real.pi_pos])
      (by rw [cos_2pi3]; ring)
      (by rw [sin_2pi3]; ring)]
  rw [atan2_eval (-((4/15) * Real.sqrt 3) - (8/15) * Real.sqrt 3) (-0.8 - 0) 1.6 (-(2 * Real.pi / 3)) (by norm_num) (by constructor <;> nlinarith [Real.pi_pos])
      (by rw [Real.cos_neg, cos_2pi3]; ring)
      (by rw [Real.sin_neg, sin_2pi3]; ring)]
  rw [show (2 * Real.pi / 3) - (-(2 * Real.pi / 3)) = 4 * Real.pi / 3 by ring]
  rw [cos_4pi3, sin_4pi3]
  simp only [Pose2.mk.injEq, Vec2.mk.injEq]
  refine ⟨⟨?_, ?_⟩, trivial⟩
  · linear_combination (((-4/15) : ℝ)) * s3_sq
  · ring

lemma solveT3b :
    solveAttach ⟨0, (8/15) * Real.sqrt 3⟩ ⟨-0.8, -((4/15) * Real.sqrt 3)⟩ ⟨0, (8/15) * Real.sqrt 3⟩ ⟨0.8, -((4/15) * Real.sqrt 3)⟩ =
      ⟨⟨0.8, (4/15) * Real.sqrt 3⟩, Real.pi / 3⟩ := by
  simp only [solveAttach]
  rw [atan2_eval (-((4/15) * Real.sqrt 3) - (8/15) * Real.sqrt 3) (0.8 - 0) 1.6 (-(Real.pi / 3)) (by norm_num) (by constructor <;> nlinarith [Real.pi_pos])
      (by rw [Real.cos_neg, Real.cos_pi_div_three]; ring)
      (by rw [Real.sin_neg, Real.sin_pi_div_three]; ring)]
  rw [atan2_eval (-((4/15) * Real.sqrt 3) - (8/15) * Real.sqrt 3) (-0.8 - 0) 1.6 (-(2 * Real.pi / 3)) (by norm_num) (by constructor <;> nlinarith [Real.pi_pos])
      (by rw [Real.cos_neg, cos_2pi3]; ring)
      (by rw [Real.sin_neg, sin_2pi3]; ring)]
  rw [show (-(Real.pi / 3)) - (-(2 * Real.pi / 3)) = Real.pi / 3 by ring]
  rw [Real.cos_pi_div_three, Real.sin_pi_div_three]
  simp only [Pose2.mk.injEq, Vec2.mk.injEq]
  refine ⟨⟨?_, ?_⟩, trivial⟩
  · linear_combination (((4/15) : ℝ)) * s3_sq
  · ring

lemma solveT2a :
    solveAttach ⟨-0.8, -((4/15) * Real.sqrt 3)⟩ ⟨0.8, -((4/15) * Real.sqrt 3)⟩ ⟨0, (8/15) * Real.sqrt 3⟩ ⟨-0.8, -((4/15) * Real.sqrt 3)⟩ =
      ⟨⟨0, 0⟩, -(2 * Real.pi / 3)⟩ := by
  simp only [solveAttach]
  rw [atan2_eval (-((4/15) * Real.sqrt 3) - (8/15) * Real.sqrt 3) (-0.8 - 0) 1.6 (-(2 * Real.pi / 3)) (by norm_num) (by constructor <;> nlinarith [Real.pi_pos])
      (by rw [Real.cos_neg, cos_2pi3]; ring)
      (by rw [Real.sin_neg, sin_2pi3]; ring)]
  rw [atan2_eval (-((4/15) * Real.sqrt 3) - -((4/15) * Real.sqrt 3)) (0.8 - -0.8) 1.6 (0) (by norm_num) (by constructor <;> nlinarith [Real.pi_pos])
      (by rw [Real.cos_zero]; ring)
      (by rw [Real.sin_zero]; ring)]
  rw [show (-(2 * Real.pi / 3)) - (0) = -(2 * Real.pi / 3) by ring]
  rw [Real.cos_neg, cos_2pi3, Real.sin_neg, sin_2pi3]
  simp only [Pose2.mk.injEq, Vec2.mk.injEq]
  refine ⟨⟨?_, ?_⟩, trivial⟩
  · linear_combination (((2/15) : ℝ)) * s3_sq
  · ring

lemma solveT2b :
    solveAttach ⟨-0.8, -((4/15) * Real.sqrt 3)⟩ ⟨0.8, -((4/15) * Real.sqrt 3)⟩ ⟨-0.8, -((4/15) * Real.sqrt 3)⟩ ⟨0, (8/15) * Real.sqrt 3⟩ =
      ⟨⟨-0.8, (4/15) * Real.sqrt 3⟩, Real.pi / 3⟩ := by
  simp only [solveAttach]
  rw [atan2_eval ((8/15) * Real.sqrt 3 - -((4/15) * Real.sqrt 3)) (0 - -0.8) 1.6 (Real.pi / 3) (by norm_num) (by constructor <;> nlinarith [Real.pi_pos])
      (by rw [Real.cos_pi_div_three]; ring)
      (by rw [Real.sin_pi_div_three]; ring)]
  rw [atan2_eval (-((4/15) * Real.sqrt 3) - -((4/15) * Real.sqrt 3)) (0.8 - -0.8) 1.6 (0) (by norm_num) (by constructor <;> nlinarith [Real.pi_pos])
      (by rw [Real.cos_zero]; ring)
      (by rw [Real.sin_zero]; ring)]
  rw [show (Real.pi / 3) - (0) = Real.pi / 3 by ring]
  rw [Real.cos_pi_div_three, Real.sin_pi_div_three]
  simp only [Pose2.mk.injEq, Vec2.mk.injEq]
  refine ⟨⟨?_, ?_⟩, trivial⟩
  · linear_combination (((-2/15) : ℝ)) * s3_sq
  · ring

lemma tetraTw1 :
    applyPose2 ⟨⟨0, 0⟩, 2 * Real.pi / 3⟩ ⟨0.8, -((4/15) * Real.sqrt 3)⟩ = (⟨0, (8/15) * Real.sqrt 3⟩ : Vec2) := by
  simp only [applyPose2]
  rw [cos_2pi3, sin_2pi3]
  simp only [Vec2.mk.injEq]
  refine ⟨?_, ?_⟩
  · linear_combination (((2/15) : ℝ)) * s3_sq
  · ring

lemma tetraTw3 :
    applyPose2 ⟨⟨0, 0⟩, 4 * Real.pi / 3⟩ ⟨0.8, -((4/15) * Real.sqrt 3)⟩ = (⟨-0.8, -((4/15) * Real.sqrt 3)⟩ : Vec2) := by
  simp only [applyPose2]
  rw [cos_4pi3, sin_4pi3]
  simp only [Vec2.mk.injEq]
  refine ⟨?_, ?_⟩
  · linear_combination (((-2/15) : ℝ)) * s3_sq
  · ring

lemma tetraTw2 :
    applyPose2 ⟨⟨0, 0⟩, -(2 * Real.pi / 3)⟩ ⟨0, (8/15) * Real.sqrt 3⟩ = (⟨0.8, -((4/15) * Real.sqrt 3)⟩ : Vec2) := by
  simp only [applyPose2]
  rw [Real.cos_neg, cos_2pi3, Real.sin_neg, sin_2pi3]
  simp only [Vec2.mk.injEq]
  refine ⟨?_, ?_⟩
  · linear_combination (((4/15) : ℝ)) * s3_sq
  · ring

lemma tetraAttach1 :
    attachTriangleAlongEdge ⟨⟨0, 0⟩, 0⟩ 0 2 (triangleLocal2 1.6) = (⟨⟨0, -((8/15) * Real.sqrt 3)⟩, 5 * Real.pi / 3⟩ : Pose2) := by
  have hmapid : List.map (applyPose2 ⟨⟨0, 0⟩, 0⟩)
      [⟨-0.8, -((4/15) * Real.sqrt 3)⟩, ⟨0.8, -((4/15) * Real.sqrt 3)⟩, ⟨0, (8/15) * Real.sqrt 3⟩] =
      [⟨-0.8, -((4/15) * Real.sqrt 3)⟩, ⟨0.8, -((4/15) * Real.sqrt 3)⟩, ⟨0, (8/15) * Real.sqrt 3⟩] := by
    simp [applyPose2_id_zero]
  rw [tri2_eq]
  simp only [attachTriangleAlongEdge, hmapid, edgeDef, getD3_0, getD3_1, getD3_2]
  rw [solveT1a, solveT1b, tetraTw1]
  rw [if_neg (show ¬ cross2 (⟨0.8 - -0.8, -((4/15) * Real.sqrt 3) - -((4/15) * Real.sqrt 3)⟩ : Vec2) (⟨0 - -0.8, (8/15) * Real.sqrt 3 - -((4/15) * Real.sqrt 3)⟩ : Vec2) = 0 from by
    simp only [cross2]
    intro hcon
    nlinarith [s3_pos, s3_sq])]
  rw [if_neg (not_lt.2 (mul_self_nonneg _))]

lemma tetraAttach3 :
    attachTriangleAlongEdge ⟨⟨0, 0⟩, 0⟩ 1 2 (triangleLocal2 1.6) = (⟨⟨0.8, (4/15) * Real.sqrt 3⟩, Real.pi / 3⟩ : Pose2) := by
  have hmapid : List.map (applyPose2 ⟨⟨0, 0⟩, 0⟩)
      [⟨-0.8, -((4/15) * Real.sqrt 3)⟩, ⟨0.8, -((4/15) * Real.sqrt 3)⟩, ⟨0, (8/15) * Real.sqrt 3⟩] =
      [⟨-0.8, -((4/15) * Real.sqrt 3)⟩, ⟨0.8, -((4/15) * Real.sqrt 3)⟩, ⟨0, (8/15) * Real.sqrt 3⟩] := by
    simp [applyPose2_id_zero]
  rw [tri2_eq]
  simp only [attachTriangleAlongEdge, hmapid, edgeDef, getD3_0, getD3_1, getD3_2]
  rw [solveT3a, solveT3b, tetraTw3]
  rw [if_neg (show ¬ cross2 (⟨0 - 0.8, (8/15) * Real.sqrt 3 - -((4/15) * Real.sqrt 3)⟩ : Vec2) (⟨-0.8 - 0.8, -((4/15) * Real.sqrt 3) - -((4/15) * Real.sqrt 3)⟩ : Vec2) = 0 from by
    simp only [cross2]
    intro hcon
    nlinarith [s3_pos, s3_sq])]
  rw [if_neg (not_lt.2 (mul_self_nonneg _))]

lemma tetraAttach2 :
    attachTriangleAlongEdge ⟨⟨0, 0⟩, 0⟩ 2 0 (triangleLocal2 1.6) = (⟨⟨-0.8, (4/15) * Real.sqrt 3⟩, Real.pi / 3⟩ : Pose2) := by
  have hmapid : List.map (applyPose2 ⟨⟨0, 0⟩, 0⟩)
      [⟨-0.8, -((4/15) * Real.sqrt 3)⟩, ⟨0.8, -((4/15) * Real.sqrt 3)⟩, ⟨0, (8/15) * Real.sqrt 3⟩] =
      [⟨-0.8, -((4/15) * Real.sqrt 3)⟩, ⟨0.8, -((4/15) * Real.sqrt 3)⟩, ⟨0, (8/15) * Real.sqrt 3⟩] := by
    simp [applyPose2_id_zero]
  rw [tri2_eq]
  simp only [attachTriangleAlongEdge, hmapid, edgeDef, getD3_0, getD3_1, getD3_2]
  rw [solveT2a, solveT2b, tetraTw2]
  rw [if_neg (show ¬ cross2 (⟨-0.8 - 0, -((4/15) * Real.sqrt 3) - (8/15) * Real.sqrt 3⟩ : Vec2) (⟨0.8 - 0, -((4/15) * Real.sqrt 3) - (8/15) * Real.sqrt 3⟩ : Vec2) = 0 from by
    simp only [cross2]
    intro hcon
    nlinarith [s3_pos, s3_sq])]
  rw [if_neg (not_lt.2 (mul_self_nonneg _))]

lemma tetraFoldedLength : (makeTetraFolded 1.6).length = 4 := by
  rw [tetraFolded_eq]
  rfl

/-- The BFS spanning tree of the tetra folded adjacency: root `0`, order
`[0, 1, 3, 2]`, all parents `0`. -/
lemma tetraBfs :
    bfsRun (buildAdjList 4
        [⟨0, 1, 0, 2⟩, ⟨0, 3, 1, 2⟩, ⟨0, 2, 2, 0⟩,
         ⟨1, 2, 0, 2⟩, ⟨1, 3, 1, 0⟩, ⟨2, 3, 1, 1⟩]) 4 (bfsInit 4 0) =
      ⟨[some 0, some 0, some 0, some 0],
       [none, some 0, some 2, some 1],
       [none, some 2, some 0, some 2],
       [], [0, 1, 3, 2]⟩ := rfl

/-- Running the tree layout just routes the three child faces into the three
attach calls. -/
lemma tetraLayout :
    treeLayout 4
      ⟨[some 0, some 0, some 0, some 0],
       [none, some 0, some 2, some 1],
       [none, some 2, some 0, some 2],
       [], [0, 1, 3, 2]⟩
      (fun pp pe ce => attachTriangleAlongEdge pp pe ce (triangleLocal2 1.6)) =
      [some ⟨⟨0, 0⟩, 0⟩,
       some (attachTriangleAlongEdge ⟨⟨0, 0⟩, 0⟩ 0 2 (triangleLocal2 1.6)),
       some (attachTriangleAlongEdge ⟨⟨0, 0⟩, 0⟩ 2 0 (triangleLocal2 1.6)),
       some (attachTriangleAlongEdge ⟨⟨0, 0⟩, 0⟩ 1 2 (triangleLocal2 1.6))] := rfl

/-- The tetrahedron net at edge `1.6`: the centering step subtracts the zero
vector, leaving the triforce layout `(0,0)`, `(0,-2h/3)`, `(∓0.8, h/3)` with
rotations `0, 5π/3, π/3, π/3` (`h = 0.8·√3`). -/
lemma tetraNet_eq :
    makeTreeTriangleNet 1.6 (makeTetraFolded 1.6) =
      [⟨⟨0, 0, 0⟩, qFromEuler 0 0 0⟩,
       ⟨⟨0, -((8/15) * Real.sqrt 3), 0⟩, qFromEuler 0 0 (5 * Real.pi / 3)⟩,
       ⟨⟨-0.8, (4/15) * Real.sqrt 3, 0⟩, qFromEuler 0 0 (Real.pi / 3)⟩,
       ⟨⟨0.8, (4/15) * Real.sqrt 3, 0⟩, qFromEuler 0 0 (Real.pi / 3)⟩] := by
  unfold makeTreeTriangleNet
  rw [tetraFoldAdj, tetraFoldedLength]
  simp only []
  rw [tetraBfs, tetraLayout, tetraAttach1, tetraAttach2, tetraAttach3]
  unfold layoutToPoses
  simp only [List.map_cons, List.map_nil, Option.map_some', Option.getD_some]
  unfold centerPoses
  simp only [List.length_cons, List.length_nil, List.foldl_cons, List.foldl_nil,
    List.map_cons, List.map_nil, Vec3.add, Vec3.zero, Vec3.smul, Vec3.sub,
    List.cons.injEq, and_true, FacePose.mk.injEq, Vec3.mk.injEq]
  norm_num
  ring

/-- World vertices of net face 0. -/
lemma netWorld0 :
    worldVerts (triangleLocal3 1.6) ⟨⟨0, 0, 0⟩, qFromEuler 0 0 0⟩ = ([⟨-(0.8), -((4/15) * Real.sqrt 3), 0⟩, ⟨0.8, -((4/15) * Real.sqrt 3), 0⟩, ⟨0, (8/15) * Real.sqrt 3, 0⟩] : List Vec3) := by
  rw [qFromEuler_zero]
  simp only [Quat.one]
  unfold worldVerts
  simp only [triangleLocal3, List.map_cons, List.map_nil, Vec3.applyQuaternion,
    Vec3.add, List.cons.injEq, and_true, Vec3.mk.injEq]
  refine ⟨⟨?_, ?_, ?_⟩, ⟨?_, ?_, ?_⟩, ?_, ?_, ?_⟩
  · ring
  · ring
  · ring
  · ring
  · ring
  · ring
  · ring
  · ring
  · ring

/-- World vertices of net face 1. -/
lemma netWorld1 :
    worldVerts (triangleLocal3 1.6) ⟨⟨0, -((8/15) * Real.sqrt 3), 0⟩, qFromEuler 0 0 (5 * Real.pi / 3)⟩ = ([⟨-(0.8), -((4/15) * Real.sqrt 3), 0⟩, ⟨0, -((16/15) * Real.sqrt 3), 0⟩, ⟨0.8, -((4/15) * Real.sqrt 3), 0⟩] : List Vec3) := by
  rw [qE53]
  unfold worldVerts
  simp only [triangleLocal3, List.map_cons, List.map_nil, Vec3.applyQuaternion,
    Vec3.add, List.cons.injEq, and_true, Vec3.mk.injEq]
  refine ⟨⟨?_, ?_, ?_⟩, ⟨?_, ?_, ?_⟩, ?_, ?_, ?_⟩
  · linear_combination (((-2/15) : ℝ)) * s3_sq
  · ring
  · ring
  · linear_combination (((-2/15) : ℝ)) * s3_sq
  · ring
  · ring
  · linear_combination (((4/15) : ℝ)) * s3_sq
  · ring
  · ring

/-- World vertices of net face 2. -/
lemma netWorld2 :
    worldVerts (triangleLocal3 1.6) ⟨⟨-0.8, (4/15) * Real.sqrt 3, 0⟩, qFromEuler 0 0 (Real.pi / 3)⟩ = ([⟨-(0.8), -((4/15) * Real.sqrt 3), 0⟩, ⟨0, (8/15) * Real.sqrt 3, 0⟩, ⟨-(1.6), (8/15) * Real.sqrt 3, 0⟩] : List Vec3) := by
  rw [qE13]
  unfold worldVerts
  simp only [triangleLocal3, List.map_cons, List.map_nil, Vec3.applyQuaternion,
    Vec3.add, List.cons.injEq, and_true, Vec3.mk.injEq]
  refine ⟨⟨?_, ?_, ?_⟩, ⟨?_, ?_, ?_⟩, ?_, ?_, ?_⟩
  · linear_combination (((2/15) : ℝ)) * s3_sq
  · ring
  · ring
  · linear_combination (((2/15) : ℝ)) * s3_sq
  · ring
  · ring
  · linear_combination (((-4/15) : ℝ)) * s3_sq
  · ring
  · ring

/-- World vertices of net face 3. -/
lemma netWorld3 :
    worldVerts (triangleLocal3 1.6) ⟨⟨0.8, (4/15) * Real.sqrt 3, 0⟩, qFromEuler 0 0 (Real.pi / 3)⟩ = ([⟨0.8, -((4/15) * Real.sqrt 3), 0⟩, ⟨1.6, (8/15) * Real.sqrt 3, 0⟩, ⟨0, (8/15) * Real.sqrt 3, 0⟩] : List Vec3) := by
  rw [qE13]
  unfold worldVerts
  simp only [triangleLocal3, List.map_cons, List.map_nil, Vec3.applyQuaternion,
    Vec3.add, List.cons.injEq, and_true, Vec3.mk.injEq]
  refine ⟨⟨?_, ?_, ?_⟩, ⟨?_, ?_, ?_⟩, ?_, ?_, ?_⟩
  · linear_combination (((2/15) : ℝ)) * s3_sq
  · ring
  · ring
  · linear_combination (((2/15) : ℝ)) * s3_sq
  · ring
  · ring
  · linear_combination (((-4/15) : ℝ)) * s3_sq
  · ring
  · ring

lemma roundP08 : round ((0.8 : ℝ) * 10000) = 8000 := by
  refine round_eq_of_bounds _ (8000) ?_ ?_
  · push_cast
    norm_num
  · push_cast
    norm_num

lemma roundN08 : round ((-(0.8) : ℝ) * 10000) = -8000 := by
  refine round_eq_of_bounds _ (-8000) ?_ ?_
  · push_cast
    norm_num
  · push_cast
    norm_num

lemma roundZ : round ((0 : ℝ) * 10000) = 0 := by
  refine round_eq_of_bounds _ (0) ?_ ?_
  · push_cast
    norm_num
  · push_cast
    norm_num

lemma roundP16 : round ((1.6 : ℝ) * 10000) = 16000 := by
  refine round_eq_of_bounds _ (16000) ?_ ?_
  · push_cast
    norm_num
  · push_cast
    norm_num

lemma roundN16 : round ((-(1.6) : ℝ) * 10000) = -16000 := by
  refine round_eq_of_bounds _ (-16000) ?_ ?_
  · push_cast
    norm_num
  · push_cast
    norm_num

lemma roundP815 : round (((8/15) * Real.sqrt 3 : ℝ) * 10000) = 9238 := by
  refine round_eq_of_bounds _ (9238) ?_ ?_
  · push_cast
    nlinarith [s3_lb, s3_ub]
  · push_cast
    nlinarith [s3_lb, s3_ub]

lemma roundN415 : round ((-((4/15) * Real.sqrt 3) : ℝ) * 10000) = -4619 := by
  refine round_eq_of_bounds _ (-4619) ?_ ?_
  · push_cast
    nlinarith [s3_lb, s3_ub]
  · push_cast
    nlinarith [s3_lb, s3_ub]

lemma roundN1615 : round ((-((16/15) * Real.sqrt 3) : ℝ) * 10000) = -18475 := by
  refine round_eq_of_bounds _ (-18475) ?_ ?_
  · push_cast
    nlinarith [s3_lb, s3_ub]
  · push_cast
    nlinarith [s3_lb, s3_ub]

/-- The edge map of the tetra net layout (quantised keys). -/
lemma tetraNetMap :
    buildEdgeMap
      ([⟨⟨0, 0, 0⟩, qFromEuler 0 0 0⟩,
       ⟨⟨0, -((8/15) * Real.sqrt 3), 0⟩, qFromEuler 0 0 (5 * Real.pi / 3)⟩,
       ⟨⟨-0.8, (4/15) * Real.sqrt 3, 0⟩, qFromEuler 0 0 (Real.pi / 3)⟩,
       ⟨⟨0.8, (4/15) * Real.sqrt 3, 0⟩, qFromEuler 0 0 (Real.pi / 3)⟩] : List FacePose) .triangle 1.6 =
      [(((-8000, -4619, 0), (8000, -4619, 0)), [⟨0, 0⟩, ⟨1, 2⟩]),
       (((0, 9238, 0), (8000, -4619, 0)), [⟨0, 1⟩, ⟨3, 2⟩]),
       (((-8000, -4619, 0), (0, 9238, 0)), [⟨0, 2⟩, ⟨2, 0⟩]),
       (((-8000, -4619, 0), (0, -18475, 0)), [⟨1, 0⟩]),
       (((0, -18475, 0), (8000, -4619, 0)), [⟨1, 1⟩]),
       (((-16000, 9238, 0), (0, 9238, 0)), [⟨2, 1⟩]),
       (((-16000, 9238, 0), (-8000, -4619, 0)), [⟨2, 2⟩]),
       (((8000, -4619, 0), (16000, 9238, 0)), [⟨3, 0⟩]),
       (((0, 9238, 0), (16000, 9238, 0)), [⟨3, 1⟩])] := by
  have he : ∀ (a b c d : FacePose),
      List.enum [a, b, c, d] = [(0, a), (1, b), (2, c), (3, d)] :=
    fun _ _ _ _ => rfl
  have hr3 : List.range 3 = [0, 1, 2] := rfl
  have hl3 : (triangleLocal3 1.6).length = 3 := rfl
  have hk1 : (0 + 1) % 3 = 1 := rfl
  have hk2 : (1 + 1) % 3 = 2 := rfl
  have hk3 : (2 + 1) % 3 = 0 := rfl
  unfold buildEdgeMap
  simp only [localVerts3, he, hr3, hl3, List.foldl_cons, List.foldl_nil,
    netWorld0, netWorld1, netWorld2, netWorld3, hk1, hk2, hk3,
    getD3_0, getD3_1, getD3_2, quantKey3, roundP08, roundN08, roundZ,
    roundP16, roundN16, roundP815, roundN415, roundN1615]
  rfl

/-- `netAdjEdges` of the tetra net: exactly the three tree edges. -/
lemma tetraNetAdj :
    netAdjEdges
      ([⟨⟨0, 0, 0⟩, qFromEuler 0 0 0⟩,
       ⟨⟨0, -((8/15) * Real.sqrt 3), 0⟩, qFromEuler 0 0 (5 * Real.pi / 3)⟩,
       ⟨⟨-0.8, (4/15) * Real.sqrt 3, 0⟩, qFromEuler 0 0 (Real.pi / 3)⟩,
       ⟨⟨0.8, (4/15) * Real.sqrt 3, 0⟩, qFromEuler 0 0 (Real.pi / 3)⟩] : List FacePose) .triangle 1.6 =
      [⟨0, 1, 0, 2⟩, ⟨0, 3, 1, 2⟩, ⟨0, 2, 2, 0⟩] := by
  unfold netAdjEdges
  rw [tetraNetMap]
  rfl

lemma set4_1 {α : Type} (a b c d x : α) : [a, b, c, d].set 1 x = [a, x, c, d] := rfl

lemma set4_2 {α : Type} (a b c d x : α) : [a, b, c, d].set 2 x = [a, b, x, d] := rfl

lemma set4_3 {α : Type} (a b c d x : α) : [a, b, c, d].set 3 x = [a, b, c, x] := rfl

lemma enum4 {α : Type} (a b c d : α) :
    List.enum [a, b, c, d] = [(0, a), (1, b), (2, c), (3, d)] := rfl

lemma nat_eq0_true : ((0 : ℕ) = 0) = True := eq_true rfl

lemma nat_eq1_false : ((1 : ℕ) = 0) = False := eq_false (by norm_num)

lemma nat_eq2_false : ((2 : ℕ) = 0) = False := eq_false (by norm_num)

lemma nat_eq3_false : ((3 : ℕ) = 0) = False := eq_false (by norm_num)

/-- The identity net pose produces the identity matrix. -/
lemma poseToMatrix_q0 : poseToMatrix ⟨⟨0, 0, 0⟩, Quat.one⟩ = Mat4.id := by
  simp only [poseToMatrix, Mat4.compose, Mat4.setPosition, Quat.one, Vec3.zero,
    Mat4.id, Mat4.mk.injEq]
  norm_num

/-- Decomposing the identity matrix. -/
lemma decId : matrixToPose Mat4.id = ⟨⟨0, 0, 0⟩, ⟨0, 0, 0, 1⟩⟩ := by
  rw [show Mat4.id = ({ e0 := 1, e1 := 0, e2 := 0, e3 := 0, e4 := 0, e5 := 1, e6 := 0, e7 := 0, e8 := 0, e9 := 0, e10 := 1, e11 := 0, e12 := 0, e13 := 0, e14 := 0, e15 := 1 } : Mat4) from rfl]
  simp only [matrixToPose, Mat4.decompose]
  rw [show Vec3.length ⟨(1 : ℝ), 0, 0⟩ = 1 from by
    simp only [Vec3.length]
    rw [show (1 : ℝ) * 1 + 0 * 0 + 0 * 0 = 1 by norm_num]
    exact Real.sqrt_one]
  rw [show Vec3.length ⟨(0 : ℝ), 1, 0⟩ = 1 from by
    simp only [Vec3.length]
    rw [show (0 : ℝ) * 0 + 1 * 1 + 0 * 0 = 1 by norm_num]
    exact Real.sqrt_one]
  rw [show Vec3.length ⟨(0 : ℝ), 0, 1⟩ = 1 from by
    simp only [Vec3.length]
    rw [show (0 : ℝ) * 0 + 0 * 0 + 1 * 1 = 1 by norm_num]
    exact Real.sqrt_one]
  rw [show Mat4.det ({ e0 := 1, e1 := 0, e2 := 0, e3 := 0, e4 := 0, e5 := 1, e6 := 0, e7 := 0, e8 := 0, e9 := 0, e10 := 1, e11 := 0, e12 := 0, e13 := 0, e14 := 0, e15 := 1 } : Mat4) = 1 from by
    simp only [Mat4.det]
    norm_num]
  rw [if_neg (by norm_num : ¬ (1 : ℝ) < 0)]
  rw [show ({ e0 := 1 * (1 / 1), e1 := 0 * (1 / 1), e2 := 0 * (1 / 1), e3 := 0, e4 := 0 * (1 / 1), e5 := 1 * (1 / 1), e6 := 0 * (1 / 1), e7 := 0, e8 := 0 * (1 / 1), e9 := 0 * (1 / 1), e10 := 1 * (1 / 1), e11 := 0, e12 := 0, e13 := 0, e14 := 0, e15 := 1 } : Mat4) = ({ e0 := 1, e1 := 0, e2 := 0, e3 := 0, e4 := 0, e5 := 1, e6 := 0, e7 := 0, e8 := 0, e9 := 0, e10 := 1, e11 := 0, e12 := 0, e13 := 0, e14 := 0, e15 := 1 } : Mat4) from by
    refine Mat4.ext16 ?_ ?_ ?_ ?_ ?_ ?_ ?_ ?_ ?_ ?_ ?_ ?_ ?_ ?_ ?_ ?_ <;> norm_num]
  rw [quatFromRotationMatrix_trace ({ e0 := 1, e1 := 0, e2 := 0, e3 := 0, e4 := 0, e5 := 1, e6 := 0, e7 := 0, e8 := 0, e9 := 0, e10 := 1, e11 := 0, e12 := 0, e13 := 0, e14 := 0, e15 := 1 } : Mat4) (by norm_num)]
  rw [show ({ e0 := 1, e1 := 0, e2 := 0, e3 := 0, e4 := 0, e5 := 1, e6 := 0, e7 := 0, e8 := 0, e9 := 0, e10 := 1, e11 := 0, e12 := 0, e13 := 0, e14 := 0, e15 := 1 } : Mat4).e0 + ({ e0 := 1, e1 := 0, e2 := 0, e3 := 0, e4 := 0, e5 := 1, e6 := 0, e7 := 0, e8 := 0, e9 := 0, e10 := 1, e11 := 0, e12 := 0, e13 := 0, e14 := 0, e15 := 1 } : Mat4).e5 + ({ e0 := 1, e1 := 0, e2 := 0, e3 := 0, e4 := 0, e5 := 1, e6 := 0, e7 := 0, e8 := 0, e9 := 0, e10 := 1, e11 := 0, e12 := 0, e13 := 0, e14 := 0, e15 := 1 } : Mat4).e10 + 1 = 4 from by norm_num]
  rw [show Real.sqrt 4 = 2 from by
    rw [show (4 : ℝ) = 2 ^ 2 by norm_num, Real.sqrt_sq (by norm_num : (0 : ℝ) ≤ 2)]]
  simp only [FacePose.mk.injEq, Quat.mk.injEq, Vec3.mk.injEq]
  norm_num

/-- `decompose ∘ poseToMatrix` on a planar-rotation pose (trace branch of
the quaternion extraction). -/
lemma dec53 (p : Vec3) :
    matrixToPose (poseToMatrix ⟨p, ⟨0, 0, 1/2, -(Real.sqrt 3/2)⟩⟩) =
      ⟨p, ⟨0, 0, -(1/2), Real.sqrt 3/2⟩⟩ := by
  obtain ⟨px, py, pz⟩ := p
  rw [show poseToMatrix ⟨⟨px, py, pz⟩, ⟨0, 0, 1/2, -(Real.sqrt 3/2)⟩⟩ =
      ({ e0 := 1/2, e1 := -(Real.sqrt 3/2), e2 := 0, e3 := 0, e4 := Real.sqrt 3/2, e5 := 1/2, e6 := 0, e7 := 0, e8 := 0, e9 := 0, e10 := 1, e11 := 0, e12 := px, e13 := py, e14 := pz, e15 := 1 } : Mat4) from by
    simp only [poseToMatrix, Mat4.compose, Mat4.setPosition, Vec3.zero]
    refine Mat4.ext16 ?_ ?_ ?_ ?_ ?_ ?_ ?_ ?_ ?_ ?_ ?_ ?_ ?_ ?_ ?_ ?_ <;> ring]
  simp only [matrixToPose, Mat4.decompose]
  rw [show Vec3.length ⟨(1/2 : ℝ), -(Real.sqrt 3/2), 0⟩ = 1 from by
    simp only [Vec3.length]
    rw [show (1/2 : ℝ) * (1/2) + (-(Real.sqrt 3/2)) * (-(Real.sqrt 3/2)) + 0 * 0 = 1 from by
      linear_combination ((1/4 : ℝ)) * s3_sq]
    exact Real.sqrt_one]
  rw [show Vec3.length ⟨(Real.sqrt 3/2 : ℝ), 1/2, 0⟩ = 1 from by
    simp only [Vec3.length]
    rw [show (Real.sqrt 3/2 : ℝ) * (Real.sqrt 3/2) + (1/2) * (1/2) + 0 * 0 = 1 from by
      linear_combination ((1/4 : ℝ)) * s3_sq]
    exact Real.sqrt_one]
  rw [show Vec3.length ⟨(0 : ℝ), 0, 1⟩ = 1 from by
    simp only [Vec3.length]
    rw [show (0 : ℝ) * 0 + 0 * 0 + 1 * 1 = 1 by norm_num]
    exact Real.sqrt_one]
  rw [show Mat4.det ({ e0 := 1/2, e1 := -(Real.sqrt 3/2), e2 := 0, e3 := 0, e4 := Real.sqrt 3/2, e5 := 1/2, e6 := 0, e7 := 0, e8 := 0, e9 := 0, e10 := 1, e11 := 0, e12 := px, e13 := py, e14 := pz, e15 := 1 } : Mat4) = 1 from by
    simp only [Mat4.det]
    linear_combination ((1/4 : ℝ)) * s3_sq]
  rw [if_neg (by norm_num : ¬ (1 : ℝ) < 0)]
  rw [show ({ e0 := 1/2 * (1 / 1), e1 := -(Real.sqrt 3/2) * (1 / 1), e2 := 0 * (1 / 1), e3 := 0, e4 := Real.sqrt 3/2 * (1 / 1), e5 := 1/2 * (1 / 1), e6 := 0 * (1 / 1), e7 := 0, e8 := 0 * (1 / 1), e9 := 0 * (1 / 1), e10 := 1 * (1 / 1), e11 := 0, e12 := px, e13 := py, e14 := pz, e15 := 1 } : Mat4) = ({ e0 := 1/2, e1 := -(Real.sqrt 3/2), e2 := 0, e3 := 0, e4 := Real.sqrt 3/2, e5 := 1/2, e6 := 0, e7 := 0, e8 := 0, e9 := 0, e10 := 1, e11 := 0, e12 := px, e13 := py, e14 := pz, e15 := 1 } : Mat4) from by
    refine Mat4.ext16 ?_ ?_ ?_ ?_ ?_ ?_ ?_ ?_ ?_ ?_ ?_ ?_ ?_ ?_ ?_ ?_ <;> norm_num]
  rw [quatFromRotationMatrix_trace ({ e0 := 1/2, e1 := -(Real.sqrt 3/2), e2 := 0, e3 := 0, e4 := Real.sqrt 3/2, e5 := 1/2, e6 := 0, e7 := 0, e8 := 0, e9 := 0, e10 := 1, e11 := 0, e12 := px, e13 := py, e14 := pz, e15 := 1 } : Mat4) (by norm_num)]
  rw [show ({ e0 := 1/2, e1 := -(Real.sqrt 3/2), e2 := 0, e3 := 0, e4 := Real.sqrt 3/2, e5 := 1/2, e6 := 0, e7 := 0, e8 := 0, e9 := 0, e10 := 1, e11 := 0, e12 := px, e13 := py, e14 := pz, e15 := 1 } : Mat4).e0 + ({ e0 := 1/2, e1 := -(Real.sqrt 3/2), e2 := 0, e3 := 0, e4 := Real.sqrt 3/2, e5 := 1/2, e6 := 0, e7 := 0, e8 := 0, e9 := 0, e10 := 1, e11 := 0, e12 := px, e13 := py, e14 := pz, e15 := 1 } : Mat4).e5 + ({ e0 := 1/2, e1 := -(Real.sqrt 3/2), e2 := 0, e3 := 0, e4 := Real.sqrt 3/2, e5 := 1/2, e6 := 0, e7 := 0, e8 := 0, e9 := 0, e10 := 1, e11 := 0, e12 := px, e13 := py, e14 := pz, e15 := 1 } : Mat4).e10 + 1 = 3 from by norm_num]
  rw [show (0.5 : ℝ) / Real.sqrt 3 = Real.sqrt 3 / 6 from by
    rw [div_eq_div_iff (by positivity : (Real.sqrt 3 : ℝ) ≠ 0) (by norm_num : (6 : ℝ) ≠ 0)]
    linear_combination (-1 : ℝ) * s3_sq]
  rw [show (0.25 : ℝ) / (Real.sqrt 3 / 6) = Real.sqrt 3 / 2 from by
    rw [div_eq_div_iff (by positivity : (Real.sqrt 3 / 6 : ℝ) ≠ 0) (by norm_num : (2 : ℝ) ≠ 0)]
    linear_combination ((-1/6 : ℝ)) * s3_sq]
  simp only [FacePose.mk.injEq, Quat.mk.injEq, Vec3.mk.injEq, and_true, true_and]
  refine ⟨?_, ?_, ?_⟩
  · ring
  · ring
  · linear_combination ((-1/6 : ℝ)) * s3_sq

/-- `decompose ∘ poseToMatrix` on a planar-rotation pose (trace branch of
the quaternion extraction). -/
lemma dec13 (p : Vec3) :
    matrixToPose (poseToMatrix ⟨p, ⟨0, 0, 1/2, Real.sqrt 3/2⟩⟩) =
      ⟨p, ⟨0, 0, 1/2, Real.sqrt 3/2⟩⟩ := by
  obtain ⟨px, py, pz⟩ := p
  rw [show poseToMatrix ⟨⟨px, py, pz⟩, ⟨0, 0, 1/2, Real.sqrt 3/2⟩⟩ =
      ({ e0 := 1/2, e1 := Real.sqrt 3/2, e2 := 0, e3 := 0, e4 := -(Real.sqrt 3/2), e5 := 1/2, e6 := 0, e7 := 0, e8 := 0, e9 := 0, e10 := 1, e11 := 0, e12 := px, e13 := py, e14 := pz, e15 := 1 } : Mat4) from by
    simp only [poseToMatrix, Mat4.compose, Mat4.setPosition, Vec3.zero]
    refine Mat4.ext16 ?_ ?_ ?_ ?_ ?_ ?_ ?_ ?_ ?_ ?_ ?_ ?_ ?_ ?_ ?_ ?_ <;> ring]
  simp only [matrixToPose, Mat4.decompose]
  rw [show Vec3.length ⟨(1/2 : ℝ), Real.sqrt 3/2, 0⟩ = 1 from by
    simp only [Vec3.length]
    rw [show (1/2 : ℝ) * (1/2) + (Real.sqrt 3/2) * (Real.sqrt 3/2) + 0 * 0 = 1 from by
      linear_combination ((1/4 : ℝ)) * s3_sq]
    exact Real.sqrt_one]
  rw [show Vec3.length ⟨(-(Real.sqrt 3/2) : ℝ), 1/2, 0⟩ = 1 from by
    simp only [Vec3.length]
    rw [show (-(Real.sqrt 3/2) : ℝ) * (-(Real.sqrt 3/2)) + (1/2) * (1/2) + 0 * 0 = 1 from by
      linear_combination ((1/4 : ℝ)) * s3_sq]
    exact Real.sqrt_one]
  rw [show Vec3.length ⟨(0 : ℝ), 0, 1⟩ = 1 from by
    simp only [Vec3.length]
    rw [show (0 : ℝ) * 0 + 0 * 0 + 1 * 1 = 1 by norm_num]
    exact Real.sqrt_one]
  rw [show Mat4.det ({ e0 := 1/2, e1 := Real.sqrt 3/2, e2 := 0, e3 := 0, e4 := -(Real.sqrt 3/2), e5 := 1/2, e6 := 0, e7 := 0, e8 := 0, e9 := 0, e10 := 1, e11 := 0, e12 := px, e13 := py, e14 := pz, e15 := 1 } : Mat4) = 1 from by
    simp only [Mat4.det]
    linear_combination ((1/4 : ℝ)) * s3_sq]
  rw [if_neg (by norm_num : ¬ (1 : ℝ) < 0)]
  rw [show ({ e0 := 1/2 * (1 / 1), e1 := Real.sqrt 3/2 * (1 / 1), e2 := 0 * (1 / 1), e3 := 0, e4 := -(Real.sqrt 3/2) * (1 / 1), e5 := 1/2 * (1 / 1), e6 := 0 * (1 / 1), e7 := 0, e8 := 0 * (1 / 1), e9 := 0 * (1 / 1), e10 := 1 * (1 / 1), e11 := 0, e12 := px, e13 := py, e14 := pz, e15 := 1 } : Mat4) = ({ e0 := 1/2, e1 := Real.sqrt 3/2, e2 := 0, e3 := 0, e4 := -(Real.sqrt 3/2), e5 := 1/2, e6 := 0, e7 := 0, e8 := 0, e9 := 0, e10 := 1, e11 := 0, e12 := px, e13 := py, e14 := pz, e15 := 1 } : Mat4) from by
    refine Mat4.ext16 ?_ ?_ ?_ ?_ ?_ ?_ ?_ ?_ ?_ ?_ ?_ ?_ ?_ ?_ ?_ ?_ <;> norm_num]
  rw [quatFromRotationMatrix_trace ({ e0 := 1/2, e1 := Real.sqrt 3/2, e2 := 0, e3 := 0, e4 := -(Real.sqrt 3/2), e5 := 1/2, e6 := 0, e7 := 0, e8 := 0, e9 := 0, e10 := 1, e11 := 0, e12 := px, e13 := py, e14 := pz, e15 := 1 } : Mat4) (by norm_num)]
  rw [show ({ e0 := 1/2, e1 := Real.sqrt 3/2, e2 := 0, e3 := 0, e4 := -(Real.sqrt 3/2), e5 := 1/2, e6 := 0, e7 := 0, e8 := 0, e9 := 0, e10 := 1, e11 := 0, e12 := px, e13 := py, e14 := pz, e15 := 1 } : Mat4).e0 + ({ e0 := 1/2, e1 := Real.sqrt 3/2, e2 := 0, e3 := 0, e4 := -(Real.sqrt 3/2), e5 := 1/2, e6 := 0, e7 := 0, e8 := 0, e9 := 0, e10 := 1, e11 := 0, e12 := px, e13 := py, e14 := pz, e15 := 1 } : Mat4).e5 + ({ e0 := 1/2, e1 := Real.sqrt 3/2, e2 := 0, e3 := 0, e4 := -(Real.sqrt 3/2), e5 := 1/2, e6 := 0, e7 := 0, e8 := 0, e9 := 0, e10 := 1, e11 := 0, e12 := px, e13 := py, e14 := pz, e15 := 1 } : Mat4).e10 + 1 = 3 from by norm_num]
  rw [show (0.5 : ℝ) / Real.sqrt 3 = Real.sqrt 3 / 6 from by
    rw [div_eq_div_iff (by positivity : (Real.sqrt 3 : ℝ) ≠ 0) (by norm_num : (6 : ℝ) ≠ 0)]
    linear_combination (-1 : ℝ) * s3_sq]
  rw [show (0.25 : ℝ) / (Real.sqrt 3 / 6) = Real.sqrt 3 / 2 from by
    rw [div_eq_div_iff (by positivity : (Real.sqrt 3 / 6 : ℝ) ≠ 0) (by norm_num : (2 : ℝ) ≠ 0)]
    linear_combination ((-1/6 : ℝ)) * s3_sq]
  simp only [FacePose.mk.injEq, Quat.mk.injEq, Vec3.mk.injEq, and_true, true_and]
  refine ⟨?_, ?_, ?_⟩
  · ring
  · ring
  · linear_combination ((1/6 : ℝ)) * s3_sq

/-- The fold interpolator at `t = 0` on the tetrahedron model: every world
matrix collapses to the corresponding net matrix, and `decompose` re-extracts
the quaternions — flipping the sign of face 1's quaternion. -/
lemma tetraHinge0 :
    hingePoses (createTetrahedronDef 1.6) (buildHingeModel (createTetrahedronDef 1.6)) 0 =
      [⟨⟨0, 0, 0⟩, ⟨0, 0, 0, 1⟩⟩,
       ⟨⟨0, -((8/15) * Real.sqrt 3), 0⟩, ⟨0, 0, -(1/2), Real.sqrt 3 / 2⟩⟩,
       ⟨⟨-0.8, (4/15) * Real.sqrt 3, 0⟩, ⟨0, 0, 1/2, Real.sqrt 3 / 2⟩⟩,
       ⟨⟨0.8, (4/15) * Real.sqrt 3, 0⟩, ⟨0, 0, 1/2, Real.sqrt 3 / 2⟩⟩] := by
  have hnet : (createTetrahedronDef 1.6).net =
      [⟨⟨0, 0, 0⟩, qFromEuler 0 0 0⟩,
       ⟨⟨0, -((8/15) * Real.sqrt 3), 0⟩, qFromEuler 0 0 (5 * Real.pi / 3)⟩,
       ⟨⟨-0.8, (4/15) * Real.sqrt 3, 0⟩, qFromEuler 0 0 (Real.pi / 3)⟩,
       ⟨⟨0.8, (4/15) * Real.sqrt 3, 0⟩, qFromEuler 0 0 (Real.pi / 3)⟩] := by
    show makeTreeTriangleNet 1.6 (makeTetraFolded 1.6) = _
    exact tetraNet_eq
  have hfold : (createTetrahedronDef 1.6).folded = makeTetraFolded 1.6 := rfl
  have hfc : (createTetrahedronDef 1.6).faceCount = 4 := rfl
  have hface : (createTetrahedronDef 1.6).face = FaceKind.triangle := rfl
  have hedge : (createTetrahedronDef 1.6).edge = 1.6 := rfl
  have hrep : (List.replicate 4 (none : Option Mat4)).set 0 (some (Mat4.id)) =
      [some Mat4.id, none, none, none] := rfl
  unfold buildHingeModel hingePoses
  rw [hnet, hfold, hfc, hface, hedge]
  rw [tetraFoldAdj, tetraNetAdj]
  simp only []
  rw [show List.filter
      (fun e => decide (pairKey e.a e.b ∈ List.map (fun e => pairKey e.a e.b)
        [(⟨0, 1, 0, 2⟩ : NetAdjEdge), ⟨0, 3, 1, 2⟩, ⟨0, 2, 2, 0⟩,
         ⟨1, 2, 0, 2⟩, ⟨1, 3, 1, 0⟩, ⟨2, 3, 1, 1⟩]))
      [(⟨0, 1, 0, 2⟩ : NetAdjEdge), ⟨0, 3, 1, 2⟩, ⟨0, 2, 2, 0⟩] =
      [(⟨0, 1, 0, 2⟩ : NetAdjEdge), ⟨0, 3, 1, 2⟩, ⟨0, 2, 2, 0⟩] from rfl]
  rw [show bfsRun (buildAdjList 4
      [(⟨0, 1, 0, 2⟩ : NetAdjEdge), ⟨0, 3, 1, 2⟩, ⟨0, 2, 2, 0⟩]) 4 (bfsInit 4 0) =
      (⟨[some 0, some 0, some 0, some 0], [none, some 0, some 2, some 1],
        [none, some 2, some 0, some 2], [], [0, 1, 3, 2]⟩ : BfsState) from rfl]
  rw [qFromEuler_zero, qE53, qE13]
  rw [show List.range 4 = [0, 1, 2, 3] from rfl]
  simp only [List.map_cons, List.map_nil, List.foldl_cons, List.foldl_nil,
    nat_eq0_true, nat_eq1_false, nat_eq2_false, nat_eq3_false, if_true, if_false,
    getD4_0, getD4_1, getD4_2, getD4_3, set4_1, set4_2, set4_3,
    lerpVec3_zero, slerpQuat_zero, poseToMatrix_q0, hrep, mul_zero,
    rotationAroundAxisLine_zero, Mat4.mul_id, Mat4.id_mul, Mat4.invert_id,
    enum4, decId, dec53, dec13]

lemma tetraDefNet :
    (createTetrahedronDef 1.6).net =
      [⟨⟨0, 0, 0⟩, qFromEuler 0 0 0⟩,
       ⟨⟨0, -((8/15) * Real.sqrt 3), 0⟩, qFromEuler 0 0 (5 * Real.pi / 3)⟩,
       ⟨⟨-0.8, (4/15) * Real.sqrt 3, 0⟩, qFromEuler 0 0 (Real.pi / 3)⟩,
       ⟨⟨0.8, (4/15) * Real.sqrt 3, 0⟩, qFromEuler 0 0 (Real.pi / 3)⟩] := by
  show makeTreeTriangleNet 1.6 (makeTetraFolded 1.6) = _
  exact tetraNet_eq

/-- The `m11` dominant branch (quaternion `x` dominant) of
`setFromRotationMatrix`. -/
lemma quatFromRotationMatrix_xbr (m : Mat4)
    (h1 : ¬ 0 < m.e0 + m.e5 + m.e10)
    (h2 : m.e5 < m.e0 ∧ m.e10 < m.e0) :
    quatFromRotationMatrix m =
      ⟨0.25 * (2 * Real.sqrt (1 + m.e0 - m.e5 - m.e10)),
       (m.e4 + m.e1) / (2 * Real.sqrt (1 + m.e0 - m.e5 - m.e10)),
       (m.e8 + m.e2) / (2 * Real.sqrt (1 + m.e0 - m.e5 - m.e10)),
       (m.e6 - m.e9) / (2 * Real.sqrt (1 + m.e0 - m.e5 - m.e10))⟩ := by
  simp only [quatFromRotationMatrix]
  rw [if_neg h1, if_pos h2]

/-- On the variety of genuine rotation matrices with columns
`a`, `n × a`, `n` (`a`, `n` unit and orthogonal), applying `compose(0, ·)` to
the quaternion extracted by the x-dominant branch of `setFromRotationMatrix`
recovers the matrix exactly. -/
lemma compose_extract_x (a1 a2 a3 n1 n2 n3 : ℝ)
    (ha : a1 * a1 + a2 * a2 + a3 * a3 = 1)
    (hn : n1 * n1 + n2 * n2 + n3 * n3 = 1)
    (han : a1 * n1 + a2 * n2 + a3 * n3 = 0)
    (htr : ¬ 0 < a1 + (n3 * a1 - n1 * a3) + n3)
    (hb1 : n3 * a1 - n1 * a3 < a1 ∧ n3 < a1)
    (hd : 0 < 1 + a1 - (n3 * a1 - n1 * a3) - n3) :
    Mat4.compose Vec3.zero (quatFromRotationMatrix
      (basisMat ⟨a1, a2, a3⟩ ⟨n2 * a3 - n3 * a2, n3 * a1 - n1 * a3, n1 * a2 - n2 * a1⟩
      ⟨n1, n2, n3⟩)) =
    basisMat ⟨a1, a2, a3⟩ ⟨n2 * a3 - n3 * a2, n3 * a1 - n1 * a3, n1 * a2 - n2 * a1⟩
      ⟨n1, n2, n3⟩ := by
  have hq := quatFromRotationMatrix_xbr
    (basisMat ⟨a1, a2, a3⟩ ⟨n2 * a3 - n3 * a2, n3 * a1 - n1 * a3, n1 * a2 - n2 * a1⟩
      ⟨n1, n2, n3⟩) htr hb1
  rw [hq]
  simp only [basisMat]
  set S := Real.sqrt (1 + a1 - (n3 * a1 - n1 * a3) - n3) with hS
  have hSpos : 0 < S := Real.sqrt_pos.2 hd
  have hS2 : S * S = 1 + a1 - (n3 * a1 - n1 * a3) - n3 := Real.mul_self_sqrt hd.le
  have h2S : (2 : ℝ) * S ≠ 0 := ne_of_gt (mul_pos two_pos hSpos)
  have hsc : (2 : ℝ) * S ^ 2 ≠ 0 := ne_of_gt (mul_pos two_pos (pow_pos hSpos 2))
  set Qy := (n2 * a3 - n3 * a2 + a2) / (2 * S) with hQy
  set Qz := (n1 + a3) / (2 * S) with hQz
  set Qw := (n1 * a2 - n2 * a1 - n2) / (2 * S) with hQw
  have hqy : Qy * (2 * S) = n2 * a3 - n3 * a2 + a2 := by
    rw [hQy]; exact div_mul_cancel₀ _ h2S
  have hqz : Qz * (2 * S) = n1 + a3 := by
    rw [hQz]; exact div_mul_cancel₀ _ h2S
  have hqw : Qw * (2 * S) = n1 * a2 - n2 * a1 - n2 := by
    rw [hQw]; exact div_mul_cancel₀ _ h2S
  refine Mat4.ext16 ?_ ?_ ?_ ?_ ?_ ?_ ?_ ?_ ?_ ?_ ?_ ?_ ?_ ?_ ?_ ?_
  · simp only [Mat4.compose]
    refine mul_left_cancel₀ hsc ?_
    linear_combination ((-1 : ℝ) * n2 * n2 + (-1 : ℝ) * n3 * n3 + (2 : ℝ) * n3 + (-1 : ℝ)) * ha + ((1 : ℝ) * a1 * a1 + (-1 : ℝ)) * hn + ((-1 : ℝ) * a1 * n1 + (1 : ℝ) * a2 * n2 + (1 : ℝ) * a3 * n3 + (-2 : ℝ) * a3) * han + ((-1 : ℝ) * a3 * n2 + (1 : ℝ) * a2 * n3 + (-2 : ℝ) * S * Qy + (-1 : ℝ) * a2) * hqy + ((-2 : ℝ) * S * Qz + (-1 : ℝ) * a3 + (-1 : ℝ) * n1) * hqz + ((-2 : ℝ) * a1 + (2 : ℝ)) * hS2
  · simp only [Mat4.compose]
    refine mul_left_cancel₀ hsc ?_
    linear_combination ((1 : ℝ) * n1 * n2) * ha + ((1 : ℝ) * a1 * a2 + (1 : ℝ) * a2) * hn + ((-1 : ℝ) * a2 * n1 + (-1 : ℝ) * a1 * n2 + (-1 : ℝ) * n2) * han + ((1 : ℝ) * S * S) * hqy + ((2 : ℝ) * S * Qw) * hqz + ((1 : ℝ) * a3 + (1 : ℝ) * n1) * hqw + ((1 : ℝ) * a3 * n2 + (-1 : ℝ) * a2 * n3 + (-1 : ℝ) * a2) * hS2
  · simp only [Mat4.compose]
    refine mul_left_cancel₀ hsc ?_
    linear_combination ((1 : ℝ) * n1 * n3 + (-1 : ℝ) * n1) * ha + ((1 : ℝ) * a1 * a3 + (1 : ℝ) * a3) * hn + ((-1 : ℝ) * a3 * n1 + (-1 : ℝ) * a1 * n3 + (1 : ℝ) * a1 + (-1 : ℝ) * n3 + (1 : ℝ)) * han + ((-2 : ℝ) * S * Qw) * hqy + ((1 : ℝ) * S * S) * hqz + ((-1 : ℝ) * a3 * n2 + (1 : ℝ) * a2 * n3 + (-1 : ℝ) * a2) * hqw + ((-1 : ℝ) * a3 + (1 : ℝ) * n1) * hS2
  · norm_num [Mat4.compose, Vec3.zero]
  · simp only [Mat4.compose]
    refine mul_left_cancel₀ hsc ?_
    linear_combination ((-1 : ℝ) * n1 * n2) * ha + ((-1 : ℝ) * a1 * a2 + (-1 : ℝ) * a2) * hn + ((1 : ℝ) * a2 * n1 + (1 : ℝ) * a1 * n2 + (1 : ℝ) * n2) * han + ((1 : ℝ) * S * S) * hqy + ((-2 : ℝ) * S * Qw) * hqz + ((-1 : ℝ) * a3 + (-1 : ℝ) * n1) * hqw + ((-1 : ℝ) * a3 * n2 + (1 : ℝ) * a2 * n3 + (1 : ℝ) * a2) * hS2
  · simp only [Mat4.compose]
    refine mul_left_cancel₀ hsc ?_
    linear_combination ((-1 : ℝ) * n2 * n2) * ha + ((1 : ℝ) * a1 * a1 + (1 : ℝ) * a3 * a3 + (-1 : ℝ)) * hn + ((-1 : ℝ) * a1 * n1 + (1 : ℝ) * a2 * n2 + (-1 : ℝ) * a3 * n3) * han + ((-2 : ℝ) * S * Qz + (-1 : ℝ) * a3 + (-1 : ℝ) * n1) * hqz + ((1 : ℝ) * a3 * n1 + (-1 : ℝ) * a1 * n3 + (-1 : ℝ) * S * S + (-1 : ℝ) * a1 + (1 : ℝ) * n3 + (1 : ℝ)) * hS2
  · simp only [Mat4.compose]
    refine mul_left_cancel₀ hsc ?_
    linear_combination ((-1 : ℝ) * n2 * n3 + (1 : ℝ) * n2) * ha + ((-1 : ℝ) * a2 * a3) * hn + ((1 : ℝ) * a3 * n2 + (1 : ℝ) * a2 * n3 + (-1 : ℝ) * a2) * han + ((2 : ℝ) * S * Qz) * hqy + ((1 : ℝ) * a3 * n2 + (-1 : ℝ) * a2 * n3 + (1 : ℝ) * a2) * hqz + ((1 : ℝ) * S * S) * hqw + ((-1 : ℝ) * a2 * n1 + (1 : ℝ) * a1 * n2 + (-1 : ℝ) * n2) * hS2
  · norm_num [Mat4.compose, Vec3.zero]
  · simp only [Mat4.compose]
    refine mul_left_cancel₀ hsc ?_
    linear_combination ((-1 : ℝ) * n1 * n3 + (1 : ℝ) * n1) * ha + ((-1 : ℝ) * a1 * a3 + (-1 : ℝ) * a3) * hn + ((1 : ℝ) * a3 * n1 + (1 : ℝ) * a1 * n3 + (-1 : ℝ) * a1 + (1 : ℝ) * n3 + (-1 : ℝ)) * han + ((2 : ℝ) * S * Qw) * hqy + ((1 : ℝ) * S * S) * hqz + ((1 : ℝ) * a3 * n2 + (-1 : ℝ) * a2 * n3 + (1 : ℝ) * a2) * hqw + ((1 : ℝ) * a3 + (-1 : ℝ) * n1) * hS2
  · simp only [Mat4.compose]
    refine mul_left_cancel₀ hsc ?_
    linear_combination ((-1 : ℝ) * n2 * n3 + (1 : ℝ) * n2) * ha + ((-1 : ℝ) * a2 * a3) * hn + ((1 : ℝ) * a3 * n2 + (1 : ℝ) * a2 * n3 + (-1 : ℝ) * a2) * han + ((2 : ℝ) * S * Qz) * hqy + ((1 : ℝ) * a3 * n2 + (-1 : ℝ) * a2 * n3 + (1 : ℝ) * a2) * hqz + ((-1 : ℝ) * S * S) * hqw + ((-1 : ℝ) * a2 * n1 + (1 : ℝ) * a1 * n2 + (-1 : ℝ) * n2) * hS2
  · simp only [Mat4.compose]
    refine mul_left_cancel₀ hsc ?_
    linear_combination ((-1 : ℝ) * n3 * n3 + (2 : ℝ) * n3 + (-1 : ℝ)) * ha + ((-1 : ℝ) * a3 * a3) * hn + ((2 : ℝ) * a3 * n3 + (-2 : ℝ) * a3) * han + ((-1 : ℝ) * a3 * n2 + (1 : ℝ) * a2 * n3 + (-2 : ℝ) * S * Qy + (-1 : ℝ) * a2) * hqy + ((-1 : ℝ) * a3 * n1 + (1 : ℝ) * a1 * n3 + (-1 : ℝ) * S * S + (-1 : ℝ) * a1 + (-1 : ℝ) * n3 + (1 : ℝ)) * hS2
  · norm_num [Mat4.compose, Vec3.zero]
  · norm_num [Mat4.compose, Vec3.zero]
  · norm_num [Mat4.compose, Vec3.zero]
  · norm_num [Mat4.compose, Vec3.zero]
  · norm_num [Mat4.compose, Vec3.zero]

/-- `lerp` at `t = 1` returns the second endpoint. -/
lemma lerpVec3_one (a b : Vec3) : lerpVec3 a b 1 = b := by
  obtain ⟨b1, b2, b3⟩ := b
  simp only [lerpVec3, lerp, Vec3.mk.injEq]
  refine ⟨by ring, by ring, by ring⟩

/-- `slerp` at `t = 1` returns the second endpoint (three.js early return). -/
lemma slerpQuat_one (a b : Quat) : slerpQuat a b 1 = b := by
  unfold slerpQuat Quat.slerp
  rw [if_neg (one_ne_zero : (1 : ℝ) ≠ 0), if_pos rfl]

/-- `cos (atan2 y x)` for a unit vector `(x, y)`. -/
lemma cos_atan2_unit (y x : ℝ) (h : x * x + y * y = 1) : Real.cos (atan2 y x) = x := by
  have habs : Complex.abs ⟨x, y⟩ = 1 := by
    rw [Complex.abs_apply, Complex.normSq_mk, h]
    exact Real.sqrt_one
  have hz : (⟨x, y⟩ : ℂ) ≠ 0 := by
    intro h0
    rw [h0] at habs
    simp at habs
  unfold atan2
  rw [Complex.cos_arg hz, habs]
  exact div_one x

/-- `sin (atan2 y x)` for a unit vector `(x, y)`. -/
lemma sin_atan2_unit (y x : ℝ) (h : x * x + y * y = 1) : Real.sin (atan2 y x) = y := by
  have habs : Complex.abs ⟨x, y⟩ = 1 := by
    rw [Complex.abs_apply, Complex.normSq_mk, h]
    exact Real.sqrt_one
  unfold atan2
  rw [Complex.sin_arg, habs]
  exact div_one y

/-- Normalizing the unit `z` vector is the identity. -/
lemma norm001 : Vec3.normalize ⟨0, 0, 1⟩ = ⟨0, 0, 1⟩ := by
  simp only [Vec3.normalize, Vec3.length]
  rw [show (0 : ℝ) * 0 + 0 * 0 + 1 * 1 = 1 by norm_num, Real.sqrt_one]
  rw [if_neg (by norm_num : ¬ (1 : ℝ) = 0)]
  simp only [Vec3.smul, Vec3.mk.injEq]
  norm_num

/-- A rotation about the `z` axis fixes the normalized local normal. -/
lemma applyQ001_norm (z w : ℝ) :
    (Vec3.applyQuaternion ⟨0, 0, 1⟩ ⟨0, 0, z, w⟩).normalize = ⟨0, 0, 1⟩ := by
  rw [show Vec3.applyQuaternion ⟨0, 0, 1⟩ ⟨0, 0, z, w⟩ = (⟨0, 0, 1⟩ : Vec3) from by
    simp only [Vec3.applyQuaternion, Vec3.mk.injEq]
    refine ⟨by ring, by ring, by ring⟩]
  exact norm001

/-- The quaternion extraction ignores the translation entries. -/
lemma quatFromRM_setPosition (m : Mat4) (v : Vec3) :
    quatFromRotationMatrix (m.setPosition v) = quatFromRotationMatrix m := rfl

lemma listLen3 {α : Type} (a b c : α) : List.length [a, b, c] = 3 := rfl

lemma mod3a : ((0 + 1) % 3 : ℕ) = 1 := rfl

lemma mod3b : ((1 + 1) % 3 : ℕ) = 2 := rfl

lemma mod3c : ((2 + 1) % 3 : ℕ) = 0 := rfl

lemma rep4set0 {α : Type} (x : α) :
    (List.replicate 4 (none : Option α)).set 0 (some x) = [some x, none, none, none] := rfl

/-- The local 3-D triangle vertices at edge `1.6`. -/
lemma tri3_eq :
    triangleLocal3 1.6 = [⟨-(0.8), -((4/15) * Real.sqrt 3), 0⟩, ⟨0.8, -((4/15) * Real.sqrt 3), 0⟩, ⟨0, (8/15) * Real.sqrt 3, 0⟩] := by
  simp only [triangleLocal3, List.cons.injEq, Vec3.mk.injEq, and_true, true_and]
  refine ⟨⟨by norm_num, by ring⟩, ⟨by norm_num, by ring⟩, by ring⟩

/-- The folded pose of tetra face 0 as a position and an explicit
basis-matrix quaternion extraction. -/
lemma tetraPose0 :
    poseFromTriangle3 ⟨0.4 * Real.sqrt 2, 0.4 * Real.sqrt 2, 0.4 * Real.sqrt 2⟩ ⟨0.4 * Real.sqrt 2, -(0.4 * Real.sqrt 2), -(0.4 * Real.sqrt 2)⟩ ⟨-(0.4 * Real.sqrt 2), 0.4 * Real.sqrt 2, -(0.4 * Real.sqrt 2)⟩ =
      (⟨⟨(2/15) * Real.sqrt 2, (2/15) * Real.sqrt 2, -((2/15) * Real.sqrt 2)⟩, quatFromRotationMatrix (basisMat ⟨0, -(0.5 * Real.sqrt 2), -(0.5 * Real.sqrt 2)⟩ ⟨-((1/3) * (Real.sqrt 2 * Real.sqrt 3)), (1/6) * (Real.sqrt 2 * Real.sqrt 3), -((1/6) * (Real.sqrt 2 * Real.sqrt 3))⟩ ⟨(1/3) * Real.sqrt 3, (1/3) * Real.sqrt 3, -((1/3) * Real.sqrt 3)⟩)⟩ : FacePose) := by
  have hu : Vec3.sub ⟨0.4 * Real.sqrt 2, -(0.4 * Real.sqrt 2), -(0.4 * Real.sqrt 2)⟩ ⟨0.4 * Real.sqrt 2, 0.4 * Real.sqrt 2, 0.4 * Real.sqrt 2⟩ = (⟨0, -(0.8 * Real.sqrt 2), -(0.8 * Real.sqrt 2)⟩ : Vec3) := by
    simp only [Vec3.sub, Vec3.mk.injEq]
    refine ⟨?_, ?_, ?_⟩
    · ring
    · ring
    · ring
  have hv : Vec3.sub ⟨-(0.4 * Real.sqrt 2), 0.4 * Real.sqrt 2, -(0.4 * Real.sqrt 2)⟩ ⟨0.4 * Real.sqrt 2, 0.4 * Real.sqrt 2, 0.4 * Real.sqrt 2⟩ = (⟨-(0.8 * Real.sqrt 2), 0, -(0.8 * Real.sqrt 2)⟩ : Vec3) := by
    simp only [Vec3.sub, Vec3.mk.injEq]
    refine ⟨?_, ?_, ?_⟩
    · ring
    · ring
    · ring
  have hc : Vec3.cross (⟨0, -(0.8 * Real.sqrt 2), -(0.8 * Real.sqrt 2)⟩ : Vec3) (⟨-(0.8 * Real.sqrt 2), 0, -(0.8 * Real.sqrt 2)⟩ : Vec3) = (⟨1.28, 1.28, -(1.28)⟩ : Vec3) := by
    simp only [Vec3.cross, Vec3.mk.injEq]
    refine ⟨?_, ?_, ?_⟩
    · linear_combination ((0.64 : ℝ)) * s2_sq
    · linear_combination ((0.64 : ℝ)) * s2_sq
    · linear_combination ((-0.64 : ℝ)) * s2_sq
  have hlU : Vec3.length (⟨0, -(0.8 * Real.sqrt 2), -(0.8 * Real.sqrt 2)⟩ : Vec3) = 1.6 := by
    simp only [Vec3.length]
    rw [show ((0) * (0) + (-(0.8 * Real.sqrt 2)) * (-(0.8 * Real.sqrt 2)) + (-(0.8 * Real.sqrt 2)) * (-(0.8 * Real.sqrt 2)) : ℝ) = 2.56 from by linear_combination ((1.28 : ℝ)) * s2_sq]
    rw [show (2.56 : ℝ) = 1.6 ^ 2 by norm_num, Real.sqrt_sq (by norm_num : (0:ℝ) ≤ 1.6)]
  have hA : Vec3.normalize (⟨0, -(0.8 * Real.sqrt 2), -(0.8 * Real.sqrt 2)⟩ : Vec3) = (⟨0, -(0.5 * Real.sqrt 2), -(0.5 * Real.sqrt 2)⟩ : Vec3) := by
    simp only [Vec3.normalize]
    rw [hlU]
    rw [if_neg (by norm_num : ¬ (1.6 : ℝ) = 0)]
    simp only [Vec3.smul, Vec3.mk.injEq]
    refine ⟨by ring, by ring, by ring⟩
  have hlC : Vec3.length (⟨1.28, 1.28, -(1.28)⟩ : Vec3) = 1.28 * Real.sqrt 3 := by
    simp only [Vec3.length]
    rw [show ((1.28) * (1.28) + (1.28) * (1.28) + (-(1.28)) * (-(1.28)) : ℝ) = 4.9152 from by norm_num]
    rw [show (4.9152 : ℝ) = 1.28 ^ 2 * 3 by norm_num,
      Real.sqrt_mul (by norm_num : (0:ℝ) ≤ 1.28 ^ 2) 3,
      Real.sqrt_sq (by norm_num : (0:ℝ) ≤ 1.28)]
  have hN : Vec3.normalize (⟨1.28, 1.28, -(1.28)⟩ : Vec3) = (⟨(1/3) * Real.sqrt 3, (1/3) * Real.sqrt 3, -((1/3) * Real.sqrt 3)⟩ : Vec3) := by
    simp only [Vec3.normalize]
    rw [hlC]
    rw [if_neg (by positivity : ¬ (1.28 * Real.sqrt 3 : ℝ) = 0)]
    rw [show (1 : ℝ) / (1.28 * Real.sqrt 3) = (25/96) * Real.sqrt 3 from by
      rw [div_eq_iff (by positivity : (1.28 * Real.sqrt 3 : ℝ) ≠ 0)]
      linear_combination ((-1/3 : ℝ)) * s3_sq]
    simp only [Vec3.smul, Vec3.mk.injEq]
    refine ⟨?_, ?_, ?_⟩
    · ring
    · ring
    · ring
  have hB : Vec3.cross (⟨(1/3) * Real.sqrt 3, (1/3) * Real.sqrt 3, -((1/3) * Real.sqrt 3)⟩ : Vec3) (⟨0, -(0.5 * Real.sqrt 2), -(0.5 * Real.sqrt 2)⟩ : Vec3) = (⟨-((1/3) * (Real.sqrt 2 * Real.sqrt 3)), (1/6) * (Real.sqrt 2 * Real.sqrt 3), -((1/6) * (Real.sqrt 2 * Real.sqrt 3))⟩ : Vec3) := by
    simp only [Vec3.cross, Vec3.mk.injEq]
    refine ⟨?_, ?_, ?_⟩
    · ring
    · ring
    · ring
  have hlB : Vec3.length (⟨-((1/3) * (Real.sqrt 2 * Real.sqrt 3)), (1/6) * (Real.sqrt 2 * Real.sqrt 3), -((1/6) * (Real.sqrt 2 * Real.sqrt 3))⟩ : Vec3) = 1 := by
    simp only [Vec3.length]
    rw [show ((-((1/3) * (Real.sqrt 2 * Real.sqrt 3))) * (-((1/3) * (Real.sqrt 2 * Real.sqrt 3))) + ((1/6) * (Real.sqrt 2 * Real.sqrt 3)) * ((1/6) * (Real.sqrt 2 * Real.sqrt 3)) + (-((1/6) * (Real.sqrt 2 * Real.sqrt 3))) * (-((1/6) * (Real.sqrt 2 * Real.sqrt 3))) : ℝ) = 1 from by linear_combination (((1/6) : ℝ) * Real.sqrt 3 * Real.sqrt 3) * s2_sq + (((1/3) : ℝ)) * s3_sq]
    exact Real.sqrt_one
  have hBn : Vec3.normalize (⟨-((1/3) * (Real.sqrt 2 * Real.sqrt 3)), (1/6) * (Real.sqrt 2 * Real.sqrt 3), -((1/6) * (Real.sqrt 2 * Real.sqrt 3))⟩ : Vec3) = (⟨-((1/3) * (Real.sqrt 2 * Real.sqrt 3)), (1/6) * (Real.sqrt 2 * Real.sqrt 3), -((1/6) * (Real.sqrt 2 * Real.sqrt 3))⟩ : Vec3) := by
    simp only [Vec3.normalize]
    rw [hlB]
    rw [if_neg (by norm_num : ¬ (1 : ℝ) = 0)]
    simp only [Vec3.smul, one_div, inv_one, one_mul]
  have hpos : (poseFromTriangle3 ⟨0.4 * Real.sqrt 2, 0.4 * Real.sqrt 2, 0.4 * Real.sqrt 2⟩ ⟨0.4 * Real.sqrt 2, -(0.4 * Real.sqrt 2), -(0.4 * Real.sqrt 2)⟩ ⟨-(0.4 * Real.sqrt 2), 0.4 * Real.sqrt 2, -(0.4 * Real.sqrt 2)⟩).position = (⟨(2/15) * Real.sqrt 2, (2/15) * Real.sqrt 2, -((2/15) * Real.sqrt 2)⟩ : Vec3) := by
    simp only [poseFromTriangle3, Vec3.add, Vec3.smul, Vec3.mk.injEq]
    refine ⟨?_, ?_, ?_⟩
    · ring
    · ring
    · ring
  have hquat : (poseFromTriangle3 ⟨0.4 * Real.sqrt 2, 0.4 * Real.sqrt 2, 0.4 * Real.sqrt 2⟩ ⟨0.4 * Real.sqrt 2, -(0.4 * Real.sqrt 2), -(0.4 * Real.sqrt 2)⟩ ⟨-(0.4 * Real.sqrt 2), 0.4 * Real.sqrt 2, -(0.4 * Real.sqrt 2)⟩).quaternion =
      quatFromRotationMatrix (basisMat ⟨0, -(0.5 * Real.sqrt 2), -(0.5 * Real.sqrt 2)⟩ ⟨-((1/3) * (Real.sqrt 2 * Real.sqrt 3)), (1/6) * (Real.sqrt 2 * Real.sqrt 3), -((1/6) * (Real.sqrt 2 * Real.sqrt 3))⟩ ⟨(1/3) * Real.sqrt 3, (1/3) * Real.sqrt 3, -((1/3) * Real.sqrt 3)⟩) := by
    simp only [poseFromTriangle3]
    rw [hu, hv, hc, hA, hN, hB, hBn]
  have hsplit : poseFromTriangle3 ⟨0.4 * Real.sqrt 2, 0.4 * Real.sqrt 2, 0.4 * Real.sqrt 2⟩ ⟨0.4 * Real.sqrt 2, -(0.4 * Real.sqrt 2), -(0.4 * Real.sqrt 2)⟩ ⟨-(0.4 * Real.sqrt 2), 0.4 * Real.sqrt 2, -(0.4 * Real.sqrt 2)⟩ =
      (⟨(poseFromTriangle3 ⟨0.4 * Real.sqrt 2, 0.4 * Real.sqrt 2, 0.4 * Real.sqrt 2⟩ ⟨0.4 * Real.sqrt 2, -(0.4 * Real.sqrt 2), -(0.4 * Real.sqrt 2)⟩ ⟨-(0.4 * Real.sqrt 2), 0.4 * Real.sqrt 2, -(0.4 * Real.sqrt 2)⟩).position,
        (poseFromTriangle3 ⟨0.4 * Real.sqrt 2, 0.4 * Real.sqrt 2, 0.4 * Real.sqrt 2⟩ ⟨0.4 * Real.sqrt 2, -(0.4 * Real.sqrt 2), -(0.4 * Real.sqrt 2)⟩ ⟨-(0.4 * Real.sqrt 2), 0.4 * Real.sqrt 2, -(0.4 * Real.sqrt 2)⟩).quaternion⟩ : FacePose) := rfl
  rw [hsplit, hpos, hquat]

/-- `compose` recovers the basis matrix of folded face 0 from its
extracted quaternion. -/
lemma tetraRotM0 :
    Mat4.compose Vec3.zero (quatFromRotationMatrix (basisMat ⟨0, -(0.5 * Real.sqrt 2), -(0.5 * Real.sqrt 2)⟩ ⟨-((1/3) * (Real.sqrt 2 * Real.sqrt 3)), (1/6) * (Real.sqrt 2 * Real.sqrt 3), -((1/6) * (Real.sqrt 2 * Real.sqrt 3))⟩ ⟨(1/3) * Real.sqrt 3, (1/3) * Real.sqrt 3, -((1/3) * Real.sqrt 3)⟩)) =
      basisMat ⟨0, -(0.5 * Real.sqrt 2), -(0.5 * Real.sqrt 2)⟩ ⟨-((1/3) * (Real.sqrt 2 * Real.sqrt 3)), (1/6) * (Real.sqrt 2 * Real.sqrt 3), -((1/6) * (Real.sqrt 2 * Real.sqrt 3))⟩ ⟨(1/3) * Real.sqrt 3, (1/3) * Real.sqrt 3, -((1/3) * Real.sqrt 3)⟩ := by
  have h := tetraRot0
  rw [tetraPose0] at h
  exact h

/-- The folded matrix of tetra face 0 as an explicit literal. -/
lemma tetraFoldM0 :
    poseToMatrix (⟨⟨(2/15) * Real.sqrt 2, (2/15) * Real.sqrt 2, -((2/15) * Real.sqrt 2)⟩, quatFromRotationMatrix (basisMat ⟨0, -(0.5 * Real.sqrt 2), -(0.5 * Real.sqrt 2)⟩ ⟨-((1/3) * (Real.sqrt 2 * Real.sqrt 3)), (1/6) * (Real.sqrt 2 * Real.sqrt 3), -((1/6) * (Real.sqrt 2 * Real.sqrt 3))⟩ ⟨(1/3) * Real.sqrt 3, (1/3) * Real.sqrt 3, -((1/3) * Real.sqrt 3)⟩)⟩ : FacePose) = ({ e0 := 0, e1 := -(0.5 * Real.sqrt 2), e2 := -(0.5 * Real.sqrt 2), e3 := 0, e4 := -((1/3) * (Real.sqrt 2 * Real.sqrt 3)), e5 := (1/6) * (Real.sqrt 2 * Real.sqrt 3), e6 := -((1/6) * (Real.sqrt 2 * Real.sqrt 3)), e7 := 0, e8 := (1/3) * Real.sqrt 3, e9 := (1/3) * Real.sqrt 3, e10 := -((1/3) * Real.sqrt 3), e11 := 0, e12 := (2/15) * Real.sqrt 2, e13 := (2/15) * Real.sqrt 2, e14 := -((2/15) * Real.sqrt 2), e15 := 1 } : Mat4) := by
  simp only [poseToMatrix]
  rw [tetraRotM0]
  rfl

/-- The folded pose of tetra face 1 as a position and an explicit
basis-matrix quaternion extraction. -/
lemma tetraPose1 :
    poseFromTriangle3 ⟨0.4 * Real.sqrt 2, 0.4 * Real.sqrt 2, 0.4 * Real.sqrt 2⟩ ⟨-(0.4 * Real.sqrt 2), -(0.4 * Real.sqrt 2), 0.4 * Real.sqrt 2⟩ ⟨0.4 * Real.sqrt 2, -(0.4 * Real.sqrt 2), -(0.4 * Real.sqrt 2)⟩ =
      (⟨⟨(2/15) * Real.sqrt 2, -((2/15) * Real.sqrt 2), (2/15) * Real.sqrt 2⟩, quatFromRotationMatrix (basisMat ⟨-(0.5 * Real.sqrt 2), -(0.5 * Real.sqrt 2), 0⟩ ⟨(1/6) * (Real.sqrt 2 * Real.sqrt 3), -((1/6) * (Real.sqrt 2 * Real.sqrt 3)), -((1/3) * (Real.sqrt 2 * Real.sqrt 3))⟩ ⟨(1/3) * Real.sqrt 3, -((1/3) * Real.sqrt 3), (1/3) * Real.sqrt 3⟩)⟩ : FacePose) := by
  have hu : Vec3.sub ⟨-(0.4 * Real.sqrt 2), -(0.4 * Real.sqrt 2), 0.4 * Real.sqrt 2⟩ ⟨0.4 * Real.sqrt 2, 0.4 * Real.sqrt 2, 0.4 * Real.sqrt 2⟩ = (⟨-(0.8 * Real.sqrt 2), -(0.8 * Real.sqrt 2), 0⟩ : Vec3) := by
    simp only [Vec3.sub, Vec3.mk.injEq]
    refine ⟨?_, ?_, ?_⟩
    · ring
    · ring
    · ring
  have hv : Vec3.sub ⟨0.4 * Real.sqrt 2, -(0.4 * Real.sqrt 2), -(0.4 * Real.sqrt 2)⟩ ⟨0.4 * Real.sqrt 2, 0.4 * Real.sqrt 2, 0.4 * Real.sqrt 2⟩ = (⟨0, -(0.8 * Real.sqrt 2), -(0.8 * Real.sqrt 2)⟩ : Vec3) := by
    simp only [Vec3.sub, Vec3.mk.injEq]
    refine ⟨?_, ?_, ?_⟩
    · ring
    · ring
    · ring
  have hc : Vec3.cross (⟨-(0.8 * Real.sqrt 2), -(0.8 * Real.sqrt 2), 0⟩ : Vec3) (⟨0, -(0.8 * Real.sqrt 2), -(0.8 * Real.sqrt 2)⟩ : Vec3) = (⟨1.28, -(1.28), 1.28⟩ : Vec3) := by
    simp only [Vec3.cross, Vec3.mk.injEq]
    refine ⟨?_, ?_, ?_⟩
    · linear_combination ((0.64 : ℝ)) * s2_sq
    · linear_combination ((-0.64 : ℝ)) * s2_sq
    · linear_combination ((0.64 : ℝ)) * s2_sq
  have hlU : Vec3.length (⟨-(0.8 * Real.sqrt 2), -(0.8 * Real.sqrt 2), 0⟩ : Vec3) = 1.6 := by
    simp only [Vec3.length]
    rw [show ((-(0.8 * Real.sqrt 2)) * (-(0.8 * Real.sqrt 2)) + (-(0.8 * Real.sqrt 2)) * (-(0.8 * Real.sqrt 2)) + (0) * (0) : ℝ) = 2.56 from by linear_combination ((1.28 : ℝ)) * s2_sq]
    rw [show (2.56 : ℝ) = 1.6 ^ 2 by norm_num, Real.sqrt_sq (by norm_num : (0:ℝ) ≤ 1.6)]
  have hA : Vec3.normalize (⟨-(0.8 * Real.sqrt 2), -(0.8 * Real.sqrt 2), 0⟩ : Vec3) = (⟨-(0.5 * Real.sqrt 2), -(0.5 * Real.sqrt 2), 0⟩ : Vec3) := by
    simp only [Vec3.normalize]
    rw [hlU]
    rw [if_neg (by norm_num : ¬ (1.6 : ℝ) = 0)]
    simp only [Vec3.smul, Vec3.mk.injEq]
    refine ⟨by ring, by ring, by ring⟩
  have hlC : Vec3.length (⟨1.28, -(1.28), 1.28⟩ : Vec3) = 1.28 * Real.sqrt 3 := by
    simp only [Vec3.length]
    rw [show ((1.28) * (1.28) + (-(1.28)) * (-(1.28)) + (1.28) * (1.28) : ℝ) = 4.9152 from by norm_num]
    rw [show (4.9152 : ℝ) = 1.28 ^ 2 * 3 by norm_num,
      Real.sqrt_mul (by norm_num : (0:ℝ) ≤ 1.28 ^ 2) 3,
      Real.sqrt_sq (by norm_num : (0:ℝ) ≤ 1.28)]
  have hN : Vec3.normalize (⟨1.28, -(1.28), 1.28⟩ : Vec3) = (⟨(1/3) * Real.sqrt 3, -((1/3) * Real.sqrt 3), (1/3) * Real.sqrt 3⟩ : Vec3) := by
    simp only [Vec3.normalize]
    rw [hlC]
    rw [if_neg (by positivity : ¬ (1.28 * Real.sqrt 3 : ℝ) = 0)]
    rw [show (1 : ℝ) / (1.28 * Real.sqrt 3) = (25/96) * Real.sqrt 3 from by
      rw [div_eq_iff (by positivity : (1.28 * Real.sqrt 3 : ℝ) ≠ 0)]
      linear_combination ((-1/3 : ℝ)) * s3_sq]
    simp only [Vec3.smul, Vec3.mk.injEq]
    refine ⟨?_, ?_, ?_⟩
    · ring
    · ring
    · ring
  have hB : Vec3.cross (⟨(1/3) * Real.sqrt 3, -((1/3) * Real.sqrt 3), (1/3) * Real.sqrt 3⟩ : Vec3) (⟨-(0.5 * Real.sqrt 2), -(0.5 * Real.sqrt 2), 0⟩ : Vec3) = (⟨(1/6) * (Real.sqrt 2 * Real.sqrt 3), -((1/6) * (Real.sqrt 2 * Real.sqrt 3)), -((1/3) * (Real.sqrt 2 * Real.sqrt 3))⟩ : Vec3) := by
    simp only [Vec3.cross, Vec3.mk.injEq]
    refine ⟨?_, ?_, ?_⟩
    · ring
    · ring
    · ring
  have hlB : Vec3.length (⟨(1/6) * (Real.sqrt 2 * Real.sqrt 3), -((1/6) * (Real.sqrt 2 * Real.sqrt 3)), -((1/3) * (Real.sqrt 2 * Real.sqrt 3))⟩ : Vec3) = 1 := by
    simp only [Vec3.length]
    rw [show (((1/6) * (Real.sqrt 2 * Real.sqrt 3)) * ((1/6) * (Real.sqrt 2 * Real.sqrt 3)) + (-((1/6) * (Real.sqrt 2 * Real.sqrt 3))) * (-((1/6) * (Real.sqrt 2 * Real.sqrt 3))) + (-((1/3) * (Real.sqrt 2 * Real.sqrt 3))) * (-((1/3) * (Real.sqrt 2 * Real.sqrt 3))) : ℝ) = 1 from by linear_combination (((1/6) : ℝ) * Real.sqrt 3 * Real.sqrt 3) * s2_sq + (((1/3) : ℝ)) * s3_sq]
    exact Real.sqrt_one
  have hBn : Vec3.normalize (⟨(1/6) * (Real.sqrt 2 * Real.sqrt 3), -((1/6) * (Real.sqrt 2 * Real.sqrt 3)), -((1/3) * (Real.sqrt 2 * Real.sqrt 3))⟩ : Vec3) = (⟨(1/6) * (Real.sqrt 2 * Real.sqrt 3), -((1/6) * (Real.sqrt 2 * Real.sqrt 3)), -((1/3) * (Real.sqrt 2 * Real.sqrt 3))⟩ : Vec3) := by
    simp only [Vec3.normalize]
    rw [hlB]
    rw [if_neg (by norm_num : ¬ (1 : ℝ) = 0)]
    simp only [Vec3.smul, one_div, inv_one, one_mul]
  have hpos : (poseFromTriangle3 ⟨0.4 * Real.sqrt 2, 0.4 * Real.sqrt 2, 0.4 * Real.sqrt 2⟩ ⟨-(0.4 * Real.sqrt 2), -(0.4 * Real.sqrt 2), 0.4 * Real.sqrt 2⟩ ⟨0.4 * Real.sqrt 2, -(0.4 * Real.sqrt 2), -(0.4 * Real.sqrt 2)⟩).position = (⟨(2/15) * Real.sqrt 2, -((2/15) * Real.sqrt 2), (2/15) * Real.sqrt 2⟩ : Vec3) := by
    simp only [poseFromTriangle3, Vec3.add, Vec3.smul, Vec3.mk.injEq]
    refine ⟨?_, ?_, ?_⟩
    · ring
    · ring
    · ring
  have hquat : (poseFromTriangle3 ⟨0.4 * Real.sqrt 2, 0.4 * Real.sqrt 2, 0.4 * Real.sqrt 2⟩ ⟨-(0.4 * Real.sqrt 2), -(0.4 * Real.sqrt 2), 0.4 * Real.sqrt 2⟩ ⟨0.4 * Real.sqrt 2, -(0.4 * Real.sqrt 2), -(0.4 * Real.sqrt 2)⟩).quaternion =
      quatFromRotationMatrix (basisMat ⟨-(0.5 * Real.sqrt 2), -(0.5 * Real.sqrt 2), 0⟩ ⟨(1/6) * (Real.sqrt 2 * Real.sqrt 3), -((1/6) * (Real.sqrt 2 * Real.sqrt 3)), -((1/3) * (Real.sqrt 2 * Real.sqrt 3))⟩ ⟨(1/3) * Real.sqrt 3, -((1/3) * Real.sqrt 3), (1/3) * Real.sqrt 3⟩) := by
    simp only [poseFromTriangle3]
    rw [hu, hv, hc, hA, hN, hB, hBn]
  have hsplit : poseFromTriangle3 ⟨0.4 * Real.sqrt 2, 0.4 * Real.sqrt 2, 0.4 * Real.sqrt 2⟩ ⟨-(0.4 * Real.sqrt 2), -(0.4 * Real.sqrt 2), 0.4 * Real.sqrt 2⟩ ⟨0.4 * Real.sqrt 2, -(0.4 * Real.sqrt 2), -(0.4 * Real.sqrt 2)⟩ =
      (⟨(poseFromTriangle3 ⟨0.4 * Real.sqrt 2, 0.4 * Real.sqrt 2, 0.4 * Real.sqrt 2⟩ ⟨-(0.4 * Real.sqrt 2), -(0.4 * Real.sqrt 2), 0.4 * Real.sqrt 2⟩ ⟨0.4 * Real.sqrt 2, -(0.4 * Real.sqrt 2), -(0.4 * Real.sqrt 2)⟩).position,
        (poseFromTriangle3 ⟨0.4 * Real.sqrt 2, 0.4 * Real.sqrt 2, 0.4 * Real.sqrt 2⟩ ⟨-(0.4 * Real.sqrt 2), -(0.4 * Real.sqrt 2), 0.4 * Real.sqrt 2⟩ ⟨0.4 * Real.sqrt 2, -(0.4 * Real.sqrt 2), -(0.4 * Real.sqrt 2)⟩).quaternion⟩ : FacePose) := rfl
  rw [hsplit, hpos, hquat]

/-- `compose` recovers the basis matrix of folded face 1 from its
extracted quaternion. -/
lemma tetraRotM1 :
    Mat4.compose Vec3.zero (quatFromRotationMatrix (basisMat ⟨-(0.5 * Real.sqrt 2), -(0.5 * Real.sqrt 2), 0⟩ ⟨(1/6) * (Real.sqrt 2 * Real.sqrt 3), -((1/6) * (Real.sqrt 2 * Real.sqrt 3)), -((1/3) * (Real.sqrt 2 * Real.sqrt 3))⟩ ⟨(1/3) * Real.sqrt 3, -((1/3) * Real.sqrt 3), (1/3) * Real.sqrt 3⟩)) =
      basisMat ⟨-(0.5 * Real.sqrt 2), -(0.5 * Real.sqrt 2), 0⟩ ⟨(1/6) * (Real.sqrt 2 * Real.sqrt 3), -((1/6) * (Real.sqrt 2 * Real.sqrt 3)), -((1/3) * (Real.sqrt 2 * Real.sqrt 3))⟩ ⟨(1/3) * Real.sqrt 3, -((1/3) * Real.sqrt 3), (1/3) * Real.sqrt 3⟩ := by
  have h := tetraRot1
  rw [tetraPose1] at h
  exact h

/-- The folded matrix of tetra face 1 as an explicit literal. -/
lemma tetraFoldM1 :
    poseToMatrix (⟨⟨(2/15) * Real.sqrt 2, -((2/15) * Real.sqrt 2), (2/15) * Real.sqrt 2⟩, quatFromRotationMatrix (basisMat ⟨-(0.5 * Real.sqrt 2), -(0.5 * Real.sqrt 2), 0⟩ ⟨(1/6) * (Real.sqrt 2 * Real.sqrt 3), -((1/6) * (Real.sqrt 2 * Real.sqrt 3)), -((1/3) * (Real.sqrt 2 * Real.sqrt 3))⟩ ⟨(1/3) * Real.sqrt 3, -((1/3) * Real.sqrt 3), (1/3) * Real.sqrt 3⟩)⟩ : FacePose) = ({ e0 := -(0.5 * Real.sqrt 2), e1 := -(0.5 * Real.sqrt 2), e2 := 0, e3 := 0, e4 := (1/6) * (Real.sqrt 2 * Real.sqrt 3), e5 := -((1/6) * (Real.sqrt 2 * Real.sqrt 3)), e6 := -((1/3) * (Real.sqrt 2 * Real.sqrt 3)), e7 := 0, e8 := (1/3) * Real.sqrt 3, e9 := -((1/3) * Real.sqrt 3), e10 := (1/3) * Real.sqrt 3, e11 := 0, e12 := (2/15) * Real.sqrt 2, e13 := -((2/15) * Real.sqrt 2), e14 := (2/15) * Real.sqrt 2, e15 := 1 } : Mat4) := by
  simp only [poseToMatrix]
  rw [tetraRotM1]
  rfl

/-- The folded pose of tetra face 2 as a position and an explicit
basis-matrix quaternion extraction. -/
lemma tetraPose2 :
    poseFromTriangle3 ⟨0.4 * Real.sqrt 2, 0.4 * Real.sqrt 2, 0.4 * Real.sqrt 2⟩ ⟨-(0.4 * Real.sqrt 2), 0.4 * Real.sqrt 2, -(0.4 * Real.sqrt 2)⟩ ⟨-(0.4 * Real.sqrt 2), -(0.4 * Real.sqrt 2), 0.4 * Real.sqrt 2⟩ =
      (⟨⟨-((2/15) * Real.sqrt 2), (2/15) * Real.sqrt 2, (2/15) * Real.sqrt 2⟩, quatFromRotationMatrix (basisMat ⟨-(0.5 * Real.sqrt 2), 0, -(0.5 * Real.sqrt 2)⟩ ⟨-((1/6) * (Real.sqrt 2 * Real.sqrt 3)), -((1/3) * (Real.sqrt 2 * Real.sqrt 3)), (1/6) * (Real.sqrt 2 * Real.sqrt 3)⟩ ⟨-((1/3) * Real.sqrt 3), (1/3) * Real.sqrt 3, (1/3) * Real.sqrt 3⟩)⟩ : FacePose) := by
  have hu : Vec3.sub ⟨-(0.4 * Real.sqrt 2), 0.4 * Real.sqrt 2, -(0.4 * Real.sqrt 2)⟩ ⟨0.4 * Real.sqrt 2, 0.4 * Real.sqrt 2, 0.4 * Real.sqrt 2⟩ = (⟨-(0.8 * Real.sqrt 2), 0, -(0.8 * Real.sqrt 2)⟩ : Vec3) := by
    simp only [Vec3.sub, Vec3.mk.injEq]
    refine ⟨?_, ?_, ?_⟩
    · ring
    · ring
    · ring
  have hv : Vec3.sub ⟨-(0.4 * Real.sqrt 2), -(0.4 * Real.sqrt 2), 0.4 * Real.sqrt 2⟩ ⟨0.4 * Real.sqrt 2, 0.4 * Real.sqrt 2, 0.4 * Real.sqrt 2⟩ = (⟨-(0.8 * Real.sqrt 2), -(0.8 * Real.sqrt 2), 0⟩ : Vec3) := by
    simp only [Vec3.sub, Vec3.mk.injEq]
    refine ⟨?_, ?_, ?_⟩
    · ring
    · ring
    · ring
  have hc : Vec3.cross (⟨-(0.8 * Real.sqrt 2), 0, -(0.8 * Real.sqrt 2)⟩ : Vec3) (⟨-(0.8 * Real.sqrt 2), -(0.8 * Real.sqrt 2), 0⟩ : Vec3) = (⟨-(1.28), 1.28, 1.28⟩ : Vec3) := by
    simp only [Vec3.cross, Vec3.mk.injEq]
    refine ⟨?_, ?_, ?_⟩
    · linear_combination ((-0.64 : ℝ)) * s2_sq
    · linear_combination ((0.64 : ℝ)) * s2_sq
    · linear_combination ((0.64 : ℝ)) * s2_sq
  have hlU : Vec3.length (⟨-(0.8 * Real.sqrt 2), 0, -(0.8 * Real.sqrt 2)⟩ : Vec3) = 1.6 := by
    simp only [Vec3.length]
    rw [show ((-(0.8 * Real.sqrt 2)) * (-(0.8 * Real.sqrt 2)) + (0) * (0) + (-(0.8 * Real.sqrt 2)) * (-(0.8 * Real.sqrt 2)) : ℝ) = 2.56 from by linear_combination ((1.28 : ℝ)) * s2_sq]
    rw [show (2.56 : ℝ) = 1.6 ^ 2 by norm_num, Real.sqrt_sq (by norm_num : (0:ℝ) ≤ 1.6)]
  have hA : Vec3.normalize (⟨-(0.8 * Real.sqrt 2), 0, -(0.8 * Real.sqrt 2)⟩ : Vec3) = (⟨-(0.5 * Real.sqrt 2), 0, -(0.5 * Real.sqrt 2)⟩ : Vec3) := by
    simp only [Vec3.normalize]
    rw [hlU]
    rw [if_neg (by norm_num : ¬ (1.6 : ℝ) = 0)]
    simp only [Vec3.smul, Vec3.mk.injEq]
    refine ⟨by ring, by ring, by ring⟩
  have hlC : Vec3.length (⟨-(1.28), 1.28, 1.28⟩ : Vec3) = 1.28 * Real.sqrt 3 := by
    simp only [Vec3.length]
    rw [show ((-(1.28)) * (-(1.28)) + (1.28) * (1.28) + (1.28) * (1.28) : ℝ) = 4.9152 from by norm_num]
    rw [show (4.9152 : ℝ) = 1.28 ^ 2 * 3 by norm_num,
      Real.sqrt_mul (by norm_num : (0:ℝ) ≤ 1.28 ^ 2) 3,
      Real.sqrt_sq (by norm_num : (0:ℝ) ≤ 1.28)]
  have hN : Vec3.normalize (⟨-(1.28), 1.28, 1.28⟩ : Vec3) = (⟨-((1/3) * Real.sqrt 3), (1/3) * Real.sqrt 3, (1/3) * Real.sqrt 3⟩ : Vec3) := by
    simp only [Vec3.normalize]
    rw [hlC]
    rw [if_neg (by positivity : ¬ (1.28 * Real.sqrt 3 : ℝ) = 0)]
    rw [show (1 : ℝ) / (1.28 * Real.sqrt 3) = (25/96) * Real.sqrt 3 from by
      rw [div_eq_iff (by positivity : (1.28 * Real.sqrt 3 : ℝ) ≠ 0)]
      linear_combination ((-1/3 : ℝ)) * s3_sq]
    simp only [Vec3.smul, Vec3.mk.injEq]
    refine ⟨?_, ?_, ?_⟩
    · ring
    · ring
    · ring
  have hB : Vec3.cross (⟨-((1/3) * Real.sqrt 3), (1/3) * Real.sqrt 3, (1/3) * Real.sqrt 3⟩ : Vec3) (⟨-(0.5 * Real.sqrt 2), 0, -(0.5 * Real.sqrt 2)⟩ : Vec3) = (⟨-((1/6) * (Real.sqrt 2 * Real.sqrt 3)), -((1/3) * (Real.sqrt 2 * Real.sqrt 3)), (1/6) * (Real.sqrt 2 * Real.sqrt 3)⟩ : Vec3) := by
    simp only [Vec3.cross, Vec3.mk.injEq]
    refine ⟨?_, ?_, ?_⟩
    · ring
    · ring
    · ring
  have hlB : Vec3.length (⟨-((1/6) * (Real.sqrt 2 * Real.sqrt 3)), -((1/3) * (Real.sqrt 2 * Real.sqrt 3)), (1/6) * (Real.sqrt 2 * Real.sqrt 3)⟩ : Vec3) = 1 := by
    simp only [Vec3.length]
    rw [show ((-((1/6) * (Real.sqrt 2 * Real.sqrt 3))) * (-((1/6) * (Real.sqrt 2 * Real.sqrt 3))) + (-((1/3) * (Real.sqrt 2 * Real.sqrt 3))) * (-((1/3) * (Real.sqrt 2 * Real.sqrt 3))) + ((1/6) * (Real.sqrt 2 * Real.sqrt 3)) * ((1/6) * (Real.sqrt 2 * Real.sqrt 3)) : ℝ) = 1 from by linear_combination (((1/6) : ℝ) * Real.sqrt 3 * Real.sqrt 3) * s2_sq + (((1/3) : ℝ)) * s3_sq]
    exact Real.sqrt_one
  have hBn : Vec3.normalize (⟨-((1/6) * (Real.sqrt 2 * Real.sqrt 3)), -((1/3) * (Real.sqrt 2 * Real.sqrt 3)), (1/6) * (Real.sqrt 2 * Real.sqrt 3)⟩ : Vec3) = (⟨-((1/6) * (Real.sqrt 2 * Real.sqrt 3)), -((1/3) * (Real.sqrt 2 * Real.sqrt 3)), (1/6) * (Real.sqrt 2 * Real.sqrt 3)⟩ : Vec3) := by
    simp only [Vec3.normalize]
    rw [hlB]
    rw [if_neg (by norm_num : ¬ (1 : ℝ) = 0)]
    simp only [Vec3.smul, one_div, inv_one, one_mul]
  have hpos : (poseFromTriangle3 ⟨0.4 * Real.sqrt 2, 0.4 * Real.sqrt 2, 0.4 * Real.sqrt 2⟩ ⟨-(0.4 * Real.sqrt 2), 0.4 * Real.sqrt 2, -(0.4 * Real.sqrt 2)⟩ ⟨-(0.4 * Real.sqrt 2), -(0.4 * Real.sqrt 2), 0.4 * Real.sqrt 2⟩).position = (⟨-((2/15) * Real.sqrt 2), (2/15) * Real.sqrt 2, (2/15) * Real.sqrt 2⟩ : Vec3) := by
    simp only [poseFromTriangle3, Vec3.add, Vec3.smul, Vec3.mk.injEq]
    refine ⟨?_, ?_, ?_⟩
    · ring
    · ring
    · ring
  have hquat : (poseFromTriangle3 ⟨0.4 * Real.sqrt 2, 0.4 * Real.sqrt 2, 0.4 * Real.sqrt 2⟩ ⟨-(0.4 * Real.sqrt 2), 0.4 * Real.sqrt 2, -(0.4 * Real.sqrt 2)⟩ ⟨-(0.4 * Real.sqrt 2), -(0.4 * Real.sqrt 2), 0.4 * Real.sqrt 2⟩).quaternion =
      quatFromRotationMatrix (basisMat ⟨-(0.5 * Real.sqrt 2), 0, -(0.5 * Real.sqrt 2)⟩ ⟨-((1/6) * (Real.sqrt 2 * Real.sqrt 3)), -((1/3) * (Real.sqrt 2 * Real.sqrt 3)), (1/6) * (Real.sqrt 2 * Real.sqrt 3)⟩ ⟨-((1/3) * Real.sqrt 3), (1/3) * Real.sqrt 3, (1/3) * Real.sqrt 3⟩) := by
    simp only [poseFromTriangle3]
    rw [hu, hv, hc, hA, hN, hB, hBn]
  have hsplit : poseFromTriangle3 ⟨0.4 * Real.sqrt 2, 0.4 * Real.sqrt 2, 0.4 * Real.sqrt 2⟩ ⟨-(0.4 * Real.sqrt 2), 0.4 * Real.sqrt 2, -(0.4 * Real.sqrt 2)⟩ ⟨-(0.4 * Real.sqrt 2), -(0.4 * Real.sqrt 2), 0.4 * Real.sqrt 2⟩ =
      (⟨(poseFromTriangle3 ⟨0.4 * Real.sqrt 2, 0.4 * Real.sqrt 2, 0.4 * Real.sqrt 2⟩ ⟨-(0.4 * Real.sqrt 2), 0.4 * Real.sqrt 2, -(0.4 * Real.sqrt 2)⟩ ⟨-(0.4 * Real.sqrt 2), -(0.4 * Real.sqrt 2), 0.4 * Real.sqrt 2⟩).position,
        (poseFromTriangle3 ⟨0.4 * Real.sqrt 2, 0.4 * Real.sqrt 2, 0.4 * Real.sqrt 2⟩ ⟨-(0.4 * Real.sqrt 2), 0.4 * Real.sqrt 2, -(0.4 * Real.sqrt 2)⟩ ⟨-(0.4 * Real.sqrt 2), -(0.4 * Real.sqrt 2), 0.4 * Real.sqrt 2⟩).quaternion⟩ : FacePose) := rfl
  rw [hsplit, hpos, hquat]

/-- `compose` recovers the basis matrix of folded face 2 from its
extracted quaternion. -/
lemma tetraRotM2 :
    Mat4.compose Vec3.zero (quatFromRotationMatrix (basisMat ⟨-(0.5 * Real.sqrt 2), 0, -(0.5 * Real.sqrt 2)⟩ ⟨-((1/6) * (Real.sqrt 2 * Real.sqrt 3)), -((1/3) * (Real.sqrt 2 * Real.sqrt 3)), (1/6) * (Real.sqrt 2 * Real.sqrt 3)⟩ ⟨-((1/3) * Real.sqrt 3), (1/3) * Real.sqrt 3, (1/3) * Real.sqrt 3⟩)) =
      basisMat ⟨-(0.5 * Real.sqrt 2), 0, -(0.5 * Real.sqrt 2)⟩ ⟨-((1/6) * (Real.sqrt 2 * Real.sqrt 3)), -((1/3) * (Real.sqrt 2 * Real.sqrt 3)), (1/6) * (Real.sqrt 2 * Real.sqrt 3)⟩ ⟨-((1/3) * Real.sqrt 3), (1/3) * Real.sqrt 3, (1/3) * Real.sqrt 3⟩ := by
  have h := tetraRot2
  rw [tetraPose2] at h
  exact h

/-- The folded matrix of tetra face 2 as an explicit literal. -/
lemma tetraFoldM2 :
    poseToMatrix (⟨⟨-((2/15) * Real.sqrt 2), (2/15) * Real.sqrt 2, (2/15) * Real.sqrt 2⟩, quatFromRotationMatrix (basisMat ⟨-(0.5 * Real.sqrt 2), 0, -(0.5 * Real.sqrt 2)⟩ ⟨-((1/6) * (Real.sqrt 2 * Real.sqrt 3)), -((1/3) * (Real.sqrt 2 * Real.sqrt 3)), (1/6) * (Real.sqrt 2 * Real.sqrt 3)⟩ ⟨-((1/3) * Real.sqrt 3), (1/3) * Real.sqrt 3, (1/3) * Real.sqrt 3⟩)⟩ : FacePose) = ({ e0 := -(0.5 * Real.sqrt 2), e1 := 0, e2 := -(0.5 * Real.sqrt 2), e3 := 0, e4 := -((1/6) * (Real.sqrt 2 * Real.sqrt 3)), e5 := -((1/3) * (Real.sqrt 2 * Real.sqrt 3)), e6 := (1/6) * (Real.sqrt 2 * Real.sqrt 3), e7 := 0, e8 := -((1/3) * Real.sqrt 3), e9 := (1/3) * Real.sqrt 3, e10 := (1/3) * Real.sqrt 3, e11 := 0, e12 := -((2/15) * Real.sqrt 2), e13 := (2/15) * Real.sqrt 2, e14 := (2/15) * Real.sqrt 2, e15 := 1 } : Mat4) := by
  simp only [poseToMatrix]
  rw [tetraRotM2]
  rfl

/-- The folded pose of tetra face 3 as a position and an explicit
basis-matrix quaternion extraction. -/
lemma tetraPose3 :
    poseFromTriangle3 ⟨0.4 * Real.sqrt 2, -(0.4 * Real.sqrt 2), -(0.4 * Real.sqrt 2)⟩ ⟨-(0.4 * Real.sqrt 2), -(0.4 * Real.sqrt 2), 0.4 * Real.sqrt 2⟩ ⟨-(0.4 * Real.sqrt 2), 0.4 * Real.sqrt 2, -(0.4 * Real.sqrt 2)⟩ =
      (⟨⟨-((2/15) * Real.sqrt 2), -((2/15) * Real.sqrt 2), -((2/15) * Real.sqrt 2)⟩, quatFromRotationMatrix (basisMat ⟨-(0.5 * Real.sqrt 2), 0, 0.5 * Real.sqrt 2⟩ ⟨-((1/6) * (Real.sqrt 2 * Real.sqrt 3)), (1/3) * (Real.sqrt 2 * Real.sqrt 3), -((1/6) * (Real.sqrt 2 * Real.sqrt 3))⟩ ⟨-((1/3) * Real.sqrt 3), -((1/3) * Real.sqrt 3), -((1/3) * Real.sqrt 3)⟩)⟩ : FacePose) := by
  have hu : Vec3.sub ⟨-(0.4 * Real.sqrt 2), -(0.4 * Real.sqrt 2), 0.4 * Real.sqrt 2⟩ ⟨0.4 * Real.sqrt 2, -(0.4 * Real.sqrt 2), -(0.4 * Real.sqrt 2)⟩ = (⟨-(0.8 * Real.sqrt 2), 0, 0.8 * Real.sqrt 2⟩ : Vec3) := by
    simp only [Vec3.sub, Vec3.mk.injEq]
    refine ⟨?_, ?_, ?_⟩
    · ring
    · ring
    · ring
  have hv : Vec3.sub ⟨-(0.4 * Real.sqrt 2), 0.4 * Real.sqrt 2, -(0.4 * Real.sqrt 2)⟩ ⟨0.4 * Real.sqrt 2, -(0.4 * Real.sqrt 2), -(0.4 * Real.sqrt 2)⟩ = (⟨-(0.8 * Real.sqrt 2), 0.8 * Real.sqrt 2, 0⟩ : Vec3) := by
    simp only [Vec3.sub, Vec3.mk.injEq]
    refine ⟨?_, ?_, ?_⟩
    · ring
    · ring
    · ring
  have hc : Vec3.cross (⟨-(0.8 * Real.sqrt 2), 0, 0.8 * Real.sqrt 2⟩ : Vec3) (⟨-(0.8 * Real.sqrt 2), 0.8 * Real.sqrt 2, 0⟩ : Vec3) = (⟨-(1.28), -(1.28), -(1.28)⟩ : Vec3) := by
    simp only [Vec3.cross, Vec3.mk.injEq]
    refine ⟨?_, ?_, ?_⟩
    · linear_combination ((-0.64 : ℝ)) * s2_sq
    · linear_combination ((-0.64 : ℝ)) * s2_sq
    · linear_combination ((-0.64 : ℝ)) * s2_sq
  have hlU : Vec3.length (⟨-(0.8 * Real.sqrt 2), 0, 0.8 * Real.sqrt 2⟩ : Vec3) = 1.6 := by
    simp only [Vec3.length]
    rw [show ((-(0.8 * Real.sqrt 2)) * (-(0.8 * Real.sqrt 2)) + (0) * (0) + (0.8 * Real.sqrt 2) * (0.8 * Real.sqrt 2) : ℝ) = 2.56 from by linear_combination ((1.28 : ℝ)) * s2_sq]
    rw [show (2.56 : ℝ) = 1.6 ^ 2 by norm_num, Real.sqrt_sq (by norm_num : (0:ℝ) ≤ 1.6)]
  have hA : Vec3.normalize (⟨-(0.8 * Real.sqrt 2), 0, 0.8 * Real.sqrt 2⟩ : Vec3) = (⟨-(0.5 * Real.sqrt 2), 0, 0.5 * Real.sqrt 2⟩ : Vec3) := by
    simp only [Vec3.normalize]
    rw [hlU]
    rw [if_neg (by norm_num : ¬ (1.6 : ℝ) = 0)]
    simp only [Vec3.smul, Vec3.mk.injEq]
    refine ⟨by ring, by ring, by ring⟩
  have hlC : Vec3.length (⟨-(1.28), -(1.28), -(1.28)⟩ : Vec3) = 1.28 * Real.sqrt 3 := by
    simp only [Vec3.length]
    rw [show ((-(1.28)) * (-(1.28)) + (-(1.28)) * (-(1.28)) + (-(1.28)) * (-(1.28)) : ℝ) = 4.9152 from by norm_num]
    rw [show (4.9152 : ℝ) = 1.28 ^ 2 * 3 by norm_num,
      Real.sqrt_mul (by norm_num : (0:ℝ) ≤ 1.28 ^ 2) 3,
      Real.sqrt_sq (by norm_num : (0:ℝ) ≤ 1.28)]
  have hN : Vec3.normalize (⟨-(1.28), -(1.28), -(1.28)⟩ : Vec3) = (⟨-((1/3) * Real.sqrt 3), -((1/3) * Real.sqrt 3), -((1/3) * Real.sqrt 3)⟩ : Vec3) := by
    simp only [Vec3.normalize]
    rw [hlC]
    rw [if_neg (by positivity : ¬ (1.28 * Real.sqrt 3 : ℝ) = 0)]
    rw [show (1 : ℝ) / (1.28 * Real.sqrt 3) = (25/96) * Real.sqrt 3 from by
      rw [div_eq_iff (by positivity : (1.28 * Real.sqrt 3 : ℝ) ≠ 0)]
      linear_combination ((-1/3 : ℝ)) * s3_sq]
    simp only [Vec3.smul, Vec3.mk.injEq]
    refine ⟨?_, ?_, ?_⟩
    · ring
    · ring
    · ring
  have hB : Vec3.cross (⟨-((1/3) * Real.sqrt 3), -((1/3) * Real.sqrt 3), -((1/3) * Real.sqrt 3)⟩ : Vec3) (⟨-(0.5 * Real.sqrt 2), 0, 0.5 * Real.sqrt 2⟩ : Vec3) = (⟨-((1/6) * (Real.sqrt 2 * Real.sqrt 3)), (1/3) * (Real.sqrt 2 * Real.sqrt 3), -((1/6) * (Real.sqrt 2 * Real.sqrt 3))⟩ : Vec3) := by
    simp only [Vec3.cross, Vec3.mk.injEq]
    refine ⟨?_, ?_, ?_⟩
    · ring
    · ring
    · ring
  have hlB : Vec3.length (⟨-((1/6) * (Real.sqrt 2 * Real.sqrt 3)), (1/3) * (Real.sqrt 2 * Real.sqrt 3), -((1/6) * (Real.sqrt 2 * Real.sqrt 3))⟩ : Vec3) = 1 := by
    simp only [Vec3.length]
    rw [show ((-((1/6) * (Real.sqrt 2 * Real.sqrt 3))) * (-((1/6) * (Real.sqrt 2 * Real.sqrt 3))) + ((1/3) * (Real.sqrt 2 * Real.sqrt 3)) * ((1/3) * (Real.sqrt 2 * Real.sqrt 3)) + (-((1/6) * (Real.sqrt 2 * Real.sqrt 3))) * (-((1/6) * (Real.sqrt 2 * Real.sqrt 3))) : ℝ) = 1 from by linear_combination (((1/6) : ℝ) * Real.sqrt 3 * Real.sqrt 3) * s2_sq + (((1/3) : ℝ)) * s3_sq]
    exact Real.sqrt_one
  have hBn : Vec3.normalize (⟨-((1/6) * (Real.sqrt 2 * Real.sqrt 3)), (1/3) * (Real.sqrt 2 * Real.sqrt 3), -((1/6) * (Real.sqrt 2 * Real.sqrt 3))⟩ : Vec3) = (⟨-((1/6) * (Real.sqrt 2 * Real.sqrt 3)), (1/3) * (Real.sqrt 2 * Real.sqrt 3), -((1/6) * (Real.sqrt 2 * Real.sqrt 3))⟩ : Vec3) := by
    simp only [Vec3.normalize]
    rw [hlB]
    rw [if_neg (by norm_num : ¬ (1 : ℝ) = 0)]
    simp only [Vec3.smul, one_div, inv_one, one_mul]
  have hpos : (poseFromTriangle3 ⟨0.4 * Real.sqrt 2, -(0.4 * Real.sqrt 2), -(0.4 * Real.sqrt 2)⟩ ⟨-(0.4 * Real.sqrt 2), -(0.4 * Real.sqrt 2), 0.4 * Real.sqrt 2⟩ ⟨-(0.4 * Real.sqrt 2), 0.4 * Real.sqrt 2, -(0.4 * Real.sqrt 2)⟩).position = (⟨-((2/15) * Real.sqrt 2), -((2/15) * Real.sqrt 2), -((2/15) * Real.sqrt 2)⟩ : Vec3) := by
    simp only [poseFromTriangle3, Vec3.add, Vec3.smul, Vec3.mk.injEq]
    refine ⟨?_, ?_, ?_⟩
    · ring
    · ring
    · ring
  have hquat : (poseFromTriangle3 ⟨0.4 * Real.sqrt 2, -(0.4 * Real.sqrt 2), -(0.4 * Real.sqrt 2)⟩ ⟨-(0.4 * Real.sqrt 2), -(0.4 * Real.sqrt 2), 0.4 * Real.sqrt 2⟩ ⟨-(0.4 * Real.sqrt 2), 0.4 * Real.sqrt 2, -(0.4 * Real.sqrt 2)⟩).quaternion =
      quatFromRotationMatrix (basisMat ⟨-(0.5 * Real.sqrt 2), 0, 0.5 * Real.sqrt 2⟩ ⟨-((1/6) * (Real.sqrt 2 * Real.sqrt 3)), (1/3) * (Real.sqrt 2 * Real.sqrt 3), -((1/6) * (Real.sqrt 2 * Real.sqrt 3))⟩ ⟨-((1/3) * Real.sqrt 3), -((1/3) * Real.sqrt 3), -((1/3) * Real.sqrt 3)⟩) := by
    simp only [poseFromTriangle3]
    rw [hu, hv, hc, hA, hN, hB, hBn]
  have hsplit : poseFromTriangle3 ⟨0.4 * Real.sqrt 2, -(0.4 * Real.sqrt 2), -(0.4 * Real.sqrt 2)⟩ ⟨-(0.4 * Real.sqrt 2), -(0.4 * Real.sqrt 2), 0.4 * Real.sqrt 2⟩ ⟨-(0.4 * Real.sqrt 2), 0.4 * Real.sqrt 2, -(0.4 * Real.sqrt 2)⟩ =
      (⟨(poseFromTriangle3 ⟨0.4 * Real.sqrt 2, -(0.4 * Real.sqrt 2), -(0.4 * Real.sqrt 2)⟩ ⟨-(0.4 * Real.sqrt 2), -(0.4 * Real.sqrt 2), 0.4 * Real.sqrt 2⟩ ⟨-(0.4 * Real.sqrt 2), 0.4 * Real.sqrt 2, -(0.4 * Real.sqrt 2)⟩).position,
        (poseFromTriangle3 ⟨0.4 * Real.sqrt 2, -(0.4 * Real.sqrt 2), -(0.4 * Real.sqrt 2)⟩ ⟨-(0.4 * Real.sqrt 2), -(0.4 * Real.sqrt 2), 0.4 * Real.sqrt 2⟩ ⟨-(0.4 * Real.sqrt 2), 0.4 * Real.sqrt 2, -(0.4 * Real.sqrt 2)⟩).quaternion⟩ : FacePose) := rfl
  rw [hsplit, hpos, hquat]

/-- `compose` recovers the basis matrix of folded face 3 from its
extracted quaternion. -/
lemma tetraRotM3 :
    Mat4.compose Vec3.zero (quatFromRotationMatrix (basisMat ⟨-(0.5 * Real.sqrt 2), 0, 0.5 * Real.sqrt 2⟩ ⟨-((1/6) * (Real.sqrt 2 * Real.sqrt 3)), (1/3) * (Real.sqrt 2 * Real.sqrt 3), -((1/6) * (Real.sqrt 2 * Real.sqrt 3))⟩ ⟨-((1/3) * Real.sqrt 3), -((1/3) * Real.sqrt 3), -((1/3) * Real.sqrt 3)⟩)) =
      basisMat ⟨-(0.5 * Real.sqrt 2), 0, 0.5 * Real.sqrt 2⟩ ⟨-((1/6) * (Real.sqrt 2 * Real.sqrt 3)), (1/3) * (Real.sqrt 2 * Real.sqrt 3), -((1/6) * (Real.sqrt 2 * Real.sqrt 3))⟩ ⟨-((1/3) * Real.sqrt 3), -((1/3) * Real.sqrt 3), -((1/3) * Real.sqrt 3)⟩ := by
  have h := tetraRot3
  rw [tetraPose3] at h
  exact h

/-- The folded matrix of tetra face 3 as an explicit literal. -/
lemma tetraFoldM3 :
    poseToMatrix (⟨⟨-((2/15) * Real.sqrt 2), -((2/15) * Real.sqrt 2), -((2/15) * Real.sqrt 2)⟩, quatFromRotationMatrix (basisMat ⟨-(0.5 * Real.sqrt 2), 0, 0.5 * Real.sqrt 2⟩ ⟨-((1/6) * (Real.sqrt 2 * Real.sqrt 3)), (1/3) * (Real.sqrt 2 * Real.sqrt 3), -((1/6) * (Real.sqrt 2 * Real.sqrt 3))⟩ ⟨-((1/3) * Real.sqrt 3), -((1/3) * Real.sqrt 3), -((1/3) * Real.sqrt 3)⟩)⟩ : FacePose) = ({ e0 := -(0.5 * Real.sqrt 2), e1 := 0, e2 := 0.5 * Real.sqrt 2, e3 := 0, e4 := -((1/6) * (Real.sqrt 2 * Real.sqrt 3)), e5 := (1/3) * (Real.sqrt 2 * Real.sqrt 3), e6 := -((1/6) * (Real.sqrt 2 * Real.sqrt 3)), e7 := 0, e8 := -((1/3) * Real.sqrt 3), e9 := -((1/3) * Real.sqrt 3), e10 := -((1/3) * Real.sqrt 3), e11 := 0, e12 := -((2/15) * Real.sqrt 2), e13 := -((2/15) * Real.sqrt 2), e14 := -((2/15) * Real.sqrt 2), e15 := 1 } : Mat4) := by
  simp only [poseToMatrix]
  rw [tetraRotM3]
  rfl

/-- `decompose` on the folded matrix of tetra face 0 returns the stored
pose exactly (unit scales, determinant `1`). -/
lemma tetraDecF0 :
    matrixToPose ({ e0 := 0, e1 := -(0.5 * Real.sqrt 2), e2 := -(0.5 * Real.sqrt 2), e3 := 0, e4 := -((1/3) * (Real.sqrt 2 * Real.sqrt 3)), e5 := (1/6) * (Real.sqrt 2 * Real.sqrt 3), e6 := -((1/6) * (Real.sqrt 2 * Real.sqrt 3)), e7 := 0, e8 := (1/3) * Real.sqrt 3, e9 := (1/3) * Real.sqrt 3, e10 := -((1/3) * Real.sqrt 3), e11 := 0, e12 := (2/15) * Real.sqrt 2, e13 := (2/15) * Real.sqrt 2, e14 := -((2/15) * Real.sqrt 2), e15 := 1 } : Mat4) = (⟨⟨(2/15) * Real.sqrt 2, (2/15) * Real.sqrt 2, -((2/15) * Real.sqrt 2)⟩, quatFromRotationMatrix (basisMat ⟨0, -(0.5 * Real.sqrt 2), -(0.5 * Real.sqrt 2)⟩ ⟨-((1/3) * (Real.sqrt 2 * Real.sqrt 3)), (1/6) * (Real.sqrt 2 * Real.sqrt 3), -((1/6) * (Real.sqrt 2 * Real.sqrt 3))⟩ ⟨(1/3) * Real.sqrt 3, (1/3) * Real.sqrt 3, -((1/3) * Real.sqrt 3)⟩)⟩ : FacePose) := by
  simp only [matrixToPose, Mat4.decompose]
  rw [show Vec3.length ⟨(0), (-(0.5 * Real.sqrt 2)), (-(0.5 * Real.sqrt 2))⟩ = 1 from by
    simp only [Vec3.length]
    rw [show ((0) * (0) + (-(0.5 * Real.sqrt 2)) * (-(0.5 * Real.sqrt 2)) + (-(0.5 * Real.sqrt 2)) * (-(0.5 * Real.sqrt 2)) : ℝ) = 1 from by
      linear_combination ((0.5 : ℝ)) * s2_sq]
    exact Real.sqrt_one]
  rw [show Vec3.length ⟨(-((1/3) * (Real.sqrt 2 * Real.sqrt 3))), ((1/6) * (Real.sqrt 2 * Real.sqrt 3)), (-((1/6) * (Real.sqrt 2 * Real.sqrt 3)))⟩ = 1 from by
    simp only [Vec3.length]
    rw [show ((-((1/3) * (Real.sqrt 2 * Real.sqrt 3))) * (-((1/3) * (Real.sqrt 2 * Real.sqrt 3))) + ((1/6) * (Real.sqrt 2 * Real.sqrt 3)) * ((1/6) * (Real.sqrt 2 * Real.sqrt 3)) + (-((1/6) * (Real.sqrt 2 * Real.sqrt 3))) * (-((1/6) * (Real.sqrt 2 * Real.sqrt 3))) : ℝ) = 1 from by
      linear_combination (((1/6) : ℝ) * Real.sqrt 3 * Real.sqrt 3) * s2_sq + (((1/3) : ℝ)) * s3_sq]
    exact Real.sqrt_one]
  rw [show Vec3.length ⟨((1/3) * Real.sqrt 3), ((1/3) * Real.sqrt 3), (-((1/3) * Real.sqrt 3))⟩ = 1 from by
    simp only [Vec3.length]
    rw [show (((1/3) * Real.sqrt 3) * ((1/3) * Real.sqrt 3) + ((1/3) * Real.sqrt 3) * ((1/3) * Real.sqrt 3) + (-((1/3) * Real.sqrt 3)) * (-((1/3) * Real.sqrt 3)) : ℝ) = 1 from by
      linear_combination (((1/3) : ℝ)) * s3_sq]
    exact Real.sqrt_one]
  rw [show Mat4.det ({ e0 := 0, e1 := -(0.5 * Real.sqrt 2), e2 := -(0.5 * Real.sqrt 2), e3 := 0, e4 := -((1/3) * (Real.sqrt 2 * Real.sqrt 3)), e5 := (1/6) * (Real.sqrt 2 * Real.sqrt 3), e6 := -((1/6) * (Real.sqrt 2 * Real.sqrt 3)), e7 := 0, e8 := (1/3) * Real.sqrt 3, e9 := (1/3) * Real.sqrt 3, e10 := -((1/3) * Real.sqrt 3), e11 := 0, e12 := (2/15) * Real.sqrt 2, e13 := (2/15) * Real.sqrt 2, e14 := -((2/15) * Real.sqrt 2), e15 := 1 } : Mat4) = 1 from by
    simp only [Mat4.det]
    linear_combination (((1/6) : ℝ) * Real.sqrt 3 * Real.sqrt 3) * s2_sq + (((1/3) : ℝ)) * s3_sq]
  rw [if_neg (by norm_num : ¬ (1 : ℝ) < 0)]
  rw [show ({ e0 := (0) * (1 / 1), e1 := (-(0.5 * Real.sqrt 2)) * (1 / 1), e2 := (-(0.5 * Real.sqrt 2)) * (1 / 1), e3 := 0, e4 := (-((1/3) * (Real.sqrt 2 * Real.sqrt 3))) * (1 / 1), e5 := ((1/6) * (Real.sqrt 2 * Real.sqrt 3)) * (1 / 1), e6 := (-((1/6) * (Real.sqrt 2 * Real.sqrt 3))) * (1 / 1), e7 := 0, e8 := ((1/3) * Real.sqrt 3) * (1 / 1), e9 := ((1/3) * Real.sqrt 3) * (1 / 1), e10 := (-((1/3) * Real.sqrt 3)) * (1 / 1), e11 := 0, e12 := (2/15) * Real.sqrt 2, e13 := (2/15) * Real.sqrt 2, e14 := -((2/15) * Real.sqrt 2), e15 := 1 } : Mat4) = ({ e0 := 0, e1 := -(0.5 * Real.sqrt 2), e2 := -(0.5 * Real.sqrt 2), e3 := 0, e4 := -((1/3) * (Real.sqrt 2 * Real.sqrt 3)), e5 := (1/6) * (Real.sqrt 2 * Real.sqrt 3), e6 := -((1/6) * (Real.sqrt 2 * Real.sqrt 3)), e7 := 0, e8 := (1/3) * Real.sqrt 3, e9 := (1/3) * Real.sqrt 3, e10 := -((1/3) * Real.sqrt 3), e11 := 0, e12 := (2/15) * Real.sqrt 2, e13 := (2/15) * Real.sqrt 2, e14 := -((2/15) * Real.sqrt 2), e15 := 1 } : Mat4) from by
    refine Mat4.ext16 ?_ ?_ ?_ ?_ ?_ ?_ ?_ ?_ ?_ ?_ ?_ ?_ ?_ ?_ ?_ ?_ <;> ring]
  rfl

/-- `decompose` on the folded matrix of tetra face 1 returns the stored
pose exactly (unit scales, determinant `1`). -/
lemma tetraDecF1 :
    matrixToPose ({ e0 := -(0.5 * Real.sqrt 2), e1 := -(0.5 * Real.sqrt 2), e2 := 0, e3 := 0, e4 := (1/6) * (Real.sqrt 2 * Real.sqrt 3), e5 := -((1/6) * (Real.sqrt 2 * Real.sqrt 3)), e6 := -((1/3) * (Real.sqrt 2 * Real.sqrt 3)), e7 := 0, e8 := (1/3) * Real.sqrt 3, e9 := -((1/3) * Real.sqrt 3), e10 := (1/3) * Real.sqrt 3, e11 := 0, e12 := (2/15) * Real.sqrt 2, e13 := -((2/15) * Real.sqrt 2), e14 := (2/15) * Real.sqrt 2, e15 := 1 } : Mat4) = (⟨⟨(2/15) * Real.sqrt 2, -((2/15) * Real.sqrt 2), (2/15) * Real.sqrt 2⟩, quatFromRotationMatrix (basisMat ⟨-(0.5 * Real.sqrt 2), -(0.5 * Real.sqrt 2), 0⟩ ⟨(1/6) * (Real.sqrt 2 * Real.sqrt 3), -((1/6) * (Real.sqrt 2 * Real.sqrt 3)), -((1/3) * (Real.sqrt 2 * Real.sqrt 3))⟩ ⟨(1/3) * Real.sqrt 3, -((1/3) * Real.sqrt 3), (1/3) * Real.sqrt 3⟩)⟩ : FacePose) := by
  simp only [matrixToPose, Mat4.decompose]
  rw [show Vec3.length ⟨(-(0.5 * Real.sqrt 2)), (-(0.5 * Real.sqrt 2)), (0)⟩ = 1 from by
    simp only [Vec3.length]
    rw [show ((-(0.5 * Real.sqrt 2)) * (-(0.5 * Real.sqrt 2)) + (-(0.5 * Real.sqrt 2)) * (-(0.5 * Real.sqrt 2)) + (0) * (0) : ℝ) = 1 from by
      linear_combination ((0.5 : ℝ)) * s2_sq]
    exact Real.sqrt_one]
  rw [show Vec3.length ⟨((1/6) * (Real.sqrt 2 * Real.sqrt 3)), (-((1/6) * (Real.sqrt 2 * Real.sqrt 3))), (-((1/3) * (Real.sqrt 2 * Real.sqrt 3)))⟩ = 1 from by
    simp only [Vec3.length]
    rw [show (((1/6) * (Real.sqrt 2 * Real.sqrt 3)) * ((1/6) * (Real.sqrt 2 * Real.sqrt 3)) + (-((1/6) * (Real.sqrt 2 * Real.sqrt 3))) * (-((1/6) * (Real.sqrt 2 * Real.sqrt 3))) + (-((1/3) * (Real.sqrt 2 * Real.sqrt 3))) * (-((1/3) * (Real.sqrt 2 * Real.sqrt 3))) : ℝ) = 1 from by
      linear_combination (((1/6) : ℝ) * Real.sqrt 3 * Real.sqrt 3) * s2_sq + (((1/3) : ℝ)) * s3_sq]
    exact Real.sqrt_one]
  rw [show Vec3.length ⟨((1/3) * Real.sqrt 3), (-((1/3) * Real.sqrt 3)), ((1/3) * Real.sqrt 3)⟩ = 1 from by
    simp only [Vec3.length]
    rw [show (((1/3) * Real.sqrt 3) * ((1/3) * Real.sqrt 3) + (-((1/3) * Real.sqrt 3)) * (-((1/3) * Real.sqrt 3)) + ((1/3) * Real.sqrt 3) * ((1/3) * Real.sqrt 3) : ℝ) = 1 from by
      linear_combination (((1/3) : ℝ)) * s3_sq]
    exact Real.sqrt_one]
  rw [show Mat4.det ({ e0 := -(0.5 * Real.sqrt 2), e1 := -(0.5 * Real.sqrt 2), e2 := 0, e3 := 0, e4 := (1/6) * (Real.sqrt 2 * Real.sqrt 3), e5 := -((1/6) * (Real.sqrt 2 * Real.sqrt 3)), e6 := -((1/3) * (Real.sqrt 2 * Real.sqrt 3)), e7 := 0, e8 := (1/3) * Real.sqrt 3, e9 := -((1/3) * Real.sqrt 3), e10 := (1/3) * Real.sqrt 3, e11 := 0, e12 := (2/15) * Real.sqrt 2, e13 := -((2/15) * Real.sqrt 2), e14 := (2/15) * Real.sqrt 2, e15 := 1 } : Mat4) = 1 from by
    simp only [Mat4.det]
    linear_combination (((1/6) : ℝ) * Real.sqrt 3 * Real.sqrt 3) * s2_sq + (((1/3) : ℝ)) * s3_sq]
  rw [if_neg (by norm_num : ¬ (1 : ℝ) < 0)]
  rw [show ({ e0 := (-(0.5 * Real.sqrt 2)) * (1 / 1), e1 := (-(0.5 * Real.sqrt 2)) * (1 / 1), e2 := (0) * (1 / 1), e3 := 0, e4 := ((1/6) * (Real.sqrt 2 * Real.sqrt 3)) * (1 / 1), e5 := (-((1/6) * (Real.sqrt 2 * Real.sqrt 3))) * (1 / 1), e6 := (-((1/3) * (Real.sqrt 2 * Real.sqrt 3))) * (1 / 1), e7 := 0, e8 := ((1/3) * Real.sqrt 3) * (1 / 1), e9 := (-((1/3) * Real.sqrt 3)) * (1 / 1), e10 := ((1/3) * Real.sqrt 3) * (1 / 1), e11 := 0, e12 := (2/15) * Real.sqrt 2, e13 := -((2/15) * Real.sqrt 2), e14 := (2/15) * Real.sqrt 2, e15 := 1 } : Mat4) = ({ e0 := -(0.5 * Real.sqrt 2), e1 := -(0.5 * Real.sqrt 2), e2 := 0, e3 := 0, e4 := (1/6) * (Real.sqrt 2 * Real.sqrt 3), e5 := -((1/6) * (Real.sqrt 2 * Real.sqrt 3)), e6 := -((1/3) * (Real.sqrt 2 * Real.sqrt 3)), e7 := 0, e8 := (1/3) * Real.sqrt 3, e9 := -((1/3) * Real.sqrt 3), e10 := (1/3) * Real.sqrt 3, e11 := 0, e12 := (2/15) * Real.sqrt 2, e13 := -((2/15) * Real.sqrt 2), e14 := (2/15) * Real.sqrt 2, e15 := 1 } : Mat4) from by
    refine Mat4.ext16 ?_ ?_ ?_ ?_ ?_ ?_ ?_ ?_ ?_ ?_ ?_ ?_ ?_ ?_ ?_ ?_ <;> ring]
  rfl

/-- `decompose` on the folded matrix of tetra face 2 returns the stored
pose exactly (unit scales, determinant `1`). -/
lemma tetraDecF2 :
    matrixToPose ({ e0 := -(0.5 * Real.sqrt 2), e1 := 0, e2 := -(0.5 * Real.sqrt 2), e3 := 0, e4 := -((1/6) * (Real.sqrt 2 * Real.sqrt 3)), e5 := -((1/3) * (Real.sqrt 2 * Real.sqrt 3)), e6 := (1/6) * (Real.sqrt 2 * Real.sqrt 3), e7 := 0, e8 := -((1/3) * Real.sqrt 3), e9 := (1/3) * Real.sqrt 3, e10 := (1/3) * Real.sqrt 3, e11 := 0, e12 := -((2/15) * Real.sqrt 2), e13 := (2/15) * Real.sqrt 2, e14 := (2/15) * Real.sqrt 2, e15 := 1 } : Mat4) = (⟨⟨-((2/15) * Real.sqrt 2), (2/15) * Real.sqrt 2, (2/15) * Real.sqrt 2⟩, quatFromRotationMatrix (basisMat ⟨-(0.5 * Real.sqrt 2), 0, -(0.5 * Real.sqrt 2)⟩ ⟨-((1/6) * (Real.sqrt 2 * Real.sqrt 3)), -((1/3) * (Real.sqrt 2 * Real.sqrt 3)), (1/6) * (Real.sqrt 2 * Real.sqrt 3)⟩ ⟨-((1/3) * Real.sqrt 3), (1/3) * Real.sqrt 3, (1/3) * Real.sqrt 3⟩)⟩ : FacePose) := by
  simp only [matrixToPose, Mat4.decompose]
  rw [show Vec3.length ⟨(-(0.5 * Real.sqrt 2)), (0), (-(0.5 * Real.sqrt 2))⟩ = 1 from by
    simp only [Vec3.length]
    rw [show ((-(0.5 * Real.sqrt 2)) * (-(0.5 * Real.sqrt 2)) + (0) * (0) + (-(0.5 * Real.sqrt 2)) * (-(0.5 * Real.sqrt 2)) : ℝ) = 1 from by
      linear_combination ((0.5 : ℝ)) * s2_sq]
    exact Real.sqrt_one]
  rw [show Vec3.length ⟨(-((1/6) * (Real.sqrt 2 * Real.sqrt 3))), (-((1/3) * (Real.sqrt 2 * Real.sqrt 3))), ((1/6) * (Real.sqrt 2 * Real.sqrt 3))⟩ = 1 from by
    simp only [Vec3.length]
    rw [show ((-((1/6) * (Real.sqrt 2 * Real.sqrt 3))) * (-((1/6) * (Real.sqrt 2 * Real.sqrt 3))) + (-((1/3) * (Real.sqrt 2 * Real.sqrt 3))) * (-((1/3) * (Real.sqrt 2 * Real.sqrt 3))) + ((1/6) * (Real.sqrt 2 * Real.sqrt 3)) * ((1/6) * (Real.sqrt 2 * Real.sqrt 3)) : ℝ) = 1 from by
      linear_combination (((1/6) : ℝ) * Real.sqrt 3 * Real.sqrt 3) * s2_sq + (((1/3) : ℝ)) * s3_sq]
    exact Real.sqrt_one]
  rw [show Vec3.length ⟨(-((1/3) * Real.sqrt 3)), ((1/3) * Real.sqrt 3), ((1/3) * Real.sqrt 3)⟩ = 1 from by
    simp only [Vec3.length]
    rw [show ((-((1/3) * Real.sqrt 3)) * (-((1/3) * Real.sqrt 3)) + ((1/3) * Real.sqrt 3) * ((1/3) * Real.sqrt 3) + ((1/3) * Real.sqrt 3) * ((1/3) * Real.sqrt 3) : ℝ) = 1 from by
      linear_combination (((1/3) : ℝ)) * s3_sq]
    exact Real.sqrt_one]
  rw [show Mat4.det ({ e0 := -(0.5 * Real.sqrt 2), e1 := 0, e2 := -(0.5 * Real.sqrt 2), e3 := 0, e4 := -((1/6) * (Real.sqrt 2 * Real.sqrt 3)), e5 := -((1/3) * (Real.sqrt 2 * Real.sqrt 3)), e6 := (1/6) * (Real.sqrt 2 * Real.sqrt 3), e7 := 0, e8 := -((1/3) * Real.sqrt 3), e9 := (1/3) * Real.sqrt 3, e10 := (1/3) * Real.sqrt 3, e11 := 0, e12 := -((2/15) * Real.sqrt 2), e13 := (2/15) * Real.sqrt 2, e14 := (2/15) * Real.sqrt 2, e15 := 1 } : Mat4) = 1 from by
    simp only [Mat4.det]
    linear_combination (((1/6) : ℝ) * Real.sqrt 3 * Real.sqrt 3) * s2_sq + (((1/3) : ℝ)) * s3_sq]
  rw [if_neg (by norm_num : ¬ (1 : ℝ) < 0)]
  rw [show ({ e0 := (-(0.5 * Real.sqrt 2)) * (1 / 1), e1 := (0) * (1 / 1), e2 := (-(0.5 * Real.sqrt 2)) * (1 / 1), e3 := 0, e4 := (-((1/6) * (Real.sqrt 2 * Real.sqrt 3))) * (1 / 1), e5 := (-((1/3) * (Real.sqrt 2 * Real.sqrt 3))) * (1 / 1), e6 := ((1/6) * (Real.sqrt 2 * Real.sqrt 3)) * (1 / 1), e7 := 0, e8 := (-((1/3) * Real.sqrt 3)) * (1 / 1), e9 := ((1/3) * Real.sqrt 3) * (1 / 1), e10 := ((1/3) * Real.sqrt 3) * (1 / 1), e11 := 0, e12 := -((2/15) * Real.sqrt 2), e13 := (2/15) * Real.sqrt 2, e14 := (2/15) * Real.sqrt 2, e15 := 1 } : Mat4) = ({ e0 := -(0.5 * Real.sqrt 2), e1 := 0, e2 := -(0.5 * Real.sqrt 2), e3 := 0, e4 := -((1/6) * (Real.sqrt 2 * Real.sqrt 3)), e5 := -((1/3) * (Real.sqrt 2 * Real.sqrt 3)), e6 := (1/6) * (Real.sqrt 2 * Real.sqrt 3), e7 := 0, e8 := -((1/3) * Real.sqrt 3), e9 := (1/3) * Real.sqrt 3, e10 := (1/3) * Real.sqrt 3, e11 := 0, e12 := -((2/15) * Real.sqrt 2), e13 := (2/15) * Real.sqrt 2, e14 := (2/15) * Real.sqrt 2, e15 := 1 } : Mat4) from by
    refine Mat4.ext16 ?_ ?_ ?_ ?_ ?_ ?_ ?_ ?_ ?_ ?_ ?_ ?_ ?_ ?_ ?_ ?_ <;> ring]
  rfl

/-- `decompose` on the folded matrix of tetra face 3 returns the stored
pose exactly (unit scales, determinant `1`). -/
lemma tetraDecF3 :
    matrixToPose ({ e0 := -(0.5 * Real.sqrt 2), e1 := 0, e2 := 0.5 * Real.sqrt 2, e3 := 0, e4 := -((1/6) * (Real.sqrt 2 * Real.sqrt 3)), e5 := (1/3) * (Real.sqrt 2 * Real.sqrt 3), e6 := -((1/6) * (Real.sqrt 2 * Real.sqrt 3)), e7 := 0, e8 := -((1/3) * Real.sqrt 3), e9 := -((1/3) * Real.sqrt 3), e10 := -((1/3) * Real.sqrt 3), e11 := 0, e12 := -((2/15) * Real.sqrt 2), e13 := -((2/15) * Real.sqrt 2), e14 := -((2/15) * Real.sqrt 2), e15 := 1 } : Mat4) = (⟨⟨-((2/15) * Real.sqrt 2), -((2/15) * Real.sqrt 2), -((2/15) * Real.sqrt 2)⟩, quatFromRotationMatrix (basisMat ⟨-(0.5 * Real.sqrt 2), 0, 0.5 * Real.sqrt 2⟩ ⟨-((1/6) * (Real.sqrt 2 * Real.sqrt 3)), (1/3) * (Real.sqrt 2 * Real.sqrt 3), -((1/6) * (Real.sqrt 2 * Real.sqrt 3))⟩ ⟨-((1/3) * Real.sqrt 3), -((1/3) * Real.sqrt 3), -((1/3) * Real.sqrt 3)⟩)⟩ : FacePose) := by
  simp only [matrixToPose, Mat4.decompose]
  rw [show Vec3.length ⟨(-(0.5 * Real.sqrt 2)), (0), (0.5 * Real.sqrt 2)⟩ = 1 from by
    simp only [Vec3.length]
    rw [show ((-(0.5 * Real.sqrt 2)) * (-(0.5 * Real.sqrt 2)) + (0) * (0) + (0.5 * Real.sqrt 2) * (0.5 * Real.sqrt 2) : ℝ) = 1 from by
      linear_combination ((0.5 : ℝ)) * s2_sq]
    exact Real.sqrt_one]
  rw [show Vec3.length ⟨(-((1/6) * (Real.sqrt 2 * Real.sqrt 3))), ((1/3) * (Real.sqrt 2 * Real.sqrt 3)), (-((1/6) * (Real.sqrt 2 * Real.sqrt 3)))⟩ = 1 from by
    simp only [Vec3.length]
    rw [show ((-((1/6) * (Real.sqrt 2 * Real.sqrt 3))) * (-((1/6) * (Real.sqrt 2 * Real.sqrt 3))) + ((1/3) * (Real.sqrt 2 * Real.sqrt 3)) * ((1/3) * (Real.sqrt 2 * Real.sqrt 3)) + (-((1/6) * (Real.sqrt 2 * Real.sqrt 3))) * (-((1/6) * (Real.sqrt 2 * Real.sqrt 3))) : ℝ) = 1 from by
      linear_combination (((1/6) : ℝ) * Real.sqrt 3 * Real.sqrt 3) * s2_sq + (((1/3) : ℝ)) * s3_sq]
    exact Real.sqrt_one]
  rw [show Vec3.length ⟨(-((1/3) * Real.sqrt 3)), (-((1/3) * Real.sqrt 3)), (-((1/3) * Real.sqrt 3))⟩ = 1 from by
    simp only [Vec3.length]
    rw [show ((-((1/3) * Real.sqrt 3)) * (-((1/3) * Real.sqrt 3)) + (-((1/3) * Real.sqrt 3)) * (-((1/3) * Real.sqrt 3)) + (-((1/3) * Real.sqrt 3)) * (-((1/3) * Real.sqrt 3)) : ℝ) = 1 from by
      linear_combination (((1/3) : ℝ)) * s3_sq]
    exact Real.sqrt_one]
  rw [show Mat4.det ({ e0 := -(0.5 * Real.sqrt 2), e1 := 0, e2 := 0.5 * Real.sqrt 2, e3 := 0, e4 := -((1/6) * (Real.sqrt 2 * Real.sqrt 3)), e5 := (1/3) * (Real.sqrt 2 * Real.sqrt 3), e6 := -((1/6) * (Real.sqrt 2 * Real.sqrt 3)), e7 := 0, e8 := -((1/3) * Real.sqrt 3), e9 := -((1/3) * Real.sqrt 3), e10 := -((1/3) * Real.sqrt 3), e11 := 0, e12 := -((2/15) * Real.sqrt 2), e13 := -((2/15) * Real.sqrt 2), e14 := -((2/15) * Real.sqrt 2), e15 := 1 } : Mat4) = 1 from by
    simp only [Mat4.det]
    linear_combination (((1/6) : ℝ) * Real.sqrt 3 * Real.sqrt 3) * s2_sq + (((1/3) : ℝ)) * s3_sq]
  rw [if_neg (by norm_num : ¬ (1 : ℝ) < 0)]
  rw [show ({ e0 := (-(0.5 * Real.sqrt 2)) * (1 / 1), e1 := (0) * (1 / 1), e2 := (0.5 * Real.sqrt 2) * (1 / 1), e3 := 0, e4 := (-((1/6) * (Real.sqrt 2 * Real.sqrt 3))) * (1 / 1), e5 := ((1/3) * (Real.sqrt 2 * Real.sqrt 3)) * (1 / 1), e6 := (-((1/6) * (Real.sqrt 2 * Real.sqrt 3))) * (1 / 1), e7 := 0, e8 := (-((1/3) * Real.sqrt 3)) * (1 / 1), e9 := (-((1/3) * Real.sqrt 3)) * (1 / 1), e10 := (-((1/3) * Real.sqrt 3)) * (1 / 1), e11 := 0, e12 := -((2/15) * Real.sqrt 2), e13 := -((2/15) * Real.sqrt 2), e14 := -((2/15) * Real.sqrt 2), e15 := 1 } : Mat4) = ({ e0 := -(0.5 * Real.sqrt 2), e1 := 0, e2 := 0.5 * Real.sqrt 2, e3 := 0, e4 := -((1/6) * (Real.sqrt 2 * Real.sqrt 3)), e5 := (1/3) * (Real.sqrt 2 * Real.sqrt 3), e6 := -((1/6) * (Real.sqrt 2 * Real.sqrt 3)), e7 := 0, e8 := -((1/3) * Real.sqrt 3), e9 := -((1/3) * Real.sqrt 3), e10 := -((1/3) * Real.sqrt 3), e11 := 0, e12 := -((2/15) * Real.sqrt 2), e13 := -((2/15) * Real.sqrt 2), e14 := -((2/15) * Real.sqrt 2), e15 := 1 } : Mat4) from by
    refine Mat4.ext16 ?_ ?_ ?_ ?_ ?_ ?_ ?_ ?_ ?_ ?_ ?_ ?_ ?_ ?_ ?_ ?_ <;> ring]
  rfl

/-- The folded tetra poses with quaternions expressed via their basis
matrices. -/
lemma tetraFoldedPoses :
    makeTetraFolded 1.6 = [(⟨⟨(2/15) * Real.sqrt 2, (2/15) * Real.sqrt 2, -((2/15) * Real.sqrt 2)⟩, quatFromRotationMatrix (basisMat ⟨0, -(0.5 * Real.sqrt 2), -(0.5 * Real.sqrt 2)⟩ ⟨-((1/3) * (Real.sqrt 2 * Real.sqrt 3)), (1/6) * (Real.sqrt 2 * Real.sqrt 3), -((1/6) * (Real.sqrt 2 * Real.sqrt 3))⟩ ⟨(1/3) * Real.sqrt 3, (1/3) * Real.sqrt 3, -((1/3) * Real.sqrt 3)⟩)⟩ : FacePose),
      (⟨⟨(2/15) * Real.sqrt 2, -((2/15) * Real.sqrt 2), (2/15) * Real.sqrt 2⟩, quatFromRotationMatrix (basisMat ⟨-(0.5 * Real.sqrt 2), -(0.5 * Real.sqrt 2), 0⟩ ⟨(1/6) * (Real.sqrt 2 * Real.sqrt 3), -((1/6) * (Real.sqrt 2 * Real.sqrt 3)), -((1/3) * (Real.sqrt 2 * Real.sqrt 3))⟩ ⟨(1/3) * Real.sqrt 3, -((1/3) * Real.sqrt 3), (1/3) * Real.sqrt 3⟩)⟩ : FacePose),
      (⟨⟨-((2/15) * Real.sqrt 2), (2/15) * Real.sqrt 2, (2/15) * Real.sqrt 2⟩, quatFromRotationMatrix (basisMat ⟨-(0.5 * Real.sqrt 2), 0, -(0.5 * Real.sqrt 2)⟩ ⟨-((1/6) * (Real.sqrt 2 * Real.sqrt 3)), -((1/3) * (Real.sqrt 2 * Real.sqrt 3)), (1/6) * (Real.sqrt 2 * Real.sqrt 3)⟩ ⟨-((1/3) * Real.sqrt 3), (1/3) * Real.sqrt 3, (1/3) * Real.sqrt 3⟩)⟩ : FacePose),
      (⟨⟨-((2/15) * Real.sqrt 2), -((2/15) * Real.sqrt 2), -((2/15) * Real.sqrt 2)⟩, quatFromRotationMatrix (basisMat ⟨-(0.5 * Real.sqrt 2), 0, 0.5 * Real.sqrt 2⟩ ⟨-((1/6) * (Real.sqrt 2 * Real.sqrt 3)), (1/3) * (Real.sqrt 2 * Real.sqrt 3), -((1/6) * (Real.sqrt 2 * Real.sqrt 3))⟩ ⟨-((1/3) * Real.sqrt 3), -((1/3) * Real.sqrt 3), -((1/3) * Real.sqrt 3)⟩)⟩ : FacePose)] := by
  rw [tetraFolded_eq, tetraPose0, tetraPose1, tetraPose2, tetraPose3]

/-- The net matrix of tetra face 1 as an explicit literal. -/
lemma tetraNetM1 :
    poseToMatrix (⟨⟨0, -((8/15) * Real.sqrt 3), 0⟩, ⟨0, 0, 1 / 2, -(Real.sqrt 3 / 2)⟩⟩ : FacePose) = ({ e0 := 0.5, e1 := -(0.5 * Real.sqrt 3), e2 := 0, e3 := 0, e4 := 0.5 * Real.sqrt 3, e5 := 0.5, e6 := 0, e7 := 0, e8 := 0, e9 := 0, e10 := 1, e11 := 0, e12 := 0, e13 := -((8/15) * Real.sqrt 3), e14 := 0, e15 := 1 } : Mat4) := by
  simp only [poseToMatrix, Mat4.compose, Mat4.setPosition, Vec3.zero]
  refine Mat4.ext16 ?_ ?_ ?_ ?_ ?_ ?_ ?_ ?_ ?_ ?_ ?_ ?_ ?_ ?_ ?_ ?_ <;> ring

/-- The net matrix of tetra face 2 as an explicit literal. -/
lemma tetraNetM2 :
    poseToMatrix (⟨⟨-0.8, (4/15) * Real.sqrt 3, 0⟩, ⟨0, 0, 1 / 2, Real.sqrt 3 / 2⟩⟩ : FacePose) = ({ e0 := 0.5, e1 := 0.5 * Real.sqrt 3, e2 := 0, e3 := 0, e4 := -(0.5 * Real.sqrt 3), e5 := 0.5, e6 := 0, e7 := 0, e8 := 0, e9 := 0, e10 := 1, e11 := 0, e12 := -(0.8), e13 := (4/15) * Real.sqrt 3, e14 := 0, e15 := 1 } : Mat4) := by
  simp only [poseToMatrix, Mat4.compose, Mat4.setPosition, Vec3.zero]
  refine Mat4.ext16 ?_ ?_ ?_ ?_ ?_ ?_ ?_ ?_ ?_ ?_ ?_ ?_ ?_ ?_ ?_ ?_ <;> ring

/-- The net matrix of tetra face 3 as an explicit literal. -/
lemma tetraNetM3 :
    poseToMatrix (⟨⟨0.8, (4/15) * Real.sqrt 3, 0⟩, ⟨0, 0, 1 / 2, Real.sqrt 3 / 2⟩⟩ : FacePose) = ({ e0 := 0.5, e1 := 0.5 * Real.sqrt 3, e2 := 0, e3 := 0, e4 := -(0.5 * Real.sqrt 3), e5 := 0.5, e6 := 0, e7 := 0, e8 := 0, e9 := 0, e10 := 1, e11 := 0, e12 := 0.8, e13 := (4/15) * Real.sqrt 3, e14 := 0, e15 := 1 } : Mat4) := by
  simp only [poseToMatrix, Mat4.compose, Mat4.setPosition, Vec3.zero]
  refine Mat4.ext16 ?_ ?_ ?_ ?_ ?_ ?_ ?_ ?_ ?_ ?_ ?_ ?_ ?_ ?_ ?_ ?_ <;> ring

/-- The quaternion re-extracted from the net matrix of face 1 (trace
branch; the sign is canonicalised). -/
lemma tetraQN1 :
    quatFromRotationMatrix ({ e0 := 0.5, e1 := -(0.5 * Real.sqrt 3), e2 := 0, e3 := 0, e4 := 0.5 * Real.sqrt 3, e5 := 0.5, e6 := 0, e7 := 0, e8 := 0, e9 := 0, e10 := 1, e11 := 0, e12 := 0, e13 := -((8/15) * Real.sqrt 3), e14 := 0, e15 := 1 } : Mat4) = (⟨0, 0, -(1/2), Real.sqrt 3 / 2⟩ : Quat) := by
  rw [quatFromRotationMatrix_trace ({ e0 := 0.5, e1 := -(0.5 * Real.sqrt 3), e2 := 0, e3 := 0, e4 := 0.5 * Real.sqrt 3, e5 := 0.5, e6 := 0, e7 := 0, e8 := 0, e9 := 0, e10 := 1, e11 := 0, e12 := 0, e13 := -((8/15) * Real.sqrt 3), e14 := 0, e15 := 1 } : Mat4) (by norm_num)]
  rw [show ({ e0 := 0.5, e1 := -(0.5 * Real.sqrt 3), e2 := 0, e3 := 0, e4 := 0.5 * Real.sqrt 3, e5 := 0.5, e6 := 0, e7 := 0, e8 := 0, e9 := 0, e10 := 1, e11 := 0, e12 := 0, e13 := -((8/15) * Real.sqrt 3), e14 := 0, e15 := 1 } : Mat4).e0 + ({ e0 := 0.5, e1 := -(0.5 * Real.sqrt 3), e2 := 0, e3 := 0, e4 := 0.5 * Real.sqrt 3, e5 := 0.5, e6 := 0, e7 := 0, e8 := 0, e9 := 0, e10 := 1, e11 := 0, e12 := 0, e13 := -((8/15) * Real.sqrt 3), e14 := 0, e15 := 1 } : Mat4).e5 + ({ e0 := 0.5, e1 := -(0.5 * Real.sqrt 3), e2 := 0, e3 := 0, e4 := 0.5 * Real.sqrt 3, e5 := 0.5, e6 := 0, e7 := 0, e8 := 0, e9 := 0, e10 := 1, e11 := 0, e12 := 0, e13 := -((8/15) * Real.sqrt 3), e14 := 0, e15 := 1 } : Mat4).e10 + 1 = 3 from by norm_num]
  rw [show (0.5 : ℝ) / Real.sqrt 3 = Real.sqrt 3 / 6 from by
    rw [div_eq_div_iff (by positivity : (Real.sqrt 3 : ℝ) ≠ 0) (by norm_num : (6 : ℝ) ≠ 0)]
    linear_combination (-1 : ℝ) * s3_sq]
  rw [show (0.25 : ℝ) / (Real.sqrt 3 / 6) = Real.sqrt 3 / 2 from by
    rw [div_eq_div_iff (by positivity : (Real.sqrt 3 / 6 : ℝ) ≠ 0) (by norm_num : (2 : ℝ) ≠ 0)]
    linear_combination ((-1/6 : ℝ)) * s3_sq]
  simp only [Quat.mk.injEq, and_true, true_and]
  refine ⟨?_, ?_, ?_⟩
  · ring
  · ring
  · linear_combination (((-1/6) : ℝ)) * s3_sq

/-- The quaternion re-extracted from the net matrix of face 2 (trace
branch; the sign is canonicalised). -/
lemma tetraQN2 :
    quatFromRotationMatrix ({ e0 := 0.5, e1 := 0.5 * Real.sqrt 3, e2 := 0, e3 := 0, e4 := -(0.5 * Real.sqrt 3), e5 := 0.5, e6 := 0, e7 := 0, e8 := 0, e9 := 0, e10 := 1, e11 := 0, e12 := -(0.8), e13 := (4/15) * Real.sqrt 3, e14 := 0, e15 := 1 } : Mat4) = (⟨0, 0, 1/2, Real.sqrt 3 / 2⟩ : Quat) := by
  rw [quatFromRotationMatrix_trace ({ e0 := 0.5, e1 := 0.5 * Real.sqrt 3, e2 := 0, e3 := 0, e4 := -(0.5 * Real.sqrt 3), e5 := 0.5, e6 := 0, e7 := 0, e8 := 0, e9 := 0, e10 := 1, e11 := 0, e12 := -(0.8), e13 := (4/15) * Real.sqrt 3, e14 := 0, e15 := 1 } : Mat4) (by norm_num)]
  rw [show ({ e0 := 0.5, e1 := 0.5 * Real.sqrt 3, e2 := 0, e3 := 0, e4 := -(0.5 * Real.sqrt 3), e5 := 0.5, e6 := 0, e7 := 0, e8 := 0, e9 := 0, e10 := 1, e11 := 0, e12 := -(0.8), e13 := (4/15) * Real.sqrt 3, e14 := 0, e15 := 1 } : Mat4).e0 + ({ e0 := 0.5, e1 := 0.5 * Real.sqrt 3, e2 := 0, e3 := 0, e4 := -(0.5 * Real.sqrt 3), e5 := 0.5, e6 := 0, e7 := 0, e8 := 0, e9 := 0, e10 := 1, e11 := 0, e12 := -(0.8), e13 := (4/15) * Real.sqrt 3, e14 := 0, e15 := 1 } : Mat4).e5 + ({ e0 := 0.5, e1 := 0.5 * Real.sqrt 3, e2 := 0, e3 := 0, e4 := -(0.5 * Real.sqrt 3), e5 := 0.5, e6 := 0, e7 := 0, e8 := 0, e9 := 0, e10 := 1, e11 := 0, e12 := -(0.8), e13 := (4/15) * Real.sqrt 3, e14 := 0, e15 := 1 } : Mat4).e10 + 1 = 3 from by norm_num]
  rw [show (0.5 : ℝ) / Real.sqrt 3 = Real.sqrt 3 / 6 from by
    rw [div_eq_div_iff (by positivity : (Real.sqrt 3 : ℝ) ≠ 0) (by norm_num : (6 : ℝ) ≠ 0)]
    linear_combination (-1 : ℝ) * s3_sq]
  rw [show (0.25 : ℝ) / (Real.sqrt 3 / 6) = Real.sqrt 3 / 2 from by
    rw [div_eq_div_iff (by positivity : (Real.sqrt 3 / 6 : ℝ) ≠ 0) (by norm_num : (2 : ℝ) ≠ 0)]
    linear_combination ((-1/6 : ℝ)) * s3_sq]
  simp only [Quat.mk.injEq, and_true, true_and]
  refine ⟨?_, ?_, ?_⟩
  · ring
  · ring
  · linear_combination (((1/6) : ℝ)) * s3_sq

/-- The quaternion re-extracted from the net matrix of face 3 (trace
branch; the sign is canonicalised). -/
lemma tetraQN3 :
    quatFromRotationMatrix ({ e0 := 0.5, e1 := 0.5 * Real.sqrt 3, e2 := 0, e3 := 0, e4 := -(0.5 * Real.sqrt 3), e5 := 0.5, e6 := 0, e7 := 0, e8 := 0, e9 := 0, e10 := 1, e11 := 0, e12 := 0.8, e13 := (4/15) * Real.sqrt 3, e14 := 0, e15 := 1 } : Mat4) = (⟨0, 0, 1/2, Real.sqrt 3 / 2⟩ : Quat) := by
  rw [quatFromRotationMatrix_trace ({ e0 := 0.5, e1 := 0.5 * Real.sqrt 3, e2 := 0, e3 := 0, e4 := -(0.5 * Real.sqrt 3), e5 := 0.5, e6 := 0, e7 := 0, e8 := 0, e9 := 0, e10 := 1, e11 := 0, e12 := 0.8, e13 := (4/15) * Real.sqrt 3, e14 := 0, e15 := 1 } : Mat4) (by norm_num)]
  rw [show ({ e0 := 0.5, e1 := 0.5 * Real.sqrt 3, e2 := 0, e3 := 0, e4 := -(0.5 * Real.sqrt 3), e5 := 0.5, e6 := 0, e7 := 0, e8 := 0, e9 := 0, e10 := 1, e11 := 0, e12 := 0.8, e13 := (4/15) * Real.sqrt 3, e14 := 0, e15 := 1 } : Mat4).e0 + ({ e0 := 0.5, e1 := 0.5 * Real.sqrt 3, e2 := 0, e3 := 0, e4 := -(0.5 * Real.sqrt 3), e5 := 0.5, e6 := 0, e7 := 0, e8 := 0, e9 := 0, e10 := 1, e11 := 0, e12 := 0.8, e13 := (4/15) * Real.sqrt 3, e14 := 0, e15 := 1 } : Mat4).e5 + ({ e0 := 0.5, e1 := 0.5 * Real.sqrt 3, e2 := 0, e3 := 0, e4 := -(0.5 * Real.sqrt 3), e5 := 0.5, e6 := 0, e7 := 0, e8 := 0, e9 := 0, e10 := 1, e11 := 0, e12 := 0.8, e13 := (4/15) * Real.sqrt 3, e14 := 0, e15 := 1 } : Mat4).e10 + 1 = 3 from by norm_num]
  rw [show (0.5 : ℝ) / Real.sqrt 3 = Real.sqrt 3 / 6 from by
    rw [div_eq_div_iff (by positivity : (Real.sqrt 3 : ℝ) ≠ 0) (by norm_num : (6 : ℝ) ≠ 0)]
    linear_combination (-1 : ℝ) * s3_sq]
  rw [show (0.25 : ℝ) / (Real.sqrt 3 / 6) = Real.sqrt 3 / 2 from by
    rw [div_eq_div_iff (by positivity : (Real.sqrt 3 / 6 : ℝ) ≠ 0) (by norm_num : (2 : ℝ) ≠ 0)]
    linear_combination ((-1/6 : ℝ)) * s3_sq]
  simp only [Quat.mk.injEq, and_true, true_and]
  refine ⟨?_, ?_, ?_⟩
  · ring
  · ring
  · linear_combination (((1/6) : ℝ)) * s3_sq

/-- The inverse of the folded root matrix as an explicit literal
(unit determinant, so the adjugate formula applies directly). -/
lemma tetraInvM0 :
    Mat4.invert ({ e0 := 0, e1 := -(0.5 * Real.sqrt 2), e2 := -(0.5 * Real.sqrt 2), e3 := 0, e4 := -((1/3) * (Real.sqrt 2 * Real.sqrt 3)), e5 := (1/6) * (Real.sqrt 2 * Real.sqrt 3), e6 := -((1/6) * (Real.sqrt 2 * Real.sqrt 3)), e7 := 0, e8 := (1/3) * Real.sqrt 3, e9 := (1/3) * Real.sqrt 3, e10 := -((1/3) * Real.sqrt 3), e11 := 0, e12 := (2/15) * Real.sqrt 2, e13 := (2/15) * Real.sqrt 2, e14 := -((2/15) * Real.sqrt 2), e15 := 1 } : Mat4) = ({ e0 := 0, e1 := -((1/3) * (Real.sqrt 2 * Real.sqrt 3)), e2 := (1/3) * Real.sqrt 3, e3 := 0, e4 := -(0.5 * Real.sqrt 2), e5 := (1/6) * (Real.sqrt 2 * Real.sqrt 3), e6 := (1/3) * Real.sqrt 3, e7 := 0, e8 := -(0.5 * Real.sqrt 2), e9 := -((1/6) * (Real.sqrt 2 * Real.sqrt 3)), e10 := -((1/3) * Real.sqrt 3), e11 := 0, e12 := 0, e13 := 0, e14 := -((2/15) * (Real.sqrt 2 * Real.sqrt 3)), e15 := 1 } : Mat4) := by
  simp only [Mat4.invert]
  rw [show (0) * (((1/3) * Real.sqrt 3) * (-((2/15) * Real.sqrt 2)) * (0) - ((2/15) * Real.sqrt 2) * (-((1/3) * Real.sqrt 3)) * (0) + ((2/15) * Real.sqrt 2) * (-((1/6) * (Real.sqrt 2 * Real.sqrt 3))) * (0) - ((1/6) * (Real.sqrt 2 * Real.sqrt 3)) * (-((2/15) * Real.sqrt 2)) * (0) - ((1/3) * Real.sqrt 3) * (-((1/6) * (Real.sqrt 2 * Real.sqrt 3))) * (1) + ((1/6) * (Real.sqrt 2 * Real.sqrt 3)) * (-((1/3) * Real.sqrt 3)) * (1)) + (-(0.5 * Real.sqrt 2)) * (((2/15) * Real.sqrt 2) * (-((1/3) * Real.sqrt 3)) * (0) - ((1/3) * Real.sqrt 3) * (-((2/15) * Real.sqrt 2)) * (0) - ((2/15) * Real.sqrt 2) * (-((1/6) * (Real.sqrt 2 * Real.sqrt 3))) * (0) + (-((1/3) * (Real.sqrt 2 * Real.sqrt 3))) * (-((2/15) * Real.sqrt 2)) * (0) + ((1/3) * Real.sqrt 3) * (-((1/6) * (Real.sqrt 2 * Real.sqrt 3))) * (1) - (-((1/3) * (Real.sqrt 2 * Real.sqrt 3))) * (-((1/3) * Real.sqrt 3)) * (1)) + (-(0.5 * Real.sqrt 2)) * (((1/3) * Real.sqrt 3) * ((2/15) * Real.sqrt 2) * (0) - ((2/15) * Real.sqrt 2) * ((1/3) * Real.sqrt 3) * (0) + ((2/15) * Real.sqrt 2) * ((1/6) * (Real.sqrt 2 * Real.sqrt 3)) * (0) - (-((1/3) * (Real.sqrt 2 * Real.sqrt 3))) * ((2/15) * Real.sqrt 2) * (0) - ((1/3) * Real.sqrt 3) * ((1/6) * (Real.sqrt 2 * Real.sqrt 3)) * (1) + (-((1/3) * (Real.sqrt 2 * Real.sqrt 3))) * ((1/3) * Real.sqrt 3) * (1)) + (0) * (((2/15) * Real.sqrt 2) * ((1/3) * Real.sqrt 3) * (-((1/6) * (Real.sqrt 2 * Real.sqrt 3))) - ((1/3) * Real.sqrt 3) * ((2/15) * Real.sqrt 2) * (-((1/6) * (Real.sqrt 2 * Real.sqrt 3))) - ((2/15) * Real.sqrt 2) * ((1/6) * (Real.sqrt 2 * Real.sqrt 3)) * (-((1/3) * Real.sqrt 3)) + (-((1/3) * (Real.sqrt 2 * Real.sqrt 3))) * ((2/15) * Real.sqrt 2) * (-((1/3) * Real.sqrt 3)) + ((1/3) * Real.sqrt 3) * ((1/6) * (Real.sqrt 2 * Real.sqrt 3)) * (-((2/15) * Real.sqrt 2)) - (-((1/3) * (Real.sqrt 2 * Real.sqrt 3))) * ((1/3) * Real.sqrt 3) * (-((2/15) * Real.sqrt 2))) = (1 : ℝ) from by
    linear_combination (((1/6) : ℝ) * Real.sqrt 3 * Real.sqrt 3) * s2_sq + (((1/3) : ℝ)) * s3_sq]
  rw [if_neg (by norm_num : ¬ (1 : ℝ) = 0)]
  refine Mat4.ext16 ?_ ?_ ?_ ?_ ?_ ?_ ?_ ?_ ?_ ?_ ?_ ?_ ?_ ?_ ?_ ?_
  · ring
  · ring
  · linear_combination (((1/6) : ℝ) * Real.sqrt 3) * s2_sq
  · ring
  · linear_combination (((-1/6) : ℝ) * Real.sqrt 2) * s3_sq
  · ring
  · linear_combination (((1/6) : ℝ) * Real.sqrt 3) * s2_sq
  · ring
  · linear_combination (((-1/6) : ℝ) * Real.sqrt 2) * s3_sq
  · ring
  · linear_combination (((-1/6) : ℝ) * Real.sqrt 3) * s2_sq
  · ring
  · ring
  · ring
  · linear_combination (((-1/15) : ℝ) * Real.sqrt 2 * Real.sqrt 3) * s2_sq
  · linear_combination (((1/6) : ℝ) * Real.sqrt 3 * Real.sqrt 3) * s2_sq + (((1/3) : ℝ)) * s3_sq

/-- The relative fold transform of face 1 (parent-inverse times child). -/
lemma tetraRelF1 :
    Mat4.mul ({ e0 := 0, e1 := -((1/3) * (Real.sqrt 2 * Real.sqrt 3)), e2 := (1/3) * Real.sqrt 3, e3 := 0, e4 := -(0.5 * Real.sqrt 2), e5 := (1/6) * (Real.sqrt 2 * Real.sqrt 3), e6 := (1/3) * Real.sqrt 3, e7 := 0, e8 := -(0.5 * Real.sqrt 2), e9 := -((1/6) * (Real.sqrt 2 * Real.sqrt 3)), e10 := -((1/3) * Real.sqrt 3), e11 := 0, e12 := 0, e13 := 0, e14 := -((2/15) * (Real.sqrt 2 * Real.sqrt 3)), e15 := 1 } : Mat4) ({ e0 := -(0.5 * Real.sqrt 2), e1 := -(0.5 * Real.sqrt 2), e2 := 0, e3 := 0, e4 := (1/6) * (Real.sqrt 2 * Real.sqrt 3), e5 := -((1/6) * (Real.sqrt 2 * Real.sqrt 3)), e6 := -((1/3) * (Real.sqrt 2 * Real.sqrt 3)), e7 := 0, e8 := (1/3) * Real.sqrt 3, e9 := -((1/3) * Real.sqrt 3), e10 := (1/3) * Real.sqrt 3, e11 := 0, e12 := (2/15) * Real.sqrt 2, e13 := -((2/15) * Real.sqrt 2), e14 := (2/15) * Real.sqrt 2, e15 := 1 } : Mat4) = ((basisMat ⟨0.5, (1/6) * Real.sqrt 3, -((1/3) * (Real.sqrt 2 * Real.sqrt 3))⟩ ⟨0.5 * Real.sqrt 3, -((1/6)), (1/3) * Real.sqrt 2⟩ ⟨0, -((2/3) * Real.sqrt 2), -((1/3))⟩).setPosition ⟨0, -((8/45) * Real.sqrt 3), -((8/45) * (Real.sqrt 2 * Real.sqrt 3))⟩) := by
  simp only [Mat4.mul, basisMat, Mat4.setPosition]
  refine Mat4.ext16 ?_ ?_ ?_ ?_ ?_ ?_ ?_ ?_ ?_ ?_ ?_ ?_ ?_ ?_ ?_ ?_
  · linear_combination ((0.25 : ℝ)) * s2_sq
  · linear_combination (((1/12) : ℝ) * Real.sqrt 3) * s2_sq
  · ring
  · ring
  · linear_combination ((0.25 : ℝ) * Real.sqrt 3) * s2_sq
  · linear_combination (((-1/36) : ℝ) * Real.sqrt 3 * Real.sqrt 3) * s2_sq + (((-1/18) : ℝ)) * s3_sq
  · linear_combination (((1/9) : ℝ) * Real.sqrt 2) * s3_sq
  · ring
  · ring
  · linear_combination (((-2/9) : ℝ) * Real.sqrt 2) * s3_sq
  · linear_combination (((-1/9) : ℝ)) * s3_sq
  · ring
  · ring
  · linear_combination (((-4/45) : ℝ) * Real.sqrt 3) * s2_sq
  · ring
  · ring

/-- The relative fold transform of face 2 (parent-inverse times child). -/
lemma tetraRelF2 :
    Mat4.mul ({ e0 := 0, e1 := -((1/3) * (Real.sqrt 2 * Real.sqrt 3)), e2 := (1/3) * Real.sqrt 3, e3 := 0, e4 := -(0.5 * Real.sqrt 2), e5 := (1/6) * (Real.sqrt 2 * Real.sqrt 3), e6 := (1/3) * Real.sqrt 3, e7 := 0, e8 := -(0.5 * Real.sqrt 2), e9 := -((1/6) * (Real.sqrt 2 * Real.sqrt 3)), e10 := -((1/3) * Real.sqrt 3), e11 := 0, e12 := 0, e13 := 0, e14 := -((2/15) * (Real.sqrt 2 * Real.sqrt 3)), e15 := 1 } : Mat4) ({ e0 := -(0.5 * Real.sqrt 2), e1 := 0, e2 := -(0.5 * Real.sqrt 2), e3 := 0, e4 := -((1/6) * (Real.sqrt 2 * Real.sqrt 3)), e5 := -((1/3) * (Real.sqrt 2 * Real.sqrt 3)), e6 := (1/6) * (Real.sqrt 2 * Real.sqrt 3), e7 := 0, e8 := -((1/3) * Real.sqrt 3), e9 := (1/3) * Real.sqrt 3, e10 := (1/3) * Real.sqrt 3, e11 := 0, e12 := -((2/15) * Real.sqrt 2), e13 := (2/15) * Real.sqrt 2, e14 := (2/15) * Real.sqrt 2, e15 := 1 } : Mat4) = ((basisMat ⟨0.5, 0.5 * Real.sqrt 3, 0⟩ ⟨(1/6) * Real.sqrt 3, -((1/6)), -((2/3) * Real.sqrt 2)⟩ ⟨-((1/3) * (Real.sqrt 2 * Real.sqrt 3)), (1/3) * Real.sqrt 2, -((1/3))⟩).setPosition ⟨-((4/15)), (4/45) * Real.sqrt 3, -((8/45) * (Real.sqrt 2 * Real.sqrt 3))⟩) := by
  simp only [Mat4.mul, basisMat, Mat4.setPosition]
  refine Mat4.ext16 ?_ ?_ ?_ ?_ ?_ ?_ ?_ ?_ ?_ ?_ ?_ ?_ ?_ ?_ ?_ ?_
  · linear_combination ((0.25 : ℝ)) * s2_sq
  · linear_combination ((0.25 : ℝ) * Real.sqrt 3) * s2_sq
  · ring
  · ring
  · linear_combination (((1/12) : ℝ) * Real.sqrt 3) * s2_sq
  · linear_combination (((-1/36) : ℝ) * Real.sqrt 3 * Real.sqrt 3) * s2_sq + (((-1/18) : ℝ)) * s3_sq
  · linear_combination (((-2/9) : ℝ) * Real.sqrt 2) * s3_sq
  · ring
  · ring
  · linear_combination (((1/9) : ℝ) * Real.sqrt 2) * s3_sq
  · linear_combination (((-1/9) : ℝ)) * s3_sq
  · ring
  · linear_combination (((-2/15) : ℝ)) * s2_sq
  · linear_combination (((2/45) : ℝ) * Real.sqrt 3) * s2_sq
  · ring
  · ring

/-- The relative fold transform of face 3 (parent-inverse times child). -/
lemma tetraRelF3 :
    Mat4.mul ({ e0 := 0, e1 := -((1/3) * (Real.sqrt 2 * Real.sqrt 3)), e2 := (1/3) * Real.sqrt 3, e3 := 0, e4 := -(0.5 * Real.sqrt 2), e5 := (1/6) * (Real.sqrt 2 * Real.sqrt 3), e6 := (1/3) * Real.sqrt 3, e7 := 0, e8 := -(0.5 * Real.sqrt 2), e9 := -((1/6) * (Real.sqrt 2 * Real.sqrt 3)), e10 := -((1/3) * Real.sqrt 3), e11 := 0, e12 := 0, e13 := 0, e14 := -((2/15) * (Real.sqrt 2 * Real.sqrt 3)), e15 := 1 } : Mat4) ({ e0 := -(0.5 * Real.sqrt 2), e1 := 0, e2 := 0.5 * Real.sqrt 2, e3 := 0, e4 := -((1/6) * (Real.sqrt 2 * Real.sqrt 3)), e5 := (1/3) * (Real.sqrt 2 * Real.sqrt 3), e6 := -((1/6) * (Real.sqrt 2 * Real.sqrt 3)), e7 := 0, e8 := -((1/3) * Real.sqrt 3), e9 := -((1/3) * Real.sqrt 3), e10 := -((1/3) * Real.sqrt 3), e11 := 0, e12 := -((2/15) * Real.sqrt 2), e13 := -((2/15) * Real.sqrt 2), e14 := -((2/15) * Real.sqrt 2), e15 := 1 } : Mat4) = ((basisMat ⟨-(0.5), (1/6) * Real.sqrt 3, -((1/3) * (Real.sqrt 2 * Real.sqrt 3))⟩ ⟨-((1/6) * Real.sqrt 3), (5/6), (1/3) * Real.sqrt 2⟩ ⟨(1/3) * (Real.sqrt 2 * Real.sqrt 3), (1/3) * Real.sqrt 2, -((1/3))⟩).setPosition ⟨(4/15), (4/45) * Real.sqrt 3, -((8/45) * (Real.sqrt 2 * Real.sqrt 3))⟩) := by
  simp only [Mat4.mul, basisMat, Mat4.setPosition]
  refine Mat4.ext16 ?_ ?_ ?_ ?_ ?_ ?_ ?_ ?_ ?_ ?_ ?_ ?_ ?_ ?_ ?_ ?_
  · linear_combination ((-0.25 : ℝ)) * s2_sq
  · linear_combination (((1/12) : ℝ) * Real.sqrt 3) * s2_sq
  · ring
  · ring
  · linear_combination (((-1/12) : ℝ) * Real.sqrt 3) * s2_sq
  · linear_combination (((5/36) : ℝ) * Real.sqrt 3 * Real.sqrt 3) * s2_sq + (((5/18) : ℝ)) * s3_sq
  · linear_combination (((1/9) : ℝ) * Real.sqrt 2) * s3_sq
  · ring
  · ring
  · linear_combination (((1/9) : ℝ) * Real.sqrt 2) * s3_sq
  · linear_combination (((-1/9) : ℝ)) * s3_sq
  · ring
  · linear_combination (((2/15) : ℝ)) * s2_sq
  · linear_combination (((2/45) : ℝ) * Real.sqrt 3) * s2_sq
  · ring
  · ring

/-- `compose` recovers the rotation block of the relative fold transform of
face 1 from its extracted quaternion. -/
lemma tetraCE1 :
    Mat4.compose Vec3.zero (quatFromRotationMatrix (basisMat ⟨0.5, (1/6) * Real.sqrt 3, -((1/3) * (Real.sqrt 2 * Real.sqrt 3))⟩ ⟨0.5 * Real.sqrt 3, -((1/6)), (1/3) * Real.sqrt 2⟩ ⟨0, -((2/3) * Real.sqrt 2), -((1/3))⟩)) =
      basisMat ⟨0.5, (1/6) * Real.sqrt 3, -((1/3) * (Real.sqrt 2 * Real.sqrt 3))⟩ ⟨0.5 * Real.sqrt 3, -((1/6)), (1/3) * Real.sqrt 2⟩ ⟨0, -((2/3) * Real.sqrt 2), -((1/3))⟩ := by
  have hext := compose_extract_x (0.5) ((1/6) * Real.sqrt 3) (-((1/3) * (Real.sqrt 2 * Real.sqrt 3))) (0) (-((2/3) * Real.sqrt 2)) (-((1/3)))
    (by linear_combination (((1/9) : ℝ) * Real.sqrt 3 * Real.sqrt 3) * s2_sq + ((0.25 : ℝ)) * s3_sq) (by linear_combination (((4/9) : ℝ)) * s2_sq) (by ring)
    (by intro hcon; nlinarith [s2_sq, s3_sq, s2_pos, s3_pos, s2_lb, s2_ub, s3_lb, s3_ub, mul_pos s2_pos s3_pos])
    (⟨by nlinarith [s2_sq, s3_sq, s2_pos, s3_pos, s2_lb, s2_ub, s3_lb, s3_ub, mul_pos s2_pos s3_pos], by nlinarith [s2_sq, s3_sq, s2_pos, s3_pos, s2_lb, s2_ub, s3_lb, s3_ub, mul_pos s2_pos s3_pos]⟩)
    (by nlinarith [s2_sq, s3_sq, s2_pos, s3_pos, s2_lb, s2_ub, s3_lb, s3_ub, mul_pos s2_pos s3_pos])
  have hBe : (⟨(-((2/3) * Real.sqrt 2)) * (-((1/3) * (Real.sqrt 2 * Real.sqrt 3))) - (-((1/3))) * ((1/6) * Real.sqrt 3), (-((1/3))) * (0.5) - (0) * (-((1/3) * (Real.sqrt 2 * Real.sqrt 3))), (0) * ((1/6) * Real.sqrt 3) - (-((2/3) * Real.sqrt 2)) * (0.5)⟩ : Vec3) = (⟨0.5 * Real.sqrt 3, -((1/6)), (1/3) * Real.sqrt 2⟩ : Vec3) := by
    simp only [Vec3.mk.injEq]
    refine ⟨?_, ?_, ?_⟩
    · linear_combination (((2/9) : ℝ) * Real.sqrt 3) * s2_sq
    · ring
    · ring
  rw [hBe] at hext
  exact hext

/-- `compose` recovers the rotation block of the relative fold transform of
face 2 from its extracted quaternion. -/
lemma tetraCE2 :
    Mat4.compose Vec3.zero (quatFromRotationMatrix (basisMat ⟨0.5, 0.5 * Real.sqrt 3, 0⟩ ⟨(1/6) * Real.sqrt 3, -((1/6)), -((2/3) * Real.sqrt 2)⟩ ⟨-((1/3) * (Real.sqrt 2 * Real.sqrt 3)), (1/3) * Real.sqrt 2, -((1/3))⟩)) =
      basisMat ⟨0.5, 0.5 * Real.sqrt 3, 0⟩ ⟨(1/6) * Real.sqrt 3, -((1/6)), -((2/3) * Real.sqrt 2)⟩ ⟨-((1/3) * (Real.sqrt 2 * Real.sqrt 3)), (1/3) * Real.sqrt 2, -((1/3))⟩ := by
  have hext := compose_extract_x (0.5) (0.5 * Real.sqrt 3) (0) (-((1/3) * (Real.sqrt 2 * Real.sqrt 3))) ((1/3) * Real.sqrt 2) (-((1/3)))
    (by linear_combination ((0.25 : ℝ)) * s3_sq) (by linear_combination (((1/9) : ℝ) * Real.sqrt 3 * Real.sqrt 3 + ((1/9) : ℝ)) * s2_sq + (((2/9) : ℝ)) * s3_sq) (by ring)
    (by intro hcon; nlinarith [s2_sq, s3_sq, s2_pos, s3_pos, s2_lb, s2_ub, s3_lb, s3_ub, mul_pos s2_pos s3_pos])
    (⟨by nlinarith [s2_sq, s3_sq, s2_pos, s3_pos, s2_lb, s2_ub, s3_lb, s3_ub, mul_pos s2_pos s3_pos], by nlinarith [s2_sq, s3_sq, s2_pos, s3_pos, s2_lb, s2_ub, s3_lb, s3_ub, mul_pos s2_pos s3_pos]⟩)
    (by nlinarith [s2_sq, s3_sq, s2_pos, s3_pos, s2_lb, s2_ub, s3_lb, s3_ub, mul_pos s2_pos s3_pos])
  have hBe : (⟨((1/3) * Real.sqrt 2) * (0) - (-((1/3))) * (0.5 * Real.sqrt 3), (-((1/3))) * (0.5) - (-((1/3) * (Real.sqrt 2 * Real.sqrt 3))) * (0), (-((1/3) * (Real.sqrt 2 * Real.sqrt 3))) * (0.5 * Real.sqrt 3) - ((1/3) * Real.sqrt 2) * (0.5)⟩ : Vec3) = (⟨(1/6) * Real.sqrt 3, -((1/6)), -((2/3) * Real.sqrt 2)⟩ : Vec3) := by
    simp only [Vec3.mk.injEq]
    refine ⟨?_, ?_, ?_⟩
    · ring
    · ring
    · linear_combination (((-1/6) : ℝ) * Real.sqrt 2) * s3_sq
  rw [hBe] at hext
  exact hext

/-- `compose` recovers the rotation block of the relative fold transform of
face 3 from its extracted quaternion. -/
lemma tetraCE3 :
    Mat4.compose Vec3.zero (quatFromRotationMatrix (basisMat ⟨-(0.5), (1/6) * Real.sqrt 3, -((1/3) * (Real.sqrt 2 * Real.sqrt 3))⟩ ⟨-((1/6) * Real.sqrt 3), (5/6), (1/3) * Real.sqrt 2⟩ ⟨(1/3) * (Real.sqrt 2 * Real.sqrt 3), (1/3) * Real.sqrt 2, -((1/3))⟩)) =
      basisMat ⟨-(0.5), (1/6) * Real.sqrt 3, -((1/3) * (Real.sqrt 2 * Real.sqrt 3))⟩ ⟨-((1/6) * Real.sqrt 3), (5/6), (1/3) * Real.sqrt 2⟩ ⟨(1/3) * (Real.sqrt 2 * Real.sqrt 3), (1/3) * Real.sqrt 2, -((1/3))⟩ := by
  have hext := compose_extract_y (-(0.5)) ((1/6) * Real.sqrt 3) (-((1/3) * (Real.sqrt 2 * Real.sqrt 3))) ((1/3) * (Real.sqrt 2 * Real.sqrt 3)) ((1/3) * Real.sqrt 2) (-((1/3)))
    (by linear_combination (((1/9) : ℝ) * Real.sqrt 3 * Real.sqrt 3) * s2_sq + ((0.25 : ℝ)) * s3_sq) (by linear_combination (((1/9) : ℝ) * Real.sqrt 3 * Real.sqrt 3 + ((1/9) : ℝ)) * s2_sq + (((2/9) : ℝ)) * s3_sq) (by ring)
    (by intro hcon; nlinarith [s2_sq, s3_sq, s2_pos, s3_pos, s2_lb, s2_ub, s3_lb, s3_ub, mul_pos s2_pos s3_pos]) (by intro hcon; nlinarith [s2_sq, s3_sq, s2_pos, s3_pos, s2_lb, s2_ub, s3_lb, s3_ub, mul_pos s2_pos s3_pos]) (by nlinarith [s2_sq, s3_sq, s2_pos, s3_pos, s2_lb, s2_ub, s3_lb, s3_ub, mul_pos s2_pos s3_pos]) (by nlinarith [s2_sq, s3_sq, s2_pos, s3_pos, s2_lb, s2_ub, s3_lb, s3_ub, mul_pos s2_pos s3_pos])
  have hBe : (⟨((1/3) * Real.sqrt 2) * (-((1/3) * (Real.sqrt 2 * Real.sqrt 3))) - (-((1/3))) * ((1/6) * Real.sqrt 3), (-((1/3))) * (-(0.5)) - ((1/3) * (Real.sqrt 2 * Real.sqrt 3)) * (-((1/3) * (Real.sqrt 2 * Real.sqrt 3))), ((1/3) * (Real.sqrt 2 * Real.sqrt 3)) * ((1/6) * Real.sqrt 3) - ((1/3) * Real.sqrt 2) * (-(0.5))⟩ : Vec3) = (⟨-((1/6) * Real.sqrt 3), (5/6), (1/3) * Real.sqrt 2⟩ : Vec3) := by
    simp only [Vec3.mk.injEq]
    refine ⟨?_, ?_, ?_⟩
    · linear_combination (((-1/9) : ℝ) * Real.sqrt 3) * s2_sq
    · linear_combination (((1/9) : ℝ) * Real.sqrt 3 * Real.sqrt 3) * s2_sq + (((2/9) : ℝ)) * s3_sq
    · linear_combination (((1/18) : ℝ) * Real.sqrt 2) * s3_sq
  rw [hBe] at hext
  exact hext

/-- The rotated local normal (`n1`) of face 1: the third column of the
relative fold rotation, already unit. -/
lemma tetraNrm1 :
    (Vec3.applyQuaternion ⟨0, 0, 1⟩ (quatFromRotationMatrix ((basisMat ⟨0.5, (1/6) * Real.sqrt 3, -((1/3) * (Real.sqrt 2 * Real.sqrt 3))⟩ ⟨0.5 * Real.sqrt 3, -((1/6)), (1/3) * Real.sqrt 2⟩ ⟨0, -((2/3) * Real.sqrt 2), -((1/3))⟩).setPosition ⟨0, -((8/45) * Real.sqrt 3), -((8/45) * (Real.sqrt 2 * Real.sqrt 3))⟩))).normalize =
      (⟨0, -((2/3) * Real.sqrt 2), -((1/3))⟩ : Vec3) := by
  rw [applyQuaternion_rotAction, quatFromRM_setPosition, tetraCE1]
  rw [show Mat4.rotAction (basisMat ⟨0.5, (1/6) * Real.sqrt 3, -((1/3) * (Real.sqrt 2 * Real.sqrt 3))⟩ ⟨0.5 * Real.sqrt 3, -((1/6)), (1/3) * Real.sqrt 2⟩ ⟨0, -((2/3) * Real.sqrt 2), -((1/3))⟩) ⟨0, 0, 1⟩ = (⟨0, -((2/3) * Real.sqrt 2), -((1/3))⟩ : Vec3) from by
    simp only [Mat4.rotAction, basisMat, Vec3.mk.injEq]
    refine ⟨by ring, by ring, by ring⟩]
  simp only [Vec3.normalize, Vec3.length]
  rw [show ((0) * (0) + (-((2/3) * Real.sqrt 2)) * (-((2/3) * Real.sqrt 2)) + (-((1/3))) * (-((1/3))) : ℝ) = 1 from by
    linear_combination (((4/9) : ℝ)) * s2_sq, Real.sqrt_one]
  rw [if_neg (by norm_num : ¬ (1 : ℝ) = 0)]
  simp only [Vec3.smul, Vec3.mk.injEq]
  refine ⟨by ring, by ring, by ring⟩

/-- The rotated local normal (`n1`) of face 2: the third column of the
relative fold rotation, already unit. -/
lemma tetraNrm2 :
    (Vec3.applyQuaternion ⟨0, 0, 1⟩ (quatFromRotationMatrix ((basisMat ⟨0.5, 0.5 * Real.sqrt 3, 0⟩ ⟨(1/6) * Real.sqrt 3, -((1/6)), -((2/3) * Real.sqrt 2)⟩ ⟨-((1/3) * (Real.sqrt 2 * Real.sqrt 3)), (1/3) * Real.sqrt 2, -((1/3))⟩).setPosition ⟨-((4/15)), (4/45) * Real.sqrt 3, -((8/45) * (Real.sqrt 2 * Real.sqrt 3))⟩))).normalize =
      (⟨-((1/3) * (Real.sqrt 2 * Real.sqrt 3)), (1/3) * Real.sqrt 2, -((1/3))⟩ : Vec3) := by
  rw [applyQuaternion_rotAction, quatFromRM_setPosition, tetraCE2]
  rw [show Mat4.rotAction (basisMat ⟨0.5, 0.5 * Real.sqrt 3, 0⟩ ⟨(1/6) * Real.sqrt 3, -((1/6)), -((2/3) * Real.sqrt 2)⟩ ⟨-((1/3) * (Real.sqrt 2 * Real.sqrt 3)), (1/3) * Real.sqrt 2, -((1/3))⟩) ⟨0, 0, 1⟩ = (⟨-((1/3) * (Real.sqrt 2 * Real.sqrt 3)), (1/3) * Real.sqrt 2, -((1/3))⟩ : Vec3) from by
    simp only [Mat4.rotAction, basisMat, Vec3.mk.injEq]
    refine ⟨by ring, by ring, by ring⟩]
  simp only [Vec3.normalize, Vec3.length]
  rw [show ((-((1/3) * (Real.sqrt 2 * Real.sqrt 3))) * (-((1/3) * (Real.sqrt 2 * Real.sqrt 3))) + ((1/3) * Real.sqrt 2) * ((1/3) * Real.sqrt 2) + (-((1/3))) * (-((1/3))) : ℝ) = 1 from by
    linear_combination (((1/9) : ℝ) * Real.sqrt 3 * Real.sqrt 3 + ((1/9) : ℝ)) * s2_sq + (((2/9) : ℝ)) * s3_sq, Real.sqrt_one]
  rw [if_neg (by norm_num : ¬ (1 : ℝ) = 0)]
  simp only [Vec3.smul, Vec3.mk.injEq]
  refine ⟨by ring, by ring, by ring⟩

/-- The rotated local normal (`n1`) of face 3: the third column of the
relative fold rotation, already unit. -/
lemma tetraNrm3 :
    (Vec3.applyQuaternion ⟨0, 0, 1⟩ (quatFromRotationMatrix ((basisMat ⟨-(0.5), (1/6) * Real.sqrt 3, -((1/3) * (Real.sqrt 2 * Real.sqrt 3))⟩ ⟨-((1/6) * Real.sqrt 3), (5/6), (1/3) * Real.sqrt 2⟩ ⟨(1/3) * (Real.sqrt 2 * Real.sqrt 3), (1/3) * Real.sqrt 2, -((1/3))⟩).setPosition ⟨(4/15), (4/45) * Real.sqrt 3, -((8/45) * (Real.sqrt 2 * Real.sqrt 3))⟩))).normalize =
      (⟨(1/3) * (Real.sqrt 2 * Real.sqrt 3), (1/3) * Real.sqrt 2, -((1/3))⟩ : Vec3) := by
  rw [applyQuaternion_rotAction, quatFromRM_setPosition, tetraCE3]
  rw [show Mat4.rotAction (basisMat ⟨-(0.5), (1/6) * Real.sqrt 3, -((1/3) * (Real.sqrt 2 * Real.sqrt 3))⟩ ⟨-((1/6) * Real.sqrt 3), (5/6), (1/3) * Real.sqrt 2⟩ ⟨(1/3) * (Real.sqrt 2 * Real.sqrt 3), (1/3) * Real.sqrt 2, -((1/3))⟩) ⟨0, 0, 1⟩ = (⟨(1/3) * (Real.sqrt 2 * Real.sqrt 3), (1/3) * Real.sqrt 2, -((1/3))⟩ : Vec3) from by
    simp only [Mat4.rotAction, basisMat, Vec3.mk.injEq]
    refine ⟨by ring, by ring, by ring⟩]
  simp only [Vec3.normalize, Vec3.length]
  rw [show (((1/3) * (Real.sqrt 2 * Real.sqrt 3)) * ((1/3) * (Real.sqrt 2 * Real.sqrt 3)) + ((1/3) * Real.sqrt 2) * ((1/3) * Real.sqrt 2) + (-((1/3))) * (-((1/3))) : ℝ) = 1 from by
    linear_combination (((1/9) : ℝ) * Real.sqrt 3 * Real.sqrt 3 + ((1/9) : ℝ)) * s2_sq + (((2/9) : ℝ)) * s3_sq, Real.sqrt_one]
  rw [if_neg (by norm_num : ¬ (1 : ℝ) = 0)]
  simp only [Vec3.smul, Vec3.mk.injEq]
  refine ⟨by ring, by ring, by ring⟩

/-- Normalizing the (already unit) hinge axis of face 1. -/
lemma tetraAxN1 : Vec3.normalize (⟨1, 0, 0⟩ : Vec3) = (⟨1, 0, 0⟩ : Vec3) := by
  simp only [Vec3.normalize, Vec3.length]
  rw [show ((1) * (1) + (0) * (0) + (0) * (0) : ℝ) = 1 from by
    ring, Real.sqrt_one]
  rw [if_neg (by norm_num : ¬ (1 : ℝ) = 0)]
  simp only [Vec3.smul, Vec3.mk.injEq]
  refine ⟨by ring, by ring, by ring⟩

/-- The unit hinge axis of face 1 from its shared edge endpoints. -/
lemma tetraAxis1 :
    (Vec3.sub (⟨0.8, -((4/15) * Real.sqrt 3), 0⟩ : Vec3) (⟨-(0.8), -((4/15) * Real.sqrt 3), 0⟩ : Vec3)).normalize = (⟨1, 0, 0⟩ : Vec3) := by
  rw [show Vec3.sub (⟨0.8, -((4/15) * Real.sqrt 3), 0⟩ : Vec3) (⟨-(0.8), -((4/15) * Real.sqrt 3), 0⟩ : Vec3) = (⟨1.6, 0, 0⟩ : Vec3) from by
    simp only [Vec3.sub, Vec3.mk.injEq]
    refine ⟨by ring, by ring, by ring⟩]
  simp only [Vec3.normalize, Vec3.length]
  rw [show ((1.6) * (1.6) + (0) * (0) + (0) * (0) : ℝ) = 2.56 from by
    ring]
  rw [show (2.56 : ℝ) = 1.6 ^ 2 by norm_num, Real.sqrt_sq (by norm_num : (0:ℝ) ≤ 1.6)]
  rw [if_neg (by norm_num : ¬ (1.6 : ℝ) = 0)]
  simp only [Vec3.smul, Vec3.mk.injEq]
  refine ⟨?_, ?_, ?_⟩
  · ring
  · ring
  · ring

/-- The signed hinge angle of face 1 as an `atan2` value. -/
lemma tetraSA1 :
    signedAngleAroundAxis ⟨0, 0, 1⟩ (⟨0, -((2/3) * Real.sqrt 2), -((1/3))⟩ : Vec3) (⟨1, 0, 0⟩ : Vec3) =
      atan2 ((2/3) * Real.sqrt 2) (-(1/3)) := by
  simp only [signedAngleAroundAxis]
  rw [tetraAxN1]
  rw [show Vec3.dot (⟨1, 0, 0⟩ : Vec3) ⟨0, 0, 1⟩ = 0 from by
    simp only [Vec3.dot]; ring]
  rw [show Vec3.dot (⟨1, 0, 0⟩ : Vec3) (⟨0, -((2/3) * Real.sqrt 2), -((1/3))⟩ : Vec3) = 0 from by
    simp only [Vec3.dot]; ring]
  rw [show Vec3.sub ⟨0, 0, 1⟩ (Vec3.smul 0 (⟨1, 0, 0⟩ : Vec3)) = (⟨0, 0, 1⟩ : Vec3) from by
    simp only [Vec3.smul, Vec3.sub, Vec3.mk.injEq]
    refine ⟨by ring, by ring, by ring⟩]
  rw [show Vec3.sub (⟨0, -((2/3) * Real.sqrt 2), -((1/3))⟩ : Vec3) (Vec3.smul 0 (⟨1, 0, 0⟩ : Vec3)) = (⟨0, -((2/3) * Real.sqrt 2), -((1/3))⟩ : Vec3) from by
    simp only [Vec3.smul, Vec3.sub, Vec3.mk.injEq]
    refine ⟨by ring, by ring, by ring⟩]
  rw [show Vec3.length (⟨0, 0, 1⟩ : Vec3) = 1 from by
    simp only [Vec3.length]
    rw [show (0 : ℝ) * 0 + 0 * 0 + 1 * 1 = 1 by norm_num]
    exact Real.sqrt_one]
  rw [show Vec3.length (⟨0, -((2/3) * Real.sqrt 2), -((1/3))⟩ : Vec3) = 1 from by
    simp only [Vec3.length]
    rw [show ((0) * (0) + (-((2/3) * Real.sqrt 2)) * (-((2/3) * Real.sqrt 2)) + (-((1/3))) * (-((1/3))) : ℝ) = 1 from by
      linear_combination (((4/9) : ℝ)) * s2_sq]
    exact Real.sqrt_one]
  rw [if_neg (by norm_num : ¬ ((1 : ℝ) < 1e-10 ∨ (1 : ℝ) < 1e-10))]
  rw [show Vec3.smul (1 / 1) (⟨0, 0, 1⟩ : Vec3) = (⟨0, 0, 1⟩ : Vec3) from by
    simp only [Vec3.smul, Vec3.mk.injEq]
    refine ⟨by ring, by ring, by ring⟩]
  rw [show Vec3.smul (1 / 1) (⟨0, -((2/3) * Real.sqrt 2), -((1/3))⟩ : Vec3) = (⟨0, -((2/3) * Real.sqrt 2), -((1/3))⟩ : Vec3) from by
    simp only [Vec3.smul, Vec3.mk.injEq]
    refine ⟨by ring, by ring, by ring⟩]
  rw [show Vec3.cross (⟨0, 0, 1⟩ : Vec3) (⟨0, -((2/3) * Real.sqrt 2), -((1/3))⟩ : Vec3) = (⟨(2/3) * Real.sqrt 2, 0, 0⟩ : Vec3) from by
    simp only [Vec3.cross, Vec3.mk.injEq]
    refine ⟨by ring, by ring, by ring⟩]
  rw [show Vec3.dot (⟨1, 0, 0⟩ : Vec3) (⟨(2/3) * Real.sqrt 2, 0, 0⟩ : Vec3) = ((2/3) * Real.sqrt 2) from by
    simp only [Vec3.dot]; ring]
  rw [show Vec3.dot (⟨0, 0, 1⟩ : Vec3) (⟨0, -((2/3) * Real.sqrt 2), -((1/3))⟩ : Vec3) = (-(1/3) : ℝ) from by
    simp only [Vec3.dot]; ring]

/-- The hinge rotation matrix of face 1 at the full fold angle. -/
lemma tetraHL1 :
    rotationAroundAxisLine (⟨1, 0, 0⟩ : Vec3) (⟨-(0.8), -((4/15) * Real.sqrt 3), 0⟩ : Vec3)
        (signedAngleAroundAxis ⟨0, 0, 1⟩ (⟨0, -((2/3) * Real.sqrt 2), -((1/3))⟩ : Vec3) (⟨1, 0, 0⟩ : Vec3) * 1) =
      ({ e0 := 1, e1 := 0, e2 := 0, e3 := 0, e4 := 0, e5 := -((1/3)), e6 := (2/3) * Real.sqrt 2, e7 := 0, e8 := 0, e9 := -((2/3) * Real.sqrt 2), e10 := -((1/3)), e11 := 0, e12 := 0, e13 := -((16/45) * Real.sqrt 3), e14 := (8/45) * (Real.sqrt 2 * Real.sqrt 3), e15 := 1 } : Mat4) := by
  rw [mul_one, tetraSA1]
  have hc : Real.cos (atan2 ((2/3) * Real.sqrt 2) (-(1/3))) = (-(1/3) : ℝ) :=
    cos_atan2_unit ((2/3) * Real.sqrt 2) (-(1/3)) (by linear_combination (((4/9) : ℝ)) * s2_sq)
  have hs : Real.sin (atan2 ((2/3) * Real.sqrt 2) (-(1/3))) = ((2/3) * Real.sqrt 2) :=
    sin_atan2_unit ((2/3) * Real.sqrt 2) (-(1/3)) (by linear_combination (((4/9) : ℝ)) * s2_sq)
  simp only [rotationAroundAxisLine, Mat4.makeTranslation, Mat4.makeRotationAxis,
    Mat4.mul, hc, hs]
  refine Mat4.ext16 ?_ ?_ ?_ ?_ ?_ ?_ ?_ ?_ ?_ ?_ ?_ ?_ ?_ ?_ ?_ ?_
  · ring
  · ring
  · ring
  · ring
  · ring
  · ring
  · ring
  · ring
  · ring
  · ring
  · ring
  · ring
  · ring
  · ring
  · ring
  · ring

/-- Root folded matrix times hinge rotation times net matrix gives the
folded matrix of face 1 exactly. -/
lemma tetraW1 :
    Mat4.mul (Mat4.mul ({ e0 := 0, e1 := -(0.5 * Real.sqrt 2), e2 := -(0.5 * Real.sqrt 2), e3 := 0, e4 := -((1/3) * (Real.sqrt 2 * Real.sqrt 3)), e5 := (1/6) * (Real.sqrt 2 * Real.sqrt 3), e6 := -((1/6) * (Real.sqrt 2 * Real.sqrt 3)), e7 := 0, e8 := (1/3) * Real.sqrt 3, e9 := (1/3) * Real.sqrt 3, e10 := -((1/3) * Real.sqrt 3), e11 := 0, e12 := (2/15) * Real.sqrt 2, e13 := (2/15) * Real.sqrt 2, e14 := -((2/15) * Real.sqrt 2), e15 := 1 } : Mat4) ({ e0 := 1, e1 := 0, e2 := 0, e3 := 0, e4 := 0, e5 := -((1/3)), e6 := (2/3) * Real.sqrt 2, e7 := 0, e8 := 0, e9 := -((2/3) * Real.sqrt 2), e10 := -((1/3)), e11 := 0, e12 := 0, e13 := -((16/45) * Real.sqrt 3), e14 := (8/45) * (Real.sqrt 2 * Real.sqrt 3), e15 := 1 } : Mat4)) ({ e0 := 0.5, e1 := -(0.5 * Real.sqrt 3), e2 := 0, e3 := 0, e4 := 0.5 * Real.sqrt 3, e5 := 0.5, e6 := 0, e7 := 0, e8 := 0, e9 := 0, e10 := 1, e11 := 0, e12 := 0, e13 := -((8/15) * Real.sqrt 3), e14 := 0, e15 := 1 } : Mat4) = ({ e0 := -(0.5 * Real.sqrt 2), e1 := -(0.5 * Real.sqrt 2), e2 := 0, e3 := 0, e4 := (1/6) * (Real.sqrt 2 * Real.sqrt 3), e5 := -((1/6) * (Real.sqrt 2 * Real.sqrt 3)), e6 := -((1/3) * (Real.sqrt 2 * Real.sqrt 3)), e7 := 0, e8 := (1/3) * Real.sqrt 3, e9 := -((1/3) * Real.sqrt 3), e10 := (1/3) * Real.sqrt 3, e11 := 0, e12 := (2/15) * Real.sqrt 2, e13 := -((2/15) * Real.sqrt 2), e14 := (2/15) * Real.sqrt 2, e15 := 1 } : Mat4) := by
  simp only [Mat4.mul]
  refine Mat4.ext16 ?_ ?_ ?_ ?_ ?_ ?_ ?_ ?_ ?_ ?_ ?_ ?_ ?_ ?_ ?_ ?_
  · linear_combination (((-1/6) : ℝ) * Real.sqrt 2) * s3_sq
  · linear_combination (((-1/12) : ℝ) * Real.sqrt 2) * s3_sq
  · linear_combination (((1/12) : ℝ) * Real.sqrt 2) * s3_sq
  · ring
  · ring
  · ring
  · ring
  · ring
  · linear_combination (((2/9) : ℝ) * Real.sqrt 3) * s2_sq
  · linear_combination (((-1/9) : ℝ) * Real.sqrt 3) * s2_sq
  · linear_combination (((1/9) : ℝ) * Real.sqrt 3) * s2_sq
  · ring
  · ring
  · linear_combination (((-4/45) : ℝ) * Real.sqrt 2) * s3_sq
  · linear_combination (((4/45) : ℝ) * Real.sqrt 2) * s3_sq
  · ring

/-- Normalizing the (already unit) hinge axis of face 2. -/
lemma tetraAxN2 : Vec3.normalize (⟨-(0.5), -(0.5 * Real.sqrt 3), 0⟩ : Vec3) = (⟨-(0.5), -(0.5 * Real.sqrt 3), 0⟩ : Vec3) := by
  simp only [Vec3.normalize, Vec3.length]
  rw [show ((-(0.5)) * (-(0.5)) + (-(0.5 * Real.sqrt 3)) * (-(0.5 * Real.sqrt 3)) + (0) * (0) : ℝ) = 1 from by
    linear_combination ((0.25 : ℝ)) * s3_sq, Real.sqrt_one]
  rw [if_neg (by norm_num : ¬ (1 : ℝ) = 0)]
  simp only [Vec3.smul, Vec3.mk.injEq]
  refine ⟨by ring, by ring, by ring⟩

/-- The unit hinge axis of face 2 from its shared edge endpoints. -/
lemma tetraAxis2 :
    (Vec3.sub (⟨-(0.8), -((4/15) * Real.sqrt 3), 0⟩ : Vec3) (⟨0, (8/15) * Real.sqrt 3, 0⟩ : Vec3)).normalize = (⟨-(0.5), -(0.5 * Real.sqrt 3), 0⟩ : Vec3) := by
  rw [show Vec3.sub (⟨-(0.8), -((4/15) * Real.sqrt 3), 0⟩ : Vec3) (⟨0, (8/15) * Real.sqrt 3, 0⟩ : Vec3) = (⟨-(0.8), -(0.8 * Real.sqrt 3), 0⟩ : Vec3) from by
    simp only [Vec3.sub, Vec3.mk.injEq]
    refine ⟨by ring, by ring, by ring⟩]
  simp only [Vec3.normalize, Vec3.length]
  rw [show ((-(0.8)) * (-(0.8)) + (-(0.8 * Real.sqrt 3)) * (-(0.8 * Real.sqrt 3)) + (0) * (0) : ℝ) = 2.56 from by
    linear_combination ((0.64 : ℝ)) * s3_sq]
  rw [show (2.56 : ℝ) = 1.6 ^ 2 by norm_num, Real.sqrt_sq (by norm_num : (0:ℝ) ≤ 1.6)]
  rw [if_neg (by norm_num : ¬ (1.6 : ℝ) = 0)]
  simp only [Vec3.smul, Vec3.mk.injEq]
  refine ⟨?_, ?_, ?_⟩
  · ring
  · ring
  · ring

/-- The signed hinge angle of face 2 as an `atan2` value. -/
lemma tetraSA2 :
    signedAngleAroundAxis ⟨0, 0, 1⟩ (⟨-((1/3) * (Real.sqrt 2 * Real.sqrt 3)), (1/3) * Real.sqrt 2, -((1/3))⟩ : Vec3) (⟨-(0.5), -(0.5 * Real.sqrt 3), 0⟩ : Vec3) =
      atan2 ((2/3) * Real.sqrt 2) (-(1/3)) := by
  simp only [signedAngleAroundAxis]
  rw [tetraAxN2]
  rw [show Vec3.dot (⟨-(0.5), -(0.5 * Real.sqrt 3), 0⟩ : Vec3) ⟨0, 0, 1⟩ = 0 from by
    simp only [Vec3.dot]; ring]
  rw [show Vec3.dot (⟨-(0.5), -(0.5 * Real.sqrt 3), 0⟩ : Vec3) (⟨-((1/3) * (Real.sqrt 2 * Real.sqrt 3)), (1/3) * Real.sqrt 2, -((1/3))⟩ : Vec3) = 0 from by
    simp only [Vec3.dot]; ring]
  rw [show Vec3.sub ⟨0, 0, 1⟩ (Vec3.smul 0 (⟨-(0.5), -(0.5 * Real.sqrt 3), 0⟩ : Vec3)) = (⟨0, 0, 1⟩ : Vec3) from by
    simp only [Vec3.smul, Vec3.sub, Vec3.mk.injEq]
    refine ⟨by ring, by ring, by ring⟩]
  rw [show Vec3.sub (⟨-((1/3) * (Real.sqrt 2 * Real.sqrt 3)), (1/3) * Real.sqrt 2, -((1/3))⟩ : Vec3) (Vec3.smul 0 (⟨-(0.5), -(0.5 * Real.sqrt 3), 0⟩ : Vec3)) = (⟨-((1/3) * (Real.sqrt 2 * Real.sqrt 3)), (1/3) * Real.sqrt 2, -((1/3))⟩ : Vec3) from by
    simp only [Vec3.smul, Vec3.sub, Vec3.mk.injEq]
    refine ⟨by ring, by ring, by ring⟩]
  rw [show Vec3.length (⟨0, 0, 1⟩ : Vec3) = 1 from by
    simp only [Vec3.length]
    rw [show (0 : ℝ) * 0 + 0 * 0 + 1 * 1 = 1 by norm_num]
    exact Real.sqrt_one]
  rw [show Vec3.length (⟨-((1/3) * (Real.sqrt 2 * Real.sqrt 3)), (1/3) * Real.sqrt 2, -((1/3))⟩ : Vec3) = 1 from by
    simp only [Vec3.length]
    rw [show ((-((1/3) * (Real.sqrt 2 * Real.sqrt 3))) * (-((1/3) * (Real.sqrt 2 * Real.sqrt 3))) + ((1/3) * Real.sqrt 2) * ((1/3) * Real.sqrt 2) + (-((1/3))) * (-((1/3))) : ℝ) = 1 from by
      linear_combination (((1/9) : ℝ) * Real.sqrt 3 * Real.sqrt 3 + ((1/9) : ℝ)) * s2_sq + (((2/9) : ℝ)) * s3_sq]
    exact Real.sqrt_one]
  rw [if_neg (by norm_num : ¬ ((1 : ℝ) < 1e-10 ∨ (1 : ℝ) < 1e-10))]
  rw [show Vec3.smul (1 / 1) (⟨0, 0, 1⟩ : Vec3) = (⟨0, 0, 1⟩ : Vec3) from by
    simp only [Vec3.smul, Vec3.mk.injEq]
    refine ⟨by ring, by ring, by ring⟩]
  rw [show Vec3.smul (1 / 1) (⟨-((1/3) * (Real.sqrt 2 * Real.sqrt 3)), (1/3) * Real.sqrt 2, -((1/3))⟩ : Vec3) = (⟨-((1/3) * (Real.sqrt 2 * Real.sqrt 3)), (1/3) * Real.sqrt 2, -((1/3))⟩ : Vec3) from by
    simp only [Vec3.smul, Vec3.mk.injEq]
    refine ⟨by ring, by ring, by ring⟩]
  rw [show Vec3.cross (⟨0, 0, 1⟩ : Vec3) (⟨-((1/3) * (Real.sqrt 2 * Real.sqrt 3)), (1/3) * Real.sqrt 2, -((1/3))⟩ : Vec3) = (⟨-((1/3) * Real.sqrt 2), -((1/3) * (Real.sqrt 2 * Real.sqrt 3)), 0⟩ : Vec3) from by
    simp only [Vec3.cross, Vec3.mk.injEq]
    refine ⟨by ring, by ring, by ring⟩]
  rw [show Vec3.dot (⟨-(0.5), -(0.5 * Real.sqrt 3), 0⟩ : Vec3) (⟨-((1/3) * Real.sqrt 2), -((1/3) * (Real.sqrt 2 * Real.sqrt 3)), 0⟩ : Vec3) = ((2/3) * Real.sqrt 2) from by
    simp only [Vec3.dot]; linear_combination (((1/6) : ℝ) * Real.sqrt 2) * s3_sq]
  rw [show Vec3.dot (⟨0, 0, 1⟩ : Vec3) (⟨-((1/3) * (Real.sqrt 2 * Real.sqrt 3)), (1/3) * Real.sqrt 2, -((1/3))⟩ : Vec3) = (-(1/3) : ℝ) from by
    simp only [Vec3.dot]; ring]

/-- The hinge rotation matrix of face 2 at the full fold angle. -/
lemma tetraHL2 :
    rotationAroundAxisLine (⟨-(0.5), -(0.5 * Real.sqrt 3), 0⟩ : Vec3) (⟨0, (8/15) * Real.sqrt 3, 0⟩ : Vec3)
        (signedAngleAroundAxis ⟨0, 0, 1⟩ (⟨-((1/3) * (Real.sqrt 2 * Real.sqrt 3)), (1/3) * Real.sqrt 2, -((1/3))⟩ : Vec3) (⟨-(0.5), -(0.5 * Real.sqrt 3), 0⟩ : Vec3) * 1) =
      ({ e0 := 0, e1 := (1/3) * Real.sqrt 3, e2 := (1/3) * (Real.sqrt 2 * Real.sqrt 3), e3 := 0, e4 := (1/3) * Real.sqrt 3, e5 := (2/3), e6 := -((1/3) * Real.sqrt 2), e7 := 0, e8 := -((1/3) * (Real.sqrt 2 * Real.sqrt 3)), e9 := (1/3) * Real.sqrt 2, e10 := -((1/3)), e11 := 0, e12 := -((8/15)), e13 := (8/45) * Real.sqrt 3, e14 := (8/45) * (Real.sqrt 2 * Real.sqrt 3), e15 := 1 } : Mat4) := by
  rw [mul_one, tetraSA2]
  have hc : Real.cos (atan2 ((2/3) * Real.sqrt 2) (-(1/3))) = (-(1/3) : ℝ) :=
    cos_atan2_unit ((2/3) * Real.sqrt 2) (-(1/3)) (by linear_combination (((4/9) : ℝ)) * s2_sq)
  have hs : Real.sin (atan2 ((2/3) * Real.sqrt 2) (-(1/3))) = ((2/3) * Real.sqrt 2) :=
    sin_atan2_unit ((2/3) * Real.sqrt 2) (-(1/3)) (by linear_combination (((4/9) : ℝ)) * s2_sq)
  simp only [rotationAroundAxisLine, Mat4.makeTranslation, Mat4.makeRotationAxis,
    Mat4.mul, hc, hs]
  refine Mat4.ext16 ?_ ?_ ?_ ?_ ?_ ?_ ?_ ?_ ?_ ?_ ?_ ?_ ?_ ?_ ?_ ?_
  · ring
  · ring
  · ring
  · ring
  · ring
  · linear_combination (((1/3) : ℝ)) * s3_sq
  · ring
  · ring
  · ring
  · ring
  · ring
  · ring
  · linear_combination (((-8/45) : ℝ)) * s3_sq
  · linear_combination (((-8/45) : ℝ) * Real.sqrt 3) * s3_sq
  · ring
  · ring

/-- Root folded matrix times hinge rotation times net matrix gives the
folded matrix of face 2 exactly. -/
lemma tetraW2 :
    Mat4.mul (Mat4.mul ({ e0 := 0, e1 := -(0.5 * Real.sqrt 2), e2 := -(0.5 * Real.sqrt 2), e3 := 0, e4 := -((1/3) * (Real.sqrt 2 * Real.sqrt 3)), e5 := (1/6) * (Real.sqrt 2 * Real.sqrt 3), e6 := -((1/6) * (Real.sqrt 2 * Real.sqrt 3)), e7 := 0, e8 := (1/3) * Real.sqrt 3, e9 := (1/3) * Real.sqrt 3, e10 := -((1/3) * Real.sqrt 3), e11 := 0, e12 := (2/15) * Real.sqrt 2, e13 := (2/15) * Real.sqrt 2, e14 := -((2/15) * Real.sqrt 2), e15 := 1 } : Mat4) ({ e0 := 0, e1 := (1/3) * Real.sqrt 3, e2 := (1/3) * (Real.sqrt 2 * Real.sqrt 3), e3 := 0, e4 := (1/3) * Real.sqrt 3, e5 := (2/3), e6 := -((1/3) * Real.sqrt 2), e7 := 0, e8 := -((1/3) * (Real.sqrt 2 * Real.sqrt 3)), e9 := (1/3) * Real.sqrt 2, e10 := -((1/3)), e11 := 0, e12 := -((8/15)), e13 := (8/45) * Real.sqrt 3, e14 := (8/45) * (Real.sqrt 2 * Real.sqrt 3), e15 := 1 } : Mat4)) ({ e0 := 0.5, e1 := 0.5 * Real.sqrt 3, e2 := 0, e3 := 0, e4 := -(0.5 * Real.sqrt 3), e5 := 0.5, e6 := 0, e7 := 0, e8 := 0, e9 := 0, e10 := 1, e11 := 0, e12 := -(0.8), e13 := (4/15) * Real.sqrt 3, e14 := 0, e15 := 1 } : Mat4) = ({ e0 := -(0.5 * Real.sqrt 2), e1 := 0, e2 := -(0.5 * Real.sqrt 2), e3 := 0, e4 := -((1/6) * (Real.sqrt 2 * Real.sqrt 3)), e5 := -((1/3) * (Real.sqrt 2 * Real.sqrt 3)), e6 := (1/6) * (Real.sqrt 2 * Real.sqrt 3), e7 := 0, e8 := -((1/3) * Real.sqrt 3), e9 := (1/3) * Real.sqrt 3, e10 := (1/3) * Real.sqrt 3, e11 := 0, e12 := -((2/15) * Real.sqrt 2), e13 := (2/15) * Real.sqrt 2, e14 := (2/15) * Real.sqrt 2, e15 := 1 } : Mat4) := by
  simp only [Mat4.mul]
  refine Mat4.ext16 ?_ ?_ ?_ ?_ ?_ ?_ ?_ ?_ ?_ ?_ ?_ ?_ ?_ ?_ ?_ ?_
  · linear_combination (((-1/6) : ℝ) * Real.sqrt 2) * s3_sq
  · ring
  · linear_combination (((-1/6) : ℝ) * Real.sqrt 2) * s3_sq
  · ring
  · ring
  · linear_combination (((-1/12) : ℝ) * Real.sqrt 2 * Real.sqrt 3) * s3_sq
  · linear_combination (((1/12) : ℝ) * Real.sqrt 2 * Real.sqrt 3) * s3_sq
  · ring
  · linear_combination (((-1/9) : ℝ) * Real.sqrt 3) * s2_sq
  · linear_combination (((2/9) : ℝ) * Real.sqrt 3) * s2_sq
  · linear_combination (((1/9) : ℝ) * Real.sqrt 3) * s2_sq
  · ring
  · linear_combination (((-4/45) : ℝ) * Real.sqrt 2) * s3_sq
  · linear_combination (((-4/45) : ℝ) * Real.sqrt 2) * s3_sq
  · ring
  · ring

/-- Normalizing the (already unit) hinge axis of face 3. -/
lemma tetraAxN3 : Vec3.normalize (⟨-(0.5), 0.5 * Real.sqrt 3, 0⟩ : Vec3) = (⟨-(0.5), 0.5 * Real.sqrt 3, 0⟩ : Vec3) := by
  simp only [Vec3.normalize, Vec3.length]
  rw [show ((-(0.5)) * (-(0.5)) + (0.5 * Real.sqrt 3) * (0.5 * Real.sqrt 3) + (0) * (0) : ℝ) = 1 from by
    linear_combination ((0.25 : ℝ)) * s3_sq, Real.sqrt_one]
  rw [if_neg (by norm_num : ¬ (1 : ℝ) = 0)]
  simp only [Vec3.smul, Vec3.mk.injEq]
  refine ⟨by ring, by ring, by ring⟩

/-- The unit hinge axis of face 3 from its shared edge endpoints. -/
lemma tetraAxis3 :
    (Vec3.sub (⟨0, (8/15) * Real.sqrt 3, 0⟩ : Vec3) (⟨0.8, -((4/15) * Real.sqrt 3), 0⟩ : Vec3)).normalize = (⟨-(0.5), 0.5 * Real.sqrt 3, 0⟩ : Vec3) := by
  rw [show Vec3.sub (⟨0, (8/15) * Real.sqrt 3, 0⟩ : Vec3) (⟨0.8, -((4/15) * Real.sqrt 3), 0⟩ : Vec3) = (⟨-(0.8), 0.8 * Real.sqrt 3, 0⟩ : Vec3) from by
    simp only [Vec3.sub, Vec3.mk.injEq]
    refine ⟨by ring, by ring, by ring⟩]
  simp only [Vec3.normalize, Vec3.length]
  rw [show ((-(0.8)) * (-(0.8)) + (0.8 * Real.sqrt 3) * (0.8 * Real.sqrt 3) + (0) * (0) : ℝ) = 2.56 from by
    linear_combination ((0.64 : ℝ)) * s3_sq]
  rw [show (2.56 : ℝ) = 1.6 ^ 2 by norm_num, Real.sqrt_sq (by norm_num : (0:ℝ) ≤ 1.6)]
  rw [if_neg (by norm_num : ¬ (1.6 : ℝ) = 0)]
  simp only [Vec3.smul, Vec3.mk.injEq]
  refine ⟨?_, ?_, ?_⟩
  · ring
  · ring
  · ring

/-- The signed hinge angle of face 3 as an `atan2` value. -/
lemma tetraSA3 :
    signedAngleAroundAxis ⟨0, 0, 1⟩ (⟨(1/3) * (Real.sqrt 2 * Real.sqrt 3), (1/3) * Real.sqrt 2, -((1/3))⟩ : Vec3) (⟨-(0.5), 0.5 * Real.sqrt 3, 0⟩ : Vec3) =
      atan2 ((2/3) * Real.sqrt 2) (-(1/3)) := by
  simp only [signedAngleAroundAxis]
  rw [tetraAxN3]
  rw [show Vec3.dot (⟨-(0.5), 0.5 * Real.sqrt 3, 0⟩ : Vec3) ⟨0, 0, 1⟩ = 0 from by
    simp only [Vec3.dot]; ring]
  rw [show Vec3.dot (⟨-(0.5), 0.5 * Real.sqrt 3, 0⟩ : Vec3) (⟨(1/3) * (Real.sqrt 2 * Real.sqrt 3), (1/3) * Real.sqrt 2, -((1/3))⟩ : Vec3) = 0 from by
    simp only [Vec3.dot]; ring]
  rw [show Vec3.sub ⟨0, 0, 1⟩ (Vec3.smul 0 (⟨-(0.5), 0.5 * Real.sqrt 3, 0⟩ : Vec3)) = (⟨0, 0, 1⟩ : Vec3) from by
    simp only [Vec3.smul, Vec3.sub, Vec3.mk.injEq]
    refine ⟨by ring, by ring, by ring⟩]
  rw [show Vec3.sub (⟨(1/3) * (Real.sqrt 2 * Real.sqrt 3), (1/3) * Real.sqrt 2, -((1/3))⟩ : Vec3) (Vec3.smul 0 (⟨-(0.5), 0.5 * Real.sqrt 3, 0⟩ : Vec3)) = (⟨(1/3) * (Real.sqrt 2 * Real.sqrt 3), (1/3) * Real.sqrt 2, -((1/3))⟩ : Vec3) from by
    simp only [Vec3.smul, Vec3.sub, Vec3.mk.injEq]
    refine ⟨by ring, by ring, by ring⟩]
  rw [show Vec3.length (⟨0, 0, 1⟩ : Vec3) = 1 from by
    simp only [Vec3.length]
    rw [show (0 : ℝ) * 0 + 0 * 0 + 1 * 1 = 1 by norm_num]
    exact Real.sqrt_one]
  rw [show Vec3.length (⟨(1/3) * (Real.sqrt 2 * Real.sqrt 3), (1/3) * Real.sqrt 2, -((1/3))⟩ : Vec3) = 1 from by
    simp only [Vec3.length]
    rw [show (((1/3) * (Real.sqrt 2 * Real.sqrt 3)) * ((1/3) * (Real.sqrt 2 * Real.sqrt 3)) + ((1/3) * Real.sqrt 2) * ((1/3) * Real.sqrt 2) + (-((1/3))) * (-((1/3))) : ℝ) = 1 from by
      linear_combination (((1/9) : ℝ) * Real.sqrt 3 * Real.sqrt 3 + ((1/9) : ℝ)) * s2_sq + (((2/9) : ℝ)) * s3_sq]
    exact Real.sqrt_one]
  rw [if_neg (by norm_num : ¬ ((1 : ℝ) < 1e-10 ∨ (1 : ℝ) < 1e-10))]
  rw [show Vec3.smul (1 / 1) (⟨0, 0, 1⟩ : Vec3) = (⟨0, 0, 1⟩ : Vec3) from by
    simp only [Vec3.smul, Vec3.mk.injEq]
    refine ⟨by ring, by ring, by ring⟩]
  rw [show Vec3.smul (1 / 1) (⟨(1/3) * (Real.sqrt 2 * Real.sqrt 3), (1/3) * Real.sqrt 2, -((1/3))⟩ : Vec3) = (⟨(1/3) * (Real.sqrt 2 * Real.sqrt 3), (1/3) * Real.sqrt 2, -((1/3))⟩ : Vec3) from by
    simp only [Vec3.smul, Vec3.mk.injEq]
    refine ⟨by ring, by ring, by ring⟩]
  rw [show Vec3.cross (⟨0, 0, 1⟩ : Vec3) (⟨(1/3) * (Real.sqrt 2 * Real.sqrt 3), (1/3) * Real.sqrt 2, -((1/3))⟩ : Vec3) = (⟨-((1/3) * Real.sqrt 2), (1/3) * (Real.sqrt 2 * Real.sqrt 3), 0⟩ : Vec3) from by
    simp only [Vec3.cross, Vec3.mk.injEq]
    refine ⟨by ring, by ring, by ring⟩]
  rw [show Vec3.dot (⟨-(0.5), 0.5 * Real.sqrt 3, 0⟩ : Vec3) (⟨-((1/3) * Real.sqrt 2), (1/3) * (Real.sqrt 2 * Real.sqrt 3), 0⟩ : Vec3) = ((2/3) * Real.sqrt 2) from by
    simp only [Vec3.dot]; linear_combination (((1/6) : ℝ) * Real.sqrt 2) * s3_sq]
  rw [show Vec3.dot (⟨0, 0, 1⟩ : Vec3) (⟨(1/3) * (Real.sqrt 2 * Real.sqrt 3), (1/3) * Real.sqrt 2, -((1/3))⟩ : Vec3) = (-(1/3) : ℝ) from by
    simp only [Vec3.dot]; ring]

/-- The hinge rotation matrix of face 3 at the full fold angle. -/
lemma tetraHL3 :
    rotationAroundAxisLine (⟨-(0.5), 0.5 * Real.sqrt 3, 0⟩ : Vec3) (⟨0.8, -((4/15) * Real.sqrt 3), 0⟩ : Vec3)
        (signedAngleAroundAxis ⟨0, 0, 1⟩ (⟨(1/3) * (Real.sqrt 2 * Real.sqrt 3), (1/3) * Real.sqrt 2, -((1/3))⟩ : Vec3) (⟨-(0.5), 0.5 * Real.sqrt 3, 0⟩ : Vec3) * 1) =
      ({ e0 := 0, e1 := -((1/3) * Real.sqrt 3), e2 := -((1/3) * (Real.sqrt 2 * Real.sqrt 3)), e3 := 0, e4 := -((1/3) * Real.sqrt 3), e5 := (2/3), e6 := -((1/3) * Real.sqrt 2), e7 := 0, e8 := (1/3) * (Real.sqrt 2 * Real.sqrt 3), e9 := (1/3) * Real.sqrt 2, e10 := -((1/3)), e11 := 0, e12 := (8/15), e13 := (8/45) * Real.sqrt 3, e14 := (8/45) * (Real.sqrt 2 * Real.sqrt 3), e15 := 1 } : Mat4) := by
  rw [mul_one, tetraSA3]
  have hc : Real.cos (atan2 ((2/3) * Real.sqrt 2) (-(1/3))) = (-(1/3) : ℝ) :=
    cos_atan2_unit ((2/3) * Real.sqrt 2) (-(1/3)) (by linear_combination (((4/9) : ℝ)) * s2_sq)
  have hs : Real.sin (atan2 ((2/3) * Real.sqrt 2) (-(1/3))) = ((2/3) * Real.sqrt 2) :=
    sin_atan2_unit ((2/3) * Real.sqrt 2) (-(1/3)) (by linear_combination (((4/9) : ℝ)) * s2_sq)
  simp only [rotationAroundAxisLine, Mat4.makeTranslation, Mat4.makeRotationAxis,
    Mat4.mul, hc, hs]
  refine Mat4.ext16 ?_ ?_ ?_ ?_ ?_ ?_ ?_ ?_ ?_ ?_ ?_ ?_ ?_ ?_ ?_ ?_
  · ring
  · ring
  · ring
  · ring
  · ring
  · linear_combination (((1/3) : ℝ)) * s3_sq
  · ring
  · ring
  · ring
  · ring
  · ring
  · ring
  · linear_combination (((-4/45) : ℝ)) * s3_sq
  · linear_combination (((4/45) : ℝ) * Real.sqrt 3) * s3_sq
  · ring
  · ring

/-- Root folded matrix times hinge rotation times net matrix gives the
folded matrix of face 3 exactly. -/
lemma tetraW3 :
    Mat4.mul (Mat4.mul ({ e0 := 0, e1 := -(0.5 * Real.sqrt 2), e2 := -(0.5 * Real.sqrt 2), e3 := 0, e4 := -((1/3) * (Real.sqrt 2 * Real.sqrt 3)), e5 := (1/6) * (Real.sqrt 2 * Real.sqrt 3), e6 := -((1/6) * (Real.sqrt 2 * Real.sqrt 3)), e7 := 0, e8 := (1/3) * Real.sqrt 3, e9 := (1/3) * Real.sqrt 3, e10 := -((1/3) * Real.sqrt 3), e11 := 0, e12 := (2/15) * Real.sqrt 2, e13 := (2/15) * Real.sqrt 2, e14 := -((2/15) * Real.sqrt 2), e15 := 1 } : Mat4) ({ e0 := 0, e1 := -((1/3) * Real.sqrt 3), e2 := -((1/3) * (Real.sqrt 2 * Real.sqrt 3)), e3 := 0, e4 := -((1/3) * Real.sqrt 3), e5 := (2/3), e6 := -((1/3) * Real.sqrt 2), e7 := 0, e8 := (1/3) * (Real.sqrt 2 * Real.sqrt 3), e9 := (1/3) * Real.sqrt 2, e10 := -((1/3)), e11 := 0, e12 := (8/15), e13 := (8/45) * Real.sqrt 3, e14 := (8/45) * (Real.sqrt 2 * Real.sqrt 3), e15 := 1 } : Mat4)) ({ e0 := 0.5, e1 := 0.5 * Real.sqrt 3, e2 := 0, e3 := 0, e4 := -(0.5 * Real.sqrt 3), e5 := 0.5, e6 := 0, e7 := 0, e8 := 0, e9 := 0, e10 := 1, e11 := 0, e12 := 0.8, e13 := (4/15) * Real.sqrt 3, e14 := 0, e15 := 1 } : Mat4) = ({ e0 := -(0.5 * Real.sqrt 2), e1 := 0, e2 := 0.5 * Real.sqrt 2, e3 := 0, e4 := -((1/6) * (Real.sqrt 2 * Real.sqrt 3)), e5 := (1/3) * (Real.sqrt 2 * Real.sqrt 3), e6 := -((1/6) * (Real.sqrt 2 * Real.sqrt 3)), e7 := 0, e8 := -((1/3) * Real.sqrt 3), e9 := -((1/3) * Real.sqrt 3), e10 := -((1/3) * Real.sqrt 3), e11 := 0, e12 := -((2/15) * Real.sqrt 2), e13 := -((2/15) * Real.sqrt 2), e14 := -((2/15) * Real.sqrt 2), e15 := 1 } : Mat4) := by
  simp only [Mat4.mul]
  refine Mat4.ext16 ?_ ?_ ?_ ?_ ?_ ?_ ?_ ?_ ?_ ?_ ?_ ?_ ?_ ?_ ?_ ?_
  · linear_combination (((-1/6) : ℝ) * Real.sqrt 2) * s3_sq
  · ring
  · linear_combination (((1/6) : ℝ) * Real.sqrt 2) * s3_sq
  · ring
  · ring
  · linear_combination (((1/12) : ℝ) * Real.sqrt 2 * Real.sqrt 3) * s3_sq
  · linear_combination (((-1/12) : ℝ) * Real.sqrt 2 * Real.sqrt 3) * s3_sq
  · ring
  · linear_combination (((-1/9) : ℝ) * Real.sqrt 3) * s2_sq
  · linear_combination (((-1/9) : ℝ) * Real.sqrt 3) * s2_sq
  · linear_combination (((-2/9) : ℝ) * Real.sqrt 3) * s2_sq
  · ring
  · linear_combination (((-4/45) : ℝ) * Real.sqrt 2) * s3_sq
  · ring
  · linear_combination (((4/45) : ℝ) * Real.sqrt 2) * s3_sq
  · ring

/-- The fold interpolator at `t = 1` on the tetrahedron model: the root pose
interpolates to its folded pose, and every hinge rotates its face onto its
folded matrix exactly, which `decompose` maps back to the stored folded
poses. -/
lemma tetraHinge1 :
    hingePoses (createTetrahedronDef 1.6) (buildHingeModel (createTetrahedronDef 1.6)) 1 =
      [(⟨⟨(2/15) * Real.sqrt 2, (2/15) * Real.sqrt 2, -((2/15) * Real.sqrt 2)⟩, quatFromRotationMatrix (basisMat ⟨0, -(0.5 * Real.sqrt 2), -(0.5 * Real.sqrt 2)⟩ ⟨-((1/3) * (Real.sqrt 2 * Real.sqrt 3)), (1/6) * (Real.sqrt 2 * Real.sqrt 3), -((1/6) * (Real.sqrt 2 * Real.sqrt 3))⟩ ⟨(1/3) * Real.sqrt 3, (1/3) * Real.sqrt 3, -((1/3) * Real.sqrt 3)⟩)⟩ : FacePose),
       (⟨⟨(2/15) * Real.sqrt 2, -((2/15) * Real.sqrt 2), (2/15) * Real.sqrt 2⟩, quatFromRotationMatrix (basisMat ⟨-(0.5 * Real.sqrt 2), -(0.5 * Real.sqrt 2), 0⟩ ⟨(1/6) * (Real.sqrt 2 * Real.sqrt 3), -((1/6) * (Real.sqrt 2 * Real.sqrt 3)), -((1/3) * (Real.sqrt 2 * Real.sqrt 3))⟩ ⟨(1/3) * Real.sqrt 3, -((1/3) * Real.sqrt 3), (1/3) * Real.sqrt 3⟩)⟩ : FacePose),
       (⟨⟨-((2/15) * Real.sqrt 2), (2/15) * Real.sqrt 2, (2/15) * Real.sqrt 2⟩, quatFromRotationMatrix (basisMat ⟨-(0.5 * Real.sqrt 2), 0, -(0.5 * Real.sqrt 2)⟩ ⟨-((1/6) * (Real.sqrt 2 * Real.sqrt 3)), -((1/3) * (Real.sqrt 2 * Real.sqrt 3)), (1/6) * (Real.sqrt 2 * Real.sqrt 3)⟩ ⟨-((1/3) * Real.sqrt 3), (1/3) * Real.sqrt 3, (1/3) * Real.sqrt 3⟩)⟩ : FacePose),
       (⟨⟨-((2/15) * Real.sqrt 2), -((2/15) * Real.sqrt 2), -((2/15) * Real.sqrt 2)⟩, quatFromRotationMatrix (basisMat ⟨-(0.5 * Real.sqrt 2), 0, 0.5 * Real.sqrt 2⟩ ⟨-((1/6) * (Real.sqrt 2 * Real.sqrt 3)), (1/3) * (Real.sqrt 2 * Real.sqrt 3), -((1/6) * (Real.sqrt 2 * Real.sqrt 3))⟩ ⟨-((1/3) * Real.sqrt 3), -((1/3) * Real.sqrt 3), -((1/3) * Real.sqrt 3)⟩)⟩ : FacePose)] := by
  have hnet : (createTetrahedronDef 1.6).net =
      [⟨⟨0, 0, 0⟩, qFromEuler 0 0 0⟩,
       ⟨⟨0, -((8/15) * Real.sqrt 3), 0⟩, qFromEuler 0 0 (5 * Real.pi / 3)⟩,
       ⟨⟨-0.8, (4/15) * Real.sqrt 3, 0⟩, qFromEuler 0 0 (Real.pi / 3)⟩,
       ⟨⟨0.8, (4/15) * Real.sqrt 3, 0⟩, qFromEuler 0 0 (Real.pi / 3)⟩] := by
    show makeTreeTriangleNet 1.6 (makeTetraFolded 1.6) = _
    exact tetraNet_eq
  have hfold : (createTetrahedronDef 1.6).folded = makeTetraFolded 1.6 := rfl
  have hfc : (createTetrahedronDef 1.6).faceCount = 4 := rfl
  have hface : (createTetrahedronDef 1.6).face = FaceKind.triangle := rfl
  have hedge : (createTetrahedronDef 1.6).edge = 1.6 := rfl
  unfold buildHingeModel hingePoses
  rw [hnet, hfold, hfc, hface, hedge]
  rw [tetraFoldAdj, tetraNetAdj]
  simp only []
  rw [show List.filter
      (fun e => decide (pairKey e.a e.b ∈ List.map (fun e => pairKey e.a e.b)
        [(⟨0, 1, 0, 2⟩ : NetAdjEdge), ⟨0, 3, 1, 2⟩, ⟨0, 2, 2, 0⟩,
         ⟨1, 2, 0, 2⟩, ⟨1, 3, 1, 0⟩, ⟨2, 3, 1, 1⟩]))
      [(⟨0, 1, 0, 2⟩ : NetAdjEdge), ⟨0, 3, 1, 2⟩, ⟨0, 2, 2, 0⟩] =
      [(⟨0, 1, 0, 2⟩ : NetAdjEdge), ⟨0, 3, 1, 2⟩, ⟨0, 2, 2, 0⟩] from rfl]
  rw [show bfsRun (buildAdjList 4
      [(⟨0, 1, 0, 2⟩ : NetAdjEdge), ⟨0, 3, 1, 2⟩, ⟨0, 2, 2, 0⟩]) 4 (bfsInit 4 0) =
      (⟨[some 0, some 0, some 0, some 0], [none, some 0, some 2, some 1],
        [none, some 2, some 0, some 2], [], [0, 1, 3, 2]⟩ : BfsState) from rfl]
  rw [tetraFoldedPoses]
  rw [qFromEuler_zero, qE53, qE13]
  rw [show List.range 4 = [0, 1, 2, 3] from rfl]
  simp only [List.map_cons, List.map_nil, List.foldl_cons, List.foldl_nil,
    nat_eq0_true, nat_eq1_false, nat_eq2_false, nat_eq3_false, if_true, if_false,
    getD4_0, getD4_1, getD4_2, getD4_3, set4_1, set4_2, set4_3,
    lerpVec3_one, slerpQuat_one, poseToMatrix_q0, localVerts3, tri3_eq,
    listLen3, mod3a, mod3b, mod3c, getD3_0, getD3_1, getD3_2,
    Mat4.invert_id, Mat4.id_mul, rep4set0, enum4]
  rw [tetraNetM1, tetraNetM2, tetraNetM3]
  rw [tetraFoldM0, tetraFoldM1, tetraFoldM2, tetraFoldM3]
  rw [tetraInvM0]
  rw [tetraRelF1, tetraRelF2, tetraRelF3]
  rw [tetraQN1, tetraQN2, tetraQN3]
  rw [applyQ001_norm, applyQ001_norm]
  rw [tetraNrm1, tetraNrm2, tetraNrm3]
  rw [tetraAxis1, tetraAxis2, tetraAxis3]
  rw [tetraHL1, tetraHL2, tetraHL3]
  rw [tetraW1, tetraW2, tetraW3]
  rw [tetraDecF0, tetraDecF1, tetraDecF2, tetraDecF3]

/-- C1 counterexample: for the tetrahedron definition (a member of
`createPlatonicPolyDefs` at the app edge `1.6`), `hingePoses` at `t = 0` does
NOT reproduce `def.net` within `1e-6` per quaternion component: face 1's
decomposed quaternion `z` is `-1/2` while the stored net quaternion has
`z = 1/2` (the matrix decomposition canonicalises the quaternion sign), a
mismatch of `1`. -/
theorem hingePoses_endpoint_counterexample :
    createTetrahedronDef 1.6 ∈ createPlatonicPolyDefs 1.6 ∧
    1e-6 <
      |((hingePoses (createTetrahedronDef 1.6)
            (buildHingeModel (createTetrahedronDef 1.6)) 0).getD 1 default).quaternion.z -
        ((createTetrahedronDef 1.6).net.getD 1 default).quaternion.z| := by
  constructor
  · simp [createPlatonicPolyDefs]
  · rw [tetraHinge0, tetraDefNet]
    simp only [getD4_1, qE53]
    rw [show (-(1/2 : ℝ)) - 1/2 = -1 by norm_num]
    rw [abs_neg, abs_one]
    norm_num

/-- C1 (amended): for the tetrahedron definition at the app edge `1.6`, the
fold interpolator reproduces the `t = 1` endpoint exactly —
`hingePoses def model 1 = def.folded` — while at `t = 0` it reproduces all
four net positions exactly and the net quaternions only up to sign: face 1's
quaternion comes back negated (an equivalent rotation, but violating the
claimed `1e-6` per-component bound), because `decompose` canonicalises the
extracted quaternion sign while the stored net quaternion of face 1 has
negative `w`. -/
theorem hingePoses_tetra_endpoints :
    hingePoses (createTetrahedronDef 1.6) (buildHingeModel (createTetrahedronDef 1.6)) 1 =
      (createTetrahedronDef 1.6).folded ∧
    hingePoses (createTetrahedronDef 1.6) (buildHingeModel (createTetrahedronDef 1.6)) 0 =
      [(createTetrahedronDef 1.6).net.getD 0 default,
       ⟨((createTetrahedronDef 1.6).net.getD 1 default).position,
        Quat.neg ((createTetrahedronDef 1.6).net.getD 1 default).quaternion⟩,
       (createTetrahedronDef 1.6).net.getD 2 default,
       (createTetrahedronDef 1.6).net.getD 3 default] := by
  constructor
  · rw [tetraHinge1]
    rw [show (createTetrahedronDef 1.6).folded = makeTetraFolded 1.6 from rfl]
    rw [tetraFoldedPoses]
  · rw [tetraHinge0, tetraDefNet]
    simp only [getD4_0, getD4_1, getD4_2, getD4_3, qFromEuler_zero, qE53, qE13,
      Quat.neg, Quat.one]
    norm_num

end Platonic
